import Mathlib

/-!
Verification development for `generate_sprites.py` (Cows in the Ditch asset
generator).  The Python source is shallowly embedded below:

* `MT` — Python's `random` module (Mersenne Twister MT19937 with CPython's
  integer seeding, `getrandbits`, `_randbelow`, `randint`, `choice`),
  modelled over `Nat` with explicit `% 2^32` masking.
* Drawing is modelled as a trace of PIL `ImageDraw` commands (`Cmd`);
  images carry their provenance (`Img`): a freshly allocated canvas with its
  draw trace, or a `resize` of another image.
* Floating-point expressions appearing in the source (`int(math.sin(..)*c)`
  and friends) are kept abstract as fields of an environment `PyEnv`,
  one field per source expression shape; font-file availability of the
  external font resolver is likewise an oracle in `PyEnv`.
-/

namespace MT

/-- 2^32, the word modulus of MT19937. -/
def M32 : Nat := 4294967296

/-- The 624-word MT19937 state array is encoded as a single natural number,
little-endian in base 2^32; `get a i` reads word `i`. -/
def get (a i : Nat) : Nat := a / M32 ^ i % M32

/-- Write word `i` of an encoded state array. -/
def setw (a i v : Nat) : Nat := a - get a i * M32 ^ i + v * M32 ^ i

/-- State of CPython's global `random` generator: the 624 32-bit words
(encoded) plus the read index (`mti`). -/
structure RState where
  mt : Nat
  idx : Nat
deriving DecidableEq

/-- Filling loop of `init_genrand`: word `i` is
`(1812433253 * (mt[i-1] ^ (mt[i-1] >> 30)) + i) & mask`. -/
def igLoop : Nat → Nat → Nat → Nat → Nat
  | 0, _, _, acc => acc
  | fuel+1, i, prev, acc =>
    let v := (1812433253 * (prev ^^^ (prev >>> 30)) + i) % M32
    igLoop fuel (i+1) v (acc + v * M32 ^ i)

/-- `init_genrand` from MT19937: fill the state array from a 32-bit seed. -/
def init_genrand (s : Nat) : Nat := igLoop 623 1 (s % M32) (s % M32)

/-- One iteration of the first mixing loop of `init_by_array`, on the
running `(i, j, state)` triple. -/
def ibaStep1 (key : List Nat) (kl : Nat) (t : Nat × Nat × Nat) :
    Nat × Nat × Nat :=
  let i := t.1
  let j := t.2.1
  let a := t.2.2
  let prev := get a (i-1)
  let v := ((get a i ^^^ (prev ^^^ (prev >>> 30)) * 1664525 % M32)
            + key.getD j 0 + j) % M32
  let a := setw a i v
  let i := i + 1
  let j := j + 1
  let p : Nat × Nat := if i ≥ 624 then (setw a 0 (get a 623), 1) else (a, i)
  (p.2, (if j ≥ kl then 0 else j), p.1)

/-- Iterated first mixing loop on the `(i, j, state)` triple. -/
def ibaIter1 (key : List Nat) (kl : Nat) : Nat → Nat × Nat × Nat → Nat × Nat × Nat
  | 0, t => t
  | fuel+1, t => ibaIter1 key kl fuel (ibaStep1 key kl t)

/-- First mixing loop of `init_by_array` (runs 624 times); returns the
running index `i` together with the state, since the second loop continues
from it. -/
def ibaLoop1 (key : List Nat) (kl : Nat) (fuel i j a : Nat) : Nat × Nat :=
  ((ibaIter1 key kl fuel (i, j, a)).1, (ibaIter1 key kl fuel (i, j, a)).2.2)

/-- One iteration of the second mixing loop of `init_by_array`, on the
running `(i, state)` pair; the C code's unsigned `- i` is `+ M32 - i` over
`Nat` under the final `% M32`. -/
def ibaStep2 (t : Nat × Nat) : Nat × Nat :=
  let i := t.1
  let a := t.2
  let prev := get a (i-1)
  let v := ((get a i ^^^ (prev ^^^ (prev >>> 30)) * 1566083941 % M32)
            + M32 - i) % M32
  let a := setw a i v
  let i := i + 1
  let p : Nat × Nat := if i ≥ 624 then (setw a 0 (get a 623), 1) else (a, i)
  (p.2, p.1)

/-- Iterated second mixing loop on the `(i, state)` pair. -/
def ibaIter2 : Nat → Nat × Nat → Nat × Nat
  | 0, t => t
  | fuel+1, t => ibaIter2 fuel (ibaStep2 t)

/-- Second mixing loop of `init_by_array` (runs 623 times). -/
def ibaLoop2 (fuel i a : Nat) : Nat := (ibaIter2 fuel (i, a)).2

/-- `init_by_array` from MT19937, as called by CPython's `random_seed`. -/
def init_by_array (key : List Nat) : Nat :=
  let p := ibaLoop1 key key.length 624 1 0 (init_genrand 19650218)
  setw (ibaLoop2 623 p.1 p.2) 0 2147483648

/-- Word-splitting loop for integer seeds, structurally recursive on fuel
(128 words cover ints up to 2^4096; every seed in the source is < 2^32). -/
def key32Loop : Nat → Nat → List Nat
  | 0, n => [n]
  | fuel+1, n => if n < M32 then [n] else n % M32 :: key32Loop fuel (n / M32)

/-- Split a nonnegative integer into little-endian 32-bit words, as CPython's
`random_seed` does to build the `init_by_array` key (`key = [0]` for 0). -/
def key32 (n : Nat) : List Nat := key32Loop 128 n

/-- `random.seed(n)` for a nonnegative int `n` (the only kind the source
uses): `init_by_array` on the 32-bit little-endian key of `n`, read index
set past the end so the first draw twists. -/
def seed (n : Nat) : RState := ⟨init_by_array (key32 n), 624⟩

/-- Regeneration loop of MT19937 (in place, so later entries read
already-updated earlier entries). -/
def twistLoop : Nat → Nat → Nat → Nat
  | 0, _, a => a
  | fuel+1, i, a =>
    let y := (get a i &&& 2147483648) ||| (get a ((i+1) % 624) &&& 2147483647)
    let mag := if y % 2 == 1 then 2567483615 else 0
    twistLoop fuel (i+1) (setw a i (get a ((i+397) % 624) ^^^ (y >>> 1) ^^^ mag))

/-- One full regeneration pass of the MT19937 state array. -/
def twist (a : Nat) : Nat := twistLoop 624 0 a

/-- `genrand_uint32`: twist when exhausted, then temper and emit one word. -/
def genrand32 (g : RState) : Nat × RState :=
  let p := if g.idx ≥ 624 then (twist g.mt, 0) else (g.mt, g.idx)
  let y := get p.1 p.2
  let y := y ^^^ (y >>> 11)
  let y := y ^^^ ((y <<< 7) &&& 2636928640)
  let y := y ^^^ ((y <<< 15) &&& 4022730752)
  let y := y ^^^ (y >>> 18)
  (y, ⟨p.1, p.2 + 1⟩)

/-- `random.getrandbits(k)` for `0 < k ≤ 32` (the only range the source
needs): the top `k` bits of one generated word. -/
def getrandbits (k : Nat) (g : RState) : Nat × RState :=
  let p := genrand32 g
  (p.1 >>> (32 - k), p.2)

/-- Halving loop for `bit_length`, structurally recursive on fuel. -/
def bitLenLoop : Nat → Nat → Nat
  | 0, _ => 0
  | fuel+1, n => if n == 0 then 0 else bitLenLoop fuel (n / 2) + 1

/-- `int.bit_length` (4096 bits of fuel; every argument in this file is
far smaller). -/
def bitLength (n : Nat) : Nat := bitLenLoop 4096 n

/-- Rejection loop of `Random._randbelow_with_getrandbits`, made total with
fuel (the fallback returns 0, also below `n`; the fuel is never reached on
the concrete streams evaluated in this file). -/
def randbelowLoop (n k : Nat) : Nat → RState → Nat × RState
  | 0, g => (0, g)
  | fuel+1, g =>
    let p := getrandbits k g
    if p.1 < n then p else randbelowLoop n k fuel p.2

/-- `random._randbelow(n)`: draw `bit_length n` bits, rejecting values ≥ n. -/
def randbelow (n : Nat) (g : RState) : Nat × RState :=
  randbelowLoop n (bitLength n) 1000 g

/-- `random.randint(a, b)` = `randrange(a, b+1)` = `a + _randbelow(b-a+1)`. -/
def randint (a b : Int) (g : RState) : Int × RState :=
  let p := randbelow (b + 1 - a).toNat g
  ((a + (p.1 : Int)), p.2)

/-- `random.choice(xs)` = `xs[_randbelow(len(xs))]`. -/
def choice {α : Type} [Inhabited α] (xs : List α) (g : RState) : α × RState :=
  let p := randbelow xs.length g
  (xs.getD p.1 default, p.2)

end MT

set_option linter.unusedVariables false

/-! ## Drawing model: PIL `ImageDraw` calls as a command trace -/

/-- A Python color tuple `(r, g, b)` or `(r, g, b, a)`, recorded literally. -/
abbrev Color := List Int

/-- A point `(x, y)`. -/
abbrev Pt := Int × Int

/-- A four-element bounding-box list `[x0, y0, x1, y1]` as passed to PIL. -/
structure Box where
  x0 : Int
  y0 : Int
  x1 : Int
  y1 : Int
deriving DecidableEq

/-- A font value as produced by `ImageFont`. -/
inductive PFont where
  | truetype (path : String) (size : Int)
  | load_default
deriving DecidableEq

/-- One PIL `ImageDraw` call.  `Option` fields record whether the keyword
argument was passed at the call site at all. -/
inductive Cmd where
  | ellipse (bbox : Box) (fill : Option Color) (outline : Option Color)
      (width : Option Int)
  | rectangle (bbox : Box) (fill : Option Color) (outline : Option Color)
      (width : Option Int)
  | rounded_rectangle (bbox : Box) (radius : Int) (fill : Option Color)
      (outline : Option Color) (width : Option Int)
  | line (xy : List Pt) (fill : Color) (width : Option Int)
  | polygon (xy : List Pt) (fill : Option Color) (outline : Option Color)
      (width : Option Int)
  | arc (bbox : Box) (a0 a1 : Int) (fill : Color) (width : Int)
  | text (xy : Pt) (content : String) (font : PFont) (fill : Color)
      (anchor : String)
deriving DecidableEq

/-- Python `//` on ints (floor division). -/
def pydiv (a b : Int) : Int := Int.fdiv a b

/-- Python `range(start, stop, step)` for positive step, structurally
recursive on a fuel bound. -/
def rangeStepLoop (stop step : Int) : Nat → Int → List Int
  | 0, _ => []
  | fuel+1, cur => if cur < stop then cur :: rangeStepLoop stop step fuel (cur + step) else []

/-- Python `range(start, stop, step)` (positive step only, as in the source). -/
def rangeStep (start stop step : Int) : List Int :=
  rangeStepLoop stop step ((stop - start).toNat + 1) start

/-- Python `range(a, b)`. -/
def pyrange (a b : Int) : List Int := rangeStep a b 1

/-- `random.seed(n)` on a Python int: CPython seeds from the absolute value. -/
def MT.seedInt (n : Int) : MT.RState := MT.seed n.natAbs

/-! ## External-library oracle

Floating-point expressions in the source (every `int(... float ...)` site)
and the font resolver's file availability belong to Python's float semantics
and to PIL/the OS, not to the repository's integer logic; they are kept
abstract, one field per source expression, and every theorem quantifies over
them. -/

structure PyEnv where
  /-- `int(t * 12 * s)` with `t = i / 19.0` — cow tail x offset. -/
  cowTailX : Nat → Int → Int
  /-- `int(math.sin(t * math.pi * 2) * 8 * s)` with `t = i / 19.0`. -/
  cowTailY1 : Nat → Int → Int
  /-- `int(t * 15 * s)` with `t = i / 19.0`. -/
  cowTailY2 : Nat → Int → Int
  /-- `int(math.sin(wx / (12 * s)) * 3 * s)` — drowning-cow wave line. -/
  drownWave : Int → Int → Int
  /-- `int(base + (y / h) * coef)` — per-scanline gradient channel,
  arguments `(base, coef, y, h)`. -/
  gradChan : Int → Int → Int → Int → Int
  /-- `int(math.sin(wx / (30 * s) + phase) * 4 * s)` — ditch-water wave
  field, arguments `(wx, s, phase)`; the float phase is represented by the
  exact rational value of the source expression. -/
  waveY : Int → Int → ℚ → Int
  /-- `int(math.cos(math.radians(deg)) * r)`, arguments `(deg, r)`. -/
  cosR : Int → Int → Int
  /-- `int(math.sin(math.radians(deg)) * r)`, arguments `(deg, r)`. -/
  sinR : Int → Int → Int
  /-- `int(h * r)` for a float literal ratio `r` (gate-door hinge rows). -/
  mulRat : Int → ℚ → Int
  /-- Whether the external font resolver can load a given font file. -/
  fontAvail : String → Bool

/-! ## Image pipeline: canvases, resampling, export -/

/-- A PIL resampling filter (only LANCZOS appears in the source). -/
inductive RFilter where
  | LANCZOS
deriving DecidableEq

/-- An image together with its provenance: either a freshly allocated
canvas (`Image.new`) with the draw calls applied to it, or a filtered
`resize` of another image. -/
inductive Img where
  | canvas (mode : String) (w h : Nat) (bg : Color) (trace : List Cmd)
  | resize (src : Img) (w h : Nat) (filt : RFilter)
deriving DecidableEq

/-- Width of an image. -/
def Img.width : Img → Nat
  | .canvas _ w _ _ _ => w
  | .resize _ w _ _ => w

/-- Height of an image. -/
def Img.height : Img → Nat
  | .canvas _ _ h _ _ => h
  | .resize _ _ h _ => h

/-- Mode of an image (`resize` preserves the source mode). -/
def Img.mode : Img → String
  | .canvas m _ _ _ _ => m
  | .resize src _ _ _ => src.mode

/-- Dimensions of the originally allocated canvas an image descends from. -/
def Img.rootDims : Img → Nat × Nat
  | .canvas _ w h _ _ => (w, h)
  | .resize src _ _ _ => src.rootDims

/-- `SUPERSAMPLE = 4`. -/
def SUPERSAMPLE : Nat := 4

/-- `supersample_draw(w3x, h3x, draw_func)`: allocate an RGBA canvas of
`(w3x*4, h3x*4)` filled with transparent black, run the draw function on it
(threading the global `random` state), then LANCZOS-resize to `(w3x, h3x)`. -/
def supersample_draw (w3x h3x : Nat)
    (draw_func : Int → Int → Int → MT.RState → List Cmd × MT.RState)
    (g : MT.RState) : Img × MT.RState :=
  let sw := w3x * SUPERSAMPLE
  let sh := h3x * SUPERSAMPLE
  let p := draw_func (sw : Int) (sh : Int) (SUPERSAMPLE : Int) g
  (Img.resize (Img.canvas "RGBA" sw sh [0, 0, 0, 0] p.1) w3x h3x .LANCZOS, p.2)

/-- One entry of the manifest's `images` list. -/
structure ManifestImage where
  filename : String
  idiom : String
  scale : String
deriving DecidableEq

/-- The manifest's `info` record. -/
structure ManifestInfo where
  author : String
  version : Nat
deriving DecidableEq

/-- The `Contents.json` manifest written per image set. -/
structure Manifest where
  images : List ManifestImage
  info : ManifestInfo
deriving DecidableEq

/-- `ensure_imageset(name)`: the directory name and the manifest contents
written into it. -/
def ensure_imageset (name : String) : String × Manifest :=
  (name ++ ".imageset",
   ⟨[⟨name ++ "@2x.png", "universal", "2x"⟩,
     ⟨name ++ "@3x.png", "universal", "3x"⟩],
    ⟨"xcode", 1⟩⟩)

/-- One exported image-set bundle: its directory, manifest, and the raster
files written (filename paired with image). -/
structure Bundle where
  dir : String
  manifest : Manifest
  files : List (String × Img)
deriving DecidableEq

/-- `save_asset(img_at3x, name)`: write the @3x image, then derive the @2x
variant by LANCZOS-resizing the @3x image to `(int(w*2/3), int(h*2/3))`.
`int(w * 2 / 3)` truncates the float quotient toward zero; for every
nonnegative width this equals floor, i.e. `Nat` division `w * 2 / 3`
(Python float division is exact here for all widths below 2^50, far above
any size in the source). -/
def save_asset (img_at3x : Img) (name : String) : Bundle :=
  let d := ensure_imageset name
  let w2 := img_at3x.width * 2 / 3
  let h2 := img_at3x.height * 2 / 3
  { dir := d.1, manifest := d.2,
    files := [(name ++ "@3x.png", img_at3x),
              (name ++ "@2x.png", Img.resize img_at3x w2 h2 .LANCZOS)] }

/-! ## Shape-compositing primitives -/

/-- `outlined_ellipse(draw, bbox, fill, outline, outline_w, s)`: the
enlarged ellipse in outline color first, then the exact ellipse in fill
color on top. -/
def outlined_ellipse (bbox : Box) (fill outline : Color) (outline_w s : Int) :
    List Cmd :=
  [.ellipse ⟨bbox.x0 - outline_w * s, bbox.y0 - outline_w * s,
             bbox.x1 + outline_w * s, bbox.y1 + outline_w * s⟩
     (some outline) none none,
   .ellipse bbox (some fill) none none]

/-- `outlined_rect(draw, bbox, fill, outline, outline_w, s)`. -/
def outlined_rect (bbox : Box) (fill outline : Color) (outline_w s : Int) :
    List Cmd :=
  [.rounded_rectangle ⟨bbox.x0 - outline_w * s, bbox.y0 - outline_w * s,
                       bbox.x1 + outline_w * s, bbox.y1 + outline_w * s⟩
     (2 * s) (some outline) none none,
   .rounded_rectangle bbox (2 * s) (some fill) none none]

/-- `outlined_circle(draw, cx, cy, r, fill, outline, outline_w, s)`. -/
def outlined_circle (cx cy r : Int) (fill outline : Color) (outline_w s : Int) :
    List Cmd :=
  outlined_ellipse ⟨cx - r, cy - r, cx + r, cy + r⟩ fill outline outline_w s

/-! ## Outlined text -/

/-- Candidate font paths tried in order by `draw_text_outlined`. -/
def helveticaPath : String := "/System/Library/Fonts/Helvetica.ttc"

/-- Second font candidate. -/
def sfnsPath : String := "/System/Library/Fonts/SFNSDisplay.ttf"

/-- `ImageFont.truetype` as a fallible external call: raises `OSError` when
the resolver cannot load the file. -/
def truetype (env : PyEnv) (path : String) (size : Int) : Except String PFont :=
  if env.fontAvail path then .ok (.truetype path size) else .error "OSError"

/-- The try/except chain at the top of `draw_text_outlined`: try Helvetica,
then SFNSDisplay, and fall back to `ImageFont.load_default()` when both
raise. -/
def resolve_font (env : PyEnv) (font_size : Int) : PFont :=
  match truetype env helveticaPath font_size with
  | .ok f => f
  | .error _ =>
    match truetype env sfnsPath font_size with
    | .ok f => f
    | .error _ => PFont.load_default

/-- `range(-ow, ow + 1)` as an inclusive integer interval. -/
def intRange (a b : Int) : List Int := rangeStep a (b + 1) 1

/-- `draw_text_outlined(draw, pos, text, font_size, fill, outline_color,
outline_w, s)`: outline stamps at every loop offset `(dx, dy)` with
`dx*dx + dy*dy <= ow*ow + 1`, then one fill stamp at the anchor. -/
def draw_text_outlined (env : PyEnv) (pos : Pt) (content : String)
    (font_size : Int) (fill outline_color : Color) (outline_w s : Int) :
    List Cmd :=
  let font := resolve_font env font_size
  let ow := outline_w
  ((intRange (-ow) ow).flatMap fun dx =>
    (intRange (-ow) ow).filterMap fun dy =>
      if dx * dx + dy * dy ≤ ow * ow + 1 then
        some (.text (pos.1 + dx, pos.2 + dy) content font outline_color "mm")
      else none)
  ++ [.text pos content font fill "mm"]

/-! ## Generators: cows -/

/-- Spot loop of `draw_cow`: 4 randomly placed dark spots. -/
def cow_spots (cx cy s : Int) : Nat → MT.RState → List Cmd × MT.RState
  | 0, g => ([], g)
  | n+1, g =>
    let px := MT.randint (-30 * s) (30 * s) g
    let sx := cx + px.1
    let py := MT.randint (-15 * s) (15 * s) px.2
    let sy := cy + py.1
    let pr := MT.randint (6 * s) (12 * s) py.2
    let sr := pr.1
    let rest := cow_spots cx cy s n pr.2
    (Cmd.ellipse ⟨sx - sr, sy - pydiv sr 2, sx + sr, sy + pydiv sr 2⟩
       (some [30, 30, 30, 200]) none none :: rest.1, rest.2)

/-- `draw_cow(img, draw, w, h, s, variant)`, as a command trace threading
the global `random` state (which it reseeds at `random.seed(variant * 42)`
before its first draw from the stream). -/
def draw_cow (env : PyEnv) (w h s variant : Int) (g : MT.RState) :
    List Cmd × MT.RState :=
  let cx := pydiv w 2
  let cy := pydiv h 2
  let bw := 48 * s
  let bh := 34 * s
  let body := outlined_ellipse ⟨cx - bw, cy - bh + 4 * s, cx + bw, cy + bh + 4 * s⟩
    [255, 255, 255] [40, 40, 40] 2 s
  let sp := cow_spots cx cy s 4 (MT.seedInt (variant * 42))
  let legs := [(-28 : Int), -10, 10, 28].flatMap fun lx =>
    let lx_abs := cx + lx * s
    let ly_top := cy + 20 * s
    let ly_bot := cy + 40 * s
    [Cmd.rounded_rectangle ⟨lx_abs - 4 * s, ly_top, lx_abs + 4 * s, ly_bot⟩
       (2 * s) (some [60, 60, 60]) none none,
     Cmd.rounded_rectangle ⟨lx_abs - 5 * s, ly_bot - 4 * s, lx_abs + 5 * s, ly_bot + 2 * s⟩
       (2 * s) (some [80, 60, 40]) none none]
  let head_cy := cy - 26 * s
  let head := outlined_circle cx head_cy (16 * s) [255, 255, 255] [40, 40, 40] 2 s
  let snout := outlined_ellipse ⟨cx - 10 * s, head_cy + 2 * s, cx + 10 * s, head_cy + 14 * s⟩
    [255, 210, 180] [40, 40, 40] 1 s
  let nostrils :=
    [Cmd.ellipse ⟨cx - 5 * s, head_cy + 6 * s, cx - 2 * s, head_cy + 10 * s⟩
       (some [80, 50, 50]) none none,
     Cmd.ellipse ⟨cx + 2 * s, head_cy + 6 * s, cx + 5 * s, head_cy + 10 * s⟩
       (some [80, 50, 50]) none none]
  let eyes := [(-7 : Int), 7].flatMap fun ex =>
    let ex_abs := cx + ex * s
    let ey := head_cy - 4 * s
    [Cmd.ellipse ⟨ex_abs - 5 * s, ey - 5 * s, ex_abs + 5 * s, ey + 5 * s⟩
       (some [255, 255, 255]) none none,
     Cmd.ellipse ⟨ex_abs - 5 * s, ey - 5 * s, ex_abs + 5 * s, ey + 5 * s⟩
       none (some [40, 40, 40]) (some s),
     Cmd.ellipse ⟨ex_abs - 2 * s, ey - 3 * s, ex_abs + 2 * s, ey + 3 * s⟩
       (some [20, 20, 20]) none none,
     Cmd.ellipse ⟨ex_abs - 1 * s, ey - 3 * s, ex_abs + 1 * s, ey - 1 * s⟩
       (some [255, 255, 255]) none none]
  let horns := [(-10 : Int), 10].flatMap fun hx =>
    let hx_abs := cx + hx * s
    let hy := head_cy - 14 * s
    [Cmd.polygon [(hx_abs - 3 * s, head_cy - 10 * s),
                  (hx_abs + (if hx > 0 then (3 : Int) else -3) * s, hy - 8 * s),
                  (hx_abs + 3 * s, head_cy - 10 * s)]
       (some [220, 190, 130]) (some [40, 40, 40]) none]
  let ears := [(-1 : Int), 1].flatMap fun ex_sign =>
    let ear_cx := cx + ex_sign * 15 * s
    let ear_cy := head_cy - 6 * s
    [Cmd.ellipse ⟨ear_cx - 5 * s, ear_cy - 3 * s, ear_cx + 5 * s, ear_cy + 3 * s⟩
       (some [255, 220, 200]) (some [40, 40, 40]) (some s)]
  let tx := cx + 46 * s
  let ty := cy - 5 * s
  let points := (List.range 20).map fun i =>
    ((tx + env.cowTailX i s, ty + env.cowTailY1 i s - env.cowTailY2 i s) : Pt)
  let tail := if points.length > 1 then
      let tp := points.getLastD (0, 0)
      [Cmd.line points [60, 60, 60] (some (2 * s)),
       Cmd.ellipse ⟨tp.1 - 4 * s, tp.2 - 4 * s, tp.1 + 4 * s, tp.2 + 4 * s⟩
         (some [30, 30, 30]) none none]
    else []
  (body ++ sp.1 ++ legs ++ head ++ snout ++ nostrils ++ eyes ++ horns ++ ears
     ++ tail, sp.2)

/-- `generate_cow_walk()`: variants 1 and 2 at base size 156 x 132. -/
def generate_cow_walk (env : PyEnv) (g : MT.RState) : List Bundle × MT.RState :=
  let p1 := supersample_draw 156 132 (fun w h s => draw_cow env w h s 1) g
  let p2 := supersample_draw 156 132 (fun w h s => draw_cow env w h s 2) p1.2
  ([save_asset p1.1 "cow_walk_1", save_asset p2.1 "cow_walk_2"], p2.2)

/-- Spot loop of the drowning cow: 3 seeded random spots. -/
def drown_spots (cx cy s : Int) : Nat → MT.RState → List Cmd × MT.RState
  | 0, g => ([], g)
  | n+1, g =>
    let px := MT.randint (-25 * s) (25 * s) g
    let sx := cx + px.1
    let py := MT.randint (-10 * s) (5 * s) px.2
    let sy := cy + py.1
    let pr := MT.randint (5 * s) (10 * s) py.2
    let sr := pr.1
    let rest := drown_spots cx cy s n pr.2
    (Cmd.ellipse ⟨sx - sr, sy - pydiv sr 2, sx + sr, sy + pydiv sr 2⟩
       (some [30, 30, 30, 180]) none none :: rest.1, rest.2)

/-- The `draw_fn` closure inside `generate_cow_drowning`. -/
def draw_cow_drowning (env : PyEnv) (w h s : Int) (g : MT.RState) :
    List Cmd × MT.RState :=
  let cx := pydiv w 2
  let cy := pydiv h 2 - 8 * s
  let water_y := pydiv h 2 + 10 * s
  let water := [Cmd.rectangle ⟨0, water_y, w, h⟩ (some [50, 90, 160, 180]) none none]
  let waves := (rangeStep 0 w (8 * s)).map fun wx =>
    let wy := water_y + env.drownWave wx s
    Cmd.ellipse ⟨wx, wy - 2 * s, wx + 6 * s, wy + 2 * s⟩
      (some [80, 140, 220, 200]) none none
  let bw := 42 * s
  let bh := 24 * s
  let body := outlined_ellipse ⟨cx - bw, cy - bh, cx + bw, cy + bh⟩
    [255, 255, 255] [40, 40, 40] 2 s
  let sp := drown_spots cx cy s 3 (MT.seedInt 99)
  let head_cy := cy - 20 * s
  let head := outlined_circle cx head_cy (14 * s) [255, 255, 255] [40, 40, 40] 2 s
  let eyes := [(-6 : Int), 6].flatMap fun ex =>
    let ex_abs := cx + ex * s
    let ey := head_cy - 2 * s
    [Cmd.ellipse ⟨ex_abs - 5 * s, ey - 6 * s, ex_abs + 5 * s, ey + 6 * s⟩
       (some [255, 255, 255]) none none,
     Cmd.ellipse ⟨ex_abs - 5 * s, ey - 6 * s, ex_abs + 5 * s, ey + 6 * s⟩
       none (some [40, 40, 40]) (some s),
     Cmd.ellipse ⟨ex_abs - 2 * s, ey - 2 * s, ex_abs + 2 * s, ey + 4 * s⟩
       (some [20, 20, 20]) none none,
     Cmd.ellipse ⟨ex_abs - 1 * s, ey - 3 * s, ex_abs + 1 * s, ey - 1 * s⟩
       (some [255, 255, 255]) none none]
  let mouth := [Cmd.arc ⟨cx - 8 * s, head_cy + 4 * s, cx + 8 * s, head_cy + 14 * s⟩
    0 180 [40, 40, 40] (2 * s)]
  let horns := [(-9 : Int), 9].flatMap fun hx =>
    let hx_abs := cx + hx * s
    let hy := head_cy - 12 * s
    [Cmd.polygon [(hx_abs - 3 * s, head_cy - 8 * s),
                  (hx_abs + (if hx > 0 then (3 : Int) else -3) * s, hy - 6 * s),
                  (hx_abs + 3 * s, head_cy - 8 * s)]
       (some [220, 190, 130]) (some [40, 40, 40]) none]
  (water ++ waves ++ body ++ sp.1 ++ head ++ eyes ++ mouth ++ horns, sp.2)

/-- `generate_cow_drowning()`: base size 156 x 108. -/
def generate_cow_drowning (env : PyEnv) (g : MT.RState) :
    List Bundle × MT.RState :=
  let p := supersample_draw 156 108 (draw_cow_drowning env) g
  ([save_asset p.1 "cow_drowning"], p.2)

/-! ## Generator: farmer (no randomness) -/

/-- The `draw_fn` closure inside `generate_farmer`. -/
def draw_farmer (env : PyEnv) (w h s : Int) : List Cmd :=
  let cx := pydiv w 2
  let cy := pydiv h 2
  let legs := [(-12 : Int), 12].flatMap fun lx =>
    let lx_abs := cx + lx * s
    [Cmd.rounded_rectangle ⟨lx_abs - 6 * s, cy + 36 * s, lx_abs + 6 * s, cy + 65 * s⟩
       (3 * s) (some [50, 80, 140]) none none,
     Cmd.rounded_rectangle ⟨lx_abs - 7 * s, cy + 58 * s, lx_abs + 8 * s, cy + 68 * s⟩
       (2 * s) (some [100, 60, 30]) (some [60, 40, 20]) none]
  let body := outlined_ellipse ⟨cx - 24 * s, cy - 10 * s, cx + 24 * s, cy + 42 * s⟩
    [50, 100, 180] [30, 60, 120] 2 s
  let straps :=
    [Cmd.line [(cx - 16 * s, cy - 6 * s), (cx - 8 * s, cy + 10 * s)]
       [40, 80, 150] (some (3 * s)),
     Cmd.line [(cx + 16 * s, cy - 6 * s), (cx + 8 * s, cy + 10 * s)]
       [40, 80, 150] (some (3 * s))]
  let pocket := [Cmd.rounded_rectangle ⟨cx - 8 * s, cy + 16 * s, cx + 8 * s, cy + 28 * s⟩
    (2 * s) (some [40, 80, 150]) (some [30, 60, 120]) (some s)]
  let arms := [(-1 : Int), 1].flatMap fun ax_sign =>
    let ax := cx + ax_sign * 28 * s
    [Cmd.rounded_rectangle ⟨ax - 6 * s, cy, ax + 6 * s, cy + 30 * s⟩
       (3 * s) (some [210, 160, 110]) (some [160, 110, 60]) none,
     Cmd.ellipse ⟨ax - 7 * s, cy + 26 * s, ax + 7 * s, cy + 36 * s⟩
       (some [220, 170, 120]) none none]
  let head_cy := cy - 28 * s
  let head := outlined_circle cx head_cy (22 * s) [220, 170, 120] [180, 130, 80] 2 s
  let eyes := [(-9 : Int), 9].flatMap fun ex =>
    let ex_abs := cx + ex * s
    let ey := head_cy - 2 * s
    [Cmd.ellipse ⟨ex_abs - 5 * s, ey - 6 * s, ex_abs + 5 * s, ey + 6 * s⟩
       (some [255, 255, 255]) none none,
     Cmd.ellipse ⟨ex_abs - 5 * s, ey - 6 * s, ex_abs + 5 * s, ey + 6 * s⟩
       none (some [40, 40, 40]) (some s),
     Cmd.ellipse ⟨ex_abs - 2 * s, ey - 2 * s, ex_abs + 2 * s, ey + 3 * s⟩
       (some [50, 100, 50]) none none,
     Cmd.ellipse ⟨ex_abs - 1 * s, ey - 3 * s, ex_abs + 1 * s, ey - 1 * s⟩
       (some [255, 255, 255]) none none]
  let smile := [Cmd.arc ⟨cx - 10 * s, head_cy + 4 * s, cx + 10 * s, head_cy + 16 * s⟩
    10 170 [40, 40, 40] (2 * s)]
  let nose := [Cmd.ellipse ⟨cx - 3 * s, head_cy + 1 * s, cx + 3 * s, head_cy + 6 * s⟩
    (some [200, 150, 100]) none none]
  let hat_cy := head_cy - 24 * s
  let hat :=
    [Cmd.ellipse ⟨cx - 32 * s, hat_cy - 2 * s, cx + 32 * s, hat_cy + 10 * s⟩
       (some [140, 90, 40]) (some [90, 60, 20]) (some s),
     Cmd.rounded_rectangle ⟨cx - 18 * s, hat_cy - 20 * s, cx + 18 * s, hat_cy + 4 * s⟩
       (4 * s) (some [160, 100, 40]) (some [100, 65, 25]) (some s),
     Cmd.rectangle ⟨cx - 18 * s, hat_cy - 4 * s, cx + 18 * s, hat_cy + 1 * s⟩
       (some [180, 40, 40]) none none]
  legs ++ body ++ straps ++ pocket ++ arms ++ head ++ eyes ++ smile ++ nose ++ hat

/-- `generate_farmer()`: base size 180 x 216; touches no randomness. -/
def generate_farmer (env : PyEnv) (g : MT.RState) : List Bundle × MT.RState :=
  let p := supersample_draw 180 216 (fun w h s g0 => (draw_farmer env w h s, g0)) g
  ([save_asset p.1 "farmer"], p.2)

/-! ## Generators: backgrounds and tiles -/

/-- A full-surface vertical gradient: one per-scanline `draw.line` with
channels `int(base + (y/h)*coef)` (the three base/coef pairs vary per
generator). -/
def gradient_lines (env : PyEnv) (w h rb rc gb gc bb bc : Int) : List Cmd :=
  (pyrange 0 h).map fun y =>
    Cmd.line [(0, y), (w, y)]
      [env.gradChan rb rc y h, env.gradChan gb gc y h, env.gradChan bb bc y h]
      none

/-- Blade loop of `generate_background_grass` (200 seeded blades). -/
def grass_blades (w h s : Int) : Nat → MT.RState → List Cmd × MT.RState
  | 0, g => ([], g)
  | n+1, g =>
    let pgx := MT.randint 0 w g
    let pgy := MT.randint 0 h pgx.2
    let pgh := MT.randint (6 * s) (14 * s) pgy.2
    let psl := MT.randint (-3 * s) (3 * s) pgh.2
    let pgv := MT.randint (-20) 20 psl.2
    let color : Color := [60 + pgv.1, 160 + pgv.1, 30 + pgv.1, 120]
    let rest := grass_blades w h s n pgv.2
    (Cmd.line [(pgx.1, pgy.1), (pgx.1 + psl.1, pgy.1 - pgh.1)] color
       (some (max 1 s)) :: rest.1, rest.2)

/-- The `draw_fn` closure inside `generate_background_grass`. -/
def draw_background_grass (env : PyEnv) (w h s : Int) (g : MT.RState) :
    List Cmd × MT.RState :=
  let g0 := MT.seedInt 7
  let grad := gradient_lines env w h 60 30 140 40 30 20
  let blades := grass_blades w h s 200 g0
  (grad ++ blades.1, blades.2)

/-- `generate_background_grass()`: base size 512 x 512. -/
def generate_background_grass (env : PyEnv) (g : MT.RState) :
    List Bundle × MT.RState :=
  let p := supersample_draw 512 512 (draw_background_grass env) g
  ([save_asset p.1 "background_grass"], p.2)

/-- Blade loop of `generate_safe_pasture` (150 seeded blades). -/
def pasture_blades (w h s : Int) : Nat → MT.RState → List Cmd × MT.RState
  | 0, g => ([], g)
  | n+1, g =>
    let pgx := MT.randint 0 w g
    let pgy := MT.randint 0 h pgx.2
    let pgh := MT.randint (4 * s) (10 * s) pgy.2
    let psl := MT.randint (-2 * s) (2 * s) pgh.2
    let rest := pasture_blades w h s n psl.2
    (Cmd.line [(pgx.1, pgy.1), (pgx.1 + psl.1, pgy.1 - pgh.1)] [50, 140, 25, 100]
       (some (max 1 s)) :: rest.1, rest.2)

/-- The petal color list of `generate_safe_pasture`. -/
def petal_colors : List Color :=
  [[255, 200, 50], [255, 100, 100], [200, 100, 255], [255, 255, 255]]

/-- Flower loop of `generate_safe_pasture` (30 seeded flowers, five petals
each at 72-degree steps). -/
def pasture_flowers (env : PyEnv) (w h s : Int) :
    Nat → MT.RState → List Cmd × MT.RState
  | 0, g => ([], g)
  | n+1, g =>
    let pfx := MT.randint 0 w g
    let pfy := MT.randint 0 h pfx.2
    let pc := MT.choice petal_colors pfy.2
    let pfr := MT.randint (3 * s) (5 * s) pc.2
    let petals := (rangeStep 0 360 72).map fun angle =>
      let px := pfx.1 + env.cosR angle pfr.1
      let py := pfy.1 + env.sinR angle pfr.1
      Cmd.ellipse ⟨px - 2 * s, py - 2 * s, px + 2 * s, py + 2 * s⟩
        (some pc.1) none none
    let center := Cmd.ellipse ⟨pfx.1 - 2 * s, pfy.1 - 2 * s, pfx.1 + 2 * s, pfy.1 + 2 * s⟩
      (some [255, 220, 50]) none none
    let rest := pasture_flowers env w h s n pfr.2
    (petals ++ [center] ++ rest.1, rest.2)

/-- The `draw_fn` closure inside `generate_safe_pasture`. -/
def draw_safe_pasture (env : PyEnv) (w h s : Int) (g : MT.RState) :
    List Cmd × MT.RState :=
  let g0 := MT.seedInt 13
  let grad := gradient_lines env w h 40 25 120 30 20 15
  let blades := pasture_blades w h s 150 g0
  let flowers := pasture_flowers env w h s 30 blades.2
  (grad ++ blades.1 ++ flowers.1, flowers.2)

/-- `generate_safe_pasture()`: base size 512 x 512. -/
def generate_safe_pasture (env : PyEnv) (g : MT.RState) :
    List Bundle × MT.RState :=
  let p := supersample_draw 512 512 (draw_safe_pasture env) g
  ([save_asset p.1 "safe_pasture"], p.2)

/-! ## Generator: ditch water (3 animation frames) -/

/-- One wave row of a ditch-water frame: a polyline sampled every `4*s`
pixels at height `wy_base`, guarded by `if len(points) > 1`. -/
def ditch_wave_row (env : PyEnv) (w s : Int) (phase : ℚ) (wy_base : Int) :
    List Cmd :=
  let points := (rangeStep 0 w (4 * s)).map fun wx =>
    ((wx, wy_base + env.waveY wx s phase) : Pt)
  if points.length > 1 then
    [Cmd.line points [80, 140, 220, 100] (some (2 * s))]
  else []

/-- Wave-pattern rows of a ditch-water frame: one guarded polyline per
`wy_base in range(0, h, 12*s)`. -/
def ditch_waves (env : PyEnv) (w h s : Int) (phase : ℚ) : List Cmd :=
  (rangeStep 0 h (12 * s)).flatMap (ditch_wave_row env w s phase)

/-- Shimmer-highlight loop of a ditch-water frame (20 seeded ellipses). -/
def ditch_shimmer (w h s : Int) : Nat → MT.RState → List Cmd × MT.RState
  | 0, g => ([], g)
  | n+1, g =>
    let psx := MT.randint 0 w g
    let psy := MT.randint 0 h psx.2
    let psw := MT.randint (8 * s) (20 * s) psy.2
    let rest := ditch_shimmer w h s n psw.2
    (Cmd.ellipse ⟨psx.1, psy.1, psx.1 + psw.1, psy.1 + 2 * s⟩
       (some [150, 200, 255, 60]) none none :: rest.1, rest.2)

/-- The per-frame `draw_fn` closure inside `generate_ditch_water`: reseeds
at `frame * 100`, draws the blue gradient, the wave rows at
`phase = frame * 2.1` (the float literal 2.1 represented as 21/10), then
the shimmer highlights. -/
def draw_ditch_water (env : PyEnv) (frame : Int) (w h s : Int) (g : MT.RState) :
    List Cmd × MT.RState :=
  let g0 := MT.seedInt (frame * 100)
  let grad := gradient_lines env w h 30 20 60 40 140 40
  let phase : ℚ := (frame : ℚ) * (21 / 10 : ℚ)
  let waves := ditch_waves env w h s phase
  let sh := ditch_shimmer w h s 20 g0
  (grad ++ waves ++ sh.1, sh.2)

/-- `generate_ditch_water()`: frames 1, 2, 3, each at base size 512 x 160. -/
def generate_ditch_water (env : PyEnv) (g : MT.RState) :
    List Bundle × MT.RState :=
  let p1 := supersample_draw 512 160 (draw_ditch_water env 1) g
  let p2 := supersample_draw 512 160 (draw_ditch_water env 2) p1.2
  let p3 := supersample_draw 512 160 (draw_ditch_water env 3) p2.2
  ([save_asset p1.1 "ditch_water_1", save_asset p2.1 "ditch_water_2",
    save_asset p3.1 "ditch_water_3"], p3.2)

/-! ## Generators: ditch edge and fence -/

/-- Dirt-texture loop of `generate_ditch_edge` (80 seeded ellipses). -/
def edge_texture (w h s : Int) : Nat → MT.RState → List Cmd × MT.RState
  | 0, g => ([], g)
  | n+1, g =>
    let px := MT.randint 0 w g
    let py := MT.randint 0 h px.2
    let pr := MT.randint (1 * s) (3 * s) py.2
    let psh := MT.randint (-20) 20 pr.2
    let rest := edge_texture w h s n psh.2
    (Cmd.ellipse ⟨px.1 - pr.1, py.1 - pr.1, px.1 + pr.1, py.1 + pr.1⟩
       (some [100 + psh.1, 60 + psh.1, 30 + psh.1]) none none :: rest.1, rest.2)

/-- Grass-fringe loop of `generate_ditch_edge`: one seeded blade per
`x in range(0, w, 3*s)` (note the blades extend above the canvas: the top
is `-gh`). -/
def edge_grass (s : Int) : List Int → MT.RState → List Cmd × MT.RState
  | [], g => ([], g)
  | x :: xs, g =>
    let pgh := MT.randint (2 * s) (6 * s) g
    let psl := MT.randint (-1 * s) (1 * s) pgh.2
    let rest := edge_grass s xs psl.2
    (Cmd.line [(x, 0), (x + psl.1, -pgh.1)] [70, 150, 30, 180]
       (some (max 1 s)) :: rest.1, rest.2)

/-- The `draw_fn` closure inside `generate_ditch_edge`. -/
def draw_ditch_edge (env : PyEnv) (w h s : Int) (g : MT.RState) :
    List Cmd × MT.RState :=
  let g0 := MT.seedInt 55
  let dirt := [Cmd.rectangle ⟨0, 0, w, h⟩ (some [120, 80, 40]) none none]
  let tex := edge_texture w h s 80 g0
  let fringe := edge_grass s (rangeStep 0 w (3 * s)) tex.2
  (dirt ++ tex.1 ++ fringe.1, fringe.2)

/-- `generate_ditch_edge()`: base size 512 x 24. -/
def generate_ditch_edge (env : PyEnv) (g : MT.RState) :
    List Bundle × MT.RState :=
  let p := supersample_draw 512 24 (draw_ditch_edge env) g
  ([save_asset p.1 "ditch_edge"], p.2)

/-- Grain loop of `generate_fence_post` (8 seeded grain lines; the four
randint draws happen in Python's left-to-right evaluation order: `gx`,
then the top y, then the x jitter, then the bottom y). -/
def post_grain (w h s : Int) : Nat → MT.RState → List Cmd × MT.RState
  | 0, g => ([], g)
  | n+1, g =>
    let pgx := MT.randint (4 * s) (w - 4 * s) g
    let py1 := MT.randint 0 (pydiv h 4) pgx.2
    let pdx := MT.randint (-2 * s) (2 * s) py1.2
    let py2 := MT.randint (pydiv (h * 3) 4) h pdx.2
    let rest := post_grain w h s n py2.2
    (Cmd.line [(pgx.1, py1.1), (pgx.1 + pdx.1, py2.1)] [120, 75, 35, 80]
       (some (max 1 s)) :: rest.1, rest.2)

/-- The `draw_fn` closure inside `generate_fence_post`. -/
def draw_fence_post (env : PyEnv) (w h s : Int) (g : MT.RState) :
    List Cmd × MT.RState :=
  let post := [Cmd.rounded_rectangle ⟨2 * s, 0, w - 2 * s, h⟩ (3 * s)
    (some [140, 90, 45]) (some [90, 55, 25]) (some (2 * s))]
  let grain := post_grain w h s 8 (MT.seedInt 22)
  let nail := [Cmd.ellipse ⟨pydiv w 2 - 2 * s, 6 * s, pydiv w 2 + 2 * s, 10 * s⟩
    (some [80, 80, 80]) none none]
  (post ++ grain.1 ++ nail, grain.2)

/-- `generate_fence_post()`: base size 24 x 120. -/
def generate_fence_post (env : PyEnv) (g : MT.RState) :
    List Bundle × MT.RState :=
  let p := supersample_draw 24 120 (draw_fence_post env) g
  ([save_asset p.1 "fence_post"], p.2)

/-- Grain loop of `generate_fence_rail` (15 seeded grain lines). -/
def rail_grain (w h s : Int) : Nat → MT.RState → List Cmd × MT.RState
  | 0, g => ([], g)
  | n+1, g =>
    let pgy := MT.randint (3 * s) (h - 3 * s) g
    let px1 := MT.randint 0 (pydiv w 3) pgy.2
    let px2 := MT.randint (pydiv (w * 2) 3) w px1.2
    let rest := rail_grain w h s n px2.2
    (Cmd.line [(px1.1, pgy.1), (px2.1, pgy.1)] [140, 85, 40, 60]
       (some (max 1 s)) :: rest.1, rest.2)

/-- The `draw_fn` closure inside `generate_fence_rail`. -/
def draw_fence_rail (env : PyEnv) (w h s : Int) (g : MT.RState) :
    List Cmd × MT.RState :=
  let rail := [Cmd.rounded_rectangle ⟨0, 2 * s, w, h - 2 * s⟩ (2 * s)
    (some [160, 105, 55]) (some [100, 65, 30]) (some s)]
  let grain := rail_grain w h s 15 (MT.seedInt 33)
  (rail ++ grain.1, grain.2)

/-- `generate_fence_rail()`: base size 512 x 18. -/
def generate_fence_rail (env : PyEnv) (g : MT.RState) :
    List Bundle × MT.RState :=
  let p := supersample_draw 512 18 (draw_fence_rail env) g
  ([save_asset p.1 "fence_rail"], p.2)

/-! ## Generators: gate -/

/-- The `draw_fn` closure inside `generate_gate_door` (no randomness;
plank shades come from the literal list `[0, 10, -5, 8]`, hinge rows from
`int(h * 0.2)` and `int(h * 0.8)`). -/
def draw_gate_door (env : PyEnv) (w h s : Int) : List Cmd :=
  let plank_w := pydiv w 4
  let planks := (List.range 4).flatMap fun i =>
    let px := (i : Int) * plank_w
    let shade := [(0 : Int), 10, -5, 8].getD i 0
    let color : Color := [150 + shade, 95 + shade, 45 + shade]
    [Cmd.rectangle ⟨px + s, 2 * s, px + plank_w - s, h - 2 * s⟩ (some color) none none,
     Cmd.rectangle ⟨px + s, 2 * s, px + plank_w - s, h - 2 * s⟩ none
       (some [100, 60, 25]) (some s)]
  let brace :=
    [Cmd.line [(4 * s, 4 * s), (w - 4 * s, h - 4 * s)] [120, 70, 30] (some (3 * s)),
     Cmd.line [(4 * s, h - 4 * s), (w - 4 * s, 4 * s)] [120, 70, 30] (some (3 * s))]
  let hinges := [(1 : ℚ)/5, (4 : ℚ)/5].flatMap fun hr =>
    let hy := env.mulRat h hr
    [Cmd.rounded_rectangle ⟨0, hy - 3 * s, 12 * s, hy + 3 * s⟩ s
       (some [60, 60, 60]) none none,
     Cmd.ellipse ⟨8 * s, hy - 2 * s, 12 * s, hy + 2 * s⟩ (some [50, 50, 50]) none none]
  planks ++ brace ++ hinges

/-- `generate_gate_door()`: base size 240 x 108. -/
def generate_gate_door (env : PyEnv) (g : MT.RState) :
    List Bundle × MT.RState :=
  let p := supersample_draw 240 108 (fun w h s g0 => (draw_gate_door env w h s, g0)) g
  ([save_asset p.1 "gate_door"], p.2)

/-- Grain loop of `generate_gate_post` (6 seeded grain lines; draws `gx`
then the x jitter of the lower endpoint). -/
def gate_post_grain (w h s : Int) : Nat → MT.RState → List Cmd × MT.RState
  | 0, g => ([], g)
  | n+1, g =>
    let pgx := MT.randint (5 * s) (w - 5 * s) g
    let pdx := MT.randint (-s) s pgx.2
    let rest := gate_post_grain w h s n pdx.2
    (Cmd.line [(pgx.1, 10 * s), (pgx.1 + pdx.1, h - 5 * s)] [100, 60, 25, 70]
       (some (max 1 s)) :: rest.1, rest.2)

/-- The `draw_fn` closure inside `generate_gate_post`. -/
def draw_gate_post (env : PyEnv) (w h s : Int) (g : MT.RState) :
    List Cmd × MT.RState :=
  let post := [Cmd.rounded_rectangle ⟨3 * s, 8 * s, w - 3 * s, h⟩ (3 * s)
    (some [120, 75, 35]) (some [80, 50, 20]) (some (2 * s))]
  let grain := gate_post_grain w h s 6 (MT.seedInt 44)
  let cap := [Cmd.rounded_rectangle ⟨2 * s, 0, w - 2 * s, 12 * s⟩ (2 * s)
    (some [70, 70, 70]) (some [40, 40, 40]) (some s)]
  let hl := [Cmd.line [(5 * s, 3 * s), (w - 5 * s, 3 * s)] [100, 100, 100, 150] (some s)]
  (post ++ grain.1 ++ cap ++ hl, grain.2)

/-- `generate_gate_post()`: base size 36 x 144. -/
def generate_gate_post (env : PyEnv) (g : MT.RState) :
    List Bundle × MT.RState :=
  let p := supersample_draw 36 144 (draw_gate_post env) g
  ([save_asset p.1 "gate_post"], p.2)

/-! ## Generator: clouds (3 variants) -/

/-- The puff table of `generate_clouds`. -/
def cloud_puff_table : List (Int × Int × Int) :=
  [(0, 0, 35), (-30, 5, 28), (25, 3, 30), (-15, -10, 25),
   (18, -8, 22), (35, 8, 20), (-38, 10, 18)]

/-- Jittered puff loop of a cloud variant (soft shadow then white puff per
puff entry; the radius is clamped below at 12 by `max`). -/
def cloud_puffs (v cx cy s : Int) :
    List (Int × Int × Int) → MT.RState → List Cmd × MT.RState
  | [], g => ([], g)
  | (px0, py0, pr0) :: rest0, g =>
    let pdx := MT.randint (-5) 5 g
    let px := px0 + pdx.1
    let pdy := MT.randint (-3) 3 pdx.2
    let py := py0 + pdy.1
    let pdr := MT.randint (-3) 3 pdy.2
    let pr := max 12 (pr0 + pdr.1 + (v - 2) * 2)
    let x := cx + px * s
    let y := cy + py * s
    let r := pr * s
    let rest := cloud_puffs v cx cy s rest0 pdr.2
    ([Cmd.ellipse ⟨x - r, y - r + 4 * s, x + r, y + r + 4 * s⟩
        (some [200, 200, 210, 40]) none none,
      Cmd.ellipse ⟨x - r, y - r, x + r, y + r⟩
        (some [255, 255, 255, 230]) none none] ++ rest.1, rest.2)

/-- The per-variant `draw_fn` closure inside `generate_clouds`. -/
def draw_cloud (env : PyEnv) (v w h s : Int) (g : MT.RState) :
    List Cmd × MT.RState :=
  let cx := pydiv w 2
  let cy := pydiv h 2 + 10 * s
  let puffs := cloud_puffs v cx cy s cloud_puff_table (MT.seedInt (v * 77))
  let highlights := [((-5 : Int), (-12 : Int), (20 : Int)), (10, -10, 18)].map
    fun q =>
      let x := cx + q.1 * s
      let y := cy + q.2.1 * s
      let r := (q.2.2 + (v - 2)) * s
      Cmd.ellipse ⟨x - r, y - r, x + r, y + r⟩ (some [255, 255, 255, 250]) none none
  (puffs.1 ++ highlights, puffs.2)

/-- `generate_clouds()`: variants 1, 2, 3 at base size 240 x 120. -/
def generate_clouds (env : PyEnv) (g : MT.RState) : List Bundle × MT.RState :=
  let p1 := supersample_draw 240 120 (draw_cloud env 1) g
  let p2 := supersample_draw 240 120 (draw_cloud env 2) p1.2
  let p3 := supersample_draw 240 120 (draw_cloud env 3) p2.2
  ([save_asset p1.1 "cloud_1", save_asset p2.1 "cloud_2",
    save_asset p3.1 "cloud_3"], p3.2)

/-! ## Generators: UI chrome -/

/-- The `draw_fn` closure inside `generate_title_logo` (no randomness). -/
def draw_title_logo (env : PyEnv) (w h s : Int) : List Cmd :=
  let cx := pydiv w 2
  let cy := pydiv h 2
  [Cmd.rounded_rectangle ⟨20 * s, 20 * s, w - 20 * s, h - 20 * s⟩ (20 * s)
     (some [60, 130, 40, 200]) (some [40, 90, 25]) (some (3 * s))]
  ++ draw_text_outlined env (cx, cy - 12 * s) "COWS IN" (42 * s)
       [255, 255, 255] [40, 40, 40] (3 * s) s
  ++ draw_text_outlined env (cx, cy + 30 * s) "THE DITCH" (48 * s)
       [255, 230, 80] [40, 40, 40] (3 * s) s

/-- `generate_title_logo()`: base size 900 x 240. -/
def generate_title_logo (env : PyEnv) (g : MT.RState) :
    List Bundle × MT.RState :=
  let p := supersample_draw 900 240 (fun w h s g0 => (draw_title_logo env w h s, g0)) g
  ([save_asset p.1 "title_logo"], p.2)

/-- The `draw_fn` closure inside `generate_button`: shadow, body with
outline channels `max(0, c - 40)`, highlight with channels
`min(255, c + 40)`, then outlined text. -/
def draw_button (env : PyEnv) (btext : String) (color : Int × Int × Int)
    (w h s : Int) : List Cmd :=
  let cx := pydiv w 2
  let cy := pydiv h 2
  let r := color.1
  let g := color.2.1
  let b := color.2.2
  [Cmd.rounded_rectangle ⟨8 * s, 12 * s, w - 8 * s, h - 4 * s⟩ (20 * s)
     (some [0, 0, 0, 80]) none none,
   Cmd.rounded_rectangle ⟨8 * s, 8 * s, w - 8 * s, h - 12 * s⟩ (20 * s)
     (some [r, g, b])
     (some [max 0 (r - 40), max 0 (g - 40), max 0 (b - 40)]) (some (3 * s)),
   Cmd.rounded_rectangle ⟨16 * s, 12 * s, w - 16 * s, cy - 4 * s⟩ (14 * s)
     (some [min 255 (r + 40), min 255 (g + 40), min 255 (b + 40), 100]) none none]
  ++ draw_text_outlined env (cx, cy - 4 * s) btext (40 * s)
       [255, 255, 255] [0, 0, 0, 180] (3 * s) s

/-- `generate_button(name, text, color)`: base size 600 x 180. -/
def generate_button (env : PyEnv) (name btext : String)
    (color : Int × Int × Int) (g : MT.RState) : List Bundle × MT.RState :=
  let p := supersample_draw 600 180
    (fun w h s g0 => (draw_button env btext color w h s, g0)) g
  ([save_asset p.1 name], p.2)

/-- The `draw_fn` closure inside `generate_heart`: two bumps and a
triangle in the body color, outline ellipses with channels
`max(0, c - 60)`, and a white highlight at alpha `min(255, alpha // 2)`. -/
def draw_heart (env : PyEnv) (color : Int × Int × Int) (alpha : Int)
    (w h s : Int) : List Cmd :=
  let cx := pydiv w 2
  let cy := pydiv h 2
  let r := color.1
  let g := color.2.1
  let b := color.2.2
  let hr := 14 * s
  let outline_col : Color := [max 0 (r - 60), max 0 (g - 60), max 0 (b - 60), alpha]
  let hl_r := 6 * s
  [Cmd.ellipse ⟨cx - hr * 2, cy - hr - 4 * s, cx, cy + pydiv hr 2 - 4 * s⟩
     (some [r, g, b, alpha]) none none,
   Cmd.ellipse ⟨cx, cy - hr - 4 * s, cx + hr * 2, cy + pydiv hr 2 - 4 * s⟩
     (some [r, g, b, alpha]) none none,
   Cmd.polygon [(cx - hr * 2 + 2 * s, cy - 2 * s),
                (cx + hr * 2 - 2 * s, cy - 2 * s),
                (cx, cy + hr + 10 * s)] (some [r, g, b, alpha]) none none,
   Cmd.ellipse ⟨cx - hr * 2, cy - hr - 4 * s, cx, cy + pydiv hr 2 - 4 * s⟩
     none (some outline_col) (some (2 * s)),
   Cmd.ellipse ⟨cx, cy - hr - 4 * s, cx + hr * 2, cy + pydiv hr 2 - 4 * s⟩
     none (some outline_col) (some (2 * s)),
   Cmd.ellipse ⟨cx - 8 * s, cy - 10 * s, cx - 8 * s + hl_r * 2, cy - 10 * s + hl_r⟩
     (some [255, 255, 255, min 255 (pydiv alpha 2)]) none none]

/-- `generate_heart(name, color, alpha)`: base size 84 x 78. -/
def generate_heart (env : PyEnv) (name : String) (color : Int × Int × Int)
    (alpha : Int) (g : MT.RState) : List Bundle × MT.RState :=
  let p := supersample_draw 84 78
    (fun w h s g0 => (draw_heart env color alpha w h s, g0)) g
  ([save_asset p.1 name], p.2)

/-- The `draw_fn` closure inside `generate_score_badge` (no randomness). -/
def draw_score_badge (env : PyEnv) (w h s : Int) : List Cmd :=
  [Cmd.rounded_rectangle ⟨4 * s, 4 * s, w - 4 * s, h - 4 * s⟩ (16 * s)
     (some [40, 40, 60, 200]) (some [80, 80, 120, 200]) (some (2 * s)),
   Cmd.rounded_rectangle ⟨8 * s, 8 * s, w - 8 * s, h - 8 * s⟩ (14 * s)
     (some [50, 50, 70, 100]) none none]

/-- `generate_score_badge()`: base size 480 x 120. -/
def generate_score_badge (env : PyEnv) (g : MT.RState) :
    List Bundle × MT.RState :=
  let p := supersample_draw 480 120 (fun w h s g0 => (draw_score_badge env w h s, g0)) g
  ([save_asset p.1 "score_badge"], p.2)

/-- The `draw_fn` closure inside `generate_game_over_banner`. -/
def draw_game_over_banner (env : PyEnv) (w h s : Int) : List Cmd :=
  let cx := pydiv w 2
  let cy := pydiv h 2
  [Cmd.rounded_rectangle ⟨10 * s, 20 * s, w - 10 * s, h - 20 * s⟩ (16 * s)
     (some [40, 15, 15, 230]) (some [180, 40, 40]) (some (3 * s))]
  ++ draw_text_outlined env (cx, cy) "GAME OVER" (56 * s)
       [255, 60, 60] [40, 10, 10] (4 * s) s

/-- `generate_game_over_banner()`: base size 900 x 240. -/
def generate_game_over_banner (env : PyEnv) (g : MT.RState) :
    List Bundle × MT.RState :=
  let p := supersample_draw 900 240
    (fun w h s g0 => (draw_game_over_banner env w h s, g0)) g
  ([save_asset p.1 "game_over_banner"], p.2)

/-- The per-state `draw_fn` closure inside `generate_gate_indicators`:
ring, colored core, and highlight with channels `min(255, c + 80)`. -/
def draw_gate_indicator (env : PyEnv) (color : Int × Int × Int)
    (w h s : Int) : List Cmd :=
  let r := color.1
  let g := color.2.1
  let b := color.2.2
  [Cmd.ellipse ⟨2 * s, 2 * s, w - 2 * s, h - 2 * s⟩
     (some [40, 40, 40]) (some [80, 80, 80]) (some (2 * s)),
   Cmd.ellipse ⟨6 * s, 6 * s, w - 6 * s, h - 6 * s⟩ (some [r, g, b]) none none,
   Cmd.ellipse ⟨10 * s, 8 * s, pydiv w 2, pydiv h 2 - 2 * s⟩
     (some [min 255 (r + 80), min 255 (g + 80), min 255 (b + 80), 140]) none none]

/-- `generate_gate_indicators()`: states open/closed at base size 48 x 48. -/
def generate_gate_indicators (env : PyEnv) (g : MT.RState) :
    List Bundle × MT.RState :=
  let p1 := supersample_draw 48 48
    (fun w h s g0 => (draw_gate_indicator env (40, 200, 40) w h s, g0)) g
  let p2 := supersample_draw 48 48
    (fun w h s g0 => (draw_gate_indicator env (200, 40, 40) w h s, g0)) p1.2
  ([save_asset p1.1 "gate_indicator_open", save_asset p2.1 "gate_indicator_closed"],
   p2.2)

/-! ## Generators: particles -/

/-- `generate_particle(name, size_px, draw_func)`: square base canvas. -/
def generate_particle (name : String) (size_px : Nat)
    (draw_func : Int → Int → Int → List Cmd) (g : MT.RState) :
    Bundle × MT.RState :=
  let p := supersample_draw size_px size_px
    (fun w h s g0 => (draw_func w h s, g0)) g
  (save_asset p.1 name, p.2)

/-- The `splash` closure inside `generate_particles`. -/
def particle_splash (w h s : Int) : List Cmd :=
  let cx := pydiv w 2
  let cy := pydiv h 2
  [Cmd.ellipse ⟨cx - 5 * s, cy - 3 * s, cx + 5 * s, cy + 5 * s⟩
     (some [100, 160, 240, 200]) none none,
   Cmd.polygon [(cx, cy - 6 * s), (cx - 3 * s, cy - 1 * s), (cx + 3 * s, cy - 1 * s)]
     (some [100, 160, 240, 200]) none none,
   Cmd.ellipse ⟨cx - 2 * s, cy - 1 * s, cx + 1 * s, cy + 1 * s⟩
     (some [180, 220, 255, 180]) none none]

/-- The `dust` closure inside `generate_particles`. -/
def particle_dust (w h s : Int) : List Cmd :=
  let cx := pydiv w 2
  let cy := pydiv h 2
  [Cmd.ellipse ⟨cx - 4 * s, cy - 4 * s, cx + 4 * s, cy + 4 * s⟩
     (some [160, 130, 80, 150]) none none,
   Cmd.ellipse ⟨cx - 2 * s, cy - 2 * s, cx + 2 * s, cy + 2 * s⟩
     (some [180, 150, 100, 100]) none none]

/-- The `grass_blade` closure inside `generate_particles`. -/
def particle_grass (w h s : Int) : List Cmd :=
  let cx := pydiv w 2
  [Cmd.polygon [(cx - 2 * s, h - s), (cx + 2 * s, h - s), (cx + s, s), (cx - s, s)]
     (some [60, 160, 30, 180]) none none]

/-- The `star` closure inside `generate_particles`: alternating outer and
inner radii at 36-degree steps starting from -90. -/
def particle_star (env : PyEnv) (w h s : Int) : List Cmd :=
  let cx := pydiv w 2
  let cy := pydiv h 2
  let r_outer := 6 * s
  let r_inner := 3 * s
  let points := (List.range 10).map fun i =>
    let r := if i % 2 == 0 then r_outer else r_inner
    ((cx + env.cosR ((i : Int) * 36 - 90) r, cy + env.sinR ((i : Int) * 36 - 90) r) : Pt)
  [Cmd.polygon points (some [255, 220, 50, 230]) none none,
   Cmd.polygon points none (some [200, 170, 20]) (some (max 1 s))]

/-- The `sparkle` closure inside `generate_particles`. -/
def particle_sparkle (w h s : Int) : List Cmd :=
  let cx := pydiv w 2
  let cy := pydiv h 2
  let r := 3 * s
  [Cmd.ellipse ⟨cx - r, cy - r, cx + r, cy + r⟩ (some [255, 255, 255, 200]) none none,
   Cmd.ellipse ⟨cx - pydiv r 2, cy - pydiv r 2, cx + pydiv r 2, cy + pydiv r 2⟩
     (some [255, 255, 255, 250]) none none]

/-- `generate_particles()`: the five particle sprites in source order. -/
def generate_particles (env : PyEnv) (g : MT.RState) :
    List Bundle × MT.RState :=
  let p1 := generate_particle "particle_splash" 16 particle_splash g
  let p2 := generate_particle "particle_dust" 12 particle_dust p1.2
  let p3 := generate_particle "particle_grass" 8 particle_grass p2.2
  let p4 := generate_particle "particle_star" 16 (particle_star env) p3.2
  let p5 := generate_particle "particle_sparkle" 8 particle_sparkle p4.2
  ([p1.1, p2.1, p3.1, p4.1, p5.1], p5.2)

/-! ## The batch (the `generators` list in `main()`) -/

/-- The `generators` table of `main()`: display name paired with the
generation procedure, in source order. -/
def generators (env : PyEnv) :
    List (String × (MT.RState → List Bundle × MT.RState)) :=
  [("Cow walk sprites", generate_cow_walk env),
   ("Cow drowning sprite", generate_cow_drowning env),
   ("Farmer sprite", generate_farmer env),
   ("Background grass", generate_background_grass env),
   ("Safe pasture", generate_safe_pasture env),
   ("Ditch water (3 frames)", generate_ditch_water env),
   ("Ditch edge", generate_ditch_edge env),
   ("Fence post", generate_fence_post env),
   ("Fence rail", generate_fence_rail env),
   ("Gate door", generate_gate_door env),
   ("Gate post", generate_gate_post env),
   ("Clouds (3 variants)", generate_clouds env),
   ("Title logo", generate_title_logo env),
   ("Play button", fun g => generate_button env "button_play" "PLAY" (60, 180, 60) g),
   ("Replay button", fun g => generate_button env "button_replay" "PLAY AGAIN" (60, 160, 60) g),
   ("Heart full", fun g => generate_heart env "heart_full" (220, 40, 40) 255 g),
   ("Heart empty", fun g => generate_heart env "heart_empty" (120, 120, 120) 100 g),
   ("Score badge", generate_score_badge env),
   ("Game over banner", generate_game_over_banner env),
   ("Gate indicators", generate_gate_indicators env),
   ("Particle effects", generate_particles env)]

/-- Running the whole batch in order, threading the global `random` state
and accumulating every exported bundle. -/
def run_batch (env : PyEnv) (g : MT.RState) : List Bundle × MT.RState :=
  (generators env).foldl (fun acc j => let p := j.2 acc.2; (acc.1 ++ p.1, p.2))
    ([], g)

/-! ## Pixel-level canvas semantics

`Image.new("RGBA", (sw, sh), (0, 0, 0, 0))` starts every pixel fully
transparent; a draw call can only repaint pixels inside the canvas (PIL
clips) and inside the command's geometric footprint.  The compositing
behavior itself (`paint`) belongs to the external library and stays
abstract. -/

/-- A pixel coordinate. -/
abbrev Px := Int × Int

/-- Whether a pixel lies on a `w x h` canvas (PIL clips everything else). -/
def inCanvas (w h : Nat) (p : Px) : Prop :=
  0 ≤ p.1 ∧ p.1 < (w : Int) ∧ 0 ≤ p.2 ∧ p.2 < (h : Int)

instance (w h : Nat) (p : Px) : Decidable (inCanvas w h p) := by
  unfold inCanvas; infer_instance

/-- Pixel containment in the (normalized) hull of a bounding box, padded
by the stroke width. -/
def Box.hullContains (b : Box) (pad : Int) (p : Px) : Bool :=
  decide (min b.x0 b.x1 - pad ≤ p.1) && decide (p.1 ≤ max b.x0 b.x1 + pad) &&
  decide (min b.y0 b.y1 - pad ≤ p.2) && decide (p.2 ≤ max b.y0 b.y1 + pad)

/-- Pixel containment in the padded hull of a point list (empty list: no
footprint). -/
def ptsHull (pts : List Pt) (pad : Int) (p : Px) : Bool :=
  match pts with
  | [] => false
  | q :: qs =>
    let x0 := qs.foldl (fun acc r => min acc r.1) q.1
    let x1 := qs.foldl (fun acc r => max acc r.1) q.1
    let y0 := qs.foldl (fun acc r => min acc r.2) q.2
    let y1 := qs.foldl (fun acc r => max acc r.2) q.2
    decide (x0 - pad ≤ p.1) && decide (p.1 ≤ x1 + pad) &&
    decide (y0 - pad ≤ p.2) && decide (p.2 ≤ y1 + pad)

/-- Conservative footprint of one draw call: the set of pixels the
rasteriser may touch.  Shape commands stay inside the padded hull of
their geometry; text extent depends on the font, so its footprint is
unbounded. -/
def Cmd.touches : Cmd → Px → Bool
  | .ellipse b _ _ w0, p => b.hullContains (w0.getD 1 + 1) p
  | .rectangle b _ _ w0, p => b.hullContains (w0.getD 1 + 1) p
  | .rounded_rectangle b _ _ _ w0, p => b.hullContains (w0.getD 1 + 1) p
  | .arc b _ _ _ w0, p => b.hullContains (w0 + 1) p
  | .line xy _ w0, p => ptsHull xy (w0.getD 0 + 1) p
  | .polygon xy _ _ w0, p => ptsHull xy (w0.getD 1 + 1) p
  | .text _ _ _ _ _, _ => true

/-- Interpret a trace on the canvas: start fully transparent, and let each
command repaint (through the abstract compositing function `paint`) only
the clipped pixels inside its footprint. -/
def render (w h : Nat) (paint : Cmd → Px → Color → Color) (cmds : List Cmd) :
    Px → Color :=
  cmds.foldl
    (fun f c p => if inCanvas w h p ∧ c.touches p then paint c p (f p) else f p)
    (fun _ => [0, 0, 0, 0])

/-- A fixed environment used to instantiate witness theorems: every float
oracle returns 0 and no font file resolves. -/
def env0 : PyEnv :=
  { cowTailX := fun _ _ => 0
    cowTailY1 := fun _ _ => 0
    cowTailY2 := fun _ _ => 0
    drownWave := fun _ _ => 0
    gradChan := fun _ _ _ _ => 0
    waveY := fun _ _ _ => 0
    cosR := fun _ _ => 0
    sinR := fun _ _ => 0
    mulRat := fun _ _ => 0
    fontAvail := fun _ => false }

/-! ## Helper lemmas -/

/-- Folding the render step over commands that miss a pixel leaves the
accumulated surface unchanged at that pixel. -/
theorem render_foldl_skip (w h : Nat) (paint : Cmd → Px → Color → Color)
    (cmds : List Cmd) (p : Px) (f0 : Px → Color)
    (hc : ∀ c ∈ cmds, ¬ (inCanvas w h p ∧ c.touches p)) :
    cmds.foldl
      (fun f c p => if inCanvas w h p ∧ c.touches p then paint c p (f p) else f p)
      f0 p = f0 p := by
  induction cmds generalizing f0 with
  | nil => rfl
  | cons c cs ih =>
    have hskip := hc c (List.Mem.head _)
    simp only [List.foldl_cons]
    rw [ih _ (fun c2 h2 => hc c2 (List.Mem.tail _ h2))]
    simp [if_neg hskip]

/-- C2: for base dimensions (W, H) the pipeline draws on a canvas of
exactly (W*4, H*4), LANCZOS-resamples it down to exactly (W, H) for the
@3x base image, and derives the @2x file by LANCZOS-filtering that
already-resampled base image again — the @2x resize node's source is the
base image, not the supersampled canvas. -/
theorem C2_two_stage_resampling (w3x h3x : Nat)
    (draw_func : Int → Int → Int → MT.RState → List Cmd × MT.RState)
    (g : MT.RState) (name : String) :
    (∃ trace, (supersample_draw w3x h3x draw_func g).1 =
        Img.resize (Img.canvas "RGBA" (w3x * 4) (h3x * 4) [0, 0, 0, 0] trace)
          w3x h3x .LANCZOS)
    ∧ (save_asset (supersample_draw w3x h3x draw_func g).1 name).files =
        [(name ++ "@3x.png", (supersample_draw w3x h3x draw_func g).1),
         (name ++ "@2x.png",
          Img.resize (supersample_draw w3x h3x draw_func g).1
            (w3x * 2 / 3) (h3x * 2 / 3) .LANCZOS)] :=
  ⟨⟨(draw_func (w3x * 4 : Nat) (h3x * 4 : Nat) 4 g).1, rfl⟩, rfl⟩

/-- C3: the exported @2x variant of a base image of size (W, H) measures
exactly floor(W*2/3) x floor(H*2/3); `int(w * 2 / 3)` truncates the
nonnegative float quotient, i.e. takes the rational floor, which is `Nat`
division. -/
theorem C3_variant_dimensions (img : Img) (name : String) :
    ((save_asset img name).files.map (fun f => (f.1, f.2.width, f.2.height))) =
      [(name ++ "@3x.png", img.width, img.height),
       (name ++ "@2x.png", img.width * 2 / 3, img.height * 2 / 3)]
    ∧ img.width * 2 / 3 = ⌊((img.width : ℚ) * 2 / 3)⌋₊
    ∧ img.height * 2 / 3 = ⌊((img.height : ℚ) * 2 / 3)⌋₊ := by
  refine ⟨rfl, ?_, ?_⟩
  · rw [show ((img.width : ℚ) * 2 / 3) = ((img.width * 2 : ℕ) : ℚ) / ((3 : ℕ) : ℚ) by push_cast; ring]
    rw [Nat.floor_div_eq_div]
  · rw [show ((img.height : ℚ) * 2 / 3) = ((img.height * 2 : ℕ) : ℚ) / ((3 : ℕ) : ℚ) by push_cast; ring]
    rw [Nat.floor_div_eq_div]

/-- C7: text drawing resolves its font by trying Helvetica, then
SFNSDisplay (each `ImageFont.truetype` failure raised as `OSError` is
caught locally), and falls back to the built-in default bitmap font when
both candidates fail, so resolution always returns a font and never
propagates the failure. -/
theorem C7_font_fallback (env : PyEnv) (fs : Int) :
    resolve_font env fs =
      (if env.fontAvail helveticaPath then PFont.truetype helveticaPath fs
       else if env.fontAvail sfnsPath then PFont.truetype sfnsPath fs
       else PFont.load_default)
    ∧ (env.fontAvail helveticaPath = false → env.fontAvail sfnsPath = false →
        resolve_font env fs = PFont.load_default) := by
  constructor
  · unfold resolve_font truetype
    by_cases h1 : env.fontAvail helveticaPath <;>
      by_cases h2 : env.fontAvail sfnsPath <;> simp [h1, h2]
  · intro h1 h2
    unfold resolve_font truetype
    simp [h1, h2]

/-- Witness for C7: with no font file available, resolution returns the
default font. -/
theorem C7_font_fallback_witness :
    env0.fontAvail helveticaPath = false ∧ env0.fontAvail sfnsPath = false ∧
      resolve_font env0 10 = PFont.load_default :=
  ⟨rfl, rfl, (C7_font_fallback env0 10).2 rfl rfl⟩

/-- C8: every export writes the bundle directory `<name>.imageset` with
exactly the two raster files `<name>@3x.png` and `<name>@2x.png` and a
manifest with exactly the two universal-idiom entries at scales 2x and 3x
plus author/version info; the heart at base 84 x 78 concretely yields two
variants at 84 x 78 and 56 x 52. -/
theorem C8_bundle_shape (env : PyEnv) (g : MT.RState) :
    (∀ (img : Img) (name : String),
      (save_asset img name).dir = name ++ ".imageset"
      ∧ (save_asset img name).files.map Prod.fst =
          [name ++ "@3x.png", name ++ "@2x.png"]
      ∧ (save_asset img name).manifest =
          ⟨[⟨name ++ "@2x.png", "universal", "2x"⟩,
            ⟨name ++ "@3x.png", "universal", "3x"⟩], ⟨"xcode", 1⟩⟩)
    ∧ (generate_heart env "heart_full" (220, 40, 40) 255 g).1.map (fun b =>
        (b.dir, b.manifest.images.length,
         b.files.map (fun f => (f.1, f.2.width, f.2.height)))) =
      [("heart_full.imageset", 2,
        [("heart_full@3x.png", 84, 78), ("heart_full@2x.png", 56, 52)])] :=
  ⟨fun img name => ⟨rfl, rfl, rfl⟩,
   by simp [generate_heart, supersample_draw, save_asset, ensure_imageset,
     Img.width, Img.height]⟩


/-- C10: the supersampled canvas is created in RGBA mode filled with
transparent black before any draw call; a pixel missed by every command's
footprint — or lying outside the canvas, since PIL clips — keeps the
initial (0,0,0,0); and the pipeline's result has exactly the requested
base dimensions and RGBA mode, whatever the draw function paints. -/
theorem C10_transparent_canvas (w3x h3x : Nat)
    (draw_func : Int → Int → Int → MT.RState → List Cmd × MT.RState)
    (g : MT.RState) :
    (∃ trace, (supersample_draw w3x h3x draw_func g).1 =
        Img.resize (Img.canvas "RGBA" (w3x * 4) (h3x * 4) [0, 0, 0, 0] trace)
          w3x h3x .LANCZOS)
    ∧ (supersample_draw w3x h3x draw_func g).1.width = w3x
    ∧ (supersample_draw w3x h3x draw_func g).1.height = h3x
    ∧ (supersample_draw w3x h3x draw_func g).1.mode = "RGBA"
    ∧ (∀ (w h : Nat) (paint : Cmd → Px → Color → Color) (p : Px),
        render w h paint [] p = [0, 0, 0, 0])
    ∧ (∀ (w h : Nat) (paint : Cmd → Px → Color → Color) (cmds : List Cmd) (p : Px),
        (∀ c ∈ cmds, c.touches p = false) →
          render w h paint cmds p = [0, 0, 0, 0])
    ∧ (∀ (w h : Nat) (paint : Cmd → Px → Color → Color) (cmds : List Cmd) (p : Px),
        ¬ inCanvas w h p → render w h paint cmds p = [0, 0, 0, 0]) := by
  refine ⟨⟨(draw_func (w3x * 4 : Nat) (h3x * 4 : Nat) 4 g).1, rfl⟩, rfl, rfl, rfl,
    fun w h paint p => rfl, ?_, ?_⟩
  · intro w h paint cmds p hc
    exact render_foldl_skip w h paint cmds p _
      (fun c hm hand => by simp [hc c hm] at hand)
  · intro w h paint cmds p hp
    exact render_foldl_skip w h paint cmds p _ (fun c hm hand => hp hand.1)

/-- Witness for C10's conditional clauses: a single out-of-footprint,
out-of-canvas pixel under a concrete command list stays transparent. -/
theorem C10_transparent_canvas_witness :
    ((∀ c ∈ [Cmd.rectangle ⟨0, 0, 4, 4⟩ (some [1, 2, 3]) none none],
        c.touches (100, 100) = false)
     ∧ render 8 8 (fun _ _ _ => [9, 9, 9, 9])
         [Cmd.rectangle ⟨0, 0, 4, 4⟩ (some [1, 2, 3]) none none] (100, 100)
         = [0, 0, 0, 0])
    ∧ (¬ inCanvas 8 8 (-1, 0)
       ∧ render 8 8 (fun _ _ _ => [9, 9, 9, 9]) [] (-1, 0) = [0, 0, 0, 0]) :=
  ⟨⟨by decide,
    ((C10_transparent_canvas 1 1 (fun _ _ _ g0 => ([], g0)) (MT.seed 0)).2.2.2.2.2.1
      8 8 (fun _ _ _ => [9, 9, 9, 9]) _ (100, 100) (by decide))⟩,
   ⟨by decide,
    ((C10_transparent_canvas 1 1 (fun _ _ _ g0 => ([], g0)) (MT.seed 0)).2.2.2.2.2.2
      8 8 (fun _ _ _ => [9, 9, 9, 9]) [] (-1, 0) (by decide))⟩⟩


/-- C1: every generator in the batch reseeds the global pseudorandom
stream (from its variant/frame index where it has one, from a fixed
constant otherwise) before its first draw from the stream, so the sprites
it produces are independent of the incoming `random` state: two runs from
any two states generate identical bundles (byte-identical pixel data under
any deterministic rasteriser, since every draw command agrees). -/
theorem C1_determinism (env : PyEnv)
    (j : String × (MT.RState → List Bundle × MT.RState))
    (hj : j ∈ generators env) (g g' : MT.RState) :
    (j.2 g).1 = (j.2 g').1 := by
  simp only [generators, List.mem_cons, List.not_mem_nil, or_false] at hj
  rcases hj with rfl|rfl|rfl|rfl|rfl|rfl|rfl|rfl|rfl|rfl|rfl|rfl|rfl|rfl|rfl|rfl|rfl|rfl|rfl|rfl|rfl <;> rfl

/-- Witness for C1: the cow-walk job from the batch table, run from two
different entry states. -/
theorem C1_determinism_witness :
    (("Cow walk sprites", generate_cow_walk env0) ∈ generators env0)
    ∧ ((("Cow walk sprites", generate_cow_walk env0)).2 (MT.seed 0)).1
        = ((("Cow walk sprites", generate_cow_walk env0)).2 (MT.seed 1)).1 :=
  ⟨List.Mem.head _,
   C1_determinism env0 _ (List.Mem.head _) (MT.seed 0) (MT.seed 1)⟩

/-- Membership in a unit-step `rangeStepLoop` with enough fuel. -/
theorem mem_rangeStepLoop1 (stop : Int) (fuel : Nat) (cur x : Int)
    (hf : stop - cur ≤ (fuel : Int)) :
    x ∈ rangeStepLoop stop 1 fuel cur ↔ cur ≤ x ∧ x < stop := by
  induction fuel generalizing cur with
  | zero =>
    simp only [rangeStepLoop, List.not_mem_nil, false_iff]
    omega
  | succ f ih =>
    by_cases hc : cur < stop
    · rw [rangeStepLoop, if_pos hc]
      rw [List.mem_cons, ih (cur + 1) (by omega)]
      omega
    · rw [rangeStepLoop, if_neg hc]
      simp only [List.not_mem_nil, false_iff]
      omega

/-- Membership in the inclusive integer interval `intRange a b`
(Python `range(a, b + 1)`). -/
theorem mem_intRange {a b x : Int} : x ∈ intRange a b ↔ a ≤ x ∧ x ≤ b := by
  unfold intRange rangeStep
  rw [mem_rangeStepLoop1 (b + 1) _ a x (by omega)]
  omega

/-- C4 counterexample: `outlined_ellipse` performs no normalization — on
an inverted bounding box it emits the two underlying ellipse calls with
the bounds passed through unswapped; the fill call's box is exactly the
inverted input, whose left edge 100 is not ≤ its right edge 0. -/
theorem C4_counterexample :
    outlined_ellipse ⟨100, 100, 0, 0⟩ [255, 255, 255] [40, 40, 40] 2 4 =
      [Cmd.ellipse ⟨92, 92, 8, 8⟩ (some [40, 40, 40]) none none,
       Cmd.ellipse ⟨100, 100, 0, 0⟩ (some [255, 255, 255]) none none]
    ∧ ¬ ((100 : Int) ≤ 0) := ⟨by decide, by decide⟩

/-- C4 amended: the shape primitives forward their bounding boxes to the
underlying library calls unchanged — no bound swapping and no radius
clamping, so inverted or degenerate boxes reach the library as passed —
while a polyline with fewer than two points is dropped by the explicit
`if len(points) > 1` call-site guard and contributes no draw call at all. -/
theorem C4_amended (b : Box) (f o : Color) (ow s : Int)
    (env : PyEnv) (w h s2 : Int) (phase : ℚ)
    (hw : (rangeStep 0 w (4 * s2)).length ≤ 1) :
    (outlined_ellipse b f o ow s).getLast? =
        some (Cmd.ellipse b (some f) none none)
    ∧ (outlined_rect b f o ow s).getLast? =
        some (Cmd.rounded_rectangle b (2 * s) (some f) none none)
    ∧ ditch_waves env w h s2 phase = [] := by
  refine ⟨rfl, rfl, ?_⟩
  unfold ditch_waves
  refine List.flatMap_eq_nil_iff.mpr ?_
  intro wy_base _
  unfold ditch_wave_row
  simp only [List.length_map]
  rw [if_neg (by omega)]

/-- Witness for C4's amended statement at a degenerate wave row (width 0
gives a zero-point polyline, which draws nothing). -/
theorem C4_amended_witness :
    (rangeStep 0 0 16).length ≤ 1
    ∧ ((outlined_ellipse ⟨1, 2, 3, 4⟩ [9] [8] 2 4).getLast? =
          some (Cmd.ellipse ⟨1, 2, 3, 4⟩ (some [9]) none none)
       ∧ (outlined_rect ⟨1, 2, 3, 4⟩ [9] [8] 2 4).getLast? =
          some (Cmd.rounded_rectangle ⟨1, 2, 3, 4⟩ 8 (some [9]) none none)
       ∧ ditch_waves env0 0 24 4 (21 / 10) = []) :=
  ⟨by decide, C4_amended ⟨1, 2, 3, 4⟩ [9] [8] 2 4 env0 0 24 4 (21 / 10) (by decide)⟩

/-- C6 counterexample: with outline width 1 the code stamps the outline at
the diagonal offset (1, 1) as well, although 1² + 1² = 2 exceeds ow² = 1 —
the halo set is strictly larger than the claimed disk of radius ow. -/
theorem C6_counterexample :
    Cmd.text (1, 1) "A" PFont.load_default [0, 0, 0] "mm"
      ∈ draw_text_outlined env0 (0, 0) "A" 10 [9, 9, 9] [0, 0, 0] 1 1
    ∧ ¬ ((1 : Int) * 1 + 1 * 1 ≤ 1 * 1) := ⟨by decide, by decide⟩

/-- C6 amended: the outlined-text trace is the outline-color stamps at
exactly the integer offsets (dx, dy) with dx² + dy² ≤ ow² + 1 (the code's
condition — a disk slightly larger than radius ow), followed by one final
fill-color stamp at the anchor. -/
theorem C6_amended (env : PyEnv) (pos : Pt) (content : String) (fs : Int)
    (fill oc : Color) (ow s : Int) (how : 1 ≤ ow) :
    ((draw_text_outlined env pos content fs fill oc ow s).getLast? =
        some (Cmd.text pos content (resolve_font env fs) fill "mm"))
    ∧ ∀ dx dy : Int,
        (Cmd.text (pos.1 + dx, pos.2 + dy) content (resolve_font env fs) oc "mm"
          ∈ (draw_text_outlined env pos content fs fill oc ow s).dropLast)
        ↔ dx * dx + dy * dy ≤ ow * ow + 1 := by
  unfold draw_text_outlined
  refine ⟨List.getLast?_concat _, ?_⟩
  intro dx dy
  rw [List.dropLast_concat]
  constructor
  · intro hmem
    rcases List.mem_flatMap.mp hmem with ⟨dx2, hdx2, hdy⟩
    rcases List.mem_filterMap.mp hdy with ⟨dy2, hdy2, heq⟩
    by_cases hc : dx2 * dx2 + dy2 * dy2 ≤ ow * ow + 1
    · rw [if_pos hc] at heq
      simp only [Option.some.injEq, Cmd.text.injEq, Prod.mk.injEq] at heq
      have hdxe : dx2 = dx := by omega
      have hdye : dy2 = dy := by omega
      rw [hdxe, hdye] at hc
      exact hc
    · rw [if_neg hc] at heq
      exact absurd heq (by simp)
  · intro hsum
    have hdx : -ow ≤ dx ∧ dx ≤ ow := by
      constructor <;> nlinarith [mul_self_nonneg dy, mul_self_nonneg (dx + ow), mul_self_nonneg (dx - ow)]
    have hdy : -ow ≤ dy ∧ dy ≤ ow := by
      constructor <;> nlinarith [mul_self_nonneg dx, mul_self_nonneg (dy + ow), mul_self_nonneg (dy - ow)]
    exact List.mem_flatMap.mpr ⟨dx, mem_intRange.mpr ⟨hdx.1, hdx.2⟩,
      List.mem_filterMap.mpr ⟨dy, mem_intRange.mpr ⟨hdy.1, hdy.2⟩, by rw [if_pos hsum]⟩⟩

/-- Witness for C6's amended statement at ow = 1: the diagonal offset
(1, 1) satisfies the code's enlarged-disk condition and is stamped. -/
theorem C6_amended_witness :
    ((1 : Int) ≤ 1)
    ∧ ((Cmd.text ((0 : Int) + 1, (0 : Int) + 1) "A" (resolve_font env0 10) [0, 0, 0] "mm"
        ∈ (draw_text_outlined env0 (0, 0) "A" 10 [9, 9, 9] [0, 0, 0] 1 1).dropLast)
       ↔ (1 : Int) * 1 + 1 * 1 ≤ 1 * 1 + 1) :=
  ⟨by decide,
   (C6_amended env0 (0, 0) "A" 10 [9, 9, 9] [0, 0, 0] 1 1 (by decide)).2 1 1⟩

/-! ## Channel-range predicates (C9) -/

/-- A channel value lies in the valid byte range. -/
def chanOk (c : Int) : Prop := 0 ≤ c ∧ c ≤ 255

instance : DecidablePred chanOk := fun c => by unfold chanOk; infer_instance

/-- Every channel of a color tuple lies in [0, 255]. -/
def colorOk (col : Color) : Prop := ∀ c ∈ col, chanOk c

instance : DecidablePred colorOk := fun col => List.decidableBAll _ col

/-- Channel range for an optional color argument. -/
def optColorOk : Option Color → Prop
  | none => True
  | some col => colorOk col

instance : DecidablePred optColorOk := fun o => by
  cases o <;> · dsimp [optColorOk]; infer_instance

/-- Every color argument of one draw call is channel-in-range. -/
def cmdColorsOk : Cmd → Prop
  | .ellipse _ f o _ => optColorOk f ∧ optColorOk o
  | .rectangle _ f o _ => optColorOk f ∧ optColorOk o
  | .rounded_rectangle _ _ f o _ => optColorOk f ∧ optColorOk o
  | .line _ f _ => colorOk f
  | .polygon _ f o _ => optColorOk f ∧ optColorOk o
  | .arc _ _ _ f _ => colorOk f
  | .text _ _ _ f _ => colorOk f

instance : DecidablePred cmdColorsOk := fun c => by
  cases c <;> · dsimp [cmdColorsOk]; infer_instance

/-- Every color of every command of a trace is channel-in-range. -/
def traceColorsOk (t : List Cmd) : Prop := ∀ c ∈ t, cmdColorsOk c

instance : DecidablePred traceColorsOk := fun t => List.decidableBAll _ t

/-- The rejection loop's result is always below the bound. -/
theorem randbelowLoop_lt (n k : Nat) (fuel : Nat) (g : MT.RState) (hn : 0 < n) :
    (MT.randbelowLoop n k fuel g).1 < n := by
  induction fuel generalizing g with
  | zero => exact hn
  | succ f ih =>
    rw [MT.randbelowLoop]
    split
    · assumption
    · exact ih _

/-- `randint(a, b)` stays within its inclusive bounds. -/
theorem randint_bounds (a b : Int) (g : MT.RState) (hab : a ≤ b) :
    a ≤ (MT.randint a b g).1 ∧ (MT.randint a b g).1 ≤ b := by
  unfold MT.randint MT.randbelow
  have h := randbelowLoop_lt (b + 1 - a).toNat
    (MT.bitLength (b + 1 - a).toNat) 1000 g (by omega)
  constructor
  · simp only
    omega
  · simp only
    omega

/-- Every color stamped by `draw_text_outlined` is the given outline color
or the given fill color. -/
theorem draw_text_outlined_colors (env : PyEnv) (pos : Pt) (content : String)
    (fs : Int) (fill oc : Color) (ow s : Int)
    (hf : colorOk fill) (ho : colorOk oc) :
    traceColorsOk (draw_text_outlined env pos content fs fill oc ow s) := by
  intro c hc
  unfold draw_text_outlined at hc
  rcases List.mem_append.mp hc with h | h
  · rcases List.mem_flatMap.mp h with ⟨dx, _, hdy⟩
    rcases List.mem_filterMap.mp hdy with ⟨dy, _, heq⟩
    by_cases hcnd : dx * dx + dy * dy ≤ ow * ow + 1
    · rw [if_pos hcnd] at heq
      cases heq
      exact ho
    · rw [if_neg hcnd] at heq
      exact absurd heq (by simp)
  · rw [List.mem_singleton] at h
    subst h
    exact hf

/-- Adding a seeded jitter to a base channel stays in byte range when both
extreme offsets do. -/
theorem chan_add_randint (base a b : Int) (g : MT.RState) (hab : a ≤ b)
    (h1 : 0 ≤ base + a) (h2 : base + b ≤ 255) :
    chanOk (base + (MT.randint a b g).1) := by
  have := randint_bounds a b g hab
  unfold chanOk
  omega

/-- Every jittered grass-blade color of `generate_background_grass` is
channel-in-range: the jitter is `randint(-20, 20)` on bases 60/160/30. -/
theorem grass_blades_colors (w h s : Int) (n : Nat) (g0 : MT.RState) :
    traceColorsOk (grass_blades w h s n g0).1 := by
  induction n generalizing g0 with
  | zero =>
    intro c hc
    simp [grass_blades] at hc
  | succ m ih =>
    intro c hc
    rw [grass_blades] at hc
    simp only [List.mem_cons] at hc
    rcases hc with rfl | hrest
    · dsimp only [cmdColorsOk]
      intro ch hch
      simp only [List.mem_cons, List.not_mem_nil, or_false] at hch
      rcases hch with rfl | rfl | rfl | rfl
      · exact chan_add_randint 60 (-20) 20 _ (by norm_num) (by norm_num) (by norm_num)
      · exact chan_add_randint 160 (-20) 20 _ (by norm_num) (by norm_num) (by norm_num)
      · exact chan_add_randint 30 (-20) 20 _ (by norm_num) (by norm_num) (by norm_num)
      · exact ⟨by norm_num, by norm_num⟩
    · exact ih _ c hrest

/-- Every jittered dirt-texture color of `generate_ditch_edge` is
channel-in-range: the jitter is `randint(-20, 20)` on bases 100/60/30. -/
theorem edge_texture_colors (w h s : Int) (n : Nat) (g0 : MT.RState) :
    traceColorsOk (edge_texture w h s n g0).1 := by
  induction n generalizing g0 with
  | zero =>
    intro c hc
    simp [edge_texture] at hc
  | succ m ih =>
    intro c hc
    rw [edge_texture] at hc
    simp only [List.mem_cons] at hc
    rcases hc with rfl | hrest
    · dsimp only [cmdColorsOk, optColorOk]
      refine ⟨?_, trivial⟩
      intro ch hch
      simp only [List.mem_cons, List.not_mem_nil, or_false] at hch
      rcases hch with rfl | rfl | rfl
      · exact chan_add_randint 100 (-20) 20 _ (by norm_num) (by norm_num) (by norm_num)
      · exact chan_add_randint 60 (-20) 20 _ (by norm_num) (by norm_num) (by norm_num)
      · exact chan_add_randint 30 (-20) 20 _ (by norm_num) (by norm_num) (by norm_num)
    · exact ih _ c hrest

/-- An empty color tuple is vacuously in range. -/
theorem colorOk_nil : colorOk [] := fun c hc => absurd hc (List.not_mem_nil c)

/-- Extend an in-range color tuple by an in-range channel. -/
theorem colorOk_cons (c : Int) (col : Color) (h1 : chanOk c) (h2 : colorOk col) :
    colorOk (c :: col) := by
  intro ch hch
  rcases List.mem_cons.mp hch with rfl | hm
  · exact h1
  · exact h2 ch hm

/-- `max(0, x)` is in range when `x ≤ 255`. -/
theorem chanOk_max0 (x : Int) (h : x ≤ 255) : chanOk (max 0 x) :=
  ⟨le_max_left 0 x, max_le (by norm_num) h⟩

/-- `min(255, x)` is in range when `0 ≤ x`. -/
theorem chanOk_min255 (x : Int) (h : 0 ≤ x) : chanOk (min 255 x) :=
  ⟨le_min (by norm_num) h, min_le_left 255 x⟩

/-- C9: every derived color channel stays in [0, 255] — the button's
`max(0, c-40)` outline and `min(255, c+40)` highlight, the heart's
`max(0, c-60)` outline and halved highlight alpha, the gate indicator's
`min(255, c+80)` highlight, and the seed-jittered grass-blade and
dirt-texture decoration colors, for every pseudorandom state. -/
theorem C9_channel_clamping :
    (∀ (env : PyEnv) (btext : String) (r g b w h s : Int),
      chanOk r → chanOk g → chanOk b →
      traceColorsOk (draw_button env btext (r, g, b) w h s))
    ∧ (∀ (env : PyEnv) (r g b alpha w h s : Int),
      chanOk r → chanOk g → chanOk b → chanOk alpha →
      traceColorsOk (draw_heart env (r, g, b) alpha w h s))
    ∧ (∀ (env : PyEnv) (r g b w h s : Int),
      chanOk r → chanOk g → chanOk b →
      traceColorsOk (draw_gate_indicator env (r, g, b) w h s))
    ∧ (∀ (w h s : Int) (n : Nat) (g0 : MT.RState),
      traceColorsOk (grass_blades w h s n g0).1)
    ∧ (∀ (w h s : Int) (n : Nat) (g0 : MT.RState),
      traceColorsOk (edge_texture w h s n g0).1) := by
  refine ⟨?_, ?_, ?_, grass_blades_colors, edge_texture_colors⟩
  · intro env btext r g b w h s hr hg hb
    obtain ⟨hr1, hr2⟩ := hr
    obtain ⟨hg1, hg2⟩ := hg
    obtain ⟨hb1, hb2⟩ := hb
    intro c hc
    unfold draw_button at hc
    rcases List.mem_append.mp hc with h | h
    · simp only [List.mem_cons, List.not_mem_nil, or_false] at h
      rcases h with rfl | rfl | rfl
      · exact ⟨by decide, trivial⟩
      · refine ⟨?_, ?_⟩
        · exact colorOk_cons _ _ ⟨hr1, hr2⟩
            (colorOk_cons _ _ ⟨hg1, hg2⟩
              (colorOk_cons _ _ ⟨hb1, hb2⟩ colorOk_nil))
        · exact colorOk_cons _ _ (chanOk_max0 _ (by omega))
            (colorOk_cons _ _ (chanOk_max0 _ (by omega))
              (colorOk_cons _ _ (chanOk_max0 _ (by omega)) colorOk_nil))
      · refine ⟨?_, trivial⟩
        exact colorOk_cons _ _ (chanOk_min255 _ (by omega))
          (colorOk_cons _ _ (chanOk_min255 _ (by omega))
            (colorOk_cons _ _ (chanOk_min255 _ (by omega))
              (colorOk_cons _ _ ⟨by norm_num, by norm_num⟩ colorOk_nil)))
    · exact draw_text_outlined_colors env _ btext (40 * s) [255, 255, 255]
        [0, 0, 0, 180] (3 * s) s (by decide) (by decide) c h
  · intro env r g b alpha w h s hr hg hb ha
    obtain ⟨hr1, hr2⟩ := hr
    obtain ⟨hg1, hg2⟩ := hg
    obtain ⟨hb1, hb2⟩ := hb
    obtain ⟨ha1, ha2⟩ := ha
    have hd : 0 ≤ pydiv alpha 2 ∧ pydiv alpha 2 ≤ 255 := by
      unfold pydiv
      rw [Int.fdiv_eq_ediv]
      refine ⟨by omega, by omega⟩
      omega
    have hbody : colorOk [r, g, b, alpha] :=
      colorOk_cons _ _ ⟨hr1, hr2⟩
        (colorOk_cons _ _ ⟨hg1, hg2⟩
          (colorOk_cons _ _ ⟨hb1, hb2⟩
            (colorOk_cons _ _ ⟨ha1, ha2⟩ colorOk_nil)))
    have hout : colorOk [max 0 (r - 60), max 0 (g - 60), max 0 (b - 60), alpha] :=
      colorOk_cons _ _ (chanOk_max0 _ (by omega))
        (colorOk_cons _ _ (chanOk_max0 _ (by omega))
          (colorOk_cons _ _ (chanOk_max0 _ (by omega))
            (colorOk_cons _ _ ⟨ha1, ha2⟩ colorOk_nil)))
    intro c hc
    unfold draw_heart at hc
    simp only [List.mem_cons, List.not_mem_nil, or_false] at hc
    rcases hc with rfl | rfl | rfl | rfl | rfl | rfl
    · exact ⟨hbody, trivial⟩
    · exact ⟨hbody, trivial⟩
    · exact ⟨hbody, trivial⟩
    · exact ⟨trivial, hout⟩
    · exact ⟨trivial, hout⟩
    · refine ⟨?_, trivial⟩
      exact colorOk_cons _ _ ⟨by norm_num, by norm_num⟩
        (colorOk_cons _ _ ⟨by norm_num, by norm_num⟩
          (colorOk_cons _ _ ⟨by norm_num, by norm_num⟩
            (colorOk_cons _ _ (chanOk_min255 _ hd.1) colorOk_nil)))
  · intro env r g b w h s hr hg hb
    obtain ⟨hr1, hr2⟩ := hr
    obtain ⟨hg1, hg2⟩ := hg
    obtain ⟨hb1, hb2⟩ := hb
    intro c hc
    unfold draw_gate_indicator at hc
    simp only [List.mem_cons, List.not_mem_nil, or_false] at hc
    rcases hc with rfl | rfl | rfl
    · exact ⟨by decide, by decide⟩
    · refine ⟨?_, trivial⟩
      exact colorOk_cons _ _ ⟨hr1, hr2⟩
        (colorOk_cons _ _ ⟨hg1, hg2⟩
          (colorOk_cons _ _ ⟨hb1, hb2⟩ colorOk_nil))
    · refine ⟨?_, trivial⟩
      exact colorOk_cons _ _ (chanOk_min255 _ (by omega))
        (colorOk_cons _ _ (chanOk_min255 _ (by omega))
          (colorOk_cons _ _ (chanOk_min255 _ (by omega))
            (colorOk_cons _ _ ⟨by norm_num, by norm_num⟩ colorOk_nil)))

/-- Witness for C9 at the play button's color, the full heart, the open
indicator, and one seeded blade/texture draw. -/
theorem C9_channel_clamping_witness :
    (chanOk 60 ∧ chanOk 180 ∧ chanOk 255)
    ∧ traceColorsOk (draw_button env0 "PLAY" (60, 180, 60) 2400 720 4)
    ∧ traceColorsOk (draw_heart env0 (220, 40, 40) 255 336 312 4)
    ∧ traceColorsOk (draw_gate_indicator env0 (40, 200, 40) 192 192 4)
    ∧ traceColorsOk (grass_blades 2048 2048 4 1 (MT.seed 7)).1
    ∧ traceColorsOk (edge_texture 2048 96 4 1 (MT.seed 55)).1 :=
  ⟨⟨by decide, by decide, by decide⟩,
   C9_channel_clamping.1 env0 "PLAY" 60 180 60 2400 720 4
     (by decide) (by decide) (by decide),
   (C9_channel_clamping.2.1) env0 220 40 40 255 336 312 4
     (by decide) (by decide) (by decide) (by decide),
   (C9_channel_clamping.2.2.1) env0 40 200 40 192 192 4
     (by decide) (by decide) (by decide),
   (C9_channel_clamping.2.2.2.1) 2048 2048 4 1 (MT.seed 7),
   (C9_channel_clamping.2.2.2.2) 2048 96 4 1 (MT.seed 55)⟩

/-- Splitting the fuel of the first `init_by_array` mixing loop composes. -/
theorem MT.ibaIter1_add (key : List Nat) (kl n m : Nat) (t : Nat × Nat × Nat) :
    MT.ibaIter1 key kl (n + m) t =
      MT.ibaIter1 key kl n (MT.ibaIter1 key kl m t) := by
  induction m generalizing t with
  | zero => rfl
  | succ k ih => exact ih (MT.ibaStep1 key kl t)

/-- Splitting the fuel of the second `init_by_array` mixing loop composes. -/
theorem MT.ibaIter2_add (n m : Nat) (t : Nat × Nat) :
    MT.ibaIter2 (n + m) t = MT.ibaIter2 n (MT.ibaIter2 m t) := by
  induction m generalizing t with
  | zero => rfl
  | succ k ih => exact ih (MT.ibaStep2 t)

/-- Unfolding `init_by_array` to its loop pipeline without reducing any
projection. -/
theorem init_by_array_eq (key : List Nat) :
    MT.init_by_array key = MT.setw (MT.ibaLoop2 623
      (MT.ibaLoop1 key key.length 624 1 0 (MT.init_genrand 19650218)).1
      (MT.ibaLoop1 key key.length 624 1 0 (MT.init_genrand 19650218)).2)
      0 2147483648 := rfl

/-- The index component of the first mixing loop, as an iterate. -/
theorem ibaLoop1_fst (key : List Nat) (kl fuel i j a : Nat) :
    (MT.ibaLoop1 key kl fuel i j a).1 =
      (MT.ibaIter1 key kl fuel (i, j, a)).1 := rfl

/-- The state component of the first mixing loop, as an iterate. -/
theorem ibaLoop1_snd (key : List Nat) (kl fuel i j a : Nat) :
    (MT.ibaLoop1 key kl fuel i j a).2 =
      (MT.ibaIter1 key kl fuel (i, j, a)).2.2 := rfl

/-- The second mixing loop, as an iterate. -/
theorem ibaLoop2_eq (fuel i a : Nat) :
    MT.ibaLoop2 fuel i a = (MT.ibaIter2 fuel (i, a)).2 := rfl

/-- Length of the one-word seed keys used by the generators. -/
theorem key_one_length (n : Nat) : List.length [n] = 1 := rfl

set_option maxRecDepth 1000000 in
set_option exponentiation.threshold 100000 in
/-- Literal value of the MT19937 state filled by `init_genrand 19650218`,
the fixed starting point of `init_by_array`. -/
theorem init_genrand_ref_lit : MT.init_genrand 19650218 =
    62685089405509111925910797243914719854890513935494713084094713797279779630627496305943786046941309007281293105221577504421353501605599255248785149356818580886163074212016138319710181437623915839386196989339984175865611290932895638485827512283879634622589907034847096838980553398268338905605705315464924834076955485269257682765843392777664062904318116756644819538761883164862381873685805923051342196114892111881287659915424456096361326051748180740843339721465950121631833352165428366344241754810081140762710579390137795215443629123183303201044796731629341661542390258966032612552126580439913324626563213547393121217728067632048719897064596438939163041106934301355643192260261867872030533878188557727018817797219012064641958276099544136480610826250078810896212505254064619595899307426216931651016613164877613570296351724055264357110051005104450572173606849938075379012356137114572525910752676385589168436483206759652170097284388598518122222819376116616668668677988651997615236221431416155794821321118852088948452164682783715959922435191327367306488124638818446090532334864386359317233873012285172875896330714873881780586230596002778688422250420590175698633544778262136505069053046737202152515000629854634631225453245996997340762744567896897683212149150732909707719966588817675821630380251456266588599804209831660991462715440400663143017564651072677052296295930367391822676512661642282350234567553218318066651318510488484545671729568971887621684270732981974442582657502555066960418690332945218280990034155505553171409775830458482159957769211244505225186771766058316021949327301666418107251589707938065072144733816368743637495699897181007119363672460040974223449086641663004605507793014252452324150238463715514559124307431648478948480649031081489229583165223570218974125422263886587593014744330199975749832650568652404661542746543584685860761547297457070273167102314576665676644281998277713093924236551494770138725647883566971887853912300960949802636372591951717316415323846182747445131420005722224687602711525724505110953736568981699982016588947035894059736087136235396798804019434387781559696138411966704777989194870090051835909943079457649936020314680876367897457337488804889342331824364904005266943816631681518612047693872607083945336048154993001716858914072302230374294986610531277637599664647525761147514008899238689946802093944865612982597431648203028809043429562401771290925843222821220221381984318518256971016750121270624021542153515130386081256853244444367484914891752438843250797295149886721543902585582757118492217204960123203770309672216674331373413106027454841661967870247822106376003696537006476355273043676224973894002060133928765135363584693312631060562155459381152426642778209514491263275588735458188352331628933634618912177576995916817414488324819680108333628484452298807271017999262374749573133359090629722111402666396222385680310709557844049479865847370371052888681758484468279513921172987571336140289500145715018352119752770038578015899178947425013401300127437407370742417936980607757405410607208376626705322894782663757703548808362869195819947150150865798288136994832911439410269353230208345410503242199606186650417333579047848825834242257112060317620885151293421378661990197161958015730358249113963865616811805417654957899792836277351433146683316643158745577273742588847277405020330699298979666450169324546781433015633218213248018986767013905101885085728066131985273947793365444250280947765884488609302913437528001802423347517836456663978922564542901160075954132077499502061844004777463229898312792357201472450520034421742281215395838957029567457078867297742321364249618062920323524100796395855490398720473188748064226082130624085325443879193454095100721902723688608983702297802922465778395428510531587340343771240068168890882622394112252370643121994567113348850616779414952571984309063927162547038575769391208822294299053225776973195785292510157058775147687493667385905281728614066936870793483631104130486096422866739022254251631022238998824784309871214211336594149372534724828516536519652291847191320934127662041939033266344757810255450761243406685982638804631309022215852991706323223872506356963395668107287976200691035733250165615782065576159415303394415966535152327550107294310945533761757937224536792146711105700674959937207778503501562879445241463662142281185819506210181780721218897488871995890898495582077564387715740371190275817001449471008660140255770382875594805433223352833476546594040372715841292252983175468170554585838014797017976570586587751089146553833551413146641975370517778330202052282190648141351908509904289169596729111939424597802445523234111653813513351586367960175769546506050051493655326103823629699245586418016468660736051425039803522537493270385743437525903109563398688573456345292160567787373069854610200635728800730405759403691875432721043746233636765094325962472698626875833148826372580999341547042531665331710768365982359935219565301595187067772247975847412037958098451506998773182171027695752045356894447709388159633645629545493246019135820915900506906032640701290570506299065346661219735445730896769091171352761432210047450382980030625592142825700677633624952217795344145832513082782540989616413040988227257601039794195623143595351637462190706636535912449334420058581521218743569834717812580171279915160794789675762903718339466089866492140118823551337811927493524761760551434001520245324751568861558716803095718510972066599595072196209156923318071322517301806566620458899402166430591631348363311478802800521980525250372511467674969151489645720009661369785217086930227581405674315978920044798755483144811069077253851302610194739624245401270682864202663540116818822475326676741780611737275972111438408802370422377608919256570335384654037352344114105999356653180812503717835632673409647782213628400383443178293619326757139369589058612122088577237252104060778375287897543799460272211546791798613974575310224299012205778134871255296492395729078221387894808011355820153110205338707003138385845672884757408327786763143168159295742358655797897448897721796416755370 := by decide

set_option maxRecDepth 1000000 in
set_option exponentiation.threshold 100000 in
/-- First half (312 iterations) of the first `init_by_array` mixing loop on
key `[100]`, evaluated on the literal reference state. -/
theorem iba1_mid_100 : MT.ibaIter1 [100] 1 312 (1, 0,
    62685089405509111925910797243914719854890513935494713084094713797279779630627496305943786046941309007281293105221577504421353501605599255248785149356818580886163074212016138319710181437623915839386196989339984175865611290932895638485827512283879634622589907034847096838980553398268338905605705315464924834076955485269257682765843392777664062904318116756644819538761883164862381873685805923051342196114892111881287659915424456096361326051748180740843339721465950121631833352165428366344241754810081140762710579390137795215443629123183303201044796731629341661542390258966032612552126580439913324626563213547393121217728067632048719897064596438939163041106934301355643192260261867872030533878188557727018817797219012064641958276099544136480610826250078810896212505254064619595899307426216931651016613164877613570296351724055264357110051005104450572173606849938075379012356137114572525910752676385589168436483206759652170097284388598518122222819376116616668668677988651997615236221431416155794821321118852088948452164682783715959922435191327367306488124638818446090532334864386359317233873012285172875896330714873881780586230596002778688422250420590175698633544778262136505069053046737202152515000629854634631225453245996997340762744567896897683212149150732909707719966588817675821630380251456266588599804209831660991462715440400663143017564651072677052296295930367391822676512661642282350234567553218318066651318510488484545671729568971887621684270732981974442582657502555066960418690332945218280990034155505553171409775830458482159957769211244505225186771766058316021949327301666418107251589707938065072144733816368743637495699897181007119363672460040974223449086641663004605507793014252452324150238463715514559124307431648478948480649031081489229583165223570218974125422263886587593014744330199975749832650568652404661542746543584685860761547297457070273167102314576665676644281998277713093924236551494770138725647883566971887853912300960949802636372591951717316415323846182747445131420005722224687602711525724505110953736568981699982016588947035894059736087136235396798804019434387781559696138411966704777989194870090051835909943079457649936020314680876367897457337488804889342331824364904005266943816631681518612047693872607083945336048154993001716858914072302230374294986610531277637599664647525761147514008899238689946802093944865612982597431648203028809043429562401771290925843222821220221381984318518256971016750121270624021542153515130386081256853244444367484914891752438843250797295149886721543902585582757118492217204960123203770309672216674331373413106027454841661967870247822106376003696537006476355273043676224973894002060133928765135363584693312631060562155459381152426642778209514491263275588735458188352331628933634618912177576995916817414488324819680108333628484452298807271017999262374749573133359090629722111402666396222385680310709557844049479865847370371052888681758484468279513921172987571336140289500145715018352119752770038578015899178947425013401300127437407370742417936980607757405410607208376626705322894782663757703548808362869195819947150150865798288136994832911439410269353230208345410503242199606186650417333579047848825834242257112060317620885151293421378661990197161958015730358249113963865616811805417654957899792836277351433146683316643158745577273742588847277405020330699298979666450169324546781433015633218213248018986767013905101885085728066131985273947793365444250280947765884488609302913437528001802423347517836456663978922564542901160075954132077499502061844004777463229898312792357201472450520034421742281215395838957029567457078867297742321364249618062920323524100796395855490398720473188748064226082130624085325443879193454095100721902723688608983702297802922465778395428510531587340343771240068168890882622394112252370643121994567113348850616779414952571984309063927162547038575769391208822294299053225776973195785292510157058775147687493667385905281728614066936870793483631104130486096422866739022254251631022238998824784309871214211336594149372534724828516536519652291847191320934127662041939033266344757810255450761243406685982638804631309022215852991706323223872506356963395668107287976200691035733250165615782065576159415303394415966535152327550107294310945533761757937224536792146711105700674959937207778503501562879445241463662142281185819506210181780721218897488871995890898495582077564387715740371190275817001449471008660140255770382875594805433223352833476546594040372715841292252983175468170554585838014797017976570586587751089146553833551413146641975370517778330202052282190648141351908509904289169596729111939424597802445523234111653813513351586367960175769546506050051493655326103823629699245586418016468660736051425039803522537493270385743437525903109563398688573456345292160567787373069854610200635728800730405759403691875432721043746233636765094325962472698626875833148826372580999341547042531665331710768365982359935219565301595187067772247975847412037958098451506998773182171027695752045356894447709388159633645629545493246019135820915900506906032640701290570506299065346661219735445730896769091171352761432210047450382980030625592142825700677633624952217795344145832513082782540989616413040988227257601039794195623143595351637462190706636535912449334420058581521218743569834717812580171279915160794789675762903718339466089866492140118823551337811927493524761760551434001520245324751568861558716803095718510972066599595072196209156923318071322517301806566620458899402166430591631348363311478802800521980525250372511467674969151489645720009661369785217086930227581405674315978920044798755483144811069077253851302610194739624245401270682864202663540116818822475326676741780611737275972111438408802370422377608919256570335384654037352344114105999356653180812503717835632673409647782213628400383443178293619326757139369589058612122088577237252104060778375287897543799460272211546791798613974575310224299012205778134871255296492395729078221387894808011355820153110205338707003138385845672884757408327786763143168159295742358655797897448897721796416755370) = (313, 0,
    62685089405509111925910797243914719854890513935494713084094713797279779630627496305943786046941309007281293105221577504421353501605599255248785149356818580886163074212016138319710181437623915839386196989339984175865611290932895638485827512283879634622589907034847096838980553398268338905605705315464924834076955485269257682765843392777664062904318116756644819538761883164862381873685805923051342196114892111881287659915424456096361326051748180740843339721465950121631833352165428366344241754810081140762710579390137795215443629123183303201044796731629341661542390258966032612552126580439913324626563213547393121217728067632048719897064596438939163041106934301355643192260261867872030533878188557727018817797219012064641958276099544136480610826250078810896212505254064619595899307426216931651016613164877613570296351724055264357110051005104450572173606849938075379012356137114572525910752676385589168436483206759652170097284388598518122222819376116616668668677988651997615236221431416155794821321118852088948452164682783715959922435191327367306488124638818446090532334864386359317233873012285172875896330714873881780586230596002778688422250420590175698633544778262136505069053046737202152515000629854634631225453245996997340762744567896897683212149150732909707719966588817675821630380251456266588599804209831660991462715440400663143017564651072677052296295930367391822676512661642282350234567553218318066651318510488484545671729568971887621684270732981974442582657502555066960418690332945218280990034155505553171409775830458482159957769211244505225186771766058316021949327301666418107251589707938065072144733816368743637495699897181007119363672460040974223449086641663004605507793014252452324150238463715514559124307431648478948480649031081489229583165223570218974125422263886587593014744330199975749832650568652404661542746543584685860761547297457070273167102314576665676644281998277713093924236551494770138725647883566971887853912300960949802636372591951717316415323846182747445131420005722224687602711525724505110953736568981699982016588947035894059736087136235396798804019434387781559696138411966704777989194870090051835909943079457649936020314680876367897457337488804889342331824364904005266943816631681518612047693872607083945336048154993001716858914072302230374294986610531277637599664647525761147514008899238689946802093944865612982597431648203028809043429562401771290925843222821220221381984318518256971016750121270624021542153515130386081256853244444367484914891752438843250797295149886721543902585582757118492217204960123203770309672216674331373413106027454841661967870247822106376003696537006476355273043676224973894002060133928765135363584693312631060562155459381152426642778209514491263275588735458188352331628933634618912177576995916817414488324819680108333628484452298807271017999262374749573133359090629722111402666396222385680310709557844049479865847370371052888681758484468279513921172987571336140289500145715018352119752770038578015899178947425013401300127437407370742417936981750640620903487763195954016195119366265628542567246436195892070758569837474309132486325091756234748862823882429585208030705779159268486618821010487248709471280605409550868661339000735428995468235226604035086819802901944230824413905916910962748127358499017622652227532550488707310226969293225254244724810160202108043330053128045003501824517404205192313427545253960942019486687290708946257641713486555653004200105937167706595551160926359179336707020704080551216245239244994332116518434412573679027708707782213718195049291287574913500630893612738071603968806793762760431669286223005810500987675283012788960352550802678881034406844587173492525324398114000362392247557794355667491510056207791266473501096095431751069449044399942157132240088353188600085085388317769558562475433307598200904555097227551859585410330535415526736705695027352753040875965312178610275551167113889269024109856254803148149026333145167481047993553329106778570798628581474971152841222764112491435231390650256873558243203977519586203274271770748523436393738497748174614882829497900537339568313593185328487768345332993530381655807827696289333247443551471522564818013493357962168285659367234019164812271795360338475561372138607155825485445999798088989622376682861356180518579457990708715870121448415175963654724198196507282841144433447066524504544270768372248298079225901506499991449598478586266118325103013265204992322274409513919949903059740728830003189633759714240355516441291920109882722319660912047608141280771354977360365846361916904055305991407896278282782321318601605586404351705170479194155956305821596165000574984213621267393290231861347677455146391998361054408880885231957367409015028030719995595706880532412303355184221976036632413992415462936399305355961565143403673261090387946859841566847173792852153370007396631329949445745094513960859309702977669360439736392436184042781732499131297790097662119809597497963703672661903406617631815404093555070279861936967264970789593218092985132628419012954424681753124451618234117266951282815844221240635269571208832574446555955892472688372541680816267521357524866252425192693640380519463515724707076364759918791596230009239487912662702721323461101003633674775681842188130093050104382527416188991128303327319141793053739497687818839780973184280617867961022308509753998065127178388512459988625503408731425573601352069388496242780783097924422280760701177636053928636906811341075682144969068005661511357128679226835365037483603249856936623836772553352274157786686358184385567298009038810194613672924151703845305688549811260409784979253946139367616826070737344834578801935021303323236383413366829614183392161442303111770908511500477298387291949036015508517796080306291528966490701746915207491068142196988979508805000736338969486281431077455296819194917095494497233114027798438986614135851611040448517010107283856018277118713806116253729136588135768173506819666389368169771607582186673506033352585178363853817303123789112733162879508778514929793222441573319515082718737387380043420467159359329809428371114) := by decide

set_option maxRecDepth 1000000 in
set_option exponentiation.threshold 100000 in
/-- Second half (312 iterations) of the first `init_by_array` mixing loop on
key `[100]`. -/
theorem iba1_fin_100 : MT.ibaIter1 [100] 1 312 (313, 0,
    62685089405509111925910797243914719854890513935494713084094713797279779630627496305943786046941309007281293105221577504421353501605599255248785149356818580886163074212016138319710181437623915839386196989339984175865611290932895638485827512283879634622589907034847096838980553398268338905605705315464924834076955485269257682765843392777664062904318116756644819538761883164862381873685805923051342196114892111881287659915424456096361326051748180740843339721465950121631833352165428366344241754810081140762710579390137795215443629123183303201044796731629341661542390258966032612552126580439913324626563213547393121217728067632048719897064596438939163041106934301355643192260261867872030533878188557727018817797219012064641958276099544136480610826250078810896212505254064619595899307426216931651016613164877613570296351724055264357110051005104450572173606849938075379012356137114572525910752676385589168436483206759652170097284388598518122222819376116616668668677988651997615236221431416155794821321118852088948452164682783715959922435191327367306488124638818446090532334864386359317233873012285172875896330714873881780586230596002778688422250420590175698633544778262136505069053046737202152515000629854634631225453245996997340762744567896897683212149150732909707719966588817675821630380251456266588599804209831660991462715440400663143017564651072677052296295930367391822676512661642282350234567553218318066651318510488484545671729568971887621684270732981974442582657502555066960418690332945218280990034155505553171409775830458482159957769211244505225186771766058316021949327301666418107251589707938065072144733816368743637495699897181007119363672460040974223449086641663004605507793014252452324150238463715514559124307431648478948480649031081489229583165223570218974125422263886587593014744330199975749832650568652404661542746543584685860761547297457070273167102314576665676644281998277713093924236551494770138725647883566971887853912300960949802636372591951717316415323846182747445131420005722224687602711525724505110953736568981699982016588947035894059736087136235396798804019434387781559696138411966704777989194870090051835909943079457649936020314680876367897457337488804889342331824364904005266943816631681518612047693872607083945336048154993001716858914072302230374294986610531277637599664647525761147514008899238689946802093944865612982597431648203028809043429562401771290925843222821220221381984318518256971016750121270624021542153515130386081256853244444367484914891752438843250797295149886721543902585582757118492217204960123203770309672216674331373413106027454841661967870247822106376003696537006476355273043676224973894002060133928765135363584693312631060562155459381152426642778209514491263275588735458188352331628933634618912177576995916817414488324819680108333628484452298807271017999262374749573133359090629722111402666396222385680310709557844049479865847370371052888681758484468279513921172987571336140289500145715018352119752770038578015899178947425013401300127437407370742417936981750640620903487763195954016195119366265628542567246436195892070758569837474309132486325091756234748862823882429585208030705779159268486618821010487248709471280605409550868661339000735428995468235226604035086819802901944230824413905916910962748127358499017622652227532550488707310226969293225254244724810160202108043330053128045003501824517404205192313427545253960942019486687290708946257641713486555653004200105937167706595551160926359179336707020704080551216245239244994332116518434412573679027708707782213718195049291287574913500630893612738071603968806793762760431669286223005810500987675283012788960352550802678881034406844587173492525324398114000362392247557794355667491510056207791266473501096095431751069449044399942157132240088353188600085085388317769558562475433307598200904555097227551859585410330535415526736705695027352753040875965312178610275551167113889269024109856254803148149026333145167481047993553329106778570798628581474971152841222764112491435231390650256873558243203977519586203274271770748523436393738497748174614882829497900537339568313593185328487768345332993530381655807827696289333247443551471522564818013493357962168285659367234019164812271795360338475561372138607155825485445999798088989622376682861356180518579457990708715870121448415175963654724198196507282841144433447066524504544270768372248298079225901506499991449598478586266118325103013265204992322274409513919949903059740728830003189633759714240355516441291920109882722319660912047608141280771354977360365846361916904055305991407896278282782321318601605586404351705170479194155956305821596165000574984213621267393290231861347677455146391998361054408880885231957367409015028030719995595706880532412303355184221976036632413992415462936399305355961565143403673261090387946859841566847173792852153370007396631329949445745094513960859309702977669360439736392436184042781732499131297790097662119809597497963703672661903406617631815404093555070279861936967264970789593218092985132628419012954424681753124451618234117266951282815844221240635269571208832574446555955892472688372541680816267521357524866252425192693640380519463515724707076364759918791596230009239487912662702721323461101003633674775681842188130093050104382527416188991128303327319141793053739497687818839780973184280617867961022308509753998065127178388512459988625503408731425573601352069388496242780783097924422280760701177636053928636906811341075682144969068005661511357128679226835365037483603249856936623836772553352274157786686358184385567298009038810194613672924151703845305688549811260409784979253946139367616826070737344834578801935021303323236383413366829614183392161442303111770908511500477298387291949036015508517796080306291528966490701746915207491068142196988979508805000736338969486281431077455296819194917095494497233114027798438986614135851611040448517010107283856018277118713806116253729136588135768173506819666389368169771607582186673506033352585178363853817303123789112733162879508778514929793222441573319515082718737387380043420467159359329809428371114) = (2, 0,
    34161025809675027646758796511192227811094668342618972052027826288426836692814824377434899129173856945839207456657280384835989155058069067169940964641742386890129276596335937607928752597202221448958372312975140797660985599890381969946090893599370929680447046781557055483287395568449636557994678037880573030146950659047974256941769181109690718436702788277000414992810650412462818474108330128543999868567532300114627201310635547487330586722783491020880851648052876856985817572936205427414677172767723918729335049168412943341479719268501739418890310609937216285658816401809757170279359830405072979290334088001372592667335830493834721969530666412423607191221799264985972041029136882880184230287485056841415928168159384911252915177175964827392954370240605928157658858788208259823011427864136318130961092293084630185201989641724099320579883000947483498836421391018457888586614569993975794272418314326297654391787940380498413422722411806322838637383322400283706671280832059719035712412749721034056731898902637799501987059466114158020388070714143089507093230390886630705485957478165329323395050413486340713400075884099919632809506285526450378690402648349294342827229567036758274265723925086107792621803945933224931717654891778482116634021122017621723808294663968096563324957309674671051713539931215912062673777112230703112890212889947729884727812137170724106728491230436730792023374447704374838032170889649772025377277603203455519649066346946069534344922319993068524530818092976229637435626141897337333309692096166855506719631583811481156380304144117092389378301605391003140701207983054253006956172569060028009365166932474849567766785782207053510379362812701927402638825437124975152532417044572114841678122943647044580497966454749219427126808807413817053169034623864317529198138428107170706550865910305822345201137561014779955457888422749013359309536183330304900512207562379770121580322249481239972879049844482817430839097064911426231598498674825329546923912298075687191717157214258563126525734518211441820164130616792115035968998735144947450285462157820694562442736490192134019600133588937388266768405471759380181178103483835365817779893198397133969490665558425363050394447407814753910522010088605080901275766394389496400684793517015499992975455214113019957957427253227141729095829553010133946632856708567404673929249501705817600766698541463885058270877242495073377921912240649001477213923536270305513588296068185750899612018564819921282827401419332963218040805645785211413892426531377441852672262702313143479500262192278849726443446700413931517415699858548675738663335725667613789602490900542267929536642575114280489539184314981060661568600461230022203257370969036436835989621736793194105523431021811746754392744785663648148983891917436492161218543244580218809576413792176210548614009603748103419070529554081496975965327285930069834163435231996459158038036276053506947444138015525898355625481956786387935141574220449052875691172887812721799208525199036171241918683522872064576465941693883203114148464235494988938700276370955269892493243464359038888842882662890836158610366292302776766370745874672477477142738112311161436185608019582225393985552655414264180899007206043869493527713548245730415852007410593214904757288323708570000085933332929054562622129053413924233466543873788732028996414823609133877709849551331910220008954482052751371084385680353874321755750359435016398793363494279200168743120787706933797611824487892914024941746222525115565553487868167607318033410730507533315040952573179076172664744835285945923992508962172630133525642588106809552097288741859063622676779901588211586577625145993015194839852749347466009345647696581198074169912887564793625272015736456291374836896262225985550060557295388176163723833086446754877942001646842828827842653407092753809018847149688940562147242822458883459465760880839612414352766690629983818056754257241244879555724483029164471408632428005866814791507929443724601973496284555404408317551297823054780714809654799885629513258277239836952845996966673214000873166187741725438820157341277997173654899862285841487881458088635808802835011960776684128876676138494213251264716053518300918664681632181757734252806294818984990634952988792619794241184640399130597942712058950351440791666079824783385177338201046708564663241786260834842213326555852772774857579267044804107700690471598318392891677073375355111322046876140109786028549096696605056154041739931454386615844509022494247483476563232097939519057675183096848782679031578804533155986595958837498783115493547012281442745107855782344975198850170716138015936775573424182705186533509354773394816094384498060701873405164327077597779672171793749800223520706344896411038675372915502025727670921263317816214074574263283638333917773779804491081151925246208424132269917981118168407366460855767574082808034020561162837340309957571547051557650569222320394493836308222770346413054278486807947468171569060106660937709192988498449550331265773717912986699079025676896899649966249324859772841290379400838675164177281020750321420378240844723330413583329873860522244410927211785409259420248577580739001477755170631545756549334871074410135529210342532232499518315950805769742997381012800838271829027718283177599371124568572008388875216363126917115236627998681149072855635172120622464581963652118947053458144282973494904899519133943405404291642216565202156741799256477001344611584182615198680704239128546601880772836954976478450487060291997189072616380674617509764157261286785607528406851085782838460283153553185272895683425908983579776015242176050299874610851817365328393274278704247744394201089557125949179669420679162933783379974991425328968370809064159402327507062155485234396512186019161980483574530729009995797051165768336177486860482314338986136090932238682708220392435558807921931235946915424951170370175331361218016596126420332216115297500263311478823589434644190404469646942761532094673945072220918755347955140336743764698187285561888745184250515143938154065640010410166388732935303480989107057887623147330241461389097725824999551257929) := by decide

/-- Full first `init_by_array` mixing loop on key `[100]`, assembled from
its two halves. -/
theorem iba1_full_100 : MT.ibaIter1 [100] 1 624 (1, 0,
    62685089405509111925910797243914719854890513935494713084094713797279779630627496305943786046941309007281293105221577504421353501605599255248785149356818580886163074212016138319710181437623915839386196989339984175865611290932895638485827512283879634622589907034847096838980553398268338905605705315464924834076955485269257682765843392777664062904318116756644819538761883164862381873685805923051342196114892111881287659915424456096361326051748180740843339721465950121631833352165428366344241754810081140762710579390137795215443629123183303201044796731629341661542390258966032612552126580439913324626563213547393121217728067632048719897064596438939163041106934301355643192260261867872030533878188557727018817797219012064641958276099544136480610826250078810896212505254064619595899307426216931651016613164877613570296351724055264357110051005104450572173606849938075379012356137114572525910752676385589168436483206759652170097284388598518122222819376116616668668677988651997615236221431416155794821321118852088948452164682783715959922435191327367306488124638818446090532334864386359317233873012285172875896330714873881780586230596002778688422250420590175698633544778262136505069053046737202152515000629854634631225453245996997340762744567896897683212149150732909707719966588817675821630380251456266588599804209831660991462715440400663143017564651072677052296295930367391822676512661642282350234567553218318066651318510488484545671729568971887621684270732981974442582657502555066960418690332945218280990034155505553171409775830458482159957769211244505225186771766058316021949327301666418107251589707938065072144733816368743637495699897181007119363672460040974223449086641663004605507793014252452324150238463715514559124307431648478948480649031081489229583165223570218974125422263886587593014744330199975749832650568652404661542746543584685860761547297457070273167102314576665676644281998277713093924236551494770138725647883566971887853912300960949802636372591951717316415323846182747445131420005722224687602711525724505110953736568981699982016588947035894059736087136235396798804019434387781559696138411966704777989194870090051835909943079457649936020314680876367897457337488804889342331824364904005266943816631681518612047693872607083945336048154993001716858914072302230374294986610531277637599664647525761147514008899238689946802093944865612982597431648203028809043429562401771290925843222821220221381984318518256971016750121270624021542153515130386081256853244444367484914891752438843250797295149886721543902585582757118492217204960123203770309672216674331373413106027454841661967870247822106376003696537006476355273043676224973894002060133928765135363584693312631060562155459381152426642778209514491263275588735458188352331628933634618912177576995916817414488324819680108333628484452298807271017999262374749573133359090629722111402666396222385680310709557844049479865847370371052888681758484468279513921172987571336140289500145715018352119752770038578015899178947425013401300127437407370742417936980607757405410607208376626705322894782663757703548808362869195819947150150865798288136994832911439410269353230208345410503242199606186650417333579047848825834242257112060317620885151293421378661990197161958015730358249113963865616811805417654957899792836277351433146683316643158745577273742588847277405020330699298979666450169324546781433015633218213248018986767013905101885085728066131985273947793365444250280947765884488609302913437528001802423347517836456663978922564542901160075954132077499502061844004777463229898312792357201472450520034421742281215395838957029567457078867297742321364249618062920323524100796395855490398720473188748064226082130624085325443879193454095100721902723688608983702297802922465778395428510531587340343771240068168890882622394112252370643121994567113348850616779414952571984309063927162547038575769391208822294299053225776973195785292510157058775147687493667385905281728614066936870793483631104130486096422866739022254251631022238998824784309871214211336594149372534724828516536519652291847191320934127662041939033266344757810255450761243406685982638804631309022215852991706323223872506356963395668107287976200691035733250165615782065576159415303394415966535152327550107294310945533761757937224536792146711105700674959937207778503501562879445241463662142281185819506210181780721218897488871995890898495582077564387715740371190275817001449471008660140255770382875594805433223352833476546594040372715841292252983175468170554585838014797017976570586587751089146553833551413146641975370517778330202052282190648141351908509904289169596729111939424597802445523234111653813513351586367960175769546506050051493655326103823629699245586418016468660736051425039803522537493270385743437525903109563398688573456345292160567787373069854610200635728800730405759403691875432721043746233636765094325962472698626875833148826372580999341547042531665331710768365982359935219565301595187067772247975847412037958098451506998773182171027695752045356894447709388159633645629545493246019135820915900506906032640701290570506299065346661219735445730896769091171352761432210047450382980030625592142825700677633624952217795344145832513082782540989616413040988227257601039794195623143595351637462190706636535912449334420058581521218743569834717812580171279915160794789675762903718339466089866492140118823551337811927493524761760551434001520245324751568861558716803095718510972066599595072196209156923318071322517301806566620458899402166430591631348363311478802800521980525250372511467674969151489645720009661369785217086930227581405674315978920044798755483144811069077253851302610194739624245401270682864202663540116818822475326676741780611737275972111438408802370422377608919256570335384654037352344114105999356653180812503717835632673409647782213628400383443178293619326757139369589058612122088577237252104060778375287897543799460272211546791798613974575310224299012205778134871255296492395729078221387894808011355820153110205338707003138385845672884757408327786763143168159295742358655797897448897721796416755370) = (2, 0,
    34161025809675027646758796511192227811094668342618972052027826288426836692814824377434899129173856945839207456657280384835989155058069067169940964641742386890129276596335937607928752597202221448958372312975140797660985599890381969946090893599370929680447046781557055483287395568449636557994678037880573030146950659047974256941769181109690718436702788277000414992810650412462818474108330128543999868567532300114627201310635547487330586722783491020880851648052876856985817572936205427414677172767723918729335049168412943341479719268501739418890310609937216285658816401809757170279359830405072979290334088001372592667335830493834721969530666412423607191221799264985972041029136882880184230287485056841415928168159384911252915177175964827392954370240605928157658858788208259823011427864136318130961092293084630185201989641724099320579883000947483498836421391018457888586614569993975794272418314326297654391787940380498413422722411806322838637383322400283706671280832059719035712412749721034056731898902637799501987059466114158020388070714143089507093230390886630705485957478165329323395050413486340713400075884099919632809506285526450378690402648349294342827229567036758274265723925086107792621803945933224931717654891778482116634021122017621723808294663968096563324957309674671051713539931215912062673777112230703112890212889947729884727812137170724106728491230436730792023374447704374838032170889649772025377277603203455519649066346946069534344922319993068524530818092976229637435626141897337333309692096166855506719631583811481156380304144117092389378301605391003140701207983054253006956172569060028009365166932474849567766785782207053510379362812701927402638825437124975152532417044572114841678122943647044580497966454749219427126808807413817053169034623864317529198138428107170706550865910305822345201137561014779955457888422749013359309536183330304900512207562379770121580322249481239972879049844482817430839097064911426231598498674825329546923912298075687191717157214258563126525734518211441820164130616792115035968998735144947450285462157820694562442736490192134019600133588937388266768405471759380181178103483835365817779893198397133969490665558425363050394447407814753910522010088605080901275766394389496400684793517015499992975455214113019957957427253227141729095829553010133946632856708567404673929249501705817600766698541463885058270877242495073377921912240649001477213923536270305513588296068185750899612018564819921282827401419332963218040805645785211413892426531377441852672262702313143479500262192278849726443446700413931517415699858548675738663335725667613789602490900542267929536642575114280489539184314981060661568600461230022203257370969036436835989621736793194105523431021811746754392744785663648148983891917436492161218543244580218809576413792176210548614009603748103419070529554081496975965327285930069834163435231996459158038036276053506947444138015525898355625481956786387935141574220449052875691172887812721799208525199036171241918683522872064576465941693883203114148464235494988938700276370955269892493243464359038888842882662890836158610366292302776766370745874672477477142738112311161436185608019582225393985552655414264180899007206043869493527713548245730415852007410593214904757288323708570000085933332929054562622129053413924233466543873788732028996414823609133877709849551331910220008954482052751371084385680353874321755750359435016398793363494279200168743120787706933797611824487892914024941746222525115565553487868167607318033410730507533315040952573179076172664744835285945923992508962172630133525642588106809552097288741859063622676779901588211586577625145993015194839852749347466009345647696581198074169912887564793625272015736456291374836896262225985550060557295388176163723833086446754877942001646842828827842653407092753809018847149688940562147242822458883459465760880839612414352766690629983818056754257241244879555724483029164471408632428005866814791507929443724601973496284555404408317551297823054780714809654799885629513258277239836952845996966673214000873166187741725438820157341277997173654899862285841487881458088635808802835011960776684128876676138494213251264716053518300918664681632181757734252806294818984990634952988792619794241184640399130597942712058950351440791666079824783385177338201046708564663241786260834842213326555852772774857579267044804107700690471598318392891677073375355111322046876140109786028549096696605056154041739931454386615844509022494247483476563232097939519057675183096848782679031578804533155986595958837498783115493547012281442745107855782344975198850170716138015936775573424182705186533509354773394816094384498060701873405164327077597779672171793749800223520706344896411038675372915502025727670921263317816214074574263283638333917773779804491081151925246208424132269917981118168407366460855767574082808034020561162837340309957571547051557650569222320394493836308222770346413054278486807947468171569060106660937709192988498449550331265773717912986699079025676896899649966249324859772841290379400838675164177281020750321420378240844723330413583329873860522244410927211785409259420248577580739001477755170631545756549334871074410135529210342532232499518315950805769742997381012800838271829027718283177599371124568572008388875216363126917115236627998681149072855635172120622464581963652118947053458144282973494904899519133943405404291642216565202156741799256477001344611584182615198680704239128546601880772836954976478450487060291997189072616380674617509764157261286785607528406851085782838460283153553185272895683425908983579776015242176050299874610851817365328393274278704247744394201089557125949179669420679162933783379974991425328968370809064159402327507062155485234396512186019161980483574530729009995797051165768336177486860482314338986136090932238682708220392435558807921931235946915424951170370175331361218016596126420332216115297500263311478823589434644190404469646942761532094673945072220918755347955140336743764698187285561888745184250515143938154065640010410166388732935303480989107057887623147330241461389097725824999551257929) := by
  have h : MT.ibaIter1 [100] 1 624 (1, 0,
      62685089405509111925910797243914719854890513935494713084094713797279779630627496305943786046941309007281293105221577504421353501605599255248785149356818580886163074212016138319710181437623915839386196989339984175865611290932895638485827512283879634622589907034847096838980553398268338905605705315464924834076955485269257682765843392777664062904318116756644819538761883164862381873685805923051342196114892111881287659915424456096361326051748180740843339721465950121631833352165428366344241754810081140762710579390137795215443629123183303201044796731629341661542390258966032612552126580439913324626563213547393121217728067632048719897064596438939163041106934301355643192260261867872030533878188557727018817797219012064641958276099544136480610826250078810896212505254064619595899307426216931651016613164877613570296351724055264357110051005104450572173606849938075379012356137114572525910752676385589168436483206759652170097284388598518122222819376116616668668677988651997615236221431416155794821321118852088948452164682783715959922435191327367306488124638818446090532334864386359317233873012285172875896330714873881780586230596002778688422250420590175698633544778262136505069053046737202152515000629854634631225453245996997340762744567896897683212149150732909707719966588817675821630380251456266588599804209831660991462715440400663143017564651072677052296295930367391822676512661642282350234567553218318066651318510488484545671729568971887621684270732981974442582657502555066960418690332945218280990034155505553171409775830458482159957769211244505225186771766058316021949327301666418107251589707938065072144733816368743637495699897181007119363672460040974223449086641663004605507793014252452324150238463715514559124307431648478948480649031081489229583165223570218974125422263886587593014744330199975749832650568652404661542746543584685860761547297457070273167102314576665676644281998277713093924236551494770138725647883566971887853912300960949802636372591951717316415323846182747445131420005722224687602711525724505110953736568981699982016588947035894059736087136235396798804019434387781559696138411966704777989194870090051835909943079457649936020314680876367897457337488804889342331824364904005266943816631681518612047693872607083945336048154993001716858914072302230374294986610531277637599664647525761147514008899238689946802093944865612982597431648203028809043429562401771290925843222821220221381984318518256971016750121270624021542153515130386081256853244444367484914891752438843250797295149886721543902585582757118492217204960123203770309672216674331373413106027454841661967870247822106376003696537006476355273043676224973894002060133928765135363584693312631060562155459381152426642778209514491263275588735458188352331628933634618912177576995916817414488324819680108333628484452298807271017999262374749573133359090629722111402666396222385680310709557844049479865847370371052888681758484468279513921172987571336140289500145715018352119752770038578015899178947425013401300127437407370742417936980607757405410607208376626705322894782663757703548808362869195819947150150865798288136994832911439410269353230208345410503242199606186650417333579047848825834242257112060317620885151293421378661990197161958015730358249113963865616811805417654957899792836277351433146683316643158745577273742588847277405020330699298979666450169324546781433015633218213248018986767013905101885085728066131985273947793365444250280947765884488609302913437528001802423347517836456663978922564542901160075954132077499502061844004777463229898312792357201472450520034421742281215395838957029567457078867297742321364249618062920323524100796395855490398720473188748064226082130624085325443879193454095100721902723688608983702297802922465778395428510531587340343771240068168890882622394112252370643121994567113348850616779414952571984309063927162547038575769391208822294299053225776973195785292510157058775147687493667385905281728614066936870793483631104130486096422866739022254251631022238998824784309871214211336594149372534724828516536519652291847191320934127662041939033266344757810255450761243406685982638804631309022215852991706323223872506356963395668107287976200691035733250165615782065576159415303394415966535152327550107294310945533761757937224536792146711105700674959937207778503501562879445241463662142281185819506210181780721218897488871995890898495582077564387715740371190275817001449471008660140255770382875594805433223352833476546594040372715841292252983175468170554585838014797017976570586587751089146553833551413146641975370517778330202052282190648141351908509904289169596729111939424597802445523234111653813513351586367960175769546506050051493655326103823629699245586418016468660736051425039803522537493270385743437525903109563398688573456345292160567787373069854610200635728800730405759403691875432721043746233636765094325962472698626875833148826372580999341547042531665331710768365982359935219565301595187067772247975847412037958098451506998773182171027695752045356894447709388159633645629545493246019135820915900506906032640701290570506299065346661219735445730896769091171352761432210047450382980030625592142825700677633624952217795344145832513082782540989616413040988227257601039794195623143595351637462190706636535912449334420058581521218743569834717812580171279915160794789675762903718339466089866492140118823551337811927493524761760551434001520245324751568861558716803095718510972066599595072196209156923318071322517301806566620458899402166430591631348363311478802800521980525250372511467674969151489645720009661369785217086930227581405674315978920044798755483144811069077253851302610194739624245401270682864202663540116818822475326676741780611737275972111438408802370422377608919256570335384654037352344114105999356653180812503717835632673409647782213628400383443178293619326757139369589058612122088577237252104060778375287897543799460272211546791798613974575310224299012205778134871255296492395729078221387894808011355820153110205338707003138385845672884757408327786763143168159295742358655797897448897721796416755370) =
      MT.ibaIter1 [100] 1 312 (MT.ibaIter1 [100] 1 312 (1, 0,
      62685089405509111925910797243914719854890513935494713084094713797279779630627496305943786046941309007281293105221577504421353501605599255248785149356818580886163074212016138319710181437623915839386196989339984175865611290932895638485827512283879634622589907034847096838980553398268338905605705315464924834076955485269257682765843392777664062904318116756644819538761883164862381873685805923051342196114892111881287659915424456096361326051748180740843339721465950121631833352165428366344241754810081140762710579390137795215443629123183303201044796731629341661542390258966032612552126580439913324626563213547393121217728067632048719897064596438939163041106934301355643192260261867872030533878188557727018817797219012064641958276099544136480610826250078810896212505254064619595899307426216931651016613164877613570296351724055264357110051005104450572173606849938075379012356137114572525910752676385589168436483206759652170097284388598518122222819376116616668668677988651997615236221431416155794821321118852088948452164682783715959922435191327367306488124638818446090532334864386359317233873012285172875896330714873881780586230596002778688422250420590175698633544778262136505069053046737202152515000629854634631225453245996997340762744567896897683212149150732909707719966588817675821630380251456266588599804209831660991462715440400663143017564651072677052296295930367391822676512661642282350234567553218318066651318510488484545671729568971887621684270732981974442582657502555066960418690332945218280990034155505553171409775830458482159957769211244505225186771766058316021949327301666418107251589707938065072144733816368743637495699897181007119363672460040974223449086641663004605507793014252452324150238463715514559124307431648478948480649031081489229583165223570218974125422263886587593014744330199975749832650568652404661542746543584685860761547297457070273167102314576665676644281998277713093924236551494770138725647883566971887853912300960949802636372591951717316415323846182747445131420005722224687602711525724505110953736568981699982016588947035894059736087136235396798804019434387781559696138411966704777989194870090051835909943079457649936020314680876367897457337488804889342331824364904005266943816631681518612047693872607083945336048154993001716858914072302230374294986610531277637599664647525761147514008899238689946802093944865612982597431648203028809043429562401771290925843222821220221381984318518256971016750121270624021542153515130386081256853244444367484914891752438843250797295149886721543902585582757118492217204960123203770309672216674331373413106027454841661967870247822106376003696537006476355273043676224973894002060133928765135363584693312631060562155459381152426642778209514491263275588735458188352331628933634618912177576995916817414488324819680108333628484452298807271017999262374749573133359090629722111402666396222385680310709557844049479865847370371052888681758484468279513921172987571336140289500145715018352119752770038578015899178947425013401300127437407370742417936980607757405410607208376626705322894782663757703548808362869195819947150150865798288136994832911439410269353230208345410503242199606186650417333579047848825834242257112060317620885151293421378661990197161958015730358249113963865616811805417654957899792836277351433146683316643158745577273742588847277405020330699298979666450169324546781433015633218213248018986767013905101885085728066131985273947793365444250280947765884488609302913437528001802423347517836456663978922564542901160075954132077499502061844004777463229898312792357201472450520034421742281215395838957029567457078867297742321364249618062920323524100796395855490398720473188748064226082130624085325443879193454095100721902723688608983702297802922465778395428510531587340343771240068168890882622394112252370643121994567113348850616779414952571984309063927162547038575769391208822294299053225776973195785292510157058775147687493667385905281728614066936870793483631104130486096422866739022254251631022238998824784309871214211336594149372534724828516536519652291847191320934127662041939033266344757810255450761243406685982638804631309022215852991706323223872506356963395668107287976200691035733250165615782065576159415303394415966535152327550107294310945533761757937224536792146711105700674959937207778503501562879445241463662142281185819506210181780721218897488871995890898495582077564387715740371190275817001449471008660140255770382875594805433223352833476546594040372715841292252983175468170554585838014797017976570586587751089146553833551413146641975370517778330202052282190648141351908509904289169596729111939424597802445523234111653813513351586367960175769546506050051493655326103823629699245586418016468660736051425039803522537493270385743437525903109563398688573456345292160567787373069854610200635728800730405759403691875432721043746233636765094325962472698626875833148826372580999341547042531665331710768365982359935219565301595187067772247975847412037958098451506998773182171027695752045356894447709388159633645629545493246019135820915900506906032640701290570506299065346661219735445730896769091171352761432210047450382980030625592142825700677633624952217795344145832513082782540989616413040988227257601039794195623143595351637462190706636535912449334420058581521218743569834717812580171279915160794789675762903718339466089866492140118823551337811927493524761760551434001520245324751568861558716803095718510972066599595072196209156923318071322517301806566620458899402166430591631348363311478802800521980525250372511467674969151489645720009661369785217086930227581405674315978920044798755483144811069077253851302610194739624245401270682864202663540116818822475326676741780611737275972111438408802370422377608919256570335384654037352344114105999356653180812503717835632673409647782213628400383443178293619326757139369589058612122088577237252104060778375287897543799460272211546791798613974575310224299012205778134871255296492395729078221387894808011355820153110205338707003138385845672884757408327786763143168159295742358655797897448897721796416755370)) :=
    MT.ibaIter1_add [100] 1 312 312 _
  rw [h, iba1_mid_100, iba1_fin_100]

set_option maxRecDepth 1000000 in
set_option exponentiation.threshold 100000 in
/-- First half (312 iterations) of the second `init_by_array` mixing loop
for key `[100]`. -/
theorem iba2_mid_100 : MT.ibaIter2 312 (2,
    34161025809675027646758796511192227811094668342618972052027826288426836692814824377434899129173856945839207456657280384835989155058069067169940964641742386890129276596335937607928752597202221448958372312975140797660985599890381969946090893599370929680447046781557055483287395568449636557994678037880573030146950659047974256941769181109690718436702788277000414992810650412462818474108330128543999868567532300114627201310635547487330586722783491020880851648052876856985817572936205427414677172767723918729335049168412943341479719268501739418890310609937216285658816401809757170279359830405072979290334088001372592667335830493834721969530666412423607191221799264985972041029136882880184230287485056841415928168159384911252915177175964827392954370240605928157658858788208259823011427864136318130961092293084630185201989641724099320579883000947483498836421391018457888586614569993975794272418314326297654391787940380498413422722411806322838637383322400283706671280832059719035712412749721034056731898902637799501987059466114158020388070714143089507093230390886630705485957478165329323395050413486340713400075884099919632809506285526450378690402648349294342827229567036758274265723925086107792621803945933224931717654891778482116634021122017621723808294663968096563324957309674671051713539931215912062673777112230703112890212889947729884727812137170724106728491230436730792023374447704374838032170889649772025377277603203455519649066346946069534344922319993068524530818092976229637435626141897337333309692096166855506719631583811481156380304144117092389378301605391003140701207983054253006956172569060028009365166932474849567766785782207053510379362812701927402638825437124975152532417044572114841678122943647044580497966454749219427126808807413817053169034623864317529198138428107170706550865910305822345201137561014779955457888422749013359309536183330304900512207562379770121580322249481239972879049844482817430839097064911426231598498674825329546923912298075687191717157214258563126525734518211441820164130616792115035968998735144947450285462157820694562442736490192134019600133588937388266768405471759380181178103483835365817779893198397133969490665558425363050394447407814753910522010088605080901275766394389496400684793517015499992975455214113019957957427253227141729095829553010133946632856708567404673929249501705817600766698541463885058270877242495073377921912240649001477213923536270305513588296068185750899612018564819921282827401419332963218040805645785211413892426531377441852672262702313143479500262192278849726443446700413931517415699858548675738663335725667613789602490900542267929536642575114280489539184314981060661568600461230022203257370969036436835989621736793194105523431021811746754392744785663648148983891917436492161218543244580218809576413792176210548614009603748103419070529554081496975965327285930069834163435231996459158038036276053506947444138015525898355625481956786387935141574220449052875691172887812721799208525199036171241918683522872064576465941693883203114148464235494988938700276370955269892493243464359038888842882662890836158610366292302776766370745874672477477142738112311161436185608019582225393985552655414264180899007206043869493527713548245730415852007410593214904757288323708570000085933332929054562622129053413924233466543873788732028996414823609133877709849551331910220008954482052751371084385680353874321755750359435016398793363494279200168743120787706933797611824487892914024941746222525115565553487868167607318033410730507533315040952573179076172664744835285945923992508962172630133525642588106809552097288741859063622676779901588211586577625145993015194839852749347466009345647696581198074169912887564793625272015736456291374836896262225985550060557295388176163723833086446754877942001646842828827842653407092753809018847149688940562147242822458883459465760880839612414352766690629983818056754257241244879555724483029164471408632428005866814791507929443724601973496284555404408317551297823054780714809654799885629513258277239836952845996966673214000873166187741725438820157341277997173654899862285841487881458088635808802835011960776684128876676138494213251264716053518300918664681632181757734252806294818984990634952988792619794241184640399130597942712058950351440791666079824783385177338201046708564663241786260834842213326555852772774857579267044804107700690471598318392891677073375355111322046876140109786028549096696605056154041739931454386615844509022494247483476563232097939519057675183096848782679031578804533155986595958837498783115493547012281442745107855782344975198850170716138015936775573424182705186533509354773394816094384498060701873405164327077597779672171793749800223520706344896411038675372915502025727670921263317816214074574263283638333917773779804491081151925246208424132269917981118168407366460855767574082808034020561162837340309957571547051557650569222320394493836308222770346413054278486807947468171569060106660937709192988498449550331265773717912986699079025676896899649966249324859772841290379400838675164177281020750321420378240844723330413583329873860522244410927211785409259420248577580739001477755170631545756549334871074410135529210342532232499518315950805769742997381012800838271829027718283177599371124568572008388875216363126917115236627998681149072855635172120622464581963652118947053458144282973494904899519133943405404291642216565202156741799256477001344611584182615198680704239128546601880772836954976478450487060291997189072616380674617509764157261286785607528406851085782838460283153553185272895683425908983579776015242176050299874610851817365328393274278704247744394201089557125949179669420679162933783379974991425328968370809064159402327507062155485234396512186019161980483574530729009995797051165768336177486860482314338986136090932238682708220392435558807921931235946915424951170370175331361218016596126420332216115297500263311478823589434644190404469646942761532094673945072220918755347955140336743764698187285561888745184250515143938154065640010410166388732935303480989107057887623147330241461389097725824999551257929) = (314,
    34161025809675027646758796511192227811094668342618972052027826288426836692814824377434899129173856945839207456657280384835989155058069067169940964641742386890129276596335937607928752597202221448958372312975140797660985599890381969946090893599370929680447046781557055483287395568449636557994678037880573030146950659047974256941769181109690718436702788277000414992810650412462818474108330128543999868567532300114627201310635547487330586722783491020880851648052876856985817572936205427414677172767723918729335049168412943341479719268501739418890310609937216285658816401809757170279359830405072979290334088001372592667335830493834721969530666412423607191221799264985972041029136882880184230287485056841415928168159384911252915177175964827392954370240605928157658858788208259823011427864136318130961092293084630185201989641724099320579883000947483498836421391018457888586614569993975794272418314326297654391787940380498413422722411806322838637383322400283706671280832059719035712412749721034056731898902637799501987059466114158020388070714143089507093230390886630705485957478165329323395050413486340713400075884099919632809506285526450378690402648349294342827229567036758274265723925086107792621803945933224931717654891778482116634021122017621723808294663968096563324957309674671051713539931215912062673777112230703112890212889947729884727812137170724106728491230436730792023374447704374838032170889649772025377277603203455519649066346946069534344922319993068524530818092976229637435626141897337333309692096166855506719631583811481156380304144117092389378301605391003140701207983054253006956172569060028009365166932474849567766785782207053510379362812701927402638825437124975152532417044572114841678122943647044580497966454749219427126808807413817053169034623864317529198138428107170706550865910305822345201137561014779955457888422749013359309536183330304900512207562379770121580322249481239972879049844482817430839097064911426231598498674825329546923912298075687191717157214258563126525734518211441820164130616792115035968998735144947450285462157820694562442736490192134019600133588937388266768405471759380181178103483835365817779893198397133969490665558425363050394447407814753910522010088605080901275766394389496400684793517015499992975455214113019957957427253227141729095829553010133946632856708567404673929249501705817600766698541463885058270877242495073377921912240649001477213923536270305513588296068185750899612018564819921282827401419332963218040805645785211413892426531377441852672262702313143479500262192278849726443446700413931517415699858548675738663335725667613789602490900542267929536642575114280489539184314981060661568600461230022203257370969036436835989621736793194105523431021811746754392744785663648148983891917436492161218543244580218809576413792176210548614009603748103419070529554081496975965327285930069834163435231996459158038036276053506947444138015525898355625481956786387935141574220449052875691172887812721799208525199036171241918683522872064576465941693883203117838869303528192955592142680242965108083207423484259021851828789534349022687385674118341332922725510929426908516302135726125338282911618776057681949421923412806692540382795080921434414833003493309685610661762831723782254342770924923104962110414561084749174704225945822377849842094457834263000968505099523481768821038190529287461279837306951147185655145543091456038823429186604784999620661460383567988069194598888790947503600944004938514495163564509836015412001404042189586172824170754907659728703660644666535652936494378623152633889551481390276225973406590536934326945523493108720538725989863217623244714854515279770105896660925293211036599002024599077848720399204856731266747571536729459158657637179181110182350624705092872208676697773533651132104927732592310371070890877425671805490073325545590956401720423902098227361990645417245797105320433679922515229812000311691249332733311751152908959848314570267243053274954543716616601481718627457569054586828141617803638024965512445326634233153675847499464086713475945662245484933175718859032962318855960127383604171770106566600867787078556997817652976368517726792019606851832238190192603402018888304364292797958691570247559964343001364628150872865940318637935024546920553752733311374371289358055199702787154978861444169394112093550857813397526669218813578630412333709899380055625217860531897582046499858416149103842269294121870770909796476373570491538345635372117828592765969823930420247538135970633169369399444430757864921041576402698528607107515324731296169813810825200704700765730924218616038394764436668521881175850327348344795888429478488859765628549813889366918170995212743784189028277342480254212416424807536090195973991588447565134661971121858810912629292462824941351077361082290540541131506982410771955891092945368538065431803503334566895215671844356794318428188304134291063666322821302861939725645557411345029020514839464528221042185219424608930425779997559137410840996031971099445827750593885217258885439978088349477226799419610278856723030245763207598919333967262265273479182910829281754942304593735965052956978625649183063953167931927040877497375547223888700724057949289729596199856357361477268404121800199004412035068231493597809776662116973298821913208850754616095863894974986381709044701631582024169893129516889993146982385522191826570607951517347881383465874484785722244874951151551388901609476031893104404178898692969410786606154136581051499604737368438574138269944580984024099643608192651161577433271407399061916901146153948212339306776323227825565655444056919301683256056211910560852747921788883622156115182449655730727685833152143278950727157716454348735175344623972106052127297815287471457356881550316355175540544003007195916116278425437509665610354525192888470636937649329187063774916897732953352380327366484025936553796407122929489259442538153222904171931688341176224128772388999779036561354472187952684361456709940094248595878082404377876434886016709047822625722419869595313412941005473987621118723136407686722132237527050166782165518578819870232764337481) := by decide

set_option maxRecDepth 1000000 in
set_option exponentiation.threshold 100000 in
/-- Second half (311 iterations) of the second `init_by_array` mixing loop
for key `[100]`. -/
theorem iba2_fin_100 : MT.ibaIter2 311 (314,
    34161025809675027646758796511192227811094668342618972052027826288426836692814824377434899129173856945839207456657280384835989155058069067169940964641742386890129276596335937607928752597202221448958372312975140797660985599890381969946090893599370929680447046781557055483287395568449636557994678037880573030146950659047974256941769181109690718436702788277000414992810650412462818474108330128543999868567532300114627201310635547487330586722783491020880851648052876856985817572936205427414677172767723918729335049168412943341479719268501739418890310609937216285658816401809757170279359830405072979290334088001372592667335830493834721969530666412423607191221799264985972041029136882880184230287485056841415928168159384911252915177175964827392954370240605928157658858788208259823011427864136318130961092293084630185201989641724099320579883000947483498836421391018457888586614569993975794272418314326297654391787940380498413422722411806322838637383322400283706671280832059719035712412749721034056731898902637799501987059466114158020388070714143089507093230390886630705485957478165329323395050413486340713400075884099919632809506285526450378690402648349294342827229567036758274265723925086107792621803945933224931717654891778482116634021122017621723808294663968096563324957309674671051713539931215912062673777112230703112890212889947729884727812137170724106728491230436730792023374447704374838032170889649772025377277603203455519649066346946069534344922319993068524530818092976229637435626141897337333309692096166855506719631583811481156380304144117092389378301605391003140701207983054253006956172569060028009365166932474849567766785782207053510379362812701927402638825437124975152532417044572114841678122943647044580497966454749219427126808807413817053169034623864317529198138428107170706550865910305822345201137561014779955457888422749013359309536183330304900512207562379770121580322249481239972879049844482817430839097064911426231598498674825329546923912298075687191717157214258563126525734518211441820164130616792115035968998735144947450285462157820694562442736490192134019600133588937388266768405471759380181178103483835365817779893198397133969490665558425363050394447407814753910522010088605080901275766394389496400684793517015499992975455214113019957957427253227141729095829553010133946632856708567404673929249501705817600766698541463885058270877242495073377921912240649001477213923536270305513588296068185750899612018564819921282827401419332963218040805645785211413892426531377441852672262702313143479500262192278849726443446700413931517415699858548675738663335725667613789602490900542267929536642575114280489539184314981060661568600461230022203257370969036436835989621736793194105523431021811746754392744785663648148983891917436492161218543244580218809576413792176210548614009603748103419070529554081496975965327285930069834163435231996459158038036276053506947444138015525898355625481956786387935141574220449052875691172887812721799208525199036171241918683522872064576465941693883203117838869303528192955592142680242965108083207423484259021851828789534349022687385674118341332922725510929426908516302135726125338282911618776057681949421923412806692540382795080921434414833003493309685610661762831723782254342770924923104962110414561084749174704225945822377849842094457834263000968505099523481768821038190529287461279837306951147185655145543091456038823429186604784999620661460383567988069194598888790947503600944004938514495163564509836015412001404042189586172824170754907659728703660644666535652936494378623152633889551481390276225973406590536934326945523493108720538725989863217623244714854515279770105896660925293211036599002024599077848720399204856731266747571536729459158657637179181110182350624705092872208676697773533651132104927732592310371070890877425671805490073325545590956401720423902098227361990645417245797105320433679922515229812000311691249332733311751152908959848314570267243053274954543716616601481718627457569054586828141617803638024965512445326634233153675847499464086713475945662245484933175718859032962318855960127383604171770106566600867787078556997817652976368517726792019606851832238190192603402018888304364292797958691570247559964343001364628150872865940318637935024546920553752733311374371289358055199702787154978861444169394112093550857813397526669218813578630412333709899380055625217860531897582046499858416149103842269294121870770909796476373570491538345635372117828592765969823930420247538135970633169369399444430757864921041576402698528607107515324731296169813810825200704700765730924218616038394764436668521881175850327348344795888429478488859765628549813889366918170995212743784189028277342480254212416424807536090195973991588447565134661971121858810912629292462824941351077361082290540541131506982410771955891092945368538065431803503334566895215671844356794318428188304134291063666322821302861939725645557411345029020514839464528221042185219424608930425779997559137410840996031971099445827750593885217258885439978088349477226799419610278856723030245763207598919333967262265273479182910829281754942304593735965052956978625649183063953167931927040877497375547223888700724057949289729596199856357361477268404121800199004412035068231493597809776662116973298821913208850754616095863894974986381709044701631582024169893129516889993146982385522191826570607951517347881383465874484785722244874951151551388901609476031893104404178898692969410786606154136581051499604737368438574138269944580984024099643608192651161577433271407399061916901146153948212339306776323227825565655444056919301683256056211910560852747921788883622156115182449655730727685833152143278950727157716454348735175344623972106052127297815287471457356881550316355175540544003007195916116278425437509665610354525192888470636937649329187063774916897732953352380327366484025936553796407122929489259442538153222904171931688341176224128772388999779036561354472187952684361456709940094248595878082404377876434886016709047822625722419869595313412941005473987621118723136407686722132237527050166782165518578819870232764337481) = (2,
    52572709048278880685175938890071885344539082934445711436182887570451254578498384038128881478715777126406172423648683938919961140371708587824824076846906234828585114052092474896213897811835002160051483892832313883068363086071647201695312318764421537138063827714539772825331178783066312719929084434207240889892794664667810784605305278308472418512261508643517043779566624156818454272994248319120798465066705895658436215592444261522250964908512486783700340481049457742732166133825439901294312765966275804133412659564907550601095291183323270402080603393313190489925501880525728376285601301130312409436245486807634354191750829268513701333553840366867133418331855581484130421890186682585682053930883573891795741773491115280537068418866141451136338216202354129335426524204836422342427721700856834187239983021128243508355484309827753659439996141526355211481646043891767809600935125953511732947165225132162423734236638119145477243834413472467666890954976511907391600268992252753701275586698210595747006654555105134266857516723697170048802659640455197331263196661127349478342989793545260406793354238410122046297822312328786080534789731782394254397203551760675846023004033729762925327290807724737771010878180330264238433267763995780898451657744703047507343010169767169815215960700770178903685516400669348685917724040034084728886548650235591406083197637000795477864229982015986399146153325558466604131845404138132669389844663643091695955238565263913265754404634944478997064923609579381952730942995249335888914623174174886468438515977714062246270281124307489909826061396014488987235741485548164096672270939164748047819678130089923533821599676722844079900768959560433573117505084740763082091517007863708138589927793249064593613217726068458529677534056484668110491760540406017409587511928711589561861107803079872911134422592504887294633839162455304759321223168351801673707890987410951228227154106452660362825730536363072966697409996903704794042429855039689858824102742027165184305400104037107439419740177140812421902334641459199459809823629920956123608363763368815039470287918015289398123990479115680442029571220628976155128869429880012110648923166388247748519020318595538823126954352889996598079034289035602585634300594345554956040533273971505350430398063732672540644190874383578592626884639602020001027395964279437487526369774823514237985713232205469923098919330999838926506196372489937390235440235438619232983845843686988527591009877572557132097396348807224605664172272456567480425672748307990312814977775214463277176160205209087276348387027678455250322880208432071081366796314973936950483426427707056487733251562251589758480373195652218602406050812739081806856407288976798429927006068152663769088119250357549939223655835278004726846342317076458701830046706980222399202623881130506773779011454867346475186976243623564791148393238168826466833389483411316482318434539252757297797586907136210087858211814890102308623635073832207780890435113458616800171030627607115234625940123734712670208649541455777769410417539900842938400548783661769920960541950750136204043943318141399029123393047826551439261459650271495269852900140060716588422392924242721055616447122540768208881921645310052140926630704887770430368971843348118871171299311247896408082910470530958501963663120573250520327701595626299770206215179541137356116524600260182162783207247939996651990270750436469008690107310937334708004138424759607616937022688967938219995701189510796573803315451313910654529687121403052363067947638945010423656066175873755170347787818212814977090893374388269872842041736323079897525203647618176674559176749154726245026983263887097278884156822388702973204924943435118567415872592653020775655360485522419448799035817036750750623080358167862930167087847973766988378898778064807495658155091226426212440934736757842305101465719598682232505661564800442338217578874387319762912742264142983809857367768292408302276359508582315563213889468110715079988981777870283373974196137082512211493976238038495267252529644594292533737651123198462489937706678294181440914346125434743329309576121244910544473754037505257990793961454745903679029889293098927163956839309680750109629999934928749476459629257556014487988512647806188163766517352316496986530118571345857665927179559544570418240147805833427568495093811874741051055203002021107640007787199361428281917664700920644334250563294259889507747202869800919732870546506167961921684872155385689525151897720561665623411887707464741886528051237087479747590722936924608842093240085974100460891342674355317976844332959322520132511754827941847057079967730114839298513822926481530939199411255707178420565067304997562103844674413846554409057930619130557028410606863379508350371771382017438425194001098562896751285169793180541564366502569927702601243572501235956985301969623015601204975781650014359996979333503520341899014385330803676578712652323930742160827569055426197837319466427352937499911676509909773147408272709720076019146410489712364050223587140879033836388188834508042189112130685415659930629971676616556354258025372150465180156291787273601112484701038767449469171892840499475806999117421759503806254093242492963254310553192913908862240260677708471603508380190180079607187127289083942353350481991707199942125060558416886291435825520490052874864979424286924066413982049980662903935075120349133309471412446275824117173487166039640444782476087327822468332562759413886245295472873872689589788704344837859483706363078292320272300910584846761230820645518646782899890250630016844884188488631555111743979929291974157788435512864433742915814654833823564445182920998206688550871852488986180480142275493196312826334411186418305912031584789712630553129575020587344220988260603196594307580184792542892039382852016405735323058584543783031024098980728146824643043188783703542888845695477158871457647124760724773069128854370517001965151545726142566311569786259864333999284441959712006506846548543016272147567926767912402058067700274604162974553488625582874842689674509999833400650751487461935310788554924483397881341383459588412040) := by decide

/-- Full second `init_by_array` mixing loop for key `[100]`, assembled from
its two halves. -/
theorem iba2_full_100 : MT.ibaIter2 623 (2,
    34161025809675027646758796511192227811094668342618972052027826288426836692814824377434899129173856945839207456657280384835989155058069067169940964641742386890129276596335937607928752597202221448958372312975140797660985599890381969946090893599370929680447046781557055483287395568449636557994678037880573030146950659047974256941769181109690718436702788277000414992810650412462818474108330128543999868567532300114627201310635547487330586722783491020880851648052876856985817572936205427414677172767723918729335049168412943341479719268501739418890310609937216285658816401809757170279359830405072979290334088001372592667335830493834721969530666412423607191221799264985972041029136882880184230287485056841415928168159384911252915177175964827392954370240605928157658858788208259823011427864136318130961092293084630185201989641724099320579883000947483498836421391018457888586614569993975794272418314326297654391787940380498413422722411806322838637383322400283706671280832059719035712412749721034056731898902637799501987059466114158020388070714143089507093230390886630705485957478165329323395050413486340713400075884099919632809506285526450378690402648349294342827229567036758274265723925086107792621803945933224931717654891778482116634021122017621723808294663968096563324957309674671051713539931215912062673777112230703112890212889947729884727812137170724106728491230436730792023374447704374838032170889649772025377277603203455519649066346946069534344922319993068524530818092976229637435626141897337333309692096166855506719631583811481156380304144117092389378301605391003140701207983054253006956172569060028009365166932474849567766785782207053510379362812701927402638825437124975152532417044572114841678122943647044580497966454749219427126808807413817053169034623864317529198138428107170706550865910305822345201137561014779955457888422749013359309536183330304900512207562379770121580322249481239972879049844482817430839097064911426231598498674825329546923912298075687191717157214258563126525734518211441820164130616792115035968998735144947450285462157820694562442736490192134019600133588937388266768405471759380181178103483835365817779893198397133969490665558425363050394447407814753910522010088605080901275766394389496400684793517015499992975455214113019957957427253227141729095829553010133946632856708567404673929249501705817600766698541463885058270877242495073377921912240649001477213923536270305513588296068185750899612018564819921282827401419332963218040805645785211413892426531377441852672262702313143479500262192278849726443446700413931517415699858548675738663335725667613789602490900542267929536642575114280489539184314981060661568600461230022203257370969036436835989621736793194105523431021811746754392744785663648148983891917436492161218543244580218809576413792176210548614009603748103419070529554081496975965327285930069834163435231996459158038036276053506947444138015525898355625481956786387935141574220449052875691172887812721799208525199036171241918683522872064576465941693883203114148464235494988938700276370955269892493243464359038888842882662890836158610366292302776766370745874672477477142738112311161436185608019582225393985552655414264180899007206043869493527713548245730415852007410593214904757288323708570000085933332929054562622129053413924233466543873788732028996414823609133877709849551331910220008954482052751371084385680353874321755750359435016398793363494279200168743120787706933797611824487892914024941746222525115565553487868167607318033410730507533315040952573179076172664744835285945923992508962172630133525642588106809552097288741859063622676779901588211586577625145993015194839852749347466009345647696581198074169912887564793625272015736456291374836896262225985550060557295388176163723833086446754877942001646842828827842653407092753809018847149688940562147242822458883459465760880839612414352766690629983818056754257241244879555724483029164471408632428005866814791507929443724601973496284555404408317551297823054780714809654799885629513258277239836952845996966673214000873166187741725438820157341277997173654899862285841487881458088635808802835011960776684128876676138494213251264716053518300918664681632181757734252806294818984990634952988792619794241184640399130597942712058950351440791666079824783385177338201046708564663241786260834842213326555852772774857579267044804107700690471598318392891677073375355111322046876140109786028549096696605056154041739931454386615844509022494247483476563232097939519057675183096848782679031578804533155986595958837498783115493547012281442745107855782344975198850170716138015936775573424182705186533509354773394816094384498060701873405164327077597779672171793749800223520706344896411038675372915502025727670921263317816214074574263283638333917773779804491081151925246208424132269917981118168407366460855767574082808034020561162837340309957571547051557650569222320394493836308222770346413054278486807947468171569060106660937709192988498449550331265773717912986699079025676896899649966249324859772841290379400838675164177281020750321420378240844723330413583329873860522244410927211785409259420248577580739001477755170631545756549334871074410135529210342532232499518315950805769742997381012800838271829027718283177599371124568572008388875216363126917115236627998681149072855635172120622464581963652118947053458144282973494904899519133943405404291642216565202156741799256477001344611584182615198680704239128546601880772836954976478450487060291997189072616380674617509764157261286785607528406851085782838460283153553185272895683425908983579776015242176050299874610851817365328393274278704247744394201089557125949179669420679162933783379974991425328968370809064159402327507062155485234396512186019161980483574530729009995797051165768336177486860482314338986136090932238682708220392435558807921931235946915424951170370175331361218016596126420332216115297500263311478823589434644190404469646942761532094673945072220918755347955140336743764698187285561888745184250515143938154065640010410166388732935303480989107057887623147330241461389097725824999551257929) = (2,
    52572709048278880685175938890071885344539082934445711436182887570451254578498384038128881478715777126406172423648683938919961140371708587824824076846906234828585114052092474896213897811835002160051483892832313883068363086071647201695312318764421537138063827714539772825331178783066312719929084434207240889892794664667810784605305278308472418512261508643517043779566624156818454272994248319120798465066705895658436215592444261522250964908512486783700340481049457742732166133825439901294312765966275804133412659564907550601095291183323270402080603393313190489925501880525728376285601301130312409436245486807634354191750829268513701333553840366867133418331855581484130421890186682585682053930883573891795741773491115280537068418866141451136338216202354129335426524204836422342427721700856834187239983021128243508355484309827753659439996141526355211481646043891767809600935125953511732947165225132162423734236638119145477243834413472467666890954976511907391600268992252753701275586698210595747006654555105134266857516723697170048802659640455197331263196661127349478342989793545260406793354238410122046297822312328786080534789731782394254397203551760675846023004033729762925327290807724737771010878180330264238433267763995780898451657744703047507343010169767169815215960700770178903685516400669348685917724040034084728886548650235591406083197637000795477864229982015986399146153325558466604131845404138132669389844663643091695955238565263913265754404634944478997064923609579381952730942995249335888914623174174886468438515977714062246270281124307489909826061396014488987235741485548164096672270939164748047819678130089923533821599676722844079900768959560433573117505084740763082091517007863708138589927793249064593613217726068458529677534056484668110491760540406017409587511928711589561861107803079872911134422592504887294633839162455304759321223168351801673707890987410951228227154106452660362825730536363072966697409996903704794042429855039689858824102742027165184305400104037107439419740177140812421902334641459199459809823629920956123608363763368815039470287918015289398123990479115680442029571220628976155128869429880012110648923166388247748519020318595538823126954352889996598079034289035602585634300594345554956040533273971505350430398063732672540644190874383578592626884639602020001027395964279437487526369774823514237985713232205469923098919330999838926506196372489937390235440235438619232983845843686988527591009877572557132097396348807224605664172272456567480425672748307990312814977775214463277176160205209087276348387027678455250322880208432071081366796314973936950483426427707056487733251562251589758480373195652218602406050812739081806856407288976798429927006068152663769088119250357549939223655835278004726846342317076458701830046706980222399202623881130506773779011454867346475186976243623564791148393238168826466833389483411316482318434539252757297797586907136210087858211814890102308623635073832207780890435113458616800171030627607115234625940123734712670208649541455777769410417539900842938400548783661769920960541950750136204043943318141399029123393047826551439261459650271495269852900140060716588422392924242721055616447122540768208881921645310052140926630704887770430368971843348118871171299311247896408082910470530958501963663120573250520327701595626299770206215179541137356116524600260182162783207247939996651990270750436469008690107310937334708004138424759607616937022688967938219995701189510796573803315451313910654529687121403052363067947638945010423656066175873755170347787818212814977090893374388269872842041736323079897525203647618176674559176749154726245026983263887097278884156822388702973204924943435118567415872592653020775655360485522419448799035817036750750623080358167862930167087847973766988378898778064807495658155091226426212440934736757842305101465719598682232505661564800442338217578874387319762912742264142983809857367768292408302276359508582315563213889468110715079988981777870283373974196137082512211493976238038495267252529644594292533737651123198462489937706678294181440914346125434743329309576121244910544473754037505257990793961454745903679029889293098927163956839309680750109629999934928749476459629257556014487988512647806188163766517352316496986530118571345857665927179559544570418240147805833427568495093811874741051055203002021107640007787199361428281917664700920644334250563294259889507747202869800919732870546506167961921684872155385689525151897720561665623411887707464741886528051237087479747590722936924608842093240085974100460891342674355317976844332959322520132511754827941847057079967730114839298513822926481530939199411255707178420565067304997562103844674413846554409057930619130557028410606863379508350371771382017438425194001098562896751285169793180541564366502569927702601243572501235956985301969623015601204975781650014359996979333503520341899014385330803676578712652323930742160827569055426197837319466427352937499911676509909773147408272709720076019146410489712364050223587140879033836388188834508042189112130685415659930629971676616556354258025372150465180156291787273601112484701038767449469171892840499475806999117421759503806254093242492963254310553192913908862240260677708471603508380190180079607187127289083942353350481991707199942125060558416886291435825520490052874864979424286924066413982049980662903935075120349133309471412446275824117173487166039640444782476087327822468332562759413886245295472873872689589788704344837859483706363078292320272300910584846761230820645518646782899890250630016844884188488631555111743979929291974157788435512864433742915814654833823564445182920998206688550871852488986180480142275493196312826334411186418305912031584789712630553129575020587344220988260603196594307580184792542892039382852016405735323058584543783031024098980728146824643043188783703542888845695477158871457647124760724773069128854370517001965151545726142566311569786259864333999284441959712006506846548543016272147567926767912402058067700274604162974553488625582874842689674509999833400650751487461935310788554924483397881341383459588412040) := by
  have h : MT.ibaIter2 623 (2,
      34161025809675027646758796511192227811094668342618972052027826288426836692814824377434899129173856945839207456657280384835989155058069067169940964641742386890129276596335937607928752597202221448958372312975140797660985599890381969946090893599370929680447046781557055483287395568449636557994678037880573030146950659047974256941769181109690718436702788277000414992810650412462818474108330128543999868567532300114627201310635547487330586722783491020880851648052876856985817572936205427414677172767723918729335049168412943341479719268501739418890310609937216285658816401809757170279359830405072979290334088001372592667335830493834721969530666412423607191221799264985972041029136882880184230287485056841415928168159384911252915177175964827392954370240605928157658858788208259823011427864136318130961092293084630185201989641724099320579883000947483498836421391018457888586614569993975794272418314326297654391787940380498413422722411806322838637383322400283706671280832059719035712412749721034056731898902637799501987059466114158020388070714143089507093230390886630705485957478165329323395050413486340713400075884099919632809506285526450378690402648349294342827229567036758274265723925086107792621803945933224931717654891778482116634021122017621723808294663968096563324957309674671051713539931215912062673777112230703112890212889947729884727812137170724106728491230436730792023374447704374838032170889649772025377277603203455519649066346946069534344922319993068524530818092976229637435626141897337333309692096166855506719631583811481156380304144117092389378301605391003140701207983054253006956172569060028009365166932474849567766785782207053510379362812701927402638825437124975152532417044572114841678122943647044580497966454749219427126808807413817053169034623864317529198138428107170706550865910305822345201137561014779955457888422749013359309536183330304900512207562379770121580322249481239972879049844482817430839097064911426231598498674825329546923912298075687191717157214258563126525734518211441820164130616792115035968998735144947450285462157820694562442736490192134019600133588937388266768405471759380181178103483835365817779893198397133969490665558425363050394447407814753910522010088605080901275766394389496400684793517015499992975455214113019957957427253227141729095829553010133946632856708567404673929249501705817600766698541463885058270877242495073377921912240649001477213923536270305513588296068185750899612018564819921282827401419332963218040805645785211413892426531377441852672262702313143479500262192278849726443446700413931517415699858548675738663335725667613789602490900542267929536642575114280489539184314981060661568600461230022203257370969036436835989621736793194105523431021811746754392744785663648148983891917436492161218543244580218809576413792176210548614009603748103419070529554081496975965327285930069834163435231996459158038036276053506947444138015525898355625481956786387935141574220449052875691172887812721799208525199036171241918683522872064576465941693883203114148464235494988938700276370955269892493243464359038888842882662890836158610366292302776766370745874672477477142738112311161436185608019582225393985552655414264180899007206043869493527713548245730415852007410593214904757288323708570000085933332929054562622129053413924233466543873788732028996414823609133877709849551331910220008954482052751371084385680353874321755750359435016398793363494279200168743120787706933797611824487892914024941746222525115565553487868167607318033410730507533315040952573179076172664744835285945923992508962172630133525642588106809552097288741859063622676779901588211586577625145993015194839852749347466009345647696581198074169912887564793625272015736456291374836896262225985550060557295388176163723833086446754877942001646842828827842653407092753809018847149688940562147242822458883459465760880839612414352766690629983818056754257241244879555724483029164471408632428005866814791507929443724601973496284555404408317551297823054780714809654799885629513258277239836952845996966673214000873166187741725438820157341277997173654899862285841487881458088635808802835011960776684128876676138494213251264716053518300918664681632181757734252806294818984990634952988792619794241184640399130597942712058950351440791666079824783385177338201046708564663241786260834842213326555852772774857579267044804107700690471598318392891677073375355111322046876140109786028549096696605056154041739931454386615844509022494247483476563232097939519057675183096848782679031578804533155986595958837498783115493547012281442745107855782344975198850170716138015936775573424182705186533509354773394816094384498060701873405164327077597779672171793749800223520706344896411038675372915502025727670921263317816214074574263283638333917773779804491081151925246208424132269917981118168407366460855767574082808034020561162837340309957571547051557650569222320394493836308222770346413054278486807947468171569060106660937709192988498449550331265773717912986699079025676896899649966249324859772841290379400838675164177281020750321420378240844723330413583329873860522244410927211785409259420248577580739001477755170631545756549334871074410135529210342532232499518315950805769742997381012800838271829027718283177599371124568572008388875216363126917115236627998681149072855635172120622464581963652118947053458144282973494904899519133943405404291642216565202156741799256477001344611584182615198680704239128546601880772836954976478450487060291997189072616380674617509764157261286785607528406851085782838460283153553185272895683425908983579776015242176050299874610851817365328393274278704247744394201089557125949179669420679162933783379974991425328968370809064159402327507062155485234396512186019161980483574530729009995797051165768336177486860482314338986136090932238682708220392435558807921931235946915424951170370175331361218016596126420332216115297500263311478823589434644190404469646942761532094673945072220918755347955140336743764698187285561888745184250515143938154065640010410166388732935303480989107057887623147330241461389097725824999551257929) =
      MT.ibaIter2 311 (MT.ibaIter2 312 (2,
      34161025809675027646758796511192227811094668342618972052027826288426836692814824377434899129173856945839207456657280384835989155058069067169940964641742386890129276596335937607928752597202221448958372312975140797660985599890381969946090893599370929680447046781557055483287395568449636557994678037880573030146950659047974256941769181109690718436702788277000414992810650412462818474108330128543999868567532300114627201310635547487330586722783491020880851648052876856985817572936205427414677172767723918729335049168412943341479719268501739418890310609937216285658816401809757170279359830405072979290334088001372592667335830493834721969530666412423607191221799264985972041029136882880184230287485056841415928168159384911252915177175964827392954370240605928157658858788208259823011427864136318130961092293084630185201989641724099320579883000947483498836421391018457888586614569993975794272418314326297654391787940380498413422722411806322838637383322400283706671280832059719035712412749721034056731898902637799501987059466114158020388070714143089507093230390886630705485957478165329323395050413486340713400075884099919632809506285526450378690402648349294342827229567036758274265723925086107792621803945933224931717654891778482116634021122017621723808294663968096563324957309674671051713539931215912062673777112230703112890212889947729884727812137170724106728491230436730792023374447704374838032170889649772025377277603203455519649066346946069534344922319993068524530818092976229637435626141897337333309692096166855506719631583811481156380304144117092389378301605391003140701207983054253006956172569060028009365166932474849567766785782207053510379362812701927402638825437124975152532417044572114841678122943647044580497966454749219427126808807413817053169034623864317529198138428107170706550865910305822345201137561014779955457888422749013359309536183330304900512207562379770121580322249481239972879049844482817430839097064911426231598498674825329546923912298075687191717157214258563126525734518211441820164130616792115035968998735144947450285462157820694562442736490192134019600133588937388266768405471759380181178103483835365817779893198397133969490665558425363050394447407814753910522010088605080901275766394389496400684793517015499992975455214113019957957427253227141729095829553010133946632856708567404673929249501705817600766698541463885058270877242495073377921912240649001477213923536270305513588296068185750899612018564819921282827401419332963218040805645785211413892426531377441852672262702313143479500262192278849726443446700413931517415699858548675738663335725667613789602490900542267929536642575114280489539184314981060661568600461230022203257370969036436835989621736793194105523431021811746754392744785663648148983891917436492161218543244580218809576413792176210548614009603748103419070529554081496975965327285930069834163435231996459158038036276053506947444138015525898355625481956786387935141574220449052875691172887812721799208525199036171241918683522872064576465941693883203114148464235494988938700276370955269892493243464359038888842882662890836158610366292302776766370745874672477477142738112311161436185608019582225393985552655414264180899007206043869493527713548245730415852007410593214904757288323708570000085933332929054562622129053413924233466543873788732028996414823609133877709849551331910220008954482052751371084385680353874321755750359435016398793363494279200168743120787706933797611824487892914024941746222525115565553487868167607318033410730507533315040952573179076172664744835285945923992508962172630133525642588106809552097288741859063622676779901588211586577625145993015194839852749347466009345647696581198074169912887564793625272015736456291374836896262225985550060557295388176163723833086446754877942001646842828827842653407092753809018847149688940562147242822458883459465760880839612414352766690629983818056754257241244879555724483029164471408632428005866814791507929443724601973496284555404408317551297823054780714809654799885629513258277239836952845996966673214000873166187741725438820157341277997173654899862285841487881458088635808802835011960776684128876676138494213251264716053518300918664681632181757734252806294818984990634952988792619794241184640399130597942712058950351440791666079824783385177338201046708564663241786260834842213326555852772774857579267044804107700690471598318392891677073375355111322046876140109786028549096696605056154041739931454386615844509022494247483476563232097939519057675183096848782679031578804533155986595958837498783115493547012281442745107855782344975198850170716138015936775573424182705186533509354773394816094384498060701873405164327077597779672171793749800223520706344896411038675372915502025727670921263317816214074574263283638333917773779804491081151925246208424132269917981118168407366460855767574082808034020561162837340309957571547051557650569222320394493836308222770346413054278486807947468171569060106660937709192988498449550331265773717912986699079025676896899649966249324859772841290379400838675164177281020750321420378240844723330413583329873860522244410927211785409259420248577580739001477755170631545756549334871074410135529210342532232499518315950805769742997381012800838271829027718283177599371124568572008388875216363126917115236627998681149072855635172120622464581963652118947053458144282973494904899519133943405404291642216565202156741799256477001344611584182615198680704239128546601880772836954976478450487060291997189072616380674617509764157261286785607528406851085782838460283153553185272895683425908983579776015242176050299874610851817365328393274278704247744394201089557125949179669420679162933783379974991425328968370809064159402327507062155485234396512186019161980483574530729009995797051165768336177486860482314338986136090932238682708220392435558807921931235946915424951170370175331361218016596126420332216115297500263311478823589434644190404469646942761532094673945072220918755347955140336743764698187285561888745184250515143938154065640010410166388732935303480989107057887623147330241461389097725824999551257929)) :=
    MT.ibaIter2_add 311 312 _
  rw [h, iba2_mid_100, iba2_fin_100]

set_option maxRecDepth 1000000 in
/-- Index component of the full first mixing loop on key `[100]`. -/
theorem iba1_res_fst_100 : (MT.ibaIter1 [100] 1 624 (1, 0,
    62685089405509111925910797243914719854890513935494713084094713797279779630627496305943786046941309007281293105221577504421353501605599255248785149356818580886163074212016138319710181437623915839386196989339984175865611290932895638485827512283879634622589907034847096838980553398268338905605705315464924834076955485269257682765843392777664062904318116756644819538761883164862381873685805923051342196114892111881287659915424456096361326051748180740843339721465950121631833352165428366344241754810081140762710579390137795215443629123183303201044796731629341661542390258966032612552126580439913324626563213547393121217728067632048719897064596438939163041106934301355643192260261867872030533878188557727018817797219012064641958276099544136480610826250078810896212505254064619595899307426216931651016613164877613570296351724055264357110051005104450572173606849938075379012356137114572525910752676385589168436483206759652170097284388598518122222819376116616668668677988651997615236221431416155794821321118852088948452164682783715959922435191327367306488124638818446090532334864386359317233873012285172875896330714873881780586230596002778688422250420590175698633544778262136505069053046737202152515000629854634631225453245996997340762744567896897683212149150732909707719966588817675821630380251456266588599804209831660991462715440400663143017564651072677052296295930367391822676512661642282350234567553218318066651318510488484545671729568971887621684270732981974442582657502555066960418690332945218280990034155505553171409775830458482159957769211244505225186771766058316021949327301666418107251589707938065072144733816368743637495699897181007119363672460040974223449086641663004605507793014252452324150238463715514559124307431648478948480649031081489229583165223570218974125422263886587593014744330199975749832650568652404661542746543584685860761547297457070273167102314576665676644281998277713093924236551494770138725647883566971887853912300960949802636372591951717316415323846182747445131420005722224687602711525724505110953736568981699982016588947035894059736087136235396798804019434387781559696138411966704777989194870090051835909943079457649936020314680876367897457337488804889342331824364904005266943816631681518612047693872607083945336048154993001716858914072302230374294986610531277637599664647525761147514008899238689946802093944865612982597431648203028809043429562401771290925843222821220221381984318518256971016750121270624021542153515130386081256853244444367484914891752438843250797295149886721543902585582757118492217204960123203770309672216674331373413106027454841661967870247822106376003696537006476355273043676224973894002060133928765135363584693312631060562155459381152426642778209514491263275588735458188352331628933634618912177576995916817414488324819680108333628484452298807271017999262374749573133359090629722111402666396222385680310709557844049479865847370371052888681758484468279513921172987571336140289500145715018352119752770038578015899178947425013401300127437407370742417936980607757405410607208376626705322894782663757703548808362869195819947150150865798288136994832911439410269353230208345410503242199606186650417333579047848825834242257112060317620885151293421378661990197161958015730358249113963865616811805417654957899792836277351433146683316643158745577273742588847277405020330699298979666450169324546781433015633218213248018986767013905101885085728066131985273947793365444250280947765884488609302913437528001802423347517836456663978922564542901160075954132077499502061844004777463229898312792357201472450520034421742281215395838957029567457078867297742321364249618062920323524100796395855490398720473188748064226082130624085325443879193454095100721902723688608983702297802922465778395428510531587340343771240068168890882622394112252370643121994567113348850616779414952571984309063927162547038575769391208822294299053225776973195785292510157058775147687493667385905281728614066936870793483631104130486096422866739022254251631022238998824784309871214211336594149372534724828516536519652291847191320934127662041939033266344757810255450761243406685982638804631309022215852991706323223872506356963395668107287976200691035733250165615782065576159415303394415966535152327550107294310945533761757937224536792146711105700674959937207778503501562879445241463662142281185819506210181780721218897488871995890898495582077564387715740371190275817001449471008660140255770382875594805433223352833476546594040372715841292252983175468170554585838014797017976570586587751089146553833551413146641975370517778330202052282190648141351908509904289169596729111939424597802445523234111653813513351586367960175769546506050051493655326103823629699245586418016468660736051425039803522537493270385743437525903109563398688573456345292160567787373069854610200635728800730405759403691875432721043746233636765094325962472698626875833148826372580999341547042531665331710768365982359935219565301595187067772247975847412037958098451506998773182171027695752045356894447709388159633645629545493246019135820915900506906032640701290570506299065346661219735445730896769091171352761432210047450382980030625592142825700677633624952217795344145832513082782540989616413040988227257601039794195623143595351637462190706636535912449334420058581521218743569834717812580171279915160794789675762903718339466089866492140118823551337811927493524761760551434001520245324751568861558716803095718510972066599595072196209156923318071322517301806566620458899402166430591631348363311478802800521980525250372511467674969151489645720009661369785217086930227581405674315978920044798755483144811069077253851302610194739624245401270682864202663540116818822475326676741780611737275972111438408802370422377608919256570335384654037352344114105999356653180812503717835632673409647782213628400383443178293619326757139369589058612122088577237252104060778375287897543799460272211546791798613974575310224299012205778134871255296492395729078221387894808011355820153110205338707003138385845672884757408327786763143168159295742358655797897448897721796416755370)).1 = 2 := by
  rw [iba1_full_100]

/-- State component of the full first mixing loop on key `[100]`. -/
theorem iba1_res_snd_100 : (MT.ibaIter1 [100] 1 624 (1, 0,
    62685089405509111925910797243914719854890513935494713084094713797279779630627496305943786046941309007281293105221577504421353501605599255248785149356818580886163074212016138319710181437623915839386196989339984175865611290932895638485827512283879634622589907034847096838980553398268338905605705315464924834076955485269257682765843392777664062904318116756644819538761883164862381873685805923051342196114892111881287659915424456096361326051748180740843339721465950121631833352165428366344241754810081140762710579390137795215443629123183303201044796731629341661542390258966032612552126580439913324626563213547393121217728067632048719897064596438939163041106934301355643192260261867872030533878188557727018817797219012064641958276099544136480610826250078810896212505254064619595899307426216931651016613164877613570296351724055264357110051005104450572173606849938075379012356137114572525910752676385589168436483206759652170097284388598518122222819376116616668668677988651997615236221431416155794821321118852088948452164682783715959922435191327367306488124638818446090532334864386359317233873012285172875896330714873881780586230596002778688422250420590175698633544778262136505069053046737202152515000629854634631225453245996997340762744567896897683212149150732909707719966588817675821630380251456266588599804209831660991462715440400663143017564651072677052296295930367391822676512661642282350234567553218318066651318510488484545671729568971887621684270732981974442582657502555066960418690332945218280990034155505553171409775830458482159957769211244505225186771766058316021949327301666418107251589707938065072144733816368743637495699897181007119363672460040974223449086641663004605507793014252452324150238463715514559124307431648478948480649031081489229583165223570218974125422263886587593014744330199975749832650568652404661542746543584685860761547297457070273167102314576665676644281998277713093924236551494770138725647883566971887853912300960949802636372591951717316415323846182747445131420005722224687602711525724505110953736568981699982016588947035894059736087136235396798804019434387781559696138411966704777989194870090051835909943079457649936020314680876367897457337488804889342331824364904005266943816631681518612047693872607083945336048154993001716858914072302230374294986610531277637599664647525761147514008899238689946802093944865612982597431648203028809043429562401771290925843222821220221381984318518256971016750121270624021542153515130386081256853244444367484914891752438843250797295149886721543902585582757118492217204960123203770309672216674331373413106027454841661967870247822106376003696537006476355273043676224973894002060133928765135363584693312631060562155459381152426642778209514491263275588735458188352331628933634618912177576995916817414488324819680108333628484452298807271017999262374749573133359090629722111402666396222385680310709557844049479865847370371052888681758484468279513921172987571336140289500145715018352119752770038578015899178947425013401300127437407370742417936980607757405410607208376626705322894782663757703548808362869195819947150150865798288136994832911439410269353230208345410503242199606186650417333579047848825834242257112060317620885151293421378661990197161958015730358249113963865616811805417654957899792836277351433146683316643158745577273742588847277405020330699298979666450169324546781433015633218213248018986767013905101885085728066131985273947793365444250280947765884488609302913437528001802423347517836456663978922564542901160075954132077499502061844004777463229898312792357201472450520034421742281215395838957029567457078867297742321364249618062920323524100796395855490398720473188748064226082130624085325443879193454095100721902723688608983702297802922465778395428510531587340343771240068168890882622394112252370643121994567113348850616779414952571984309063927162547038575769391208822294299053225776973195785292510157058775147687493667385905281728614066936870793483631104130486096422866739022254251631022238998824784309871214211336594149372534724828516536519652291847191320934127662041939033266344757810255450761243406685982638804631309022215852991706323223872506356963395668107287976200691035733250165615782065576159415303394415966535152327550107294310945533761757937224536792146711105700674959937207778503501562879445241463662142281185819506210181780721218897488871995890898495582077564387715740371190275817001449471008660140255770382875594805433223352833476546594040372715841292252983175468170554585838014797017976570586587751089146553833551413146641975370517778330202052282190648141351908509904289169596729111939424597802445523234111653813513351586367960175769546506050051493655326103823629699245586418016468660736051425039803522537493270385743437525903109563398688573456345292160567787373069854610200635728800730405759403691875432721043746233636765094325962472698626875833148826372580999341547042531665331710768365982359935219565301595187067772247975847412037958098451506998773182171027695752045356894447709388159633645629545493246019135820915900506906032640701290570506299065346661219735445730896769091171352761432210047450382980030625592142825700677633624952217795344145832513082782540989616413040988227257601039794195623143595351637462190706636535912449334420058581521218743569834717812580171279915160794789675762903718339466089866492140118823551337811927493524761760551434001520245324751568861558716803095718510972066599595072196209156923318071322517301806566620458899402166430591631348363311478802800521980525250372511467674969151489645720009661369785217086930227581405674315978920044798755483144811069077253851302610194739624245401270682864202663540116818822475326676741780611737275972111438408802370422377608919256570335384654037352344114105999356653180812503717835632673409647782213628400383443178293619326757139369589058612122088577237252104060778375287897543799460272211546791798613974575310224299012205778134871255296492395729078221387894808011355820153110205338707003138385845672884757408327786763143168159295742358655797897448897721796416755370)).2.2 =
    34161025809675027646758796511192227811094668342618972052027826288426836692814824377434899129173856945839207456657280384835989155058069067169940964641742386890129276596335937607928752597202221448958372312975140797660985599890381969946090893599370929680447046781557055483287395568449636557994678037880573030146950659047974256941769181109690718436702788277000414992810650412462818474108330128543999868567532300114627201310635547487330586722783491020880851648052876856985817572936205427414677172767723918729335049168412943341479719268501739418890310609937216285658816401809757170279359830405072979290334088001372592667335830493834721969530666412423607191221799264985972041029136882880184230287485056841415928168159384911252915177175964827392954370240605928157658858788208259823011427864136318130961092293084630185201989641724099320579883000947483498836421391018457888586614569993975794272418314326297654391787940380498413422722411806322838637383322400283706671280832059719035712412749721034056731898902637799501987059466114158020388070714143089507093230390886630705485957478165329323395050413486340713400075884099919632809506285526450378690402648349294342827229567036758274265723925086107792621803945933224931717654891778482116634021122017621723808294663968096563324957309674671051713539931215912062673777112230703112890212889947729884727812137170724106728491230436730792023374447704374838032170889649772025377277603203455519649066346946069534344922319993068524530818092976229637435626141897337333309692096166855506719631583811481156380304144117092389378301605391003140701207983054253006956172569060028009365166932474849567766785782207053510379362812701927402638825437124975152532417044572114841678122943647044580497966454749219427126808807413817053169034623864317529198138428107170706550865910305822345201137561014779955457888422749013359309536183330304900512207562379770121580322249481239972879049844482817430839097064911426231598498674825329546923912298075687191717157214258563126525734518211441820164130616792115035968998735144947450285462157820694562442736490192134019600133588937388266768405471759380181178103483835365817779893198397133969490665558425363050394447407814753910522010088605080901275766394389496400684793517015499992975455214113019957957427253227141729095829553010133946632856708567404673929249501705817600766698541463885058270877242495073377921912240649001477213923536270305513588296068185750899612018564819921282827401419332963218040805645785211413892426531377441852672262702313143479500262192278849726443446700413931517415699858548675738663335725667613789602490900542267929536642575114280489539184314981060661568600461230022203257370969036436835989621736793194105523431021811746754392744785663648148983891917436492161218543244580218809576413792176210548614009603748103419070529554081496975965327285930069834163435231996459158038036276053506947444138015525898355625481956786387935141574220449052875691172887812721799208525199036171241918683522872064576465941693883203114148464235494988938700276370955269892493243464359038888842882662890836158610366292302776766370745874672477477142738112311161436185608019582225393985552655414264180899007206043869493527713548245730415852007410593214904757288323708570000085933332929054562622129053413924233466543873788732028996414823609133877709849551331910220008954482052751371084385680353874321755750359435016398793363494279200168743120787706933797611824487892914024941746222525115565553487868167607318033410730507533315040952573179076172664744835285945923992508962172630133525642588106809552097288741859063622676779901588211586577625145993015194839852749347466009345647696581198074169912887564793625272015736456291374836896262225985550060557295388176163723833086446754877942001646842828827842653407092753809018847149688940562147242822458883459465760880839612414352766690629983818056754257241244879555724483029164471408632428005866814791507929443724601973496284555404408317551297823054780714809654799885629513258277239836952845996966673214000873166187741725438820157341277997173654899862285841487881458088635808802835011960776684128876676138494213251264716053518300918664681632181757734252806294818984990634952988792619794241184640399130597942712058950351440791666079824783385177338201046708564663241786260834842213326555852772774857579267044804107700690471598318392891677073375355111322046876140109786028549096696605056154041739931454386615844509022494247483476563232097939519057675183096848782679031578804533155986595958837498783115493547012281442745107855782344975198850170716138015936775573424182705186533509354773394816094384498060701873405164327077597779672171793749800223520706344896411038675372915502025727670921263317816214074574263283638333917773779804491081151925246208424132269917981118168407366460855767574082808034020561162837340309957571547051557650569222320394493836308222770346413054278486807947468171569060106660937709192988498449550331265773717912986699079025676896899649966249324859772841290379400838675164177281020750321420378240844723330413583329873860522244410927211785409259420248577580739001477755170631545756549334871074410135529210342532232499518315950805769742997381012800838271829027718283177599371124568572008388875216363126917115236627998681149072855635172120622464581963652118947053458144282973494904899519133943405404291642216565202156741799256477001344611584182615198680704239128546601880772836954976478450487060291997189072616380674617509764157261286785607528406851085782838460283153553185272895683425908983579776015242176050299874610851817365328393274278704247744394201089557125949179669420679162933783379974991425328968370809064159402327507062155485234396512186019161980483574530729009995797051165768336177486860482314338986136090932238682708220392435558807921931235946915424951170370175331361218016596126420332216115297500263311478823589434644190404469646942761532094673945072220918755347955140336743764698187285561888745184250515143938154065640010410166388732935303480989107057887623147330241461389097725824999551257929 := by
  rw [iba1_full_100]

set_option maxRecDepth 1000000 in
set_option exponentiation.threshold 100000 in
/-- Literal MT19937 state after `random.seed(1 * 100)`, assembled from the
staged loop evaluations. -/
theorem seed100_lit : MT.seedInt (1 * 100) =
    ⟨52572709048278880685175938890071885344539082934445711436182887570451254578498384038128881478715777126406172423648683938919961140371708587824824076846906234828585114052092474896213897811835002160051483892832313883068363086071647201695312318764421537138063827714539772825331178783066312719929084434207240889892794664667810784605305278308472418512261508643517043779566624156818454272994248319120798465066705895658436215592444261522250964908512486783700340481049457742732166133825439901294312765966275804133412659564907550601095291183323270402080603393313190489925501880525728376285601301130312409436245486807634354191750829268513701333553840366867133418331855581484130421890186682585682053930883573891795741773491115280537068418866141451136338216202354129335426524204836422342427721700856834187239983021128243508355484309827753659439996141526355211481646043891767809600935125953511732947165225132162423734236638119145477243834413472467666890954976511907391600268992252753701275586698210595747006654555105134266857516723697170048802659640455197331263196661127349478342989793545260406793354238410122046297822312328786080534789731782394254397203551760675846023004033729762925327290807724737771010878180330264238433267763995780898451657744703047507343010169767169815215960700770178903685516400669348685917724040034084728886548650235591406083197637000795477864229982015986399146153325558466604131845404138132669389844663643091695955238565263913265754404634944478997064923609579381952730942995249335888914623174174886468438515977714062246270281124307489909826061396014488987235741485548164096672270939164748047819678130089923533821599676722844079900768959560433573117505084740763082091517007863708138589927793249064593613217726068458529677534056484668110491760540406017409587511928711589561861107803079872911134422592504887294633839162455304759321223168351801673707890987410951228227154106452660362825730536363072966697409996903704794042429855039689858824102742027165184305400104037107439419740177140812421902334641459199459809823629920956123608363763368815039470287918015289398123990479115680442029571220628976155128869429880012110648923166388247748519020318595538823126954352889996598079034289035602585634300594345554956040533273971505350430398063732672540644190874383578592626884639602020001027395964279437487526369774823514237985713232205469923098919330999838926506196372489937390235440235438619232983845843686988527591009877572557132097396348807224605664172272456567480425672748307990312814977775214463277176160205209087276348387027678455250322880208432071081366796314973936950483426427707056487733251562251589758480373195652218602406050812739081806856407288976798429927006068152663769088119250357549939223655835278004726846342317076458701830046706980222399202623881130506773779011454867346475186976243623564791148393238168826466833389483411316482318434539252757297797586907136210087858211814890102308623635073832207780890435113458616800171030627607115234625940123734712670208649541455777769410417539900842938400548783661769920960541950750136204043943318141399029123393047826551439261459650271495269852900140060716588422392924242721055616447122540768208881921645310052140926630704887770430368971843348118871171299311247896408082910470530958501963663120573250520327701595626299770206215179541137356116524600260182162783207247939996651990270750436469008690107310937334708004138424759607616937022688967938219995701189510796573803315451313910654529687121403052363067947638945010423656066175873755170347787818212814977090893374388269872842041736323079897525203647618176674559176749154726245026983263887097278884156822388702973204924943435118567415872592653020775655360485522419448799035817036750750623080358167862930167087847973766988378898778064807495658155091226426212440934736757842305101465719598682232505661564800442338217578874387319762912742264142983809857367768292408302276359508582315563213889468110715079988981777870283373974196137082512211493976238038495267252529644594292533737651123198462489937706678294181440914346125434743329309576121244910544473754037505257990793961454745903679029889293098927163956839309680750109629999934928749476459629257556014487988512647806188163766517352316496986530118571345857665927179559544570418240147805833427568495093811874741051055203002021107640007787199361428281917664700920644334250563294259889507747202869800919732870546506167961921684872155385689525151897720561665623411887707464741886528051237087479747590722936924608842093240085974100460891342674355317976844332959322520132511754827941847057079967730114839298513822926481530939199411255707178420565067304997562103844674413846554409057930619130557028410606863379508350371771382017438425194001098562896751285169793180541564366502569927702601243572501235956985301969623015601204975781650014359996979333503520341899014385330803676578712652323930742160827569055426197837319466427352937499911676509909773147408272709720076019146410489712364050223587140879033836388188834508042189112130685415659930629971676616556354258025372150465180156291787273601112484701038767449469171892840499475806999117421759503806254093242492963254310553192913908862240260677708471603508380190180079607187127289083942353350481991707199942125060558416886291435825520490052874864979424286924066413982049980662903935075120349133309471412446275824117173487166039640444782476087327822468332562759413886245295472873872689589788704344837859483706363078292320272300910584846761230820645518646782899890250630016844884188488631555111743979929291974157788435512864433742915814654833823564445182920998206688550871852488986180480142275493196312826334411186418305912031584789712630553129575020587344220988260603196594307580184792542892039382852016405735323058584543783031024098980728146824643043188783703542888845695477158871457647124760724773069128854370517001965151545726142566311569786259864333999284441959712006506846548543016272147567926767912402058067700274604162974553488625582874842689674509999833400650751487461935310788554924483397881341383459299393536, 624⟩ := by
  have hk : MT.key32 (Int.natAbs (1 * 100)) = [100] := by decide
  show (⟨MT.init_by_array (MT.key32 (Int.natAbs (1 * 100))), 624⟩ : MT.RState) = _
  rw [hk, init_by_array_eq [100], key_one_length, ibaLoop1_fst, ibaLoop1_snd,
    ibaLoop2_eq, init_genrand_ref_lit, iba1_res_fst_100, iba1_res_snd_100,
    iba2_full_100]
  decide

set_option maxRecDepth 1000000 in
set_option exponentiation.threshold 100000 in
/-- First half (312 iterations) of the first `init_by_array` mixing loop on
key `[200]`, evaluated on the literal reference state. -/
theorem iba1_mid_200 : MT.ibaIter1 [200] 1 312 (1, 0,
    62685089405509111925910797243914719854890513935494713084094713797279779630627496305943786046941309007281293105221577504421353501605599255248785149356818580886163074212016138319710181437623915839386196989339984175865611290932895638485827512283879634622589907034847096838980553398268338905605705315464924834076955485269257682765843392777664062904318116756644819538761883164862381873685805923051342196114892111881287659915424456096361326051748180740843339721465950121631833352165428366344241754810081140762710579390137795215443629123183303201044796731629341661542390258966032612552126580439913324626563213547393121217728067632048719897064596438939163041106934301355643192260261867872030533878188557727018817797219012064641958276099544136480610826250078810896212505254064619595899307426216931651016613164877613570296351724055264357110051005104450572173606849938075379012356137114572525910752676385589168436483206759652170097284388598518122222819376116616668668677988651997615236221431416155794821321118852088948452164682783715959922435191327367306488124638818446090532334864386359317233873012285172875896330714873881780586230596002778688422250420590175698633544778262136505069053046737202152515000629854634631225453245996997340762744567896897683212149150732909707719966588817675821630380251456266588599804209831660991462715440400663143017564651072677052296295930367391822676512661642282350234567553218318066651318510488484545671729568971887621684270732981974442582657502555066960418690332945218280990034155505553171409775830458482159957769211244505225186771766058316021949327301666418107251589707938065072144733816368743637495699897181007119363672460040974223449086641663004605507793014252452324150238463715514559124307431648478948480649031081489229583165223570218974125422263886587593014744330199975749832650568652404661542746543584685860761547297457070273167102314576665676644281998277713093924236551494770138725647883566971887853912300960949802636372591951717316415323846182747445131420005722224687602711525724505110953736568981699982016588947035894059736087136235396798804019434387781559696138411966704777989194870090051835909943079457649936020314680876367897457337488804889342331824364904005266943816631681518612047693872607083945336048154993001716858914072302230374294986610531277637599664647525761147514008899238689946802093944865612982597431648203028809043429562401771290925843222821220221381984318518256971016750121270624021542153515130386081256853244444367484914891752438843250797295149886721543902585582757118492217204960123203770309672216674331373413106027454841661967870247822106376003696537006476355273043676224973894002060133928765135363584693312631060562155459381152426642778209514491263275588735458188352331628933634618912177576995916817414488324819680108333628484452298807271017999262374749573133359090629722111402666396222385680310709557844049479865847370371052888681758484468279513921172987571336140289500145715018352119752770038578015899178947425013401300127437407370742417936980607757405410607208376626705322894782663757703548808362869195819947150150865798288136994832911439410269353230208345410503242199606186650417333579047848825834242257112060317620885151293421378661990197161958015730358249113963865616811805417654957899792836277351433146683316643158745577273742588847277405020330699298979666450169324546781433015633218213248018986767013905101885085728066131985273947793365444250280947765884488609302913437528001802423347517836456663978922564542901160075954132077499502061844004777463229898312792357201472450520034421742281215395838957029567457078867297742321364249618062920323524100796395855490398720473188748064226082130624085325443879193454095100721902723688608983702297802922465778395428510531587340343771240068168890882622394112252370643121994567113348850616779414952571984309063927162547038575769391208822294299053225776973195785292510157058775147687493667385905281728614066936870793483631104130486096422866739022254251631022238998824784309871214211336594149372534724828516536519652291847191320934127662041939033266344757810255450761243406685982638804631309022215852991706323223872506356963395668107287976200691035733250165615782065576159415303394415966535152327550107294310945533761757937224536792146711105700674959937207778503501562879445241463662142281185819506210181780721218897488871995890898495582077564387715740371190275817001449471008660140255770382875594805433223352833476546594040372715841292252983175468170554585838014797017976570586587751089146553833551413146641975370517778330202052282190648141351908509904289169596729111939424597802445523234111653813513351586367960175769546506050051493655326103823629699245586418016468660736051425039803522537493270385743437525903109563398688573456345292160567787373069854610200635728800730405759403691875432721043746233636765094325962472698626875833148826372580999341547042531665331710768365982359935219565301595187067772247975847412037958098451506998773182171027695752045356894447709388159633645629545493246019135820915900506906032640701290570506299065346661219735445730896769091171352761432210047450382980030625592142825700677633624952217795344145832513082782540989616413040988227257601039794195623143595351637462190706636535912449334420058581521218743569834717812580171279915160794789675762903718339466089866492140118823551337811927493524761760551434001520245324751568861558716803095718510972066599595072196209156923318071322517301806566620458899402166430591631348363311478802800521980525250372511467674969151489645720009661369785217086930227581405674315978920044798755483144811069077253851302610194739624245401270682864202663540116818822475326676741780611737275972111438408802370422377608919256570335384654037352344114105999356653180812503717835632673409647782213628400383443178293619326757139369589058612122088577237252104060778375287897543799460272211546791798613974575310224299012205778134871255296492395729078221387894808011355820153110205338707003138385845672884757408327786763143168159295742358655797897448897721796416755370) = (313, 0,
    62685089405509111925910797243914719854890513935494713084094713797279779630627496305943786046941309007281293105221577504421353501605599255248785149356818580886163074212016138319710181437623915839386196989339984175865611290932895638485827512283879634622589907034847096838980553398268338905605705315464924834076955485269257682765843392777664062904318116756644819538761883164862381873685805923051342196114892111881287659915424456096361326051748180740843339721465950121631833352165428366344241754810081140762710579390137795215443629123183303201044796731629341661542390258966032612552126580439913324626563213547393121217728067632048719897064596438939163041106934301355643192260261867872030533878188557727018817797219012064641958276099544136480610826250078810896212505254064619595899307426216931651016613164877613570296351724055264357110051005104450572173606849938075379012356137114572525910752676385589168436483206759652170097284388598518122222819376116616668668677988651997615236221431416155794821321118852088948452164682783715959922435191327367306488124638818446090532334864386359317233873012285172875896330714873881780586230596002778688422250420590175698633544778262136505069053046737202152515000629854634631225453245996997340762744567896897683212149150732909707719966588817675821630380251456266588599804209831660991462715440400663143017564651072677052296295930367391822676512661642282350234567553218318066651318510488484545671729568971887621684270732981974442582657502555066960418690332945218280990034155505553171409775830458482159957769211244505225186771766058316021949327301666418107251589707938065072144733816368743637495699897181007119363672460040974223449086641663004605507793014252452324150238463715514559124307431648478948480649031081489229583165223570218974125422263886587593014744330199975749832650568652404661542746543584685860761547297457070273167102314576665676644281998277713093924236551494770138725647883566971887853912300960949802636372591951717316415323846182747445131420005722224687602711525724505110953736568981699982016588947035894059736087136235396798804019434387781559696138411966704777989194870090051835909943079457649936020314680876367897457337488804889342331824364904005266943816631681518612047693872607083945336048154993001716858914072302230374294986610531277637599664647525761147514008899238689946802093944865612982597431648203028809043429562401771290925843222821220221381984318518256971016750121270624021542153515130386081256853244444367484914891752438843250797295149886721543902585582757118492217204960123203770309672216674331373413106027454841661967870247822106376003696537006476355273043676224973894002060133928765135363584693312631060562155459381152426642778209514491263275588735458188352331628933634618912177576995916817414488324819680108333628484452298807271017999262374749573133359090629722111402666396222385680310709557844049479865847370371052888681758484468279513921172987571336140289500145715018352119752770038578015899178947425013401300127437407370742417936980880397337338546285861376211455053934845205602312780415534214889959862871290004701299837596501328591479936087978766531558997434342686010229796465016032783132392147867640463574441749832082245203543888011269570423087566708821445289353110835158961978218273495764522497840008956105596536611613750163023262210921139851046646168243012109931585397431789392677958095790794736639036731682542871637566541380143791265641028021899004462490385467430922641778275769853367265366860816723171304400033071846975362017066484089254850746510295374172226191228880091237083564004704069466069159882431809702285640289174939261583181513185930708696474825127237263568162009721716201427620238351409473899666264129991859708095290897446720427363501880298218843703057910453100255582256034329752253475241250016370792453935002824874971661934696591233315684140852592207595536102870770356518397633798790737505309086824857846392467372490380802571828680247721773129294004789072816185430730348571033359292004222727698858449459244301382053182093424955488631283932486113931035468859025918819705082767053843426038152305950350756072308906099671232000563715976030225466285648576376507518032690333033345305793837796231578506764850469010498368458590366603500045759369426390998519703476736574650506119631068360084098406879159088191418542464588376271280666827518333050533178256747014355078640966296642057265933224719578893657059289071402954888865185379718558104607851509419774870516610869424386745039804297771557101814638740665542926930205471544452834244032281233596565983586882990326331708015168069771647778485501746656130522357075322909955754746774027937082908981477470612409389738710841191212655316760323457156777507646046987343542790414265339198290292298804766188368678622909362766879536953441553771631662439892922744831265082275918096123975633095893842155296305873711544277339717278821813172619826195159255611197390025452667560675936140207718909498809980091281588829562762507509808820667494793313345013170816778423995053192841194812276645770237260155352916500270882754089875055609661739743799488614257228025199926860483812151408467858961608730078560170522366342896649237854647140583873060150821852206348208143686738436344703381521106716738129303280434035460537824039108407909226648202057841765976763408356507208463750576157699056276751688705435684103625360960936047147402820587581647685615826252831958020104977955944489181986098353826818954394490455875408585007517435323666586206655414744468317654629824734617384758520845992783542931055329762538800404401770717776994200540043698402058236181514218679312931194373610032007572929096176736046357200753993385137945416243625030569715142550145197478968696258055473323912698392984327591102781149318830064747916409358623313556801688722431278045531377165107640862240496292275346228398583764372870555721341152160771064192545514420045129361808775658258411668917583930712885772186212568538796459717045009586324933900483215336270083670119413500170380723275015068062180726507180288383143329894899126155642798358639781074602) := by decide

set_option maxRecDepth 1000000 in
set_option exponentiation.threshold 100000 in
/-- Second half (312 iterations) of the first `init_by_array` mixing loop on
key `[200]`. -/
theorem iba1_fin_200 : MT.ibaIter1 [200] 1 312 (313, 0,
    62685089405509111925910797243914719854890513935494713084094713797279779630627496305943786046941309007281293105221577504421353501605599255248785149356818580886163074212016138319710181437623915839386196989339984175865611290932895638485827512283879634622589907034847096838980553398268338905605705315464924834076955485269257682765843392777664062904318116756644819538761883164862381873685805923051342196114892111881287659915424456096361326051748180740843339721465950121631833352165428366344241754810081140762710579390137795215443629123183303201044796731629341661542390258966032612552126580439913324626563213547393121217728067632048719897064596438939163041106934301355643192260261867872030533878188557727018817797219012064641958276099544136480610826250078810896212505254064619595899307426216931651016613164877613570296351724055264357110051005104450572173606849938075379012356137114572525910752676385589168436483206759652170097284388598518122222819376116616668668677988651997615236221431416155794821321118852088948452164682783715959922435191327367306488124638818446090532334864386359317233873012285172875896330714873881780586230596002778688422250420590175698633544778262136505069053046737202152515000629854634631225453245996997340762744567896897683212149150732909707719966588817675821630380251456266588599804209831660991462715440400663143017564651072677052296295930367391822676512661642282350234567553218318066651318510488484545671729568971887621684270732981974442582657502555066960418690332945218280990034155505553171409775830458482159957769211244505225186771766058316021949327301666418107251589707938065072144733816368743637495699897181007119363672460040974223449086641663004605507793014252452324150238463715514559124307431648478948480649031081489229583165223570218974125422263886587593014744330199975749832650568652404661542746543584685860761547297457070273167102314576665676644281998277713093924236551494770138725647883566971887853912300960949802636372591951717316415323846182747445131420005722224687602711525724505110953736568981699982016588947035894059736087136235396798804019434387781559696138411966704777989194870090051835909943079457649936020314680876367897457337488804889342331824364904005266943816631681518612047693872607083945336048154993001716858914072302230374294986610531277637599664647525761147514008899238689946802093944865612982597431648203028809043429562401771290925843222821220221381984318518256971016750121270624021542153515130386081256853244444367484914891752438843250797295149886721543902585582757118492217204960123203770309672216674331373413106027454841661967870247822106376003696537006476355273043676224973894002060133928765135363584693312631060562155459381152426642778209514491263275588735458188352331628933634618912177576995916817414488324819680108333628484452298807271017999262374749573133359090629722111402666396222385680310709557844049479865847370371052888681758484468279513921172987571336140289500145715018352119752770038578015899178947425013401300127437407370742417936980880397337338546285861376211455053934845205602312780415534214889959862871290004701299837596501328591479936087978766531558997434342686010229796465016032783132392147867640463574441749832082245203543888011269570423087566708821445289353110835158961978218273495764522497840008956105596536611613750163023262210921139851046646168243012109931585397431789392677958095790794736639036731682542871637566541380143791265641028021899004462490385467430922641778275769853367265366860816723171304400033071846975362017066484089254850746510295374172226191228880091237083564004704069466069159882431809702285640289174939261583181513185930708696474825127237263568162009721716201427620238351409473899666264129991859708095290897446720427363501880298218843703057910453100255582256034329752253475241250016370792453935002824874971661934696591233315684140852592207595536102870770356518397633798790737505309086824857846392467372490380802571828680247721773129294004789072816185430730348571033359292004222727698858449459244301382053182093424955488631283932486113931035468859025918819705082767053843426038152305950350756072308906099671232000563715976030225466285648576376507518032690333033345305793837796231578506764850469010498368458590366603500045759369426390998519703476736574650506119631068360084098406879159088191418542464588376271280666827518333050533178256747014355078640966296642057265933224719578893657059289071402954888865185379718558104607851509419774870516610869424386745039804297771557101814638740665542926930205471544452834244032281233596565983586882990326331708015168069771647778485501746656130522357075322909955754746774027937082908981477470612409389738710841191212655316760323457156777507646046987343542790414265339198290292298804766188368678622909362766879536953441553771631662439892922744831265082275918096123975633095893842155296305873711544277339717278821813172619826195159255611197390025452667560675936140207718909498809980091281588829562762507509808820667494793313345013170816778423995053192841194812276645770237260155352916500270882754089875055609661739743799488614257228025199926860483812151408467858961608730078560170522366342896649237854647140583873060150821852206348208143686738436344703381521106716738129303280434035460537824039108407909226648202057841765976763408356507208463750576157699056276751688705435684103625360960936047147402820587581647685615826252831958020104977955944489181986098353826818954394490455875408585007517435323666586206655414744468317654629824734617384758520845992783542931055329762538800404401770717776994200540043698402058236181514218679312931194373610032007572929096176736046357200753993385137945416243625030569715142550145197478968696258055473323912698392984327591102781149318830064747916409358623313556801688722431278045531377165107640862240496292275346228398583764372870555721341152160771064192545514420045129361808775658258411668917583930712885772186212568538796459717045009586324933900483215336270083670119413500170380723275015068062180726507180288383143329894899126155642798358639781074602) = (2, 0,
    27544277616857520028221618043132832428423193634563540708206549832472576138041642123922527480992682048986521501243142677733180926463505540644471968062998451619734135404092367359938249792830751241768407219087130657247092276296040602685758626732298191173641609056880758048872911251614206172353613423420921679330776568865954958866924491712770273716685611318115768409063269727556916101065335053565198366634019069934081911321428195465939254502751753663364112328771837504843534921959933138931505090669743595369449572737133439021249905336731546792387116980392608018355164874850282622048625099058237278536582457676850836443768180806135448223036248554436058822176301081804252943983046594068922389308749412935607322110711412396604154669192489182438000954519051665904573523015767665854358281221465369774742770431479331189547383268528198398722609019973444111125191836835442126632958014676758370654624722944311474084567600989403472131520861839902960082970950123064568219174103637032750174567788483416118925940333824147192003944028349510855747746258538870014153175813830627281802521642035418058264701594307970881428992234926676954336536563381283313669933090100830072667921269583192449438965769311120769370951332482877365285296557473602528771317688248795864733680758831593869912186985251242019911032578404393582253824360142617046612445024782747264967591700098947689455902420277089340694746807576509259022129328211522784668890298004144072153016067992601823284964934953148404192034254249124997556479915621274095064094399192896234244796474373583344319748570294665629251799245391190871289450640469690377923198886173046422314510768532560654194271374633791823131725158334389322327226514283609161589414259600527370132076057016406194295361902602551386098619212324902694244300562144631192965081721460712310709725682254278214774481662475770919170012458263516862528406912074958562568654151086159450451868439139140151290282725823110402720134491829190002584051240179981674028885658727387320606205126197907729482158765560695989565197026873460183099369818856919919732410376142388015616436975123211289325094188434758907647900986042195348223517169819975562263920730962034063565093652805166968087081119121617137299339283172759796668016576805429673161548316903774338558818018628646809599478520641919991962518162015785511387875635466674636635923402474136303711259865808661882249382949670672151987408369559300394857233445334242271401534865654645600221921049967901087071315530310556050909486629350925162749798235674463999428675668423172837423914763772037718803342872940044721138962493888068911258612910020568411686726121055299610616853285833865702651158434458989822037162541522796336452782766483805064831034939926405551961709559087423368211362815351406991815297598997816272367723326552239710468075771996239124334141363151590171138733047313267047096529882573361411795876171418471773370712730186668864068835146273755844200204908565916491178711123082885018842331258717443788260754334154591715532452729667749379841607891752515808104584347506463178168775496687222979942318065837245262700220322354174145232796506942204510722998485677977989373217111758873604714860767803827174813047055663875942144635012015941914336470149984241895181601427792491833606951773607266044240482897723829145805778463133108840967241668068491598044373035318853953666220084689879018807555072522184215712017731164138217502106406162497955386967431154511275734125972350049949962743025602895051193528040081252089800934912846108181015118623503888803608566625844966800601202608323075530824402564314325064040868920072249146849280326105879645238690533671519702211033967114096665346367141207037963333999950781832932976252050108885040328882190475306046284729422832299166272463011180296267139794656874091096689500020769809933359684289216423671398778635810806760459713063800455974873950243277378335416588719943380442228570740516883010886292125561086256146885811420593045545532411613672382861181418484628251119082320096434720109547386325325093088967569613860313535776039324099013821021981684367932620559312927556619879918030457836366609156662672444528392488819838554366770916905522613707749717316976131566479635800148419626831545783289910954469401095918718478898510297983773852127319287337328953881428316907593635103676931191474470179183515950558781318528038975889581613739283621075954334107580264705124395730939817851044636230037492003673030826397999076367539755833640994617203531297769938537893950107361929860931301505927682698344464533610876251113083387179962672652188981112163017084633242845752947769822278714242259069891466097915860820082764704690214935544340533339452969712064624109510644060156144252254174694917453888476147554014894474183759346286172833356864130377242217863040863094606622212291678686386270970992663653864685422219437836260151604821079173753159051670700748743918779075895348378745034237118375161047500482129836743422115898261485507454701602234187291440178939201895637349682606692851793347123509464606785853252453433321718489369998039889305181346254479344174593091975529128663086852836002264699953274655345013729348237346051209422192944169912820562841911536205170563455766388124937594883175141868177522383837032618636808379580739880428342427528476733648901689542428459105849951977091878567183208552597479679438898202666255294035753464461353255253194573409256003078146842813097263313375290358027436474513141418332044268529182879039014439174830108704704063812448027254059007348984626695590445093584224565879954562943416315758930400786349726651665556222944895472471549402810715182560791185894807525077894211896393885635786017657800985476444144363077824149859172850386028802146608046192339437329584284408716883430015216294671357091135983297324377519325456357504283392151065691037324360310873148405547136645649699257588600911757244568418282596000330785217502337872076710241732693343345450678965128599456408629074077259684703354983481653721322467412364421218620600275322391649743619696613735861686495269828924865736416558654744690310993029863133014159750889797772637617482275695) := by decide

/-- Full first `init_by_array` mixing loop on key `[200]`, assembled from
its two halves. -/
theorem iba1_full_200 : MT.ibaIter1 [200] 1 624 (1, 0,
    62685089405509111925910797243914719854890513935494713084094713797279779630627496305943786046941309007281293105221577504421353501605599255248785149356818580886163074212016138319710181437623915839386196989339984175865611290932895638485827512283879634622589907034847096838980553398268338905605705315464924834076955485269257682765843392777664062904318116756644819538761883164862381873685805923051342196114892111881287659915424456096361326051748180740843339721465950121631833352165428366344241754810081140762710579390137795215443629123183303201044796731629341661542390258966032612552126580439913324626563213547393121217728067632048719897064596438939163041106934301355643192260261867872030533878188557727018817797219012064641958276099544136480610826250078810896212505254064619595899307426216931651016613164877613570296351724055264357110051005104450572173606849938075379012356137114572525910752676385589168436483206759652170097284388598518122222819376116616668668677988651997615236221431416155794821321118852088948452164682783715959922435191327367306488124638818446090532334864386359317233873012285172875896330714873881780586230596002778688422250420590175698633544778262136505069053046737202152515000629854634631225453245996997340762744567896897683212149150732909707719966588817675821630380251456266588599804209831660991462715440400663143017564651072677052296295930367391822676512661642282350234567553218318066651318510488484545671729568971887621684270732981974442582657502555066960418690332945218280990034155505553171409775830458482159957769211244505225186771766058316021949327301666418107251589707938065072144733816368743637495699897181007119363672460040974223449086641663004605507793014252452324150238463715514559124307431648478948480649031081489229583165223570218974125422263886587593014744330199975749832650568652404661542746543584685860761547297457070273167102314576665676644281998277713093924236551494770138725647883566971887853912300960949802636372591951717316415323846182747445131420005722224687602711525724505110953736568981699982016588947035894059736087136235396798804019434387781559696138411966704777989194870090051835909943079457649936020314680876367897457337488804889342331824364904005266943816631681518612047693872607083945336048154993001716858914072302230374294986610531277637599664647525761147514008899238689946802093944865612982597431648203028809043429562401771290925843222821220221381984318518256971016750121270624021542153515130386081256853244444367484914891752438843250797295149886721543902585582757118492217204960123203770309672216674331373413106027454841661967870247822106376003696537006476355273043676224973894002060133928765135363584693312631060562155459381152426642778209514491263275588735458188352331628933634618912177576995916817414488324819680108333628484452298807271017999262374749573133359090629722111402666396222385680310709557844049479865847370371052888681758484468279513921172987571336140289500145715018352119752770038578015899178947425013401300127437407370742417936980607757405410607208376626705322894782663757703548808362869195819947150150865798288136994832911439410269353230208345410503242199606186650417333579047848825834242257112060317620885151293421378661990197161958015730358249113963865616811805417654957899792836277351433146683316643158745577273742588847277405020330699298979666450169324546781433015633218213248018986767013905101885085728066131985273947793365444250280947765884488609302913437528001802423347517836456663978922564542901160075954132077499502061844004777463229898312792357201472450520034421742281215395838957029567457078867297742321364249618062920323524100796395855490398720473188748064226082130624085325443879193454095100721902723688608983702297802922465778395428510531587340343771240068168890882622394112252370643121994567113348850616779414952571984309063927162547038575769391208822294299053225776973195785292510157058775147687493667385905281728614066936870793483631104130486096422866739022254251631022238998824784309871214211336594149372534724828516536519652291847191320934127662041939033266344757810255450761243406685982638804631309022215852991706323223872506356963395668107287976200691035733250165615782065576159415303394415966535152327550107294310945533761757937224536792146711105700674959937207778503501562879445241463662142281185819506210181780721218897488871995890898495582077564387715740371190275817001449471008660140255770382875594805433223352833476546594040372715841292252983175468170554585838014797017976570586587751089146553833551413146641975370517778330202052282190648141351908509904289169596729111939424597802445523234111653813513351586367960175769546506050051493655326103823629699245586418016468660736051425039803522537493270385743437525903109563398688573456345292160567787373069854610200635728800730405759403691875432721043746233636765094325962472698626875833148826372580999341547042531665331710768365982359935219565301595187067772247975847412037958098451506998773182171027695752045356894447709388159633645629545493246019135820915900506906032640701290570506299065346661219735445730896769091171352761432210047450382980030625592142825700677633624952217795344145832513082782540989616413040988227257601039794195623143595351637462190706636535912449334420058581521218743569834717812580171279915160794789675762903718339466089866492140118823551337811927493524761760551434001520245324751568861558716803095718510972066599595072196209156923318071322517301806566620458899402166430591631348363311478802800521980525250372511467674969151489645720009661369785217086930227581405674315978920044798755483144811069077253851302610194739624245401270682864202663540116818822475326676741780611737275972111438408802370422377608919256570335384654037352344114105999356653180812503717835632673409647782213628400383443178293619326757139369589058612122088577237252104060778375287897543799460272211546791798613974575310224299012205778134871255296492395729078221387894808011355820153110205338707003138385845672884757408327786763143168159295742358655797897448897721796416755370) = (2, 0,
    27544277616857520028221618043132832428423193634563540708206549832472576138041642123922527480992682048986521501243142677733180926463505540644471968062998451619734135404092367359938249792830751241768407219087130657247092276296040602685758626732298191173641609056880758048872911251614206172353613423420921679330776568865954958866924491712770273716685611318115768409063269727556916101065335053565198366634019069934081911321428195465939254502751753663364112328771837504843534921959933138931505090669743595369449572737133439021249905336731546792387116980392608018355164874850282622048625099058237278536582457676850836443768180806135448223036248554436058822176301081804252943983046594068922389308749412935607322110711412396604154669192489182438000954519051665904573523015767665854358281221465369774742770431479331189547383268528198398722609019973444111125191836835442126632958014676758370654624722944311474084567600989403472131520861839902960082970950123064568219174103637032750174567788483416118925940333824147192003944028349510855747746258538870014153175813830627281802521642035418058264701594307970881428992234926676954336536563381283313669933090100830072667921269583192449438965769311120769370951332482877365285296557473602528771317688248795864733680758831593869912186985251242019911032578404393582253824360142617046612445024782747264967591700098947689455902420277089340694746807576509259022129328211522784668890298004144072153016067992601823284964934953148404192034254249124997556479915621274095064094399192896234244796474373583344319748570294665629251799245391190871289450640469690377923198886173046422314510768532560654194271374633791823131725158334389322327226514283609161589414259600527370132076057016406194295361902602551386098619212324902694244300562144631192965081721460712310709725682254278214774481662475770919170012458263516862528406912074958562568654151086159450451868439139140151290282725823110402720134491829190002584051240179981674028885658727387320606205126197907729482158765560695989565197026873460183099369818856919919732410376142388015616436975123211289325094188434758907647900986042195348223517169819975562263920730962034063565093652805166968087081119121617137299339283172759796668016576805429673161548316903774338558818018628646809599478520641919991962518162015785511387875635466674636635923402474136303711259865808661882249382949670672151987408369559300394857233445334242271401534865654645600221921049967901087071315530310556050909486629350925162749798235674463999428675668423172837423914763772037718803342872940044721138962493888068911258612910020568411686726121055299610616853285833865702651158434458989822037162541522796336452782766483805064831034939926405551961709559087423368211362815351406991815297598997816272367723326552239710468075771996239124334141363151590171138733047313267047096529882573361411795876171418471773370712730186668864068835146273755844200204908565916491178711123082885018842331258717443788260754334154591715532452729667749379841607891752515808104584347506463178168775496687222979942318065837245262700220322354174145232796506942204510722998485677977989373217111758873604714860767803827174813047055663875942144635012015941914336470149984241895181601427792491833606951773607266044240482897723829145805778463133108840967241668068491598044373035318853953666220084689879018807555072522184215712017731164138217502106406162497955386967431154511275734125972350049949962743025602895051193528040081252089800934912846108181015118623503888803608566625844966800601202608323075530824402564314325064040868920072249146849280326105879645238690533671519702211033967114096665346367141207037963333999950781832932976252050108885040328882190475306046284729422832299166272463011180296267139794656874091096689500020769809933359684289216423671398778635810806760459713063800455974873950243277378335416588719943380442228570740516883010886292125561086256146885811420593045545532411613672382861181418484628251119082320096434720109547386325325093088967569613860313535776039324099013821021981684367932620559312927556619879918030457836366609156662672444528392488819838554366770916905522613707749717316976131566479635800148419626831545783289910954469401095918718478898510297983773852127319287337328953881428316907593635103676931191474470179183515950558781318528038975889581613739283621075954334107580264705124395730939817851044636230037492003673030826397999076367539755833640994617203531297769938537893950107361929860931301505927682698344464533610876251113083387179962672652188981112163017084633242845752947769822278714242259069891466097915860820082764704690214935544340533339452969712064624109510644060156144252254174694917453888476147554014894474183759346286172833356864130377242217863040863094606622212291678686386270970992663653864685422219437836260151604821079173753159051670700748743918779075895348378745034237118375161047500482129836743422115898261485507454701602234187291440178939201895637349682606692851793347123509464606785853252453433321718489369998039889305181346254479344174593091975529128663086852836002264699953274655345013729348237346051209422192944169912820562841911536205170563455766388124937594883175141868177522383837032618636808379580739880428342427528476733648901689542428459105849951977091878567183208552597479679438898202666255294035753464461353255253194573409256003078146842813097263313375290358027436474513141418332044268529182879039014439174830108704704063812448027254059007348984626695590445093584224565879954562943416315758930400786349726651665556222944895472471549402810715182560791185894807525077894211896393885635786017657800985476444144363077824149859172850386028802146608046192339437329584284408716883430015216294671357091135983297324377519325456357504283392151065691037324360310873148405547136645649699257588600911757244568418282596000330785217502337872076710241732693343345450678965128599456408629074077259684703354983481653721322467412364421218620600275322391649743619696613735861686495269828924865736416558654744690310993029863133014159750889797772637617482275695) := by
  have h : MT.ibaIter1 [200] 1 624 (1, 0,
      62685089405509111925910797243914719854890513935494713084094713797279779630627496305943786046941309007281293105221577504421353501605599255248785149356818580886163074212016138319710181437623915839386196989339984175865611290932895638485827512283879634622589907034847096838980553398268338905605705315464924834076955485269257682765843392777664062904318116756644819538761883164862381873685805923051342196114892111881287659915424456096361326051748180740843339721465950121631833352165428366344241754810081140762710579390137795215443629123183303201044796731629341661542390258966032612552126580439913324626563213547393121217728067632048719897064596438939163041106934301355643192260261867872030533878188557727018817797219012064641958276099544136480610826250078810896212505254064619595899307426216931651016613164877613570296351724055264357110051005104450572173606849938075379012356137114572525910752676385589168436483206759652170097284388598518122222819376116616668668677988651997615236221431416155794821321118852088948452164682783715959922435191327367306488124638818446090532334864386359317233873012285172875896330714873881780586230596002778688422250420590175698633544778262136505069053046737202152515000629854634631225453245996997340762744567896897683212149150732909707719966588817675821630380251456266588599804209831660991462715440400663143017564651072677052296295930367391822676512661642282350234567553218318066651318510488484545671729568971887621684270732981974442582657502555066960418690332945218280990034155505553171409775830458482159957769211244505225186771766058316021949327301666418107251589707938065072144733816368743637495699897181007119363672460040974223449086641663004605507793014252452324150238463715514559124307431648478948480649031081489229583165223570218974125422263886587593014744330199975749832650568652404661542746543584685860761547297457070273167102314576665676644281998277713093924236551494770138725647883566971887853912300960949802636372591951717316415323846182747445131420005722224687602711525724505110953736568981699982016588947035894059736087136235396798804019434387781559696138411966704777989194870090051835909943079457649936020314680876367897457337488804889342331824364904005266943816631681518612047693872607083945336048154993001716858914072302230374294986610531277637599664647525761147514008899238689946802093944865612982597431648203028809043429562401771290925843222821220221381984318518256971016750121270624021542153515130386081256853244444367484914891752438843250797295149886721543902585582757118492217204960123203770309672216674331373413106027454841661967870247822106376003696537006476355273043676224973894002060133928765135363584693312631060562155459381152426642778209514491263275588735458188352331628933634618912177576995916817414488324819680108333628484452298807271017999262374749573133359090629722111402666396222385680310709557844049479865847370371052888681758484468279513921172987571336140289500145715018352119752770038578015899178947425013401300127437407370742417936980607757405410607208376626705322894782663757703548808362869195819947150150865798288136994832911439410269353230208345410503242199606186650417333579047848825834242257112060317620885151293421378661990197161958015730358249113963865616811805417654957899792836277351433146683316643158745577273742588847277405020330699298979666450169324546781433015633218213248018986767013905101885085728066131985273947793365444250280947765884488609302913437528001802423347517836456663978922564542901160075954132077499502061844004777463229898312792357201472450520034421742281215395838957029567457078867297742321364249618062920323524100796395855490398720473188748064226082130624085325443879193454095100721902723688608983702297802922465778395428510531587340343771240068168890882622394112252370643121994567113348850616779414952571984309063927162547038575769391208822294299053225776973195785292510157058775147687493667385905281728614066936870793483631104130486096422866739022254251631022238998824784309871214211336594149372534724828516536519652291847191320934127662041939033266344757810255450761243406685982638804631309022215852991706323223872506356963395668107287976200691035733250165615782065576159415303394415966535152327550107294310945533761757937224536792146711105700674959937207778503501562879445241463662142281185819506210181780721218897488871995890898495582077564387715740371190275817001449471008660140255770382875594805433223352833476546594040372715841292252983175468170554585838014797017976570586587751089146553833551413146641975370517778330202052282190648141351908509904289169596729111939424597802445523234111653813513351586367960175769546506050051493655326103823629699245586418016468660736051425039803522537493270385743437525903109563398688573456345292160567787373069854610200635728800730405759403691875432721043746233636765094325962472698626875833148826372580999341547042531665331710768365982359935219565301595187067772247975847412037958098451506998773182171027695752045356894447709388159633645629545493246019135820915900506906032640701290570506299065346661219735445730896769091171352761432210047450382980030625592142825700677633624952217795344145832513082782540989616413040988227257601039794195623143595351637462190706636535912449334420058581521218743569834717812580171279915160794789675762903718339466089866492140118823551337811927493524761760551434001520245324751568861558716803095718510972066599595072196209156923318071322517301806566620458899402166430591631348363311478802800521980525250372511467674969151489645720009661369785217086930227581405674315978920044798755483144811069077253851302610194739624245401270682864202663540116818822475326676741780611737275972111438408802370422377608919256570335384654037352344114105999356653180812503717835632673409647782213628400383443178293619326757139369589058612122088577237252104060778375287897543799460272211546791798613974575310224299012205778134871255296492395729078221387894808011355820153110205338707003138385845672884757408327786763143168159295742358655797897448897721796416755370) =
      MT.ibaIter1 [200] 1 312 (MT.ibaIter1 [200] 1 312 (1, 0,
      62685089405509111925910797243914719854890513935494713084094713797279779630627496305943786046941309007281293105221577504421353501605599255248785149356818580886163074212016138319710181437623915839386196989339984175865611290932895638485827512283879634622589907034847096838980553398268338905605705315464924834076955485269257682765843392777664062904318116756644819538761883164862381873685805923051342196114892111881287659915424456096361326051748180740843339721465950121631833352165428366344241754810081140762710579390137795215443629123183303201044796731629341661542390258966032612552126580439913324626563213547393121217728067632048719897064596438939163041106934301355643192260261867872030533878188557727018817797219012064641958276099544136480610826250078810896212505254064619595899307426216931651016613164877613570296351724055264357110051005104450572173606849938075379012356137114572525910752676385589168436483206759652170097284388598518122222819376116616668668677988651997615236221431416155794821321118852088948452164682783715959922435191327367306488124638818446090532334864386359317233873012285172875896330714873881780586230596002778688422250420590175698633544778262136505069053046737202152515000629854634631225453245996997340762744567896897683212149150732909707719966588817675821630380251456266588599804209831660991462715440400663143017564651072677052296295930367391822676512661642282350234567553218318066651318510488484545671729568971887621684270732981974442582657502555066960418690332945218280990034155505553171409775830458482159957769211244505225186771766058316021949327301666418107251589707938065072144733816368743637495699897181007119363672460040974223449086641663004605507793014252452324150238463715514559124307431648478948480649031081489229583165223570218974125422263886587593014744330199975749832650568652404661542746543584685860761547297457070273167102314576665676644281998277713093924236551494770138725647883566971887853912300960949802636372591951717316415323846182747445131420005722224687602711525724505110953736568981699982016588947035894059736087136235396798804019434387781559696138411966704777989194870090051835909943079457649936020314680876367897457337488804889342331824364904005266943816631681518612047693872607083945336048154993001716858914072302230374294986610531277637599664647525761147514008899238689946802093944865612982597431648203028809043429562401771290925843222821220221381984318518256971016750121270624021542153515130386081256853244444367484914891752438843250797295149886721543902585582757118492217204960123203770309672216674331373413106027454841661967870247822106376003696537006476355273043676224973894002060133928765135363584693312631060562155459381152426642778209514491263275588735458188352331628933634618912177576995916817414488324819680108333628484452298807271017999262374749573133359090629722111402666396222385680310709557844049479865847370371052888681758484468279513921172987571336140289500145715018352119752770038578015899178947425013401300127437407370742417936980607757405410607208376626705322894782663757703548808362869195819947150150865798288136994832911439410269353230208345410503242199606186650417333579047848825834242257112060317620885151293421378661990197161958015730358249113963865616811805417654957899792836277351433146683316643158745577273742588847277405020330699298979666450169324546781433015633218213248018986767013905101885085728066131985273947793365444250280947765884488609302913437528001802423347517836456663978922564542901160075954132077499502061844004777463229898312792357201472450520034421742281215395838957029567457078867297742321364249618062920323524100796395855490398720473188748064226082130624085325443879193454095100721902723688608983702297802922465778395428510531587340343771240068168890882622394112252370643121994567113348850616779414952571984309063927162547038575769391208822294299053225776973195785292510157058775147687493667385905281728614066936870793483631104130486096422866739022254251631022238998824784309871214211336594149372534724828516536519652291847191320934127662041939033266344757810255450761243406685982638804631309022215852991706323223872506356963395668107287976200691035733250165615782065576159415303394415966535152327550107294310945533761757937224536792146711105700674959937207778503501562879445241463662142281185819506210181780721218897488871995890898495582077564387715740371190275817001449471008660140255770382875594805433223352833476546594040372715841292252983175468170554585838014797017976570586587751089146553833551413146641975370517778330202052282190648141351908509904289169596729111939424597802445523234111653813513351586367960175769546506050051493655326103823629699245586418016468660736051425039803522537493270385743437525903109563398688573456345292160567787373069854610200635728800730405759403691875432721043746233636765094325962472698626875833148826372580999341547042531665331710768365982359935219565301595187067772247975847412037958098451506998773182171027695752045356894447709388159633645629545493246019135820915900506906032640701290570506299065346661219735445730896769091171352761432210047450382980030625592142825700677633624952217795344145832513082782540989616413040988227257601039794195623143595351637462190706636535912449334420058581521218743569834717812580171279915160794789675762903718339466089866492140118823551337811927493524761760551434001520245324751568861558716803095718510972066599595072196209156923318071322517301806566620458899402166430591631348363311478802800521980525250372511467674969151489645720009661369785217086930227581405674315978920044798755483144811069077253851302610194739624245401270682864202663540116818822475326676741780611737275972111438408802370422377608919256570335384654037352344114105999356653180812503717835632673409647782213628400383443178293619326757139369589058612122088577237252104060778375287897543799460272211546791798613974575310224299012205778134871255296492395729078221387894808011355820153110205338707003138385845672884757408327786763143168159295742358655797897448897721796416755370)) :=
    MT.ibaIter1_add [200] 1 312 312 _
  rw [h, iba1_mid_200, iba1_fin_200]

set_option maxRecDepth 1000000 in
set_option exponentiation.threshold 100000 in
/-- First half (312 iterations) of the second `init_by_array` mixing loop
for key `[200]`. -/
theorem iba2_mid_200 : MT.ibaIter2 312 (2,
    27544277616857520028221618043132832428423193634563540708206549832472576138041642123922527480992682048986521501243142677733180926463505540644471968062998451619734135404092367359938249792830751241768407219087130657247092276296040602685758626732298191173641609056880758048872911251614206172353613423420921679330776568865954958866924491712770273716685611318115768409063269727556916101065335053565198366634019069934081911321428195465939254502751753663364112328771837504843534921959933138931505090669743595369449572737133439021249905336731546792387116980392608018355164874850282622048625099058237278536582457676850836443768180806135448223036248554436058822176301081804252943983046594068922389308749412935607322110711412396604154669192489182438000954519051665904573523015767665854358281221465369774742770431479331189547383268528198398722609019973444111125191836835442126632958014676758370654624722944311474084567600989403472131520861839902960082970950123064568219174103637032750174567788483416118925940333824147192003944028349510855747746258538870014153175813830627281802521642035418058264701594307970881428992234926676954336536563381283313669933090100830072667921269583192449438965769311120769370951332482877365285296557473602528771317688248795864733680758831593869912186985251242019911032578404393582253824360142617046612445024782747264967591700098947689455902420277089340694746807576509259022129328211522784668890298004144072153016067992601823284964934953148404192034254249124997556479915621274095064094399192896234244796474373583344319748570294665629251799245391190871289450640469690377923198886173046422314510768532560654194271374633791823131725158334389322327226514283609161589414259600527370132076057016406194295361902602551386098619212324902694244300562144631192965081721460712310709725682254278214774481662475770919170012458263516862528406912074958562568654151086159450451868439139140151290282725823110402720134491829190002584051240179981674028885658727387320606205126197907729482158765560695989565197026873460183099369818856919919732410376142388015616436975123211289325094188434758907647900986042195348223517169819975562263920730962034063565093652805166968087081119121617137299339283172759796668016576805429673161548316903774338558818018628646809599478520641919991962518162015785511387875635466674636635923402474136303711259865808661882249382949670672151987408369559300394857233445334242271401534865654645600221921049967901087071315530310556050909486629350925162749798235674463999428675668423172837423914763772037718803342872940044721138962493888068911258612910020568411686726121055299610616853285833865702651158434458989822037162541522796336452782766483805064831034939926405551961709559087423368211362815351406991815297598997816272367723326552239710468075771996239124334141363151590171138733047313267047096529882573361411795876171418471773370712730186668864068835146273755844200204908565916491178711123082885018842331258717443788260754334154591715532452729667749379841607891752515808104584347506463178168775496687222979942318065837245262700220322354174145232796506942204510722998485677977989373217111758873604714860767803827174813047055663875942144635012015941914336470149984241895181601427792491833606951773607266044240482897723829145805778463133108840967241668068491598044373035318853953666220084689879018807555072522184215712017731164138217502106406162497955386967431154511275734125972350049949962743025602895051193528040081252089800934912846108181015118623503888803608566625844966800601202608323075530824402564314325064040868920072249146849280326105879645238690533671519702211033967114096665346367141207037963333999950781832932976252050108885040328882190475306046284729422832299166272463011180296267139794656874091096689500020769809933359684289216423671398778635810806760459713063800455974873950243277378335416588719943380442228570740516883010886292125561086256146885811420593045545532411613672382861181418484628251119082320096434720109547386325325093088967569613860313535776039324099013821021981684367932620559312927556619879918030457836366609156662672444528392488819838554366770916905522613707749717316976131566479635800148419626831545783289910954469401095918718478898510297983773852127319287337328953881428316907593635103676931191474470179183515950558781318528038975889581613739283621075954334107580264705124395730939817851044636230037492003673030826397999076367539755833640994617203531297769938537893950107361929860931301505927682698344464533610876251113083387179962672652188981112163017084633242845752947769822278714242259069891466097915860820082764704690214935544340533339452969712064624109510644060156144252254174694917453888476147554014894474183759346286172833356864130377242217863040863094606622212291678686386270970992663653864685422219437836260151604821079173753159051670700748743918779075895348378745034237118375161047500482129836743422115898261485507454701602234187291440178939201895637349682606692851793347123509464606785853252453433321718489369998039889305181346254479344174593091975529128663086852836002264699953274655345013729348237346051209422192944169912820562841911536205170563455766388124937594883175141868177522383837032618636808379580739880428342427528476733648901689542428459105849951977091878567183208552597479679438898202666255294035753464461353255253194573409256003078146842813097263313375290358027436474513141418332044268529182879039014439174830108704704063812448027254059007348984626695590445093584224565879954562943416315758930400786349726651665556222944895472471549402810715182560791185894807525077894211896393885635786017657800985476444144363077824149859172850386028802146608046192339437329584284408716883430015216294671357091135983297324377519325456357504283392151065691037324360310873148405547136645649699257588600911757244568418282596000330785217502337872076710241732693343345450678965128599456408629074077259684703354983481653721322467412364421218620600275322391649743619696613735861686495269828924865736416558654744690310993029863133014159750889797772637617482275695) = (314,
    27544277616857520028221618043132832428423193634563540708206549832472576138041642123922527480992682048986521501243142677733180926463505540644471968062998451619734135404092367359938249792830751241768407219087130657247092276296040602685758626732298191173641609056880758048872911251614206172353613423420921679330776568865954958866924491712770273716685611318115768409063269727556916101065335053565198366634019069934081911321428195465939254502751753663364112328771837504843534921959933138931505090669743595369449572737133439021249905336731546792387116980392608018355164874850282622048625099058237278536582457676850836443768180806135448223036248554436058822176301081804252943983046594068922389308749412935607322110711412396604154669192489182438000954519051665904573523015767665854358281221465369774742770431479331189547383268528198398722609019973444111125191836835442126632958014676758370654624722944311474084567600989403472131520861839902960082970950123064568219174103637032750174567788483416118925940333824147192003944028349510855747746258538870014153175813830627281802521642035418058264701594307970881428992234926676954336536563381283313669933090100830072667921269583192449438965769311120769370951332482877365285296557473602528771317688248795864733680758831593869912186985251242019911032578404393582253824360142617046612445024782747264967591700098947689455902420277089340694746807576509259022129328211522784668890298004144072153016067992601823284964934953148404192034254249124997556479915621274095064094399192896234244796474373583344319748570294665629251799245391190871289450640469690377923198886173046422314510768532560654194271374633791823131725158334389322327226514283609161589414259600527370132076057016406194295361902602551386098619212324902694244300562144631192965081721460712310709725682254278214774481662475770919170012458263516862528406912074958562568654151086159450451868439139140151290282725823110402720134491829190002584051240179981674028885658727387320606205126197907729482158765560695989565197026873460183099369818856919919732410376142388015616436975123211289325094188434758907647900986042195348223517169819975562263920730962034063565093652805166968087081119121617137299339283172759796668016576805429673161548316903774338558818018628646809599478520641919991962518162015785511387875635466674636635923402474136303711259865808661882249382949670672151987408369559300394857233445334242271401534865654645600221921049967901087071315530310556050909486629350925162749798235674463999428675668423172837423914763772037718803342872940044721138962493888068911258612910020568411686726121055299610616853285833865702651158434458989822037162541522796336452782766483805064831034939926405551961709559087423368211362815351406991815297598997816272367723326552239710468075771996239124334141363151590171138733047313267047096529882573361411795876171418471773370712730186668864068835146273755844200204908565916491178711123082885018842331258717443788260754334154591715532452729667749379841607891752515804395207971901147576075099016946604202349699851984063222959548731656513319112624457497369493973159910766745980040955901887203832611964152883035800882059242625462823594673543083874196120506015947249311126338786893240953125025353901356099131903099676990682950559033605265194239702077605015382418169149251363350094249421940194501164101277712924623180414591979693615850373011816470649355731432795419379031811848675861409562310354590478484943316342328598631306331528413232805269529546051243650985715435016199234397190461873767303625795304786412132354104576612203487097361343193228036013646817154806090263046802674592427694276298392552881848236518497708680629038282051264360550202236113546319626144081276580626949954195204467987371463818889284252544745791186108299819100025910227672647983514949108340175620172899037002018457611677440290630489970044106325326214317698383983643705764488036594924964280402740588672749018818762766440117766875554571238140296216858233968452188018055893439589626762111374583387221344938955668775702034886174028544606909837207664347386866003793658753765813941943920593995932119105000640730466696070267306854583262358356691969596611485353224903992725464957793062818816119984043492010685164750461446613872728060757896904347481620006236037673909242904332919891156624177977780125091043606686920932789776442147032481306418724065583649571822762432770095299630675374739107188012891545768858107127767205931931117233764708891439376561676537346621135273743914477406523506860121335283315482529433669318424856644331282080470487215040097418868177161312811294174002946134555448759829607147677375214788767541024414109622177727933450839688737755445951344404033635500789474071803108220456783681176318167676693574422568850049965655698700658379236452083456427524721286009520083458935298325715648590550978177737679586844104001411329948522565090128378742377779471669676754304577551045389373492751858099561148773711184511501240113918863604236957916169900219960219363453308217144349234043072162510241007939775172123883091597538978171368287177200795564751940821922891249553005250754116324916522534861076008937475008229685107352420207767904351921858554603646427606358492376989964852293329248234341132661375237059326193061587385613679311976057046605756343592092762069541285816887114914938233593216271397059718333806815888123371453749950416832717647846642904751721382286542330116971049259931626305276229215662064023642175243159757347011212640498332348804246921761285471123749065580742297320342024695745751229385551547841798802940617750666786788068314620950443671047467643664219527759787138923572286184642882238070254061334904598648880092435363717089617862297837845601880223996699540838293615371962414273367394372650722130289141682625641269395360429171144266521197906574502076344348907486945299943020457712928232909179375245398853779449163480885922128430606421985334383330561427631411878833345726207871071076349912141233605981813925756223288250636059944690287785860452269557670794089420316084067666118412152728581045262806824156306287) := by decide

set_option maxRecDepth 1000000 in
set_option exponentiation.threshold 100000 in
/-- Second half (311 iterations) of the second `init_by_array` mixing loop
for key `[200]`. -/
theorem iba2_fin_200 : MT.ibaIter2 311 (314,
    27544277616857520028221618043132832428423193634563540708206549832472576138041642123922527480992682048986521501243142677733180926463505540644471968062998451619734135404092367359938249792830751241768407219087130657247092276296040602685758626732298191173641609056880758048872911251614206172353613423420921679330776568865954958866924491712770273716685611318115768409063269727556916101065335053565198366634019069934081911321428195465939254502751753663364112328771837504843534921959933138931505090669743595369449572737133439021249905336731546792387116980392608018355164874850282622048625099058237278536582457676850836443768180806135448223036248554436058822176301081804252943983046594068922389308749412935607322110711412396604154669192489182438000954519051665904573523015767665854358281221465369774742770431479331189547383268528198398722609019973444111125191836835442126632958014676758370654624722944311474084567600989403472131520861839902960082970950123064568219174103637032750174567788483416118925940333824147192003944028349510855747746258538870014153175813830627281802521642035418058264701594307970881428992234926676954336536563381283313669933090100830072667921269583192449438965769311120769370951332482877365285296557473602528771317688248795864733680758831593869912186985251242019911032578404393582253824360142617046612445024782747264967591700098947689455902420277089340694746807576509259022129328211522784668890298004144072153016067992601823284964934953148404192034254249124997556479915621274095064094399192896234244796474373583344319748570294665629251799245391190871289450640469690377923198886173046422314510768532560654194271374633791823131725158334389322327226514283609161589414259600527370132076057016406194295361902602551386098619212324902694244300562144631192965081721460712310709725682254278214774481662475770919170012458263516862528406912074958562568654151086159450451868439139140151290282725823110402720134491829190002584051240179981674028885658727387320606205126197907729482158765560695989565197026873460183099369818856919919732410376142388015616436975123211289325094188434758907647900986042195348223517169819975562263920730962034063565093652805166968087081119121617137299339283172759796668016576805429673161548316903774338558818018628646809599478520641919991962518162015785511387875635466674636635923402474136303711259865808661882249382949670672151987408369559300394857233445334242271401534865654645600221921049967901087071315530310556050909486629350925162749798235674463999428675668423172837423914763772037718803342872940044721138962493888068911258612910020568411686726121055299610616853285833865702651158434458989822037162541522796336452782766483805064831034939926405551961709559087423368211362815351406991815297598997816272367723326552239710468075771996239124334141363151590171138733047313267047096529882573361411795876171418471773370712730186668864068835146273755844200204908565916491178711123082885018842331258717443788260754334154591715532452729667749379841607891752515804395207971901147576075099016946604202349699851984063222959548731656513319112624457497369493973159910766745980040955901887203832611964152883035800882059242625462823594673543083874196120506015947249311126338786893240953125025353901356099131903099676990682950559033605265194239702077605015382418169149251363350094249421940194501164101277712924623180414591979693615850373011816470649355731432795419379031811848675861409562310354590478484943316342328598631306331528413232805269529546051243650985715435016199234397190461873767303625795304786412132354104576612203487097361343193228036013646817154806090263046802674592427694276298392552881848236518497708680629038282051264360550202236113546319626144081276580626949954195204467987371463818889284252544745791186108299819100025910227672647983514949108340175620172899037002018457611677440290630489970044106325326214317698383983643705764488036594924964280402740588672749018818762766440117766875554571238140296216858233968452188018055893439589626762111374583387221344938955668775702034886174028544606909837207664347386866003793658753765813941943920593995932119105000640730466696070267306854583262358356691969596611485353224903992725464957793062818816119984043492010685164750461446613872728060757896904347481620006236037673909242904332919891156624177977780125091043606686920932789776442147032481306418724065583649571822762432770095299630675374739107188012891545768858107127767205931931117233764708891439376561676537346621135273743914477406523506860121335283315482529433669318424856644331282080470487215040097418868177161312811294174002946134555448759829607147677375214788767541024414109622177727933450839688737755445951344404033635500789474071803108220456783681176318167676693574422568850049965655698700658379236452083456427524721286009520083458935298325715648590550978177737679586844104001411329948522565090128378742377779471669676754304577551045389373492751858099561148773711184511501240113918863604236957916169900219960219363453308217144349234043072162510241007939775172123883091597538978171368287177200795564751940821922891249553005250754116324916522534861076008937475008229685107352420207767904351921858554603646427606358492376989964852293329248234341132661375237059326193061587385613679311976057046605756343592092762069541285816887114914938233593216271397059718333806815888123371453749950416832717647846642904751721382286542330116971049259931626305276229215662064023642175243159757347011212640498332348804246921761285471123749065580742297320342024695745751229385551547841798802940617750666786788068314620950443671047467643664219527759787138923572286184642882238070254061334904598648880092435363717089617862297837845601880223996699540838293615371962414273367394372650722130289141682625641269395360429171144266521197906574502076344348907486945299943020457712928232909179375245398853779449163480885922128430606421985334383330561427631411878833345726207871071076349912141233605981813925756223288250636059944690287785860452269557670794089420316084067666118412152728581045262806824156306287) = (2,
    64754928168570677366871885948702729682263774428406117687523614590413181295550293229133951724903845262785551051578657629524849767485921686323662427650609475507808467454073792204253007920397030414846581200833632190013842712239322146149188847503831477078807832164424871540309917319901062560419075695468568042215542104021542998638184065111080190951720126378082182732359508317711829291923996112388499795454562834334069988609610585534091241453002284210655143617085025782704753988725706136535899150846601041921190514059880496824122347191579357055724995551359760128696095765716478717346240328014165265469903593612652076896487623390054772492521031064178685158075749094930312196448996039274250492068285165226414447051760984901875258547799443448692238634849641299896965045021502672916788621338701786103460138871398900434901377871234343563632030576826850043454321513005492233697531646617874451566954004901690323285885143533168136841046360512822617652306970826956795564208745215543236929332055914580780978466441294894019529712630377798260801471106569280019546108081721076327748145965133923838286871252773587120742802003051563950728789475177436248406467078204932797958453057507152095552741352330800659938905165578946825660809374528472935671429362141657066977401385453303669746677749915078797831959332069264539409168904807322494525511885037811713813843277644516122894266516015597126539093555123845655678969405848867905181386916289831823220986521919613621438641619986778637358502963118210582611783219803292325690250359089259745733554413922952561886531269925935343172553300245064317696934925029220401262534944985747146614704899660446113083877103142605543654941142181887963747059980536347221443355061109213045533377575832321915468923640834417725405850620304183618306271779345831351819132690703053230018989785057977184986013496872890064061041373232283648119406171066131310420706484661125525564392054643501357964579117172811148784943943136218269576863720539704744819948773820609915660822961546930747377743137305539711850064108652091664968920942927848287201803387332769299267539238539761395870716389297453158971783146386597874365605958236437069155790815820464936858298048925104142021604188580881824204665936183213925631928004167394252458387433619695022422827349167899936868265311407561839665678071258323030813243502965191130134146160820240893711286570147191921844170663514621276534630638830363342344104482822966450837680854070588683765046526788011262094753912358844051331132750282155382084194303860136233422798129528654362793819990879496467346155391010580496007535524460934025528921110237104833499239008826856243176169826835551115526326456371449491099098547574118663617240105840812935545121969507458535192408960478538584603133938256658172747330938411501800446379518052355894578685035318493620383555306200968198845987846862517762303807634841364191504657124255324944511882838680835294238115980906067461028455634800003035223552949151053400246203129586032436928209572388106678107086472225113302063374431799102690379126425409669191774487331040306396583686019017659301186959788104115212679853753291841763855653469095499442925302039507556032548026425631000275937161766611117689338558459753394575538638615813338259283894941617166587926166449912232409546819491788281965821115804189883158936645823920069890578447585436051162975541809719074902148070362558232962093062194594701832845920624931983971523719428126584279769704135055598327808465859608221074938392571101140540451789864704452346152410796704488968521437710686620804426087087935711708705947542929281002681884511262324728424441333904824833039253834450741769632001364058514580954262228829516993877679733806915036308999549418698258299759015286452125907402544147594434720726113957731978772207941033186588416039902876751316996410069651618159920993296284525094124935541903734151027254620416330652502110944549262083688215398541976241763213700388491932188823336518114205675575083075005844022465758015681696127488774112906962596771332971368322891093193326146865884548448496638646565969415977001565545719848722854389278774240064313370976143158584651483767880307520397942258273893425216844699924654388422953163933862504678172722988960060449255525506505770739331296018956523150152573628850779587687076572862745462560213970842109032327275961437695181850514584914950011325154521389238380415757447066389712023014421718146338396481386380257002019033525420723884599671818938485783393715632587393977866699393723137533228901679980307498183974303037071448465776028671049912054284942217095870603842676585401214162600853656039872940221476328784930726188411218029336497574431293330719563640649965201882117169681766909171687408644701157977819127749185058222912094592683633773815179071289079405708351445975495783538025492429093954634879062096707188937847375090905658417267769254343202402816900457346362305102430239507721732748379478115621223925647213676475500724088590684844637743640015189646377614128311114859280297395526021991313641519961055089481564060003800684024077379757835010869388572166151332955364017387987496889391325157947275747698273173200214829405481722182302343295403181477163964737718188405664896502337217604179887723532864498537248327204218408981033595844066907635961899358186996751338336177850957678412256166715135241858875993249055852710120940089479393968078153133686102362779365452810025383420716410689606249316960195286246637117801853086548669050792577295111151475988395778002655957409121565462213158432130782222481349599604716808401866550176867765881705057037665326675622479477300106861569084185436789348959738637933520131744243753821267869084951504790485322531184221623487913113442848435272078052047420410249521748367555110576474261555957332439384149983771434744057777722167865716162776481912871211543702239240134900470222982350132318404949394764822752820259190120289959380358317287309090789942516850554870743288010522284840808772061691364813122101782864378760796601462664443179612130021246665197661889913944644846239560636053909396067168909718361262378330057357621838041782421097799550601) := by decide

/-- Full second `init_by_array` mixing loop for key `[200]`, assembled from
its two halves. -/
theorem iba2_full_200 : MT.ibaIter2 623 (2,
    27544277616857520028221618043132832428423193634563540708206549832472576138041642123922527480992682048986521501243142677733180926463505540644471968062998451619734135404092367359938249792830751241768407219087130657247092276296040602685758626732298191173641609056880758048872911251614206172353613423420921679330776568865954958866924491712770273716685611318115768409063269727556916101065335053565198366634019069934081911321428195465939254502751753663364112328771837504843534921959933138931505090669743595369449572737133439021249905336731546792387116980392608018355164874850282622048625099058237278536582457676850836443768180806135448223036248554436058822176301081804252943983046594068922389308749412935607322110711412396604154669192489182438000954519051665904573523015767665854358281221465369774742770431479331189547383268528198398722609019973444111125191836835442126632958014676758370654624722944311474084567600989403472131520861839902960082970950123064568219174103637032750174567788483416118925940333824147192003944028349510855747746258538870014153175813830627281802521642035418058264701594307970881428992234926676954336536563381283313669933090100830072667921269583192449438965769311120769370951332482877365285296557473602528771317688248795864733680758831593869912186985251242019911032578404393582253824360142617046612445024782747264967591700098947689455902420277089340694746807576509259022129328211522784668890298004144072153016067992601823284964934953148404192034254249124997556479915621274095064094399192896234244796474373583344319748570294665629251799245391190871289450640469690377923198886173046422314510768532560654194271374633791823131725158334389322327226514283609161589414259600527370132076057016406194295361902602551386098619212324902694244300562144631192965081721460712310709725682254278214774481662475770919170012458263516862528406912074958562568654151086159450451868439139140151290282725823110402720134491829190002584051240179981674028885658727387320606205126197907729482158765560695989565197026873460183099369818856919919732410376142388015616436975123211289325094188434758907647900986042195348223517169819975562263920730962034063565093652805166968087081119121617137299339283172759796668016576805429673161548316903774338558818018628646809599478520641919991962518162015785511387875635466674636635923402474136303711259865808661882249382949670672151987408369559300394857233445334242271401534865654645600221921049967901087071315530310556050909486629350925162749798235674463999428675668423172837423914763772037718803342872940044721138962493888068911258612910020568411686726121055299610616853285833865702651158434458989822037162541522796336452782766483805064831034939926405551961709559087423368211362815351406991815297598997816272367723326552239710468075771996239124334141363151590171138733047313267047096529882573361411795876171418471773370712730186668864068835146273755844200204908565916491178711123082885018842331258717443788260754334154591715532452729667749379841607891752515808104584347506463178168775496687222979942318065837245262700220322354174145232796506942204510722998485677977989373217111758873604714860767803827174813047055663875942144635012015941914336470149984241895181601427792491833606951773607266044240482897723829145805778463133108840967241668068491598044373035318853953666220084689879018807555072522184215712017731164138217502106406162497955386967431154511275734125972350049949962743025602895051193528040081252089800934912846108181015118623503888803608566625844966800601202608323075530824402564314325064040868920072249146849280326105879645238690533671519702211033967114096665346367141207037963333999950781832932976252050108885040328882190475306046284729422832299166272463011180296267139794656874091096689500020769809933359684289216423671398778635810806760459713063800455974873950243277378335416588719943380442228570740516883010886292125561086256146885811420593045545532411613672382861181418484628251119082320096434720109547386325325093088967569613860313535776039324099013821021981684367932620559312927556619879918030457836366609156662672444528392488819838554366770916905522613707749717316976131566479635800148419626831545783289910954469401095918718478898510297983773852127319287337328953881428316907593635103676931191474470179183515950558781318528038975889581613739283621075954334107580264705124395730939817851044636230037492003673030826397999076367539755833640994617203531297769938537893950107361929860931301505927682698344464533610876251113083387179962672652188981112163017084633242845752947769822278714242259069891466097915860820082764704690214935544340533339452969712064624109510644060156144252254174694917453888476147554014894474183759346286172833356864130377242217863040863094606622212291678686386270970992663653864685422219437836260151604821079173753159051670700748743918779075895348378745034237118375161047500482129836743422115898261485507454701602234187291440178939201895637349682606692851793347123509464606785853252453433321718489369998039889305181346254479344174593091975529128663086852836002264699953274655345013729348237346051209422192944169912820562841911536205170563455766388124937594883175141868177522383837032618636808379580739880428342427528476733648901689542428459105849951977091878567183208552597479679438898202666255294035753464461353255253194573409256003078146842813097263313375290358027436474513141418332044268529182879039014439174830108704704063812448027254059007348984626695590445093584224565879954562943416315758930400786349726651665556222944895472471549402810715182560791185894807525077894211896393885635786017657800985476444144363077824149859172850386028802146608046192339437329584284408716883430015216294671357091135983297324377519325456357504283392151065691037324360310873148405547136645649699257588600911757244568418282596000330785217502337872076710241732693343345450678965128599456408629074077259684703354983481653721322467412364421218620600275322391649743619696613735861686495269828924865736416558654744690310993029863133014159750889797772637617482275695) = (2,
    64754928168570677366871885948702729682263774428406117687523614590413181295550293229133951724903845262785551051578657629524849767485921686323662427650609475507808467454073792204253007920397030414846581200833632190013842712239322146149188847503831477078807832164424871540309917319901062560419075695468568042215542104021542998638184065111080190951720126378082182732359508317711829291923996112388499795454562834334069988609610585534091241453002284210655143617085025782704753988725706136535899150846601041921190514059880496824122347191579357055724995551359760128696095765716478717346240328014165265469903593612652076896487623390054772492521031064178685158075749094930312196448996039274250492068285165226414447051760984901875258547799443448692238634849641299896965045021502672916788621338701786103460138871398900434901377871234343563632030576826850043454321513005492233697531646617874451566954004901690323285885143533168136841046360512822617652306970826956795564208745215543236929332055914580780978466441294894019529712630377798260801471106569280019546108081721076327748145965133923838286871252773587120742802003051563950728789475177436248406467078204932797958453057507152095552741352330800659938905165578946825660809374528472935671429362141657066977401385453303669746677749915078797831959332069264539409168904807322494525511885037811713813843277644516122894266516015597126539093555123845655678969405848867905181386916289831823220986521919613621438641619986778637358502963118210582611783219803292325690250359089259745733554413922952561886531269925935343172553300245064317696934925029220401262534944985747146614704899660446113083877103142605543654941142181887963747059980536347221443355061109213045533377575832321915468923640834417725405850620304183618306271779345831351819132690703053230018989785057977184986013496872890064061041373232283648119406171066131310420706484661125525564392054643501357964579117172811148784943943136218269576863720539704744819948773820609915660822961546930747377743137305539711850064108652091664968920942927848287201803387332769299267539238539761395870716389297453158971783146386597874365605958236437069155790815820464936858298048925104142021604188580881824204665936183213925631928004167394252458387433619695022422827349167899936868265311407561839665678071258323030813243502965191130134146160820240893711286570147191921844170663514621276534630638830363342344104482822966450837680854070588683765046526788011262094753912358844051331132750282155382084194303860136233422798129528654362793819990879496467346155391010580496007535524460934025528921110237104833499239008826856243176169826835551115526326456371449491099098547574118663617240105840812935545121969507458535192408960478538584603133938256658172747330938411501800446379518052355894578685035318493620383555306200968198845987846862517762303807634841364191504657124255324944511882838680835294238115980906067461028455634800003035223552949151053400246203129586032436928209572388106678107086472225113302063374431799102690379126425409669191774487331040306396583686019017659301186959788104115212679853753291841763855653469095499442925302039507556032548026425631000275937161766611117689338558459753394575538638615813338259283894941617166587926166449912232409546819491788281965821115804189883158936645823920069890578447585436051162975541809719074902148070362558232962093062194594701832845920624931983971523719428126584279769704135055598327808465859608221074938392571101140540451789864704452346152410796704488968521437710686620804426087087935711708705947542929281002681884511262324728424441333904824833039253834450741769632001364058514580954262228829516993877679733806915036308999549418698258299759015286452125907402544147594434720726113957731978772207941033186588416039902876751316996410069651618159920993296284525094124935541903734151027254620416330652502110944549262083688215398541976241763213700388491932188823336518114205675575083075005844022465758015681696127488774112906962596771332971368322891093193326146865884548448496638646565969415977001565545719848722854389278774240064313370976143158584651483767880307520397942258273893425216844699924654388422953163933862504678172722988960060449255525506505770739331296018956523150152573628850779587687076572862745462560213970842109032327275961437695181850514584914950011325154521389238380415757447066389712023014421718146338396481386380257002019033525420723884599671818938485783393715632587393977866699393723137533228901679980307498183974303037071448465776028671049912054284942217095870603842676585401214162600853656039872940221476328784930726188411218029336497574431293330719563640649965201882117169681766909171687408644701157977819127749185058222912094592683633773815179071289079405708351445975495783538025492429093954634879062096707188937847375090905658417267769254343202402816900457346362305102430239507721732748379478115621223925647213676475500724088590684844637743640015189646377614128311114859280297395526021991313641519961055089481564060003800684024077379757835010869388572166151332955364017387987496889391325157947275747698273173200214829405481722182302343295403181477163964737718188405664896502337217604179887723532864498537248327204218408981033595844066907635961899358186996751338336177850957678412256166715135241858875993249055852710120940089479393968078153133686102362779365452810025383420716410689606249316960195286246637117801853086548669050792577295111151475988395778002655957409121565462213158432130782222481349599604716808401866550176867765881705057037665326675622479477300106861569084185436789348959738637933520131744243753821267869084951504790485322531184221623487913113442848435272078052047420410249521748367555110576474261555957332439384149983771434744057777722167865716162776481912871211543702239240134900470222982350132318404949394764822752820259190120289959380358317287309090789942516850554870743288010522284840808772061691364813122101782864378760796601462664443179612130021246665197661889913944644846239560636053909396067168909718361262378330057357621838041782421097799550601) := by
  have h : MT.ibaIter2 623 (2,
      27544277616857520028221618043132832428423193634563540708206549832472576138041642123922527480992682048986521501243142677733180926463505540644471968062998451619734135404092367359938249792830751241768407219087130657247092276296040602685758626732298191173641609056880758048872911251614206172353613423420921679330776568865954958866924491712770273716685611318115768409063269727556916101065335053565198366634019069934081911321428195465939254502751753663364112328771837504843534921959933138931505090669743595369449572737133439021249905336731546792387116980392608018355164874850282622048625099058237278536582457676850836443768180806135448223036248554436058822176301081804252943983046594068922389308749412935607322110711412396604154669192489182438000954519051665904573523015767665854358281221465369774742770431479331189547383268528198398722609019973444111125191836835442126632958014676758370654624722944311474084567600989403472131520861839902960082970950123064568219174103637032750174567788483416118925940333824147192003944028349510855747746258538870014153175813830627281802521642035418058264701594307970881428992234926676954336536563381283313669933090100830072667921269583192449438965769311120769370951332482877365285296557473602528771317688248795864733680758831593869912186985251242019911032578404393582253824360142617046612445024782747264967591700098947689455902420277089340694746807576509259022129328211522784668890298004144072153016067992601823284964934953148404192034254249124997556479915621274095064094399192896234244796474373583344319748570294665629251799245391190871289450640469690377923198886173046422314510768532560654194271374633791823131725158334389322327226514283609161589414259600527370132076057016406194295361902602551386098619212324902694244300562144631192965081721460712310709725682254278214774481662475770919170012458263516862528406912074958562568654151086159450451868439139140151290282725823110402720134491829190002584051240179981674028885658727387320606205126197907729482158765560695989565197026873460183099369818856919919732410376142388015616436975123211289325094188434758907647900986042195348223517169819975562263920730962034063565093652805166968087081119121617137299339283172759796668016576805429673161548316903774338558818018628646809599478520641919991962518162015785511387875635466674636635923402474136303711259865808661882249382949670672151987408369559300394857233445334242271401534865654645600221921049967901087071315530310556050909486629350925162749798235674463999428675668423172837423914763772037718803342872940044721138962493888068911258612910020568411686726121055299610616853285833865702651158434458989822037162541522796336452782766483805064831034939926405551961709559087423368211362815351406991815297598997816272367723326552239710468075771996239124334141363151590171138733047313267047096529882573361411795876171418471773370712730186668864068835146273755844200204908565916491178711123082885018842331258717443788260754334154591715532452729667749379841607891752515808104584347506463178168775496687222979942318065837245262700220322354174145232796506942204510722998485677977989373217111758873604714860767803827174813047055663875942144635012015941914336470149984241895181601427792491833606951773607266044240482897723829145805778463133108840967241668068491598044373035318853953666220084689879018807555072522184215712017731164138217502106406162497955386967431154511275734125972350049949962743025602895051193528040081252089800934912846108181015118623503888803608566625844966800601202608323075530824402564314325064040868920072249146849280326105879645238690533671519702211033967114096665346367141207037963333999950781832932976252050108885040328882190475306046284729422832299166272463011180296267139794656874091096689500020769809933359684289216423671398778635810806760459713063800455974873950243277378335416588719943380442228570740516883010886292125561086256146885811420593045545532411613672382861181418484628251119082320096434720109547386325325093088967569613860313535776039324099013821021981684367932620559312927556619879918030457836366609156662672444528392488819838554366770916905522613707749717316976131566479635800148419626831545783289910954469401095918718478898510297983773852127319287337328953881428316907593635103676931191474470179183515950558781318528038975889581613739283621075954334107580264705124395730939817851044636230037492003673030826397999076367539755833640994617203531297769938537893950107361929860931301505927682698344464533610876251113083387179962672652188981112163017084633242845752947769822278714242259069891466097915860820082764704690214935544340533339452969712064624109510644060156144252254174694917453888476147554014894474183759346286172833356864130377242217863040863094606622212291678686386270970992663653864685422219437836260151604821079173753159051670700748743918779075895348378745034237118375161047500482129836743422115898261485507454701602234187291440178939201895637349682606692851793347123509464606785853252453433321718489369998039889305181346254479344174593091975529128663086852836002264699953274655345013729348237346051209422192944169912820562841911536205170563455766388124937594883175141868177522383837032618636808379580739880428342427528476733648901689542428459105849951977091878567183208552597479679438898202666255294035753464461353255253194573409256003078146842813097263313375290358027436474513141418332044268529182879039014439174830108704704063812448027254059007348984626695590445093584224565879954562943416315758930400786349726651665556222944895472471549402810715182560791185894807525077894211896393885635786017657800985476444144363077824149859172850386028802146608046192339437329584284408716883430015216294671357091135983297324377519325456357504283392151065691037324360310873148405547136645649699257588600911757244568418282596000330785217502337872076710241732693343345450678965128599456408629074077259684703354983481653721322467412364421218620600275322391649743619696613735861686495269828924865736416558654744690310993029863133014159750889797772637617482275695) =
      MT.ibaIter2 311 (MT.ibaIter2 312 (2,
      27544277616857520028221618043132832428423193634563540708206549832472576138041642123922527480992682048986521501243142677733180926463505540644471968062998451619734135404092367359938249792830751241768407219087130657247092276296040602685758626732298191173641609056880758048872911251614206172353613423420921679330776568865954958866924491712770273716685611318115768409063269727556916101065335053565198366634019069934081911321428195465939254502751753663364112328771837504843534921959933138931505090669743595369449572737133439021249905336731546792387116980392608018355164874850282622048625099058237278536582457676850836443768180806135448223036248554436058822176301081804252943983046594068922389308749412935607322110711412396604154669192489182438000954519051665904573523015767665854358281221465369774742770431479331189547383268528198398722609019973444111125191836835442126632958014676758370654624722944311474084567600989403472131520861839902960082970950123064568219174103637032750174567788483416118925940333824147192003944028349510855747746258538870014153175813830627281802521642035418058264701594307970881428992234926676954336536563381283313669933090100830072667921269583192449438965769311120769370951332482877365285296557473602528771317688248795864733680758831593869912186985251242019911032578404393582253824360142617046612445024782747264967591700098947689455902420277089340694746807576509259022129328211522784668890298004144072153016067992601823284964934953148404192034254249124997556479915621274095064094399192896234244796474373583344319748570294665629251799245391190871289450640469690377923198886173046422314510768532560654194271374633791823131725158334389322327226514283609161589414259600527370132076057016406194295361902602551386098619212324902694244300562144631192965081721460712310709725682254278214774481662475770919170012458263516862528406912074958562568654151086159450451868439139140151290282725823110402720134491829190002584051240179981674028885658727387320606205126197907729482158765560695989565197026873460183099369818856919919732410376142388015616436975123211289325094188434758907647900986042195348223517169819975562263920730962034063565093652805166968087081119121617137299339283172759796668016576805429673161548316903774338558818018628646809599478520641919991962518162015785511387875635466674636635923402474136303711259865808661882249382949670672151987408369559300394857233445334242271401534865654645600221921049967901087071315530310556050909486629350925162749798235674463999428675668423172837423914763772037718803342872940044721138962493888068911258612910020568411686726121055299610616853285833865702651158434458989822037162541522796336452782766483805064831034939926405551961709559087423368211362815351406991815297598997816272367723326552239710468075771996239124334141363151590171138733047313267047096529882573361411795876171418471773370712730186668864068835146273755844200204908565916491178711123082885018842331258717443788260754334154591715532452729667749379841607891752515808104584347506463178168775496687222979942318065837245262700220322354174145232796506942204510722998485677977989373217111758873604714860767803827174813047055663875942144635012015941914336470149984241895181601427792491833606951773607266044240482897723829145805778463133108840967241668068491598044373035318853953666220084689879018807555072522184215712017731164138217502106406162497955386967431154511275734125972350049949962743025602895051193528040081252089800934912846108181015118623503888803608566625844966800601202608323075530824402564314325064040868920072249146849280326105879645238690533671519702211033967114096665346367141207037963333999950781832932976252050108885040328882190475306046284729422832299166272463011180296267139794656874091096689500020769809933359684289216423671398778635810806760459713063800455974873950243277378335416588719943380442228570740516883010886292125561086256146885811420593045545532411613672382861181418484628251119082320096434720109547386325325093088967569613860313535776039324099013821021981684367932620559312927556619879918030457836366609156662672444528392488819838554366770916905522613707749717316976131566479635800148419626831545783289910954469401095918718478898510297983773852127319287337328953881428316907593635103676931191474470179183515950558781318528038975889581613739283621075954334107580264705124395730939817851044636230037492003673030826397999076367539755833640994617203531297769938537893950107361929860931301505927682698344464533610876251113083387179962672652188981112163017084633242845752947769822278714242259069891466097915860820082764704690214935544340533339452969712064624109510644060156144252254174694917453888476147554014894474183759346286172833356864130377242217863040863094606622212291678686386270970992663653864685422219437836260151604821079173753159051670700748743918779075895348378745034237118375161047500482129836743422115898261485507454701602234187291440178939201895637349682606692851793347123509464606785853252453433321718489369998039889305181346254479344174593091975529128663086852836002264699953274655345013729348237346051209422192944169912820562841911536205170563455766388124937594883175141868177522383837032618636808379580739880428342427528476733648901689542428459105849951977091878567183208552597479679438898202666255294035753464461353255253194573409256003078146842813097263313375290358027436474513141418332044268529182879039014439174830108704704063812448027254059007348984626695590445093584224565879954562943416315758930400786349726651665556222944895472471549402810715182560791185894807525077894211896393885635786017657800985476444144363077824149859172850386028802146608046192339437329584284408716883430015216294671357091135983297324377519325456357504283392151065691037324360310873148405547136645649699257588600911757244568418282596000330785217502337872076710241732693343345450678965128599456408629074077259684703354983481653721322467412364421218620600275322391649743619696613735861686495269828924865736416558654744690310993029863133014159750889797772637617482275695)) :=
    MT.ibaIter2_add 311 312 _
  rw [h, iba2_mid_200, iba2_fin_200]

set_option maxRecDepth 1000000 in
/-- Index component of the full first mixing loop on key `[200]`. -/
theorem iba1_res_fst_200 : (MT.ibaIter1 [200] 1 624 (1, 0,
    62685089405509111925910797243914719854890513935494713084094713797279779630627496305943786046941309007281293105221577504421353501605599255248785149356818580886163074212016138319710181437623915839386196989339984175865611290932895638485827512283879634622589907034847096838980553398268338905605705315464924834076955485269257682765843392777664062904318116756644819538761883164862381873685805923051342196114892111881287659915424456096361326051748180740843339721465950121631833352165428366344241754810081140762710579390137795215443629123183303201044796731629341661542390258966032612552126580439913324626563213547393121217728067632048719897064596438939163041106934301355643192260261867872030533878188557727018817797219012064641958276099544136480610826250078810896212505254064619595899307426216931651016613164877613570296351724055264357110051005104450572173606849938075379012356137114572525910752676385589168436483206759652170097284388598518122222819376116616668668677988651997615236221431416155794821321118852088948452164682783715959922435191327367306488124638818446090532334864386359317233873012285172875896330714873881780586230596002778688422250420590175698633544778262136505069053046737202152515000629854634631225453245996997340762744567896897683212149150732909707719966588817675821630380251456266588599804209831660991462715440400663143017564651072677052296295930367391822676512661642282350234567553218318066651318510488484545671729568971887621684270732981974442582657502555066960418690332945218280990034155505553171409775830458482159957769211244505225186771766058316021949327301666418107251589707938065072144733816368743637495699897181007119363672460040974223449086641663004605507793014252452324150238463715514559124307431648478948480649031081489229583165223570218974125422263886587593014744330199975749832650568652404661542746543584685860761547297457070273167102314576665676644281998277713093924236551494770138725647883566971887853912300960949802636372591951717316415323846182747445131420005722224687602711525724505110953736568981699982016588947035894059736087136235396798804019434387781559696138411966704777989194870090051835909943079457649936020314680876367897457337488804889342331824364904005266943816631681518612047693872607083945336048154993001716858914072302230374294986610531277637599664647525761147514008899238689946802093944865612982597431648203028809043429562401771290925843222821220221381984318518256971016750121270624021542153515130386081256853244444367484914891752438843250797295149886721543902585582757118492217204960123203770309672216674331373413106027454841661967870247822106376003696537006476355273043676224973894002060133928765135363584693312631060562155459381152426642778209514491263275588735458188352331628933634618912177576995916817414488324819680108333628484452298807271017999262374749573133359090629722111402666396222385680310709557844049479865847370371052888681758484468279513921172987571336140289500145715018352119752770038578015899178947425013401300127437407370742417936980607757405410607208376626705322894782663757703548808362869195819947150150865798288136994832911439410269353230208345410503242199606186650417333579047848825834242257112060317620885151293421378661990197161958015730358249113963865616811805417654957899792836277351433146683316643158745577273742588847277405020330699298979666450169324546781433015633218213248018986767013905101885085728066131985273947793365444250280947765884488609302913437528001802423347517836456663978922564542901160075954132077499502061844004777463229898312792357201472450520034421742281215395838957029567457078867297742321364249618062920323524100796395855490398720473188748064226082130624085325443879193454095100721902723688608983702297802922465778395428510531587340343771240068168890882622394112252370643121994567113348850616779414952571984309063927162547038575769391208822294299053225776973195785292510157058775147687493667385905281728614066936870793483631104130486096422866739022254251631022238998824784309871214211336594149372534724828516536519652291847191320934127662041939033266344757810255450761243406685982638804631309022215852991706323223872506356963395668107287976200691035733250165615782065576159415303394415966535152327550107294310945533761757937224536792146711105700674959937207778503501562879445241463662142281185819506210181780721218897488871995890898495582077564387715740371190275817001449471008660140255770382875594805433223352833476546594040372715841292252983175468170554585838014797017976570586587751089146553833551413146641975370517778330202052282190648141351908509904289169596729111939424597802445523234111653813513351586367960175769546506050051493655326103823629699245586418016468660736051425039803522537493270385743437525903109563398688573456345292160567787373069854610200635728800730405759403691875432721043746233636765094325962472698626875833148826372580999341547042531665331710768365982359935219565301595187067772247975847412037958098451506998773182171027695752045356894447709388159633645629545493246019135820915900506906032640701290570506299065346661219735445730896769091171352761432210047450382980030625592142825700677633624952217795344145832513082782540989616413040988227257601039794195623143595351637462190706636535912449334420058581521218743569834717812580171279915160794789675762903718339466089866492140118823551337811927493524761760551434001520245324751568861558716803095718510972066599595072196209156923318071322517301806566620458899402166430591631348363311478802800521980525250372511467674969151489645720009661369785217086930227581405674315978920044798755483144811069077253851302610194739624245401270682864202663540116818822475326676741780611737275972111438408802370422377608919256570335384654037352344114105999356653180812503717835632673409647782213628400383443178293619326757139369589058612122088577237252104060778375287897543799460272211546791798613974575310224299012205778134871255296492395729078221387894808011355820153110205338707003138385845672884757408327786763143168159295742358655797897448897721796416755370)).1 = 2 := by
  rw [iba1_full_200]

/-- State component of the full first mixing loop on key `[200]`. -/
theorem iba1_res_snd_200 : (MT.ibaIter1 [200] 1 624 (1, 0,
    62685089405509111925910797243914719854890513935494713084094713797279779630627496305943786046941309007281293105221577504421353501605599255248785149356818580886163074212016138319710181437623915839386196989339984175865611290932895638485827512283879634622589907034847096838980553398268338905605705315464924834076955485269257682765843392777664062904318116756644819538761883164862381873685805923051342196114892111881287659915424456096361326051748180740843339721465950121631833352165428366344241754810081140762710579390137795215443629123183303201044796731629341661542390258966032612552126580439913324626563213547393121217728067632048719897064596438939163041106934301355643192260261867872030533878188557727018817797219012064641958276099544136480610826250078810896212505254064619595899307426216931651016613164877613570296351724055264357110051005104450572173606849938075379012356137114572525910752676385589168436483206759652170097284388598518122222819376116616668668677988651997615236221431416155794821321118852088948452164682783715959922435191327367306488124638818446090532334864386359317233873012285172875896330714873881780586230596002778688422250420590175698633544778262136505069053046737202152515000629854634631225453245996997340762744567896897683212149150732909707719966588817675821630380251456266588599804209831660991462715440400663143017564651072677052296295930367391822676512661642282350234567553218318066651318510488484545671729568971887621684270732981974442582657502555066960418690332945218280990034155505553171409775830458482159957769211244505225186771766058316021949327301666418107251589707938065072144733816368743637495699897181007119363672460040974223449086641663004605507793014252452324150238463715514559124307431648478948480649031081489229583165223570218974125422263886587593014744330199975749832650568652404661542746543584685860761547297457070273167102314576665676644281998277713093924236551494770138725647883566971887853912300960949802636372591951717316415323846182747445131420005722224687602711525724505110953736568981699982016588947035894059736087136235396798804019434387781559696138411966704777989194870090051835909943079457649936020314680876367897457337488804889342331824364904005266943816631681518612047693872607083945336048154993001716858914072302230374294986610531277637599664647525761147514008899238689946802093944865612982597431648203028809043429562401771290925843222821220221381984318518256971016750121270624021542153515130386081256853244444367484914891752438843250797295149886721543902585582757118492217204960123203770309672216674331373413106027454841661967870247822106376003696537006476355273043676224973894002060133928765135363584693312631060562155459381152426642778209514491263275588735458188352331628933634618912177576995916817414488324819680108333628484452298807271017999262374749573133359090629722111402666396222385680310709557844049479865847370371052888681758484468279513921172987571336140289500145715018352119752770038578015899178947425013401300127437407370742417936980607757405410607208376626705322894782663757703548808362869195819947150150865798288136994832911439410269353230208345410503242199606186650417333579047848825834242257112060317620885151293421378661990197161958015730358249113963865616811805417654957899792836277351433146683316643158745577273742588847277405020330699298979666450169324546781433015633218213248018986767013905101885085728066131985273947793365444250280947765884488609302913437528001802423347517836456663978922564542901160075954132077499502061844004777463229898312792357201472450520034421742281215395838957029567457078867297742321364249618062920323524100796395855490398720473188748064226082130624085325443879193454095100721902723688608983702297802922465778395428510531587340343771240068168890882622394112252370643121994567113348850616779414952571984309063927162547038575769391208822294299053225776973195785292510157058775147687493667385905281728614066936870793483631104130486096422866739022254251631022238998824784309871214211336594149372534724828516536519652291847191320934127662041939033266344757810255450761243406685982638804631309022215852991706323223872506356963395668107287976200691035733250165615782065576159415303394415966535152327550107294310945533761757937224536792146711105700674959937207778503501562879445241463662142281185819506210181780721218897488871995890898495582077564387715740371190275817001449471008660140255770382875594805433223352833476546594040372715841292252983175468170554585838014797017976570586587751089146553833551413146641975370517778330202052282190648141351908509904289169596729111939424597802445523234111653813513351586367960175769546506050051493655326103823629699245586418016468660736051425039803522537493270385743437525903109563398688573456345292160567787373069854610200635728800730405759403691875432721043746233636765094325962472698626875833148826372580999341547042531665331710768365982359935219565301595187067772247975847412037958098451506998773182171027695752045356894447709388159633645629545493246019135820915900506906032640701290570506299065346661219735445730896769091171352761432210047450382980030625592142825700677633624952217795344145832513082782540989616413040988227257601039794195623143595351637462190706636535912449334420058581521218743569834717812580171279915160794789675762903718339466089866492140118823551337811927493524761760551434001520245324751568861558716803095718510972066599595072196209156923318071322517301806566620458899402166430591631348363311478802800521980525250372511467674969151489645720009661369785217086930227581405674315978920044798755483144811069077253851302610194739624245401270682864202663540116818822475326676741780611737275972111438408802370422377608919256570335384654037352344114105999356653180812503717835632673409647782213628400383443178293619326757139369589058612122088577237252104060778375287897543799460272211546791798613974575310224299012205778134871255296492395729078221387894808011355820153110205338707003138385845672884757408327786763143168159295742358655797897448897721796416755370)).2.2 =
    27544277616857520028221618043132832428423193634563540708206549832472576138041642123922527480992682048986521501243142677733180926463505540644471968062998451619734135404092367359938249792830751241768407219087130657247092276296040602685758626732298191173641609056880758048872911251614206172353613423420921679330776568865954958866924491712770273716685611318115768409063269727556916101065335053565198366634019069934081911321428195465939254502751753663364112328771837504843534921959933138931505090669743595369449572737133439021249905336731546792387116980392608018355164874850282622048625099058237278536582457676850836443768180806135448223036248554436058822176301081804252943983046594068922389308749412935607322110711412396604154669192489182438000954519051665904573523015767665854358281221465369774742770431479331189547383268528198398722609019973444111125191836835442126632958014676758370654624722944311474084567600989403472131520861839902960082970950123064568219174103637032750174567788483416118925940333824147192003944028349510855747746258538870014153175813830627281802521642035418058264701594307970881428992234926676954336536563381283313669933090100830072667921269583192449438965769311120769370951332482877365285296557473602528771317688248795864733680758831593869912186985251242019911032578404393582253824360142617046612445024782747264967591700098947689455902420277089340694746807576509259022129328211522784668890298004144072153016067992601823284964934953148404192034254249124997556479915621274095064094399192896234244796474373583344319748570294665629251799245391190871289450640469690377923198886173046422314510768532560654194271374633791823131725158334389322327226514283609161589414259600527370132076057016406194295361902602551386098619212324902694244300562144631192965081721460712310709725682254278214774481662475770919170012458263516862528406912074958562568654151086159450451868439139140151290282725823110402720134491829190002584051240179981674028885658727387320606205126197907729482158765560695989565197026873460183099369818856919919732410376142388015616436975123211289325094188434758907647900986042195348223517169819975562263920730962034063565093652805166968087081119121617137299339283172759796668016576805429673161548316903774338558818018628646809599478520641919991962518162015785511387875635466674636635923402474136303711259865808661882249382949670672151987408369559300394857233445334242271401534865654645600221921049967901087071315530310556050909486629350925162749798235674463999428675668423172837423914763772037718803342872940044721138962493888068911258612910020568411686726121055299610616853285833865702651158434458989822037162541522796336452782766483805064831034939926405551961709559087423368211362815351406991815297598997816272367723326552239710468075771996239124334141363151590171138733047313267047096529882573361411795876171418471773370712730186668864068835146273755844200204908565916491178711123082885018842331258717443788260754334154591715532452729667749379841607891752515808104584347506463178168775496687222979942318065837245262700220322354174145232796506942204510722998485677977989373217111758873604714860767803827174813047055663875942144635012015941914336470149984241895181601427792491833606951773607266044240482897723829145805778463133108840967241668068491598044373035318853953666220084689879018807555072522184215712017731164138217502106406162497955386967431154511275734125972350049949962743025602895051193528040081252089800934912846108181015118623503888803608566625844966800601202608323075530824402564314325064040868920072249146849280326105879645238690533671519702211033967114096665346367141207037963333999950781832932976252050108885040328882190475306046284729422832299166272463011180296267139794656874091096689500020769809933359684289216423671398778635810806760459713063800455974873950243277378335416588719943380442228570740516883010886292125561086256146885811420593045545532411613672382861181418484628251119082320096434720109547386325325093088967569613860313535776039324099013821021981684367932620559312927556619879918030457836366609156662672444528392488819838554366770916905522613707749717316976131566479635800148419626831545783289910954469401095918718478898510297983773852127319287337328953881428316907593635103676931191474470179183515950558781318528038975889581613739283621075954334107580264705124395730939817851044636230037492003673030826397999076367539755833640994617203531297769938537893950107361929860931301505927682698344464533610876251113083387179962672652188981112163017084633242845752947769822278714242259069891466097915860820082764704690214935544340533339452969712064624109510644060156144252254174694917453888476147554014894474183759346286172833356864130377242217863040863094606622212291678686386270970992663653864685422219437836260151604821079173753159051670700748743918779075895348378745034237118375161047500482129836743422115898261485507454701602234187291440178939201895637349682606692851793347123509464606785853252453433321718489369998039889305181346254479344174593091975529128663086852836002264699953274655345013729348237346051209422192944169912820562841911536205170563455766388124937594883175141868177522383837032618636808379580739880428342427528476733648901689542428459105849951977091878567183208552597479679438898202666255294035753464461353255253194573409256003078146842813097263313375290358027436474513141418332044268529182879039014439174830108704704063812448027254059007348984626695590445093584224565879954562943416315758930400786349726651665556222944895472471549402810715182560791185894807525077894211896393885635786017657800985476444144363077824149859172850386028802146608046192339437329584284408716883430015216294671357091135983297324377519325456357504283392151065691037324360310873148405547136645649699257588600911757244568418282596000330785217502337872076710241732693343345450678965128599456408629074077259684703354983481653721322467412364421218620600275322391649743619696613735861686495269828924865736416558654744690310993029863133014159750889797772637617482275695 := by
  rw [iba1_full_200]

set_option maxRecDepth 1000000 in
set_option exponentiation.threshold 100000 in
/-- Literal MT19937 state after `random.seed(2 * 100)`, assembled from the
staged loop evaluations. -/
theorem seed200_lit : MT.seedInt (2 * 100) =
    ⟨64754928168570677366871885948702729682263774428406117687523614590413181295550293229133951724903845262785551051578657629524849767485921686323662427650609475507808467454073792204253007920397030414846581200833632190013842712239322146149188847503831477078807832164424871540309917319901062560419075695468568042215542104021542998638184065111080190951720126378082182732359508317711829291923996112388499795454562834334069988609610585534091241453002284210655143617085025782704753988725706136535899150846601041921190514059880496824122347191579357055724995551359760128696095765716478717346240328014165265469903593612652076896487623390054772492521031064178685158075749094930312196448996039274250492068285165226414447051760984901875258547799443448692238634849641299896965045021502672916788621338701786103460138871398900434901377871234343563632030576826850043454321513005492233697531646617874451566954004901690323285885143533168136841046360512822617652306970826956795564208745215543236929332055914580780978466441294894019529712630377798260801471106569280019546108081721076327748145965133923838286871252773587120742802003051563950728789475177436248406467078204932797958453057507152095552741352330800659938905165578946825660809374528472935671429362141657066977401385453303669746677749915078797831959332069264539409168904807322494525511885037811713813843277644516122894266516015597126539093555123845655678969405848867905181386916289831823220986521919613621438641619986778637358502963118210582611783219803292325690250359089259745733554413922952561886531269925935343172553300245064317696934925029220401262534944985747146614704899660446113083877103142605543654941142181887963747059980536347221443355061109213045533377575832321915468923640834417725405850620304183618306271779345831351819132690703053230018989785057977184986013496872890064061041373232283648119406171066131310420706484661125525564392054643501357964579117172811148784943943136218269576863720539704744819948773820609915660822961546930747377743137305539711850064108652091664968920942927848287201803387332769299267539238539761395870716389297453158971783146386597874365605958236437069155790815820464936858298048925104142021604188580881824204665936183213925631928004167394252458387433619695022422827349167899936868265311407561839665678071258323030813243502965191130134146160820240893711286570147191921844170663514621276534630638830363342344104482822966450837680854070588683765046526788011262094753912358844051331132750282155382084194303860136233422798129528654362793819990879496467346155391010580496007535524460934025528921110237104833499239008826856243176169826835551115526326456371449491099098547574118663617240105840812935545121969507458535192408960478538584603133938256658172747330938411501800446379518052355894578685035318493620383555306200968198845987846862517762303807634841364191504657124255324944511882838680835294238115980906067461028455634800003035223552949151053400246203129586032436928209572388106678107086472225113302063374431799102690379126425409669191774487331040306396583686019017659301186959788104115212679853753291841763855653469095499442925302039507556032548026425631000275937161766611117689338558459753394575538638615813338259283894941617166587926166449912232409546819491788281965821115804189883158936645823920069890578447585436051162975541809719074902148070362558232962093062194594701832845920624931983971523719428126584279769704135055598327808465859608221074938392571101140540451789864704452346152410796704488968521437710686620804426087087935711708705947542929281002681884511262324728424441333904824833039253834450741769632001364058514580954262228829516993877679733806915036308999549418698258299759015286452125907402544147594434720726113957731978772207941033186588416039902876751316996410069651618159920993296284525094124935541903734151027254620416330652502110944549262083688215398541976241763213700388491932188823336518114205675575083075005844022465758015681696127488774112906962596771332971368322891093193326146865884548448496638646565969415977001565545719848722854389278774240064313370976143158584651483767880307520397942258273893425216844699924654388422953163933862504678172722988960060449255525506505770739331296018956523150152573628850779587687076572862745462560213970842109032327275961437695181850514584914950011325154521389238380415757447066389712023014421718146338396481386380257002019033525420723884599671818938485783393715632587393977866699393723137533228901679980307498183974303037071448465776028671049912054284942217095870603842676585401214162600853656039872940221476328784930726188411218029336497574431293330719563640649965201882117169681766909171687408644701157977819127749185058222912094592683633773815179071289079405708351445975495783538025492429093954634879062096707188937847375090905658417267769254343202402816900457346362305102430239507721732748379478115621223925647213676475500724088590684844637743640015189646377614128311114859280297395526021991313641519961055089481564060003800684024077379757835010869388572166151332955364017387987496889391325157947275747698273173200214829405481722182302343295403181477163964737718188405664896502337217604179887723532864498537248327204218408981033595844066907635961899358186996751338336177850957678412256166715135241858875993249055852710120940089479393968078153133686102362779365452810025383420716410689606249316960195286246637117801853086548669050792577295111151475988395778002655957409121565462213158432130782222481349599604716808401866550176867765881705057037665326675622479477300106861569084185436789348959738637933520131744243753821267869084951504790485322531184221623487913113442848435272078052047420410249521748367555110576474261555957332439384149983771434744057777722167865716162776481912871211543702239240134900470222982350132318404949394764822752820259190120289959380358317287309090789942516850554870743288010522284840808772061691364813122101782864378760796601462664443179612130021246665197661889913944644846239560636053909396067168909718361262378330057357621838041782421096945942528, 624⟩ := by
  have hk : MT.key32 (Int.natAbs (2 * 100)) = [200] := by decide
  show (⟨MT.init_by_array (MT.key32 (Int.natAbs (2 * 100))), 624⟩ : MT.RState) = _
  rw [hk, init_by_array_eq [200], key_one_length, ibaLoop1_fst, ibaLoop1_snd,
    ibaLoop2_eq, init_genrand_ref_lit, iba1_res_fst_200, iba1_res_snd_200,
    iba2_full_200]
  decide

set_option maxRecDepth 1000000 in
set_option exponentiation.threshold 100000 in
/-- First half (312 iterations) of the first `init_by_array` mixing loop on
key `[300]`, evaluated on the literal reference state. -/
theorem iba1_mid_300 : MT.ibaIter1 [300] 1 312 (1, 0,
    62685089405509111925910797243914719854890513935494713084094713797279779630627496305943786046941309007281293105221577504421353501605599255248785149356818580886163074212016138319710181437623915839386196989339984175865611290932895638485827512283879634622589907034847096838980553398268338905605705315464924834076955485269257682765843392777664062904318116756644819538761883164862381873685805923051342196114892111881287659915424456096361326051748180740843339721465950121631833352165428366344241754810081140762710579390137795215443629123183303201044796731629341661542390258966032612552126580439913324626563213547393121217728067632048719897064596438939163041106934301355643192260261867872030533878188557727018817797219012064641958276099544136480610826250078810896212505254064619595899307426216931651016613164877613570296351724055264357110051005104450572173606849938075379012356137114572525910752676385589168436483206759652170097284388598518122222819376116616668668677988651997615236221431416155794821321118852088948452164682783715959922435191327367306488124638818446090532334864386359317233873012285172875896330714873881780586230596002778688422250420590175698633544778262136505069053046737202152515000629854634631225453245996997340762744567896897683212149150732909707719966588817675821630380251456266588599804209831660991462715440400663143017564651072677052296295930367391822676512661642282350234567553218318066651318510488484545671729568971887621684270732981974442582657502555066960418690332945218280990034155505553171409775830458482159957769211244505225186771766058316021949327301666418107251589707938065072144733816368743637495699897181007119363672460040974223449086641663004605507793014252452324150238463715514559124307431648478948480649031081489229583165223570218974125422263886587593014744330199975749832650568652404661542746543584685860761547297457070273167102314576665676644281998277713093924236551494770138725647883566971887853912300960949802636372591951717316415323846182747445131420005722224687602711525724505110953736568981699982016588947035894059736087136235396798804019434387781559696138411966704777989194870090051835909943079457649936020314680876367897457337488804889342331824364904005266943816631681518612047693872607083945336048154993001716858914072302230374294986610531277637599664647525761147514008899238689946802093944865612982597431648203028809043429562401771290925843222821220221381984318518256971016750121270624021542153515130386081256853244444367484914891752438843250797295149886721543902585582757118492217204960123203770309672216674331373413106027454841661967870247822106376003696537006476355273043676224973894002060133928765135363584693312631060562155459381152426642778209514491263275588735458188352331628933634618912177576995916817414488324819680108333628484452298807271017999262374749573133359090629722111402666396222385680310709557844049479865847370371052888681758484468279513921172987571336140289500145715018352119752770038578015899178947425013401300127437407370742417936980607757405410607208376626705322894782663757703548808362869195819947150150865798288136994832911439410269353230208345410503242199606186650417333579047848825834242257112060317620885151293421378661990197161958015730358249113963865616811805417654957899792836277351433146683316643158745577273742588847277405020330699298979666450169324546781433015633218213248018986767013905101885085728066131985273947793365444250280947765884488609302913437528001802423347517836456663978922564542901160075954132077499502061844004777463229898312792357201472450520034421742281215395838957029567457078867297742321364249618062920323524100796395855490398720473188748064226082130624085325443879193454095100721902723688608983702297802922465778395428510531587340343771240068168890882622394112252370643121994567113348850616779414952571984309063927162547038575769391208822294299053225776973195785292510157058775147687493667385905281728614066936870793483631104130486096422866739022254251631022238998824784309871214211336594149372534724828516536519652291847191320934127662041939033266344757810255450761243406685982638804631309022215852991706323223872506356963395668107287976200691035733250165615782065576159415303394415966535152327550107294310945533761757937224536792146711105700674959937207778503501562879445241463662142281185819506210181780721218897488871995890898495582077564387715740371190275817001449471008660140255770382875594805433223352833476546594040372715841292252983175468170554585838014797017976570586587751089146553833551413146641975370517778330202052282190648141351908509904289169596729111939424597802445523234111653813513351586367960175769546506050051493655326103823629699245586418016468660736051425039803522537493270385743437525903109563398688573456345292160567787373069854610200635728800730405759403691875432721043746233636765094325962472698626875833148826372580999341547042531665331710768365982359935219565301595187067772247975847412037958098451506998773182171027695752045356894447709388159633645629545493246019135820915900506906032640701290570506299065346661219735445730896769091171352761432210047450382980030625592142825700677633624952217795344145832513082782540989616413040988227257601039794195623143595351637462190706636535912449334420058581521218743569834717812580171279915160794789675762903718339466089866492140118823551337811927493524761760551434001520245324751568861558716803095718510972066599595072196209156923318071322517301806566620458899402166430591631348363311478802800521980525250372511467674969151489645720009661369785217086930227581405674315978920044798755483144811069077253851302610194739624245401270682864202663540116818822475326676741780611737275972111438408802370422377608919256570335384654037352344114105999356653180812503717835632673409647782213628400383443178293619326757139369589058612122088577237252104060778375287897543799460272211546791798613974575310224299012205778134871255296492395729078221387894808011355820153110205338707003138385845672884757408327786763143168159295742358655797897448897721796416755370) = (313, 0,
    62685089405509111925910797243914719854890513935494713084094713797279779630627496305943786046941309007281293105221577504421353501605599255248785149356818580886163074212016138319710181437623915839386196989339984175865611290932895638485827512283879634622589907034847096838980553398268338905605705315464924834076955485269257682765843392777664062904318116756644819538761883164862381873685805923051342196114892111881287659915424456096361326051748180740843339721465950121631833352165428366344241754810081140762710579390137795215443629123183303201044796731629341661542390258966032612552126580439913324626563213547393121217728067632048719897064596438939163041106934301355643192260261867872030533878188557727018817797219012064641958276099544136480610826250078810896212505254064619595899307426216931651016613164877613570296351724055264357110051005104450572173606849938075379012356137114572525910752676385589168436483206759652170097284388598518122222819376116616668668677988651997615236221431416155794821321118852088948452164682783715959922435191327367306488124638818446090532334864386359317233873012285172875896330714873881780586230596002778688422250420590175698633544778262136505069053046737202152515000629854634631225453245996997340762744567896897683212149150732909707719966588817675821630380251456266588599804209831660991462715440400663143017564651072677052296295930367391822676512661642282350234567553218318066651318510488484545671729568971887621684270732981974442582657502555066960418690332945218280990034155505553171409775830458482159957769211244505225186771766058316021949327301666418107251589707938065072144733816368743637495699897181007119363672460040974223449086641663004605507793014252452324150238463715514559124307431648478948480649031081489229583165223570218974125422263886587593014744330199975749832650568652404661542746543584685860761547297457070273167102314576665676644281998277713093924236551494770138725647883566971887853912300960949802636372591951717316415323846182747445131420005722224687602711525724505110953736568981699982016588947035894059736087136235396798804019434387781559696138411966704777989194870090051835909943079457649936020314680876367897457337488804889342331824364904005266943816631681518612047693872607083945336048154993001716858914072302230374294986610531277637599664647525761147514008899238689946802093944865612982597431648203028809043429562401771290925843222821220221381984318518256971016750121270624021542153515130386081256853244444367484914891752438843250797295149886721543902585582757118492217204960123203770309672216674331373413106027454841661967870247822106376003696537006476355273043676224973894002060133928765135363584693312631060562155459381152426642778209514491263275588735458188352331628933634618912177576995916817414488324819680108333628484452298807271017999262374749573133359090629722111402666396222385680310709557844049479865847370371052888681758484468279513921172987571336140289500145715018352119752770038578015899178947425013401300127437407370742417936980679021454805137868674866041508786060504384313706807927540720610788020371473125903997619373500387713764702877677793162071882799627647316010871511189330364378896264992569651548706371800108249451378696874582164481517995737526269058032835327075676105925106255218459722304986407551608528423704754572882902007170889798083379000606697635431387720576520766772427498725668957349313522401066891153754201115148152772771855777274797119156330309235203620210546955994012383710997957677605763842126724435297120820813810624618551132430909905277704139278542829261198296233344602985881184717611263032102201907360067387061930272657809289918105579567382612035233375618711684524355644619612906080023769609107677739016063737239143559556242683477427970710421686634252355873885448652230038260071902443821015871948067151548785125860613980825272963159428307438887110885096210893199847237897923268924336981325176943595798131832653555732488685460468907348304393753074186076165958290100151112743742228350405945945753854182876860413801945628781526745754129631971192050268666358272042394878204424347323988464637298378558116963216286732423072248416086552031132513271674931519826875236046213639196856973846532590222269634378384550345571223341917645747629631586329355537569169676901584599065751220562525451763640319478197955103279817636395911127409372854756428901921987706967895926811431047628910758254880665982717218738820431037904733839699996836813652594915041783245907624574506155550940515364244108328784903310238937208526172935571110547863852424346618523226391377193591018097335254465236708865639144947648557552937441227392972522048321720390285057999412866662549549221188104241404521399347533153601798130113371881554208014802835415700807286346165395666825811181230628364763176523474716280424385730077179037010270356385286902624197550036737599932690036965437375359594742906809398915186066552104106909844693827755793735366041574081656622306199647439930869815949409601855827370150214918359970882970732162932301240082150145469317503237913933948564920224826462403403710124299178775783032628046697744986443820209143472119200461098434896693156098384016034107278877133618223511757508951049659877115730058230368259287574482874502800425489289391902379753293654541426992114560325995170339237555052033780150917961307308488428655033086769497687313643180022681042243615731422232130157000704311310882391135824983211483562205814632414952299122873504569010744003048005332344102168924262524618108222422858817280602270804618637955328723646621653679935075089605780161469630461380433054014831912256454351517077597930928152462741704007649549170763618326443325328430579312132977637798649297786949596875293116524984046990352194519797579235456246638623636983893714393653686101482825532237738090958718043406830340615730012229072981823921593533799112807227616860267813919976022895350383108699201734572071173711931736874962578244966892605021746640226722342948305428552845733104056862939926403428433404048823759629036444909961707467650357555489619573869661540035824039220906) := by decide

set_option maxRecDepth 1000000 in
set_option exponentiation.threshold 100000 in
/-- Second half (312 iterations) of the first `init_by_array` mixing loop on
key `[300]`. -/
theorem iba1_fin_300 : MT.ibaIter1 [300] 1 312 (313, 0,
    62685089405509111925910797243914719854890513935494713084094713797279779630627496305943786046941309007281293105221577504421353501605599255248785149356818580886163074212016138319710181437623915839386196989339984175865611290932895638485827512283879634622589907034847096838980553398268338905605705315464924834076955485269257682765843392777664062904318116756644819538761883164862381873685805923051342196114892111881287659915424456096361326051748180740843339721465950121631833352165428366344241754810081140762710579390137795215443629123183303201044796731629341661542390258966032612552126580439913324626563213547393121217728067632048719897064596438939163041106934301355643192260261867872030533878188557727018817797219012064641958276099544136480610826250078810896212505254064619595899307426216931651016613164877613570296351724055264357110051005104450572173606849938075379012356137114572525910752676385589168436483206759652170097284388598518122222819376116616668668677988651997615236221431416155794821321118852088948452164682783715959922435191327367306488124638818446090532334864386359317233873012285172875896330714873881780586230596002778688422250420590175698633544778262136505069053046737202152515000629854634631225453245996997340762744567896897683212149150732909707719966588817675821630380251456266588599804209831660991462715440400663143017564651072677052296295930367391822676512661642282350234567553218318066651318510488484545671729568971887621684270732981974442582657502555066960418690332945218280990034155505553171409775830458482159957769211244505225186771766058316021949327301666418107251589707938065072144733816368743637495699897181007119363672460040974223449086641663004605507793014252452324150238463715514559124307431648478948480649031081489229583165223570218974125422263886587593014744330199975749832650568652404661542746543584685860761547297457070273167102314576665676644281998277713093924236551494770138725647883566971887853912300960949802636372591951717316415323846182747445131420005722224687602711525724505110953736568981699982016588947035894059736087136235396798804019434387781559696138411966704777989194870090051835909943079457649936020314680876367897457337488804889342331824364904005266943816631681518612047693872607083945336048154993001716858914072302230374294986610531277637599664647525761147514008899238689946802093944865612982597431648203028809043429562401771290925843222821220221381984318518256971016750121270624021542153515130386081256853244444367484914891752438843250797295149886721543902585582757118492217204960123203770309672216674331373413106027454841661967870247822106376003696537006476355273043676224973894002060133928765135363584693312631060562155459381152426642778209514491263275588735458188352331628933634618912177576995916817414488324819680108333628484452298807271017999262374749573133359090629722111402666396222385680310709557844049479865847370371052888681758484468279513921172987571336140289500145715018352119752770038578015899178947425013401300127437407370742417936980679021454805137868674866041508786060504384313706807927540720610788020371473125903997619373500387713764702877677793162071882799627647316010871511189330364378896264992569651548706371800108249451378696874582164481517995737526269058032835327075676105925106255218459722304986407551608528423704754572882902007170889798083379000606697635431387720576520766772427498725668957349313522401066891153754201115148152772771855777274797119156330309235203620210546955994012383710997957677605763842126724435297120820813810624618551132430909905277704139278542829261198296233344602985881184717611263032102201907360067387061930272657809289918105579567382612035233375618711684524355644619612906080023769609107677739016063737239143559556242683477427970710421686634252355873885448652230038260071902443821015871948067151548785125860613980825272963159428307438887110885096210893199847237897923268924336981325176943595798131832653555732488685460468907348304393753074186076165958290100151112743742228350405945945753854182876860413801945628781526745754129631971192050268666358272042394878204424347323988464637298378558116963216286732423072248416086552031132513271674931519826875236046213639196856973846532590222269634378384550345571223341917645747629631586329355537569169676901584599065751220562525451763640319478197955103279817636395911127409372854756428901921987706967895926811431047628910758254880665982717218738820431037904733839699996836813652594915041783245907624574506155550940515364244108328784903310238937208526172935571110547863852424346618523226391377193591018097335254465236708865639144947648557552937441227392972522048321720390285057999412866662549549221188104241404521399347533153601798130113371881554208014802835415700807286346165395666825811181230628364763176523474716280424385730077179037010270356385286902624197550036737599932690036965437375359594742906809398915186066552104106909844693827755793735366041574081656622306199647439930869815949409601855827370150214918359970882970732162932301240082150145469317503237913933948564920224826462403403710124299178775783032628046697744986443820209143472119200461098434896693156098384016034107278877133618223511757508951049659877115730058230368259287574482874502800425489289391902379753293654541426992114560325995170339237555052033780150917961307308488428655033086769497687313643180022681042243615731422232130157000704311310882391135824983211483562205814632414952299122873504569010744003048005332344102168924262524618108222422858817280602270804618637955328723646621653679935075089605780161469630461380433054014831912256454351517077597930928152462741704007649549170763618326443325328430579312132977637798649297786949596875293116524984046990352194519797579235456246638623636983893714393653686101482825532237738090958718043406830340615730012229072981823921593533799112807227616860267813919976022895350383108699201734572071173711931736874962578244966892605021746640226722342948305428552845733104056862939926403428433404048823759629036444909961707467650357555489619573869661540035824039220906) = (2, 0,
    67374552967549415892460334142267631372451832454830760922942741075775470304827740127112198765273774688423436250402599555888940095703845921525168494604942644533116699301926408765713046044485824754166924625117846334956806343391067547543434994297352191628636581604477870986504188883755657970471402961505613700519814303430946319927691471352972802880106344049145912743528375498105273576599707497147597633007761905573183731122822999013622977862727946420948651607681440952037031112910911515990316076541589690317199063585419464579137400246150609280041530307008627286583819335408764493010651025138256700887942410563974939592709553847313560405804295576847756998076021583682613652540334175545780959056213535427589208189158964922004871395410385366370459832150435823682343191904124635935889362898088027971753251119348364465053657813373882097744772201156716370395570149195993395487555131513174103000030506261773750124191636804899087474755962177305623030970453809681392638329910220118937217634830346582414342864569724171168921504076847927325468513569739484367156086847312609764881833184933139796129152737986260995816516375859772879781994493603340758618909881955404380156272047430663145677449180251536653826165619937765036449201908076688487037750455591775336997201829446713620477732867527977911913818863090375603967013097096613806379954820161377658212216659547732480712546077265562170893061428123123349650627258666997491312973139007573655423360217404030054181291113957373648189455465757594678436250863851000556944310731112184595811672057438703307614392328337786463837140552296455822281776530069627965696761078913028385242137452436896957842019088128241744987565292136895943672655765184868790796735644398919942254033678222221779115357928350220096696114024684988352479355079207464673023724469903622673971048347781465181629630002451449947988206429692418482690472989429248778618735497629162544259400887510636361718139326563100986801722494042470381287392820331583056709587086215854484461743183940090921751333506961619282931763608714102784332970185978399943563175201972152115326492552481461096305458267829665984459681122410341780371444543238730558741745658233981256858537333483703866544363039547457563643947945423989278230105667671343752911053356179403096643972502962526970256992634021429720944537396816928245785321787789981530489527819048485498221547158825584792682069983871600854689214391796052125485926145301885451609450592658376115535522586960819862062434692703571408280634940282394600258389750290641372630304951940698128489625128278723856000505827285452619826370568126919643920364210948137346056518424476323244996125061810500519577439291761446526197174969830175768378324771718030140448322993392266277910072924276610625428033649354174576694226507372133603519455891960024110239563100000630443244379612988556258650084510804227866899965435534368443105243337885080984111988486701518778555909164703268925902349846909346085195205364422662259662425745740686945586881120460458113944211587383974928756638480831814407653671290818154543118485871242210417677834249168791200418734492572327564585031847668038471848745512386271903729974591358552793241852861454789462673666620181661904472864607720645591970320468245512099924035729906712256084049298534266237590899275498295494156299230704905724204651884625325655098007736796429509728655296940605668189750783466103154411517817899843261094544706334634543826519100320995445260184215881077222573899820871766345845287721374184833357336282369256332816945138039821611059224319043413825643863203434459891919816684764373711242076609623818314274215817759021983968794576270416687173940229795001064589539545955164080218332859852095129006749937140742574914205187418619417458575584049965875279579620201074028504905239497694639925433695325635143208527693037810558079914432837241229338208669034356146849104070587209361230567639564648136765982994187876367823589147499205385688538271901288718272198111194438055761321835637055418374197842640505913704255555713184973440436594492025125174341199915951471197911746812805071530297515008111542893640959497599753221832770983863476780070915273792721269013056173660206187082562401257639405448612221190926250278183295038176698796248167098722048082208953335090220601301465827449482611455456324335688768314260697453851662649431207393579802363694183753981187495366161975079858179659670337031228694793025872060058489294904965508916429349134036996286554154557006191995468917495883944392903278812513595510868762983166652911978865038439156925157778351531610671435215489099530595800291668773883888438010782965645036886284044757849041754456858353353207997452440694709623745039663753241972367225931809254927810460983420585978052196123846828596431433211219162520756451032163614977237424429803717510721484765388487105922757185454886293395623430343886494699607931639974373638586434455625827179709762275194671859415651753612199070508876859854642184754086429282947431575791439455445615284632685834161132847397404744053639261743017150838122066762287148208207682404008424496511078354417534585370348616644951821282734397519651953412215853979957834657358151385963730412991278305551078971735472373541980879189556172357794102961005724852106340352374964303766909549679709036889424234338682033351132594946928745860274220311421298684212796290882754384418675434947585228448921225430455818725949575610977566499074619491834836015997412148409102431611841874452718566539556497160992820876806963930805871556599342118348904038483411598362601185588069969768217162289234558168254905361201952856288553031631846214319133952558964152132823980373590421748105217318218296760164814429451633550990967870238452139955107102974994122724800676366918429640927104379485266224522029780776822281011178300625523058079987455296526028893169656624015683751387985138999284632253331364792170687468086677254460595237546034084386385917299991052470114412656229142202544991916448462500039595966803114726080987142927927821728597975169149629185782374642855465422975092487422097294220426245219880972689731606459576171229912810917971463834) := by decide

/-- Full first `init_by_array` mixing loop on key `[300]`, assembled from
its two halves. -/
theorem iba1_full_300 : MT.ibaIter1 [300] 1 624 (1, 0,
    62685089405509111925910797243914719854890513935494713084094713797279779630627496305943786046941309007281293105221577504421353501605599255248785149356818580886163074212016138319710181437623915839386196989339984175865611290932895638485827512283879634622589907034847096838980553398268338905605705315464924834076955485269257682765843392777664062904318116756644819538761883164862381873685805923051342196114892111881287659915424456096361326051748180740843339721465950121631833352165428366344241754810081140762710579390137795215443629123183303201044796731629341661542390258966032612552126580439913324626563213547393121217728067632048719897064596438939163041106934301355643192260261867872030533878188557727018817797219012064641958276099544136480610826250078810896212505254064619595899307426216931651016613164877613570296351724055264357110051005104450572173606849938075379012356137114572525910752676385589168436483206759652170097284388598518122222819376116616668668677988651997615236221431416155794821321118852088948452164682783715959922435191327367306488124638818446090532334864386359317233873012285172875896330714873881780586230596002778688422250420590175698633544778262136505069053046737202152515000629854634631225453245996997340762744567896897683212149150732909707719966588817675821630380251456266588599804209831660991462715440400663143017564651072677052296295930367391822676512661642282350234567553218318066651318510488484545671729568971887621684270732981974442582657502555066960418690332945218280990034155505553171409775830458482159957769211244505225186771766058316021949327301666418107251589707938065072144733816368743637495699897181007119363672460040974223449086641663004605507793014252452324150238463715514559124307431648478948480649031081489229583165223570218974125422263886587593014744330199975749832650568652404661542746543584685860761547297457070273167102314576665676644281998277713093924236551494770138725647883566971887853912300960949802636372591951717316415323846182747445131420005722224687602711525724505110953736568981699982016588947035894059736087136235396798804019434387781559696138411966704777989194870090051835909943079457649936020314680876367897457337488804889342331824364904005266943816631681518612047693872607083945336048154993001716858914072302230374294986610531277637599664647525761147514008899238689946802093944865612982597431648203028809043429562401771290925843222821220221381984318518256971016750121270624021542153515130386081256853244444367484914891752438843250797295149886721543902585582757118492217204960123203770309672216674331373413106027454841661967870247822106376003696537006476355273043676224973894002060133928765135363584693312631060562155459381152426642778209514491263275588735458188352331628933634618912177576995916817414488324819680108333628484452298807271017999262374749573133359090629722111402666396222385680310709557844049479865847370371052888681758484468279513921172987571336140289500145715018352119752770038578015899178947425013401300127437407370742417936980607757405410607208376626705322894782663757703548808362869195819947150150865798288136994832911439410269353230208345410503242199606186650417333579047848825834242257112060317620885151293421378661990197161958015730358249113963865616811805417654957899792836277351433146683316643158745577273742588847277405020330699298979666450169324546781433015633218213248018986767013905101885085728066131985273947793365444250280947765884488609302913437528001802423347517836456663978922564542901160075954132077499502061844004777463229898312792357201472450520034421742281215395838957029567457078867297742321364249618062920323524100796395855490398720473188748064226082130624085325443879193454095100721902723688608983702297802922465778395428510531587340343771240068168890882622394112252370643121994567113348850616779414952571984309063927162547038575769391208822294299053225776973195785292510157058775147687493667385905281728614066936870793483631104130486096422866739022254251631022238998824784309871214211336594149372534724828516536519652291847191320934127662041939033266344757810255450761243406685982638804631309022215852991706323223872506356963395668107287976200691035733250165615782065576159415303394415966535152327550107294310945533761757937224536792146711105700674959937207778503501562879445241463662142281185819506210181780721218897488871995890898495582077564387715740371190275817001449471008660140255770382875594805433223352833476546594040372715841292252983175468170554585838014797017976570586587751089146553833551413146641975370517778330202052282190648141351908509904289169596729111939424597802445523234111653813513351586367960175769546506050051493655326103823629699245586418016468660736051425039803522537493270385743437525903109563398688573456345292160567787373069854610200635728800730405759403691875432721043746233636765094325962472698626875833148826372580999341547042531665331710768365982359935219565301595187067772247975847412037958098451506998773182171027695752045356894447709388159633645629545493246019135820915900506906032640701290570506299065346661219735445730896769091171352761432210047450382980030625592142825700677633624952217795344145832513082782540989616413040988227257601039794195623143595351637462190706636535912449334420058581521218743569834717812580171279915160794789675762903718339466089866492140118823551337811927493524761760551434001520245324751568861558716803095718510972066599595072196209156923318071322517301806566620458899402166430591631348363311478802800521980525250372511467674969151489645720009661369785217086930227581405674315978920044798755483144811069077253851302610194739624245401270682864202663540116818822475326676741780611737275972111438408802370422377608919256570335384654037352344114105999356653180812503717835632673409647782213628400383443178293619326757139369589058612122088577237252104060778375287897543799460272211546791798613974575310224299012205778134871255296492395729078221387894808011355820153110205338707003138385845672884757408327786763143168159295742358655797897448897721796416755370) = (2, 0,
    67374552967549415892460334142267631372451832454830760922942741075775470304827740127112198765273774688423436250402599555888940095703845921525168494604942644533116699301926408765713046044485824754166924625117846334956806343391067547543434994297352191628636581604477870986504188883755657970471402961505613700519814303430946319927691471352972802880106344049145912743528375498105273576599707497147597633007761905573183731122822999013622977862727946420948651607681440952037031112910911515990316076541589690317199063585419464579137400246150609280041530307008627286583819335408764493010651025138256700887942410563974939592709553847313560405804295576847756998076021583682613652540334175545780959056213535427589208189158964922004871395410385366370459832150435823682343191904124635935889362898088027971753251119348364465053657813373882097744772201156716370395570149195993395487555131513174103000030506261773750124191636804899087474755962177305623030970453809681392638329910220118937217634830346582414342864569724171168921504076847927325468513569739484367156086847312609764881833184933139796129152737986260995816516375859772879781994493603340758618909881955404380156272047430663145677449180251536653826165619937765036449201908076688487037750455591775336997201829446713620477732867527977911913818863090375603967013097096613806379954820161377658212216659547732480712546077265562170893061428123123349650627258666997491312973139007573655423360217404030054181291113957373648189455465757594678436250863851000556944310731112184595811672057438703307614392328337786463837140552296455822281776530069627965696761078913028385242137452436896957842019088128241744987565292136895943672655765184868790796735644398919942254033678222221779115357928350220096696114024684988352479355079207464673023724469903622673971048347781465181629630002451449947988206429692418482690472989429248778618735497629162544259400887510636361718139326563100986801722494042470381287392820331583056709587086215854484461743183940090921751333506961619282931763608714102784332970185978399943563175201972152115326492552481461096305458267829665984459681122410341780371444543238730558741745658233981256858537333483703866544363039547457563643947945423989278230105667671343752911053356179403096643972502962526970256992634021429720944537396816928245785321787789981530489527819048485498221547158825584792682069983871600854689214391796052125485926145301885451609450592658376115535522586960819862062434692703571408280634940282394600258389750290641372630304951940698128489625128278723856000505827285452619826370568126919643920364210948137346056518424476323244996125061810500519577439291761446526197174969830175768378324771718030140448322993392266277910072924276610625428033649354174576694226507372133603519455891960024110239563100000630443244379612988556258650084510804227866899965435534368443105243337885080984111988486701518778555909164703268925902349846909346085195205364422662259662425745740686945586881120460458113944211587383974928756638480831814407653671290818154543118485871242210417677834249168791200418734492572327564585031847668038471848745512386271903729974591358552793241852861454789462673666620181661904472864607720645591970320468245512099924035729906712256084049298534266237590899275498295494156299230704905724204651884625325655098007736796429509728655296940605668189750783466103154411517817899843261094544706334634543826519100320995445260184215881077222573899820871766345845287721374184833357336282369256332816945138039821611059224319043413825643863203434459891919816684764373711242076609623818314274215817759021983968794576270416687173940229795001064589539545955164080218332859852095129006749937140742574914205187418619417458575584049965875279579620201074028504905239497694639925433695325635143208527693037810558079914432837241229338208669034356146849104070587209361230567639564648136765982994187876367823589147499205385688538271901288718272198111194438055761321835637055418374197842640505913704255555713184973440436594492025125174341199915951471197911746812805071530297515008111542893640959497599753221832770983863476780070915273792721269013056173660206187082562401257639405448612221190926250278183295038176698796248167098722048082208953335090220601301465827449482611455456324335688768314260697453851662649431207393579802363694183753981187495366161975079858179659670337031228694793025872060058489294904965508916429349134036996286554154557006191995468917495883944392903278812513595510868762983166652911978865038439156925157778351531610671435215489099530595800291668773883888438010782965645036886284044757849041754456858353353207997452440694709623745039663753241972367225931809254927810460983420585978052196123846828596431433211219162520756451032163614977237424429803717510721484765388487105922757185454886293395623430343886494699607931639974373638586434455625827179709762275194671859415651753612199070508876859854642184754086429282947431575791439455445615284632685834161132847397404744053639261743017150838122066762287148208207682404008424496511078354417534585370348616644951821282734397519651953412215853979957834657358151385963730412991278305551078971735472373541980879189556172357794102961005724852106340352374964303766909549679709036889424234338682033351132594946928745860274220311421298684212796290882754384418675434947585228448921225430455818725949575610977566499074619491834836015997412148409102431611841874452718566539556497160992820876806963930805871556599342118348904038483411598362601185588069969768217162289234558168254905361201952856288553031631846214319133952558964152132823980373590421748105217318218296760164814429451633550990967870238452139955107102974994122724800676366918429640927104379485266224522029780776822281011178300625523058079987455296526028893169656624015683751387985138999284632253331364792170687468086677254460595237546034084386385917299991052470114412656229142202544991916448462500039595966803114726080987142927927821728597975169149629185782374642855465422975092487422097294220426245219880972689731606459576171229912810917971463834) := by
  have h : MT.ibaIter1 [300] 1 624 (1, 0,
      62685089405509111925910797243914719854890513935494713084094713797279779630627496305943786046941309007281293105221577504421353501605599255248785149356818580886163074212016138319710181437623915839386196989339984175865611290932895638485827512283879634622589907034847096838980553398268338905605705315464924834076955485269257682765843392777664062904318116756644819538761883164862381873685805923051342196114892111881287659915424456096361326051748180740843339721465950121631833352165428366344241754810081140762710579390137795215443629123183303201044796731629341661542390258966032612552126580439913324626563213547393121217728067632048719897064596438939163041106934301355643192260261867872030533878188557727018817797219012064641958276099544136480610826250078810896212505254064619595899307426216931651016613164877613570296351724055264357110051005104450572173606849938075379012356137114572525910752676385589168436483206759652170097284388598518122222819376116616668668677988651997615236221431416155794821321118852088948452164682783715959922435191327367306488124638818446090532334864386359317233873012285172875896330714873881780586230596002778688422250420590175698633544778262136505069053046737202152515000629854634631225453245996997340762744567896897683212149150732909707719966588817675821630380251456266588599804209831660991462715440400663143017564651072677052296295930367391822676512661642282350234567553218318066651318510488484545671729568971887621684270732981974442582657502555066960418690332945218280990034155505553171409775830458482159957769211244505225186771766058316021949327301666418107251589707938065072144733816368743637495699897181007119363672460040974223449086641663004605507793014252452324150238463715514559124307431648478948480649031081489229583165223570218974125422263886587593014744330199975749832650568652404661542746543584685860761547297457070273167102314576665676644281998277713093924236551494770138725647883566971887853912300960949802636372591951717316415323846182747445131420005722224687602711525724505110953736568981699982016588947035894059736087136235396798804019434387781559696138411966704777989194870090051835909943079457649936020314680876367897457337488804889342331824364904005266943816631681518612047693872607083945336048154993001716858914072302230374294986610531277637599664647525761147514008899238689946802093944865612982597431648203028809043429562401771290925843222821220221381984318518256971016750121270624021542153515130386081256853244444367484914891752438843250797295149886721543902585582757118492217204960123203770309672216674331373413106027454841661967870247822106376003696537006476355273043676224973894002060133928765135363584693312631060562155459381152426642778209514491263275588735458188352331628933634618912177576995916817414488324819680108333628484452298807271017999262374749573133359090629722111402666396222385680310709557844049479865847370371052888681758484468279513921172987571336140289500145715018352119752770038578015899178947425013401300127437407370742417936980607757405410607208376626705322894782663757703548808362869195819947150150865798288136994832911439410269353230208345410503242199606186650417333579047848825834242257112060317620885151293421378661990197161958015730358249113963865616811805417654957899792836277351433146683316643158745577273742588847277405020330699298979666450169324546781433015633218213248018986767013905101885085728066131985273947793365444250280947765884488609302913437528001802423347517836456663978922564542901160075954132077499502061844004777463229898312792357201472450520034421742281215395838957029567457078867297742321364249618062920323524100796395855490398720473188748064226082130624085325443879193454095100721902723688608983702297802922465778395428510531587340343771240068168890882622394112252370643121994567113348850616779414952571984309063927162547038575769391208822294299053225776973195785292510157058775147687493667385905281728614066936870793483631104130486096422866739022254251631022238998824784309871214211336594149372534724828516536519652291847191320934127662041939033266344757810255450761243406685982638804631309022215852991706323223872506356963395668107287976200691035733250165615782065576159415303394415966535152327550107294310945533761757937224536792146711105700674959937207778503501562879445241463662142281185819506210181780721218897488871995890898495582077564387715740371190275817001449471008660140255770382875594805433223352833476546594040372715841292252983175468170554585838014797017976570586587751089146553833551413146641975370517778330202052282190648141351908509904289169596729111939424597802445523234111653813513351586367960175769546506050051493655326103823629699245586418016468660736051425039803522537493270385743437525903109563398688573456345292160567787373069854610200635728800730405759403691875432721043746233636765094325962472698626875833148826372580999341547042531665331710768365982359935219565301595187067772247975847412037958098451506998773182171027695752045356894447709388159633645629545493246019135820915900506906032640701290570506299065346661219735445730896769091171352761432210047450382980030625592142825700677633624952217795344145832513082782540989616413040988227257601039794195623143595351637462190706636535912449334420058581521218743569834717812580171279915160794789675762903718339466089866492140118823551337811927493524761760551434001520245324751568861558716803095718510972066599595072196209156923318071322517301806566620458899402166430591631348363311478802800521980525250372511467674969151489645720009661369785217086930227581405674315978920044798755483144811069077253851302610194739624245401270682864202663540116818822475326676741780611737275972111438408802370422377608919256570335384654037352344114105999356653180812503717835632673409647782213628400383443178293619326757139369589058612122088577237252104060778375287897543799460272211546791798613974575310224299012205778134871255296492395729078221387894808011355820153110205338707003138385845672884757408327786763143168159295742358655797897448897721796416755370) =
      MT.ibaIter1 [300] 1 312 (MT.ibaIter1 [300] 1 312 (1, 0,
      62685089405509111925910797243914719854890513935494713084094713797279779630627496305943786046941309007281293105221577504421353501605599255248785149356818580886163074212016138319710181437623915839386196989339984175865611290932895638485827512283879634622589907034847096838980553398268338905605705315464924834076955485269257682765843392777664062904318116756644819538761883164862381873685805923051342196114892111881287659915424456096361326051748180740843339721465950121631833352165428366344241754810081140762710579390137795215443629123183303201044796731629341661542390258966032612552126580439913324626563213547393121217728067632048719897064596438939163041106934301355643192260261867872030533878188557727018817797219012064641958276099544136480610826250078810896212505254064619595899307426216931651016613164877613570296351724055264357110051005104450572173606849938075379012356137114572525910752676385589168436483206759652170097284388598518122222819376116616668668677988651997615236221431416155794821321118852088948452164682783715959922435191327367306488124638818446090532334864386359317233873012285172875896330714873881780586230596002778688422250420590175698633544778262136505069053046737202152515000629854634631225453245996997340762744567896897683212149150732909707719966588817675821630380251456266588599804209831660991462715440400663143017564651072677052296295930367391822676512661642282350234567553218318066651318510488484545671729568971887621684270732981974442582657502555066960418690332945218280990034155505553171409775830458482159957769211244505225186771766058316021949327301666418107251589707938065072144733816368743637495699897181007119363672460040974223449086641663004605507793014252452324150238463715514559124307431648478948480649031081489229583165223570218974125422263886587593014744330199975749832650568652404661542746543584685860761547297457070273167102314576665676644281998277713093924236551494770138725647883566971887853912300960949802636372591951717316415323846182747445131420005722224687602711525724505110953736568981699982016588947035894059736087136235396798804019434387781559696138411966704777989194870090051835909943079457649936020314680876367897457337488804889342331824364904005266943816631681518612047693872607083945336048154993001716858914072302230374294986610531277637599664647525761147514008899238689946802093944865612982597431648203028809043429562401771290925843222821220221381984318518256971016750121270624021542153515130386081256853244444367484914891752438843250797295149886721543902585582757118492217204960123203770309672216674331373413106027454841661967870247822106376003696537006476355273043676224973894002060133928765135363584693312631060562155459381152426642778209514491263275588735458188352331628933634618912177576995916817414488324819680108333628484452298807271017999262374749573133359090629722111402666396222385680310709557844049479865847370371052888681758484468279513921172987571336140289500145715018352119752770038578015899178947425013401300127437407370742417936980607757405410607208376626705322894782663757703548808362869195819947150150865798288136994832911439410269353230208345410503242199606186650417333579047848825834242257112060317620885151293421378661990197161958015730358249113963865616811805417654957899792836277351433146683316643158745577273742588847277405020330699298979666450169324546781433015633218213248018986767013905101885085728066131985273947793365444250280947765884488609302913437528001802423347517836456663978922564542901160075954132077499502061844004777463229898312792357201472450520034421742281215395838957029567457078867297742321364249618062920323524100796395855490398720473188748064226082130624085325443879193454095100721902723688608983702297802922465778395428510531587340343771240068168890882622394112252370643121994567113348850616779414952571984309063927162547038575769391208822294299053225776973195785292510157058775147687493667385905281728614066936870793483631104130486096422866739022254251631022238998824784309871214211336594149372534724828516536519652291847191320934127662041939033266344757810255450761243406685982638804631309022215852991706323223872506356963395668107287976200691035733250165615782065576159415303394415966535152327550107294310945533761757937224536792146711105700674959937207778503501562879445241463662142281185819506210181780721218897488871995890898495582077564387715740371190275817001449471008660140255770382875594805433223352833476546594040372715841292252983175468170554585838014797017976570586587751089146553833551413146641975370517778330202052282190648141351908509904289169596729111939424597802445523234111653813513351586367960175769546506050051493655326103823629699245586418016468660736051425039803522537493270385743437525903109563398688573456345292160567787373069854610200635728800730405759403691875432721043746233636765094325962472698626875833148826372580999341547042531665331710768365982359935219565301595187067772247975847412037958098451506998773182171027695752045356894447709388159633645629545493246019135820915900506906032640701290570506299065346661219735445730896769091171352761432210047450382980030625592142825700677633624952217795344145832513082782540989616413040988227257601039794195623143595351637462190706636535912449334420058581521218743569834717812580171279915160794789675762903718339466089866492140118823551337811927493524761760551434001520245324751568861558716803095718510972066599595072196209156923318071322517301806566620458899402166430591631348363311478802800521980525250372511467674969151489645720009661369785217086930227581405674315978920044798755483144811069077253851302610194739624245401270682864202663540116818822475326676741780611737275972111438408802370422377608919256570335384654037352344114105999356653180812503717835632673409647782213628400383443178293619326757139369589058612122088577237252104060778375287897543799460272211546791798613974575310224299012205778134871255296492395729078221387894808011355820153110205338707003138385845672884757408327786763143168159295742358655797897448897721796416755370)) :=
    MT.ibaIter1_add [300] 1 312 312 _
  rw [h, iba1_mid_300, iba1_fin_300]

set_option maxRecDepth 1000000 in
set_option exponentiation.threshold 100000 in
/-- First half (312 iterations) of the second `init_by_array` mixing loop
for key `[300]`. -/
theorem iba2_mid_300 : MT.ibaIter2 312 (2,
    67374552967549415892460334142267631372451832454830760922942741075775470304827740127112198765273774688423436250402599555888940095703845921525168494604942644533116699301926408765713046044485824754166924625117846334956806343391067547543434994297352191628636581604477870986504188883755657970471402961505613700519814303430946319927691471352972802880106344049145912743528375498105273576599707497147597633007761905573183731122822999013622977862727946420948651607681440952037031112910911515990316076541589690317199063585419464579137400246150609280041530307008627286583819335408764493010651025138256700887942410563974939592709553847313560405804295576847756998076021583682613652540334175545780959056213535427589208189158964922004871395410385366370459832150435823682343191904124635935889362898088027971753251119348364465053657813373882097744772201156716370395570149195993395487555131513174103000030506261773750124191636804899087474755962177305623030970453809681392638329910220118937217634830346582414342864569724171168921504076847927325468513569739484367156086847312609764881833184933139796129152737986260995816516375859772879781994493603340758618909881955404380156272047430663145677449180251536653826165619937765036449201908076688487037750455591775336997201829446713620477732867527977911913818863090375603967013097096613806379954820161377658212216659547732480712546077265562170893061428123123349650627258666997491312973139007573655423360217404030054181291113957373648189455465757594678436250863851000556944310731112184595811672057438703307614392328337786463837140552296455822281776530069627965696761078913028385242137452436896957842019088128241744987565292136895943672655765184868790796735644398919942254033678222221779115357928350220096696114024684988352479355079207464673023724469903622673971048347781465181629630002451449947988206429692418482690472989429248778618735497629162544259400887510636361718139326563100986801722494042470381287392820331583056709587086215854484461743183940090921751333506961619282931763608714102784332970185978399943563175201972152115326492552481461096305458267829665984459681122410341780371444543238730558741745658233981256858537333483703866544363039547457563643947945423989278230105667671343752911053356179403096643972502962526970256992634021429720944537396816928245785321787789981530489527819048485498221547158825584792682069983871600854689214391796052125485926145301885451609450592658376115535522586960819862062434692703571408280634940282394600258389750290641372630304951940698128489625128278723856000505827285452619826370568126919643920364210948137346056518424476323244996125061810500519577439291761446526197174969830175768378324771718030140448322993392266277910072924276610625428033649354174576694226507372133603519455891960024110239563100000630443244379612988556258650084510804227866899965435534368443105243337885080984111988486701518778555909164703268925902349846909346085195205364422662259662425745740686945586881120460458113944211587383974928756638480831814407653671290818154543118485871242210417677834249168791200418734492572327564585031847668038471848745512386271903729974591358552793241852861454789462673666620181661904472864607720645591970320468245512099924035729906712256084049298534266237590899275498295494156299230704905724204651884625325655098007736796429509728655296940605668189750783466103154411517817899843261094544706334634543826519100320995445260184215881077222573899820871766345845287721374184833357336282369256332816945138039821611059224319043413825643863203434459891919816684764373711242076609623818314274215817759021983968794576270416687173940229795001064589539545955164080218332859852095129006749937140742574914205187418619417458575584049965875279579620201074028504905239497694639925433695325635143208527693037810558079914432837241229338208669034356146849104070587209361230567639564648136765982994187876367823589147499205385688538271901288718272198111194438055761321835637055418374197842640505913704255555713184973440436594492025125174341199915951471197911746812805071530297515008111542893640959497599753221832770983863476780070915273792721269013056173660206187082562401257639405448612221190926250278183295038176698796248167098722048082208953335090220601301465827449482611455456324335688768314260697453851662649431207393579802363694183753981187495366161975079858179659670337031228694793025872060058489294904965508916429349134036996286554154557006191995468917495883944392903278812513595510868762983166652911978865038439156925157778351531610671435215489099530595800291668773883888438010782965645036886284044757849041754456858353353207997452440694709623745039663753241972367225931809254927810460983420585978052196123846828596431433211219162520756451032163614977237424429803717510721484765388487105922757185454886293395623430343886494699607931639974373638586434455625827179709762275194671859415651753612199070508876859854642184754086429282947431575791439455445615284632685834161132847397404744053639261743017150838122066762287148208207682404008424496511078354417534585370348616644951821282734397519651953412215853979957834657358151385963730412991278305551078971735472373541980879189556172357794102961005724852106340352374964303766909549679709036889424234338682033351132594946928745860274220311421298684212796290882754384418675434947585228448921225430455818725949575610977566499074619491834836015997412148409102431611841874452718566539556497160992820876806963930805871556599342118348904038483411598362601185588069969768217162289234558168254905361201952856288553031631846214319133952558964152132823980373590421748105217318218296760164814429451633550990967870238452139955107102974994122724800676366918429640927104379485266224522029780776822281011178300625523058079987455296526028893169656624015683751387985138999284632253331364792170687468086677254460595237546034084386385917299991052470114412656229142202544991916448462500039595966803114726080987142927927821728597975169149629185782374642855465422975092487422097294220426245219880972689731606459576171229912810917971463834) = (314,
    67374552967549415892460334142267631372451832454830760922942741075775470304827740127112198765273774688423436250402599555888940095703845921525168494604942644533116699301926408765713046044485824754166924625117846334956806343391067547543434994297352191628636581604477870986504188883755657970471402961505613700519814303430946319927691471352972802880106344049145912743528375498105273576599707497147597633007761905573183731122822999013622977862727946420948651607681440952037031112910911515990316076541589690317199063585419464579137400246150609280041530307008627286583819335408764493010651025138256700887942410563974939592709553847313560405804295576847756998076021583682613652540334175545780959056213535427589208189158964922004871395410385366370459832150435823682343191904124635935889362898088027971753251119348364465053657813373882097744772201156716370395570149195993395487555131513174103000030506261773750124191636804899087474755962177305623030970453809681392638329910220118937217634830346582414342864569724171168921504076847927325468513569739484367156086847312609764881833184933139796129152737986260995816516375859772879781994493603340758618909881955404380156272047430663145677449180251536653826165619937765036449201908076688487037750455591775336997201829446713620477732867527977911913818863090375603967013097096613806379954820161377658212216659547732480712546077265562170893061428123123349650627258666997491312973139007573655423360217404030054181291113957373648189455465757594678436250863851000556944310731112184595811672057438703307614392328337786463837140552296455822281776530069627965696761078913028385242137452436896957842019088128241744987565292136895943672655765184868790796735644398919942254033678222221779115357928350220096696114024684988352479355079207464673023724469903622673971048347781465181629630002451449947988206429692418482690472989429248778618735497629162544259400887510636361718139326563100986801722494042470381287392820331583056709587086215854484461743183940090921751333506961619282931763608714102784332970185978399943563175201972152115326492552481461096305458267829665984459681122410341780371444543238730558741745658233981256858537333483703866544363039547457563643947945423989278230105667671343752911053356179403096643972502962526970256992634021429720944537396816928245785321787789981530489527819048485498221547158825584792682069983871600854689214391796052125485926145301885451609450592658376115535522586960819862062434692703571408280634940282394600258389750290641372630304951940698128489625128278723856000505827285452619826370568126919643920364210948137346056518424476323244996125061810500519577439291761446526197174969830175768378324771718030140448322993392266277910072924276610625428033649354174576694226507372133603519455891960024110239563100000630443244379612988556258650084510804227866899965435534368443105243337885080984111988486701518778555909164703268925902349846909346085195205364422662259662425745740686945586881120460458113944211587383974928756638480831814408074462510990491827754134192808926451606865560964396585821235102406876681850298323545536027894878679757605504156493591671202494705814084398347880731565062993677966399506118111155870630894411899102569704249078748552601208431781862738951184490314997386674514237719341467525770232683031774371417568506697292620488732278832606078745914871687770613903157034920220051674864945465813031555451898732089326751280213885645873277524362612271298881709265895795518555642787691260179420381342901636237109052103088965621669235704001443725501938908214308392330426123599803973412870950456460860003087179816938384334362430122484332371051829553017617374290359773839584641128620541172060554321805015281034656674839178214066767687191608789349100531128113041333135047250109013330639645187803373542399431101433424952145431393267062371195064952867237729008541001552537929810381667357237269170013321306825829729000370571665059224864633539250605543228371927744399969581782998738085613032399049276496753328947310624605118498347461473977922874961432944161050941753519757853527089020367871448477776661766143415442590895813224122597540024113964195433897712971294822779976358076635902898647325131864987191742334238881240468255221900238875785305381627306934722840227167845468894906268470906047669914714096087106687262149888351661050787042424114572503811295759412523176816204693455303973398329168702364545555397751819926583190906915116573900266131598154276280227074703396812411909592022548468759825771587284531415878420951372073531159806518550105700154054837757431809596375234647967624521452738346040119899434141109685408761313279739043652797372091816202896472317597479939314577940647979264289327178038357002444203669922196083039453060671532521706344564993639364528322017433988664352487984259656670352593765951222992137694012910063367803695842727608867885667733045005351534170650226257657580098623887641450491059817238141519349313952379013654690307037170719129893087050178516934593358510390404042901672733624083974556474571784419605583232560603545513008656252627088355791396682127697166152453870854626863723598034323068690332492863888797108319249192385307623798321356405174725608711062333449511135029561836207579526628098243695557187645096543278077762232435274132771809278003709182361605274849493708496331442364200230308259415263248084179408361758219781322478866211402451550616204679082165740910129622069049740533236581090648000142326291959297685802576286412505292396019343144563394830105921969202674202297037040585615354411626056030558961659292109920533785490546036311359540066805105819820452988536906853920680663130921675283470156101531521035144418363663460374345521042573083863058177961217656601350965352735825830964755029209471189360796580324513629690797481687719098158990646869826089937082883733084654683352546765984531823265873586209344874904574889094194391411105899783275661553802067050429478990283382704928420707590939081742143162268598493003270063916324422592454339484826970027621707392687428150084181398770228868688565187975610082289183535625244314) := by decide

set_option maxRecDepth 1000000 in
set_option exponentiation.threshold 100000 in
/-- Second half (311 iterations) of the second `init_by_array` mixing loop
for key `[300]`. -/
theorem iba2_fin_300 : MT.ibaIter2 311 (314,
    67374552967549415892460334142267631372451832454830760922942741075775470304827740127112198765273774688423436250402599555888940095703845921525168494604942644533116699301926408765713046044485824754166924625117846334956806343391067547543434994297352191628636581604477870986504188883755657970471402961505613700519814303430946319927691471352972802880106344049145912743528375498105273576599707497147597633007761905573183731122822999013622977862727946420948651607681440952037031112910911515990316076541589690317199063585419464579137400246150609280041530307008627286583819335408764493010651025138256700887942410563974939592709553847313560405804295576847756998076021583682613652540334175545780959056213535427589208189158964922004871395410385366370459832150435823682343191904124635935889362898088027971753251119348364465053657813373882097744772201156716370395570149195993395487555131513174103000030506261773750124191636804899087474755962177305623030970453809681392638329910220118937217634830346582414342864569724171168921504076847927325468513569739484367156086847312609764881833184933139796129152737986260995816516375859772879781994493603340758618909881955404380156272047430663145677449180251536653826165619937765036449201908076688487037750455591775336997201829446713620477732867527977911913818863090375603967013097096613806379954820161377658212216659547732480712546077265562170893061428123123349650627258666997491312973139007573655423360217404030054181291113957373648189455465757594678436250863851000556944310731112184595811672057438703307614392328337786463837140552296455822281776530069627965696761078913028385242137452436896957842019088128241744987565292136895943672655765184868790796735644398919942254033678222221779115357928350220096696114024684988352479355079207464673023724469903622673971048347781465181629630002451449947988206429692418482690472989429248778618735497629162544259400887510636361718139326563100986801722494042470381287392820331583056709587086215854484461743183940090921751333506961619282931763608714102784332970185978399943563175201972152115326492552481461096305458267829665984459681122410341780371444543238730558741745658233981256858537333483703866544363039547457563643947945423989278230105667671343752911053356179403096643972502962526970256992634021429720944537396816928245785321787789981530489527819048485498221547158825584792682069983871600854689214391796052125485926145301885451609450592658376115535522586960819862062434692703571408280634940282394600258389750290641372630304951940698128489625128278723856000505827285452619826370568126919643920364210948137346056518424476323244996125061810500519577439291761446526197174969830175768378324771718030140448322993392266277910072924276610625428033649354174576694226507372133603519455891960024110239563100000630443244379612988556258650084510804227866899965435534368443105243337885080984111988486701518778555909164703268925902349846909346085195205364422662259662425745740686945586881120460458113944211587383974928756638480831814408074462510990491827754134192808926451606865560964396585821235102406876681850298323545536027894878679757605504156493591671202494705814084398347880731565062993677966399506118111155870630894411899102569704249078748552601208431781862738951184490314997386674514237719341467525770232683031774371417568506697292620488732278832606078745914871687770613903157034920220051674864945465813031555451898732089326751280213885645873277524362612271298881709265895795518555642787691260179420381342901636237109052103088965621669235704001443725501938908214308392330426123599803973412870950456460860003087179816938384334362430122484332371051829553017617374290359773839584641128620541172060554321805015281034656674839178214066767687191608789349100531128113041333135047250109013330639645187803373542399431101433424952145431393267062371195064952867237729008541001552537929810381667357237269170013321306825829729000370571665059224864633539250605543228371927744399969581782998738085613032399049276496753328947310624605118498347461473977922874961432944161050941753519757853527089020367871448477776661766143415442590895813224122597540024113964195433897712971294822779976358076635902898647325131864987191742334238881240468255221900238875785305381627306934722840227167845468894906268470906047669914714096087106687262149888351661050787042424114572503811295759412523176816204693455303973398329168702364545555397751819926583190906915116573900266131598154276280227074703396812411909592022548468759825771587284531415878420951372073531159806518550105700154054837757431809596375234647967624521452738346040119899434141109685408761313279739043652797372091816202896472317597479939314577940647979264289327178038357002444203669922196083039453060671532521706344564993639364528322017433988664352487984259656670352593765951222992137694012910063367803695842727608867885667733045005351534170650226257657580098623887641450491059817238141519349313952379013654690307037170719129893087050178516934593358510390404042901672733624083974556474571784419605583232560603545513008656252627088355791396682127697166152453870854626863723598034323068690332492863888797108319249192385307623798321356405174725608711062333449511135029561836207579526628098243695557187645096543278077762232435274132771809278003709182361605274849493708496331442364200230308259415263248084179408361758219781322478866211402451550616204679082165740910129622069049740533236581090648000142326291959297685802576286412505292396019343144563394830105921969202674202297037040585615354411626056030558961659292109920533785490546036311359540066805105819820452988536906853920680663130921675283470156101531521035144418363663460374345521042573083863058177961217656601350965352735825830964755029209471189360796580324513629690797481687719098158990646869826089937082883733084654683352546765984531823265873586209344874904574889094194391411105899783275661553802067050429478990283382704928420707590939081742143162268598493003270063916324422592454339484826970027621707392687428150084181398770228868688565187975610082289183535625244314) = (2,
    16216364299968609369416033412629244311876192494762898389510132024450526846447268981052332399024947218645223985855129367423126490830948931015633364404124359212471788614298867819850427716063110347617103577304187747644414787015433378809221656335689805495208304820936011233051174107163028349599151542135889107932569864670513527665442325783805720828356715390357317490069780768004470186342103587770404297892806470562066464475516857300526502139285214004128756545616307342072364698916677284787281257095726310026547589929917585243222481319848476240395792520753547016263032151498792158861967514173537324132392116713318125185931437024486298827829179760695280290633700650345557037600839643755185160516728394003078595509757871327595498529068592482428225812923413458347001156422156980874730626438173659578272771188553624450498078908841951178253366138732531891627431656153485440235701614269228249252048310282391243282269668463380590525571461187984078172375820800433955826433106714832381404926851337914747775595565959076746881047967611347458635659249342488620337145615355052193377219271254697941712577322650230637057981382868103908798960746052857017132810310243552094390476453914179712173093594673160568593074753656304937209904935613179871757001505402531721942781448804861593046582860343279196171328555171160897620366068442786813746983790407676735301883136617155953949391088019874139133253326358995882067082145756328940056281925393817296038717164303742004223339471483948091663570196969633158755567229780016104379321877128074017294433873318072600616711959313372795689463278943715276510706954405112696524527824152592618486865413743059538418117611077326768175728417599090875133057820338689114097192400092920349623334647279853965231665382079520794718032117014935403406445916160928650666981353952872514202827809934456014007311471697258579224229167228928039781340394221909364703205043258334136119282979031643640493878613620111208981337263337526280098344113907999310973075386042200487882357244412662043568838097099757153672889269704595016141872922011919785137284927383841076439515183041609313551628662425570871552387319198352352862675072821732481502204168604255460584691879878259680877203450242562456400218998708105706576180459583764385144290679456571013517248235789717461331186185861395400894753718458569295856179574988454286101834128638306585302126237277825989982864660546768141797819049794751444560250599506448811228130533861430517730161101037555355061584189561653109814791758785818975730321447893919275429562473543914443947326618921492492249874000785449787079929510292103775847486271601903167254846871338075215580995853583716406561383493774707062425457394311010910809232907559382182492685335874218296243798595309108862940290898587254352111208511699918099477631300484375336761787541814823848307218311153794852699504254987051108694054834734686268014238762893530334489248126480687650010760550590688741203812776869741609498147131186269653215308717308543515657991688673801336245511992406439593106485284097976928924382234164013307533552279087811999708338890473016299386938800099925762699637436001325065641106152138584656378934203709590110599134439474904294358297935858152465085736041576041902597303551526314176117793669097103082455740996989041579282719034310110535825313440605101938914446545036402261305107058908235545058975038179852901771566753295196059919018853821939164336381028835476032676562190683230792074874988380263477431121949203253572062112767994763263643152828404535756014343385109201443925507644299449997212523070437508941923970383783625074410602832583610980876827012530853272749298202657111471450795035517936630625347188680853540444058155721000998310275101407707351969775495988443108045626125307590073528203188847277769676031694843128159360605856265291095420329862713866652581895424889658529966909909590200933870488984267953771339843571663509213548577320749924344417596278555341439257181840187566197091361860212246303012755086854570142462451171619781735457124434599816239155639580136328462553348325215686396819417702428848626585876352132754306666326972059538451057689626024867239195555765750871654134952688291295805675885827186536997432933648470399901008380737785857204810171950249522841428211666267183886038598839487238545463726784675446607784879415106594522575430109771730732953487219146016747177361589655750341178855360276958766151060588177714761681135522263559907439024637073643264377930076070937820722407183978683962311322817326818618194390716485330195866092646773323939318353733671777048105256547381566392031039719541563684603983528231473890537969106227306066542231953755190046222587600377997905467151554118841677359136467758291514410120741162961150841181223848104042963006755366928797070686687834338431280990053582463223216056269518795535004058640944157678083106983392762443621071357282832095741458004184250430804735172965873042100791461513806621139018565135319302226712971116690189873099506013183153489677649256104238885923259471650763588303240682225270458948925819370555122667270108867227011199698551418288091200352012056063962331787464753603636456210730226983915970416666248380125737586309644332223276447056138230450613210090290127374405879629477460165827968372002190137572223233388375313800425235820138396917173446835264491707981144678146208505606983179378574828575507662001441718903616205310715729841268785072635423257055702411820358912132986957054283787122409542670047618563664110842400653279149227563439302039596186948540849198923901823145713761454509854336860403858393997674727627582044237009048378461962619395324993055881333256889313364178646583369836210264834282568192317510891268275178165768521043966137152505752911219988993134644595084600353243390433839722716889336751621339426676156905865785292262211286960522258264623216900335365530725952878817949895354399954119891862678984198412524812754803915801287361258792177786070048623931496579065400678457356831619186539567514658030353621452882185561890088718446436449224450568606444354256878282781817372541984721027940448011080990685117214738576911825468378133) := by decide

/-- Full second `init_by_array` mixing loop for key `[300]`, assembled from
its two halves. -/
theorem iba2_full_300 : MT.ibaIter2 623 (2,
    67374552967549415892460334142267631372451832454830760922942741075775470304827740127112198765273774688423436250402599555888940095703845921525168494604942644533116699301926408765713046044485824754166924625117846334956806343391067547543434994297352191628636581604477870986504188883755657970471402961505613700519814303430946319927691471352972802880106344049145912743528375498105273576599707497147597633007761905573183731122822999013622977862727946420948651607681440952037031112910911515990316076541589690317199063585419464579137400246150609280041530307008627286583819335408764493010651025138256700887942410563974939592709553847313560405804295576847756998076021583682613652540334175545780959056213535427589208189158964922004871395410385366370459832150435823682343191904124635935889362898088027971753251119348364465053657813373882097744772201156716370395570149195993395487555131513174103000030506261773750124191636804899087474755962177305623030970453809681392638329910220118937217634830346582414342864569724171168921504076847927325468513569739484367156086847312609764881833184933139796129152737986260995816516375859772879781994493603340758618909881955404380156272047430663145677449180251536653826165619937765036449201908076688487037750455591775336997201829446713620477732867527977911913818863090375603967013097096613806379954820161377658212216659547732480712546077265562170893061428123123349650627258666997491312973139007573655423360217404030054181291113957373648189455465757594678436250863851000556944310731112184595811672057438703307614392328337786463837140552296455822281776530069627965696761078913028385242137452436896957842019088128241744987565292136895943672655765184868790796735644398919942254033678222221779115357928350220096696114024684988352479355079207464673023724469903622673971048347781465181629630002451449947988206429692418482690472989429248778618735497629162544259400887510636361718139326563100986801722494042470381287392820331583056709587086215854484461743183940090921751333506961619282931763608714102784332970185978399943563175201972152115326492552481461096305458267829665984459681122410341780371444543238730558741745658233981256858537333483703866544363039547457563643947945423989278230105667671343752911053356179403096643972502962526970256992634021429720944537396816928245785321787789981530489527819048485498221547158825584792682069983871600854689214391796052125485926145301885451609450592658376115535522586960819862062434692703571408280634940282394600258389750290641372630304951940698128489625128278723856000505827285452619826370568126919643920364210948137346056518424476323244996125061810500519577439291761446526197174969830175768378324771718030140448322993392266277910072924276610625428033649354174576694226507372133603519455891960024110239563100000630443244379612988556258650084510804227866899965435534368443105243337885080984111988486701518778555909164703268925902349846909346085195205364422662259662425745740686945586881120460458113944211587383974928756638480831814407653671290818154543118485871242210417677834249168791200418734492572327564585031847668038471848745512386271903729974591358552793241852861454789462673666620181661904472864607720645591970320468245512099924035729906712256084049298534266237590899275498295494156299230704905724204651884625325655098007736796429509728655296940605668189750783466103154411517817899843261094544706334634543826519100320995445260184215881077222573899820871766345845287721374184833357336282369256332816945138039821611059224319043413825643863203434459891919816684764373711242076609623818314274215817759021983968794576270416687173940229795001064589539545955164080218332859852095129006749937140742574914205187418619417458575584049965875279579620201074028504905239497694639925433695325635143208527693037810558079914432837241229338208669034356146849104070587209361230567639564648136765982994187876367823589147499205385688538271901288718272198111194438055761321835637055418374197842640505913704255555713184973440436594492025125174341199915951471197911746812805071530297515008111542893640959497599753221832770983863476780070915273792721269013056173660206187082562401257639405448612221190926250278183295038176698796248167098722048082208953335090220601301465827449482611455456324335688768314260697453851662649431207393579802363694183753981187495366161975079858179659670337031228694793025872060058489294904965508916429349134036996286554154557006191995468917495883944392903278812513595510868762983166652911978865038439156925157778351531610671435215489099530595800291668773883888438010782965645036886284044757849041754456858353353207997452440694709623745039663753241972367225931809254927810460983420585978052196123846828596431433211219162520756451032163614977237424429803717510721484765388487105922757185454886293395623430343886494699607931639974373638586434455625827179709762275194671859415651753612199070508876859854642184754086429282947431575791439455445615284632685834161132847397404744053639261743017150838122066762287148208207682404008424496511078354417534585370348616644951821282734397519651953412215853979957834657358151385963730412991278305551078971735472373541980879189556172357794102961005724852106340352374964303766909549679709036889424234338682033351132594946928745860274220311421298684212796290882754384418675434947585228448921225430455818725949575610977566499074619491834836015997412148409102431611841874452718566539556497160992820876806963930805871556599342118348904038483411598362601185588069969768217162289234558168254905361201952856288553031631846214319133952558964152132823980373590421748105217318218296760164814429451633550990967870238452139955107102974994122724800676366918429640927104379485266224522029780776822281011178300625523058079987455296526028893169656624015683751387985138999284632253331364792170687468086677254460595237546034084386385917299991052470114412656229142202544991916448462500039595966803114726080987142927927821728597975169149629185782374642855465422975092487422097294220426245219880972689731606459576171229912810917971463834) = (2,
    16216364299968609369416033412629244311876192494762898389510132024450526846447268981052332399024947218645223985855129367423126490830948931015633364404124359212471788614298867819850427716063110347617103577304187747644414787015433378809221656335689805495208304820936011233051174107163028349599151542135889107932569864670513527665442325783805720828356715390357317490069780768004470186342103587770404297892806470562066464475516857300526502139285214004128756545616307342072364698916677284787281257095726310026547589929917585243222481319848476240395792520753547016263032151498792158861967514173537324132392116713318125185931437024486298827829179760695280290633700650345557037600839643755185160516728394003078595509757871327595498529068592482428225812923413458347001156422156980874730626438173659578272771188553624450498078908841951178253366138732531891627431656153485440235701614269228249252048310282391243282269668463380590525571461187984078172375820800433955826433106714832381404926851337914747775595565959076746881047967611347458635659249342488620337145615355052193377219271254697941712577322650230637057981382868103908798960746052857017132810310243552094390476453914179712173093594673160568593074753656304937209904935613179871757001505402531721942781448804861593046582860343279196171328555171160897620366068442786813746983790407676735301883136617155953949391088019874139133253326358995882067082145756328940056281925393817296038717164303742004223339471483948091663570196969633158755567229780016104379321877128074017294433873318072600616711959313372795689463278943715276510706954405112696524527824152592618486865413743059538418117611077326768175728417599090875133057820338689114097192400092920349623334647279853965231665382079520794718032117014935403406445916160928650666981353952872514202827809934456014007311471697258579224229167228928039781340394221909364703205043258334136119282979031643640493878613620111208981337263337526280098344113907999310973075386042200487882357244412662043568838097099757153672889269704595016141872922011919785137284927383841076439515183041609313551628662425570871552387319198352352862675072821732481502204168604255460584691879878259680877203450242562456400218998708105706576180459583764385144290679456571013517248235789717461331186185861395400894753718458569295856179574988454286101834128638306585302126237277825989982864660546768141797819049794751444560250599506448811228130533861430517730161101037555355061584189561653109814791758785818975730321447893919275429562473543914443947326618921492492249874000785449787079929510292103775847486271601903167254846871338075215580995853583716406561383493774707062425457394311010910809232907559382182492685335874218296243798595309108862940290898587254352111208511699918099477631300484375336761787541814823848307218311153794852699504254987051108694054834734686268014238762893530334489248126480687650010760550590688741203812776869741609498147131186269653215308717308543515657991688673801336245511992406439593106485284097976928924382234164013307533552279087811999708338890473016299386938800099925762699637436001325065641106152138584656378934203709590110599134439474904294358297935858152465085736041576041902597303551526314176117793669097103082455740996989041579282719034310110535825313440605101938914446545036402261305107058908235545058975038179852901771566753295196059919018853821939164336381028835476032676562190683230792074874988380263477431121949203253572062112767994763263643152828404535756014343385109201443925507644299449997212523070437508941923970383783625074410602832583610980876827012530853272749298202657111471450795035517936630625347188680853540444058155721000998310275101407707351969775495988443108045626125307590073528203188847277769676031694843128159360605856265291095420329862713866652581895424889658529966909909590200933870488984267953771339843571663509213548577320749924344417596278555341439257181840187566197091361860212246303012755086854570142462451171619781735457124434599816239155639580136328462553348325215686396819417702428848626585876352132754306666326972059538451057689626024867239195555765750871654134952688291295805675885827186536997432933648470399901008380737785857204810171950249522841428211666267183886038598839487238545463726784675446607784879415106594522575430109771730732953487219146016747177361589655750341178855360276958766151060588177714761681135522263559907439024637073643264377930076070937820722407183978683962311322817326818618194390716485330195866092646773323939318353733671777048105256547381566392031039719541563684603983528231473890537969106227306066542231953755190046222587600377997905467151554118841677359136467758291514410120741162961150841181223848104042963006755366928797070686687834338431280990053582463223216056269518795535004058640944157678083106983392762443621071357282832095741458004184250430804735172965873042100791461513806621139018565135319302226712971116690189873099506013183153489677649256104238885923259471650763588303240682225270458948925819370555122667270108867227011199698551418288091200352012056063962331787464753603636456210730226983915970416666248380125737586309644332223276447056138230450613210090290127374405879629477460165827968372002190137572223233388375313800425235820138396917173446835264491707981144678146208505606983179378574828575507662001441718903616205310715729841268785072635423257055702411820358912132986957054283787122409542670047618563664110842400653279149227563439302039596186948540849198923901823145713761454509854336860403858393997674727627582044237009048378461962619395324993055881333256889313364178646583369836210264834282568192317510891268275178165768521043966137152505752911219988993134644595084600353243390433839722716889336751621339426676156905865785292262211286960522258264623216900335365530725952878817949895354399954119891862678984198412524812754803915801287361258792177786070048623931496579065400678457356831619186539567514658030353621452882185561890088718446436449224450568606444354256878282781817372541984721027940448011080990685117214738576911825468378133) := by
  have h : MT.ibaIter2 623 (2,
      67374552967549415892460334142267631372451832454830760922942741075775470304827740127112198765273774688423436250402599555888940095703845921525168494604942644533116699301926408765713046044485824754166924625117846334956806343391067547543434994297352191628636581604477870986504188883755657970471402961505613700519814303430946319927691471352972802880106344049145912743528375498105273576599707497147597633007761905573183731122822999013622977862727946420948651607681440952037031112910911515990316076541589690317199063585419464579137400246150609280041530307008627286583819335408764493010651025138256700887942410563974939592709553847313560405804295576847756998076021583682613652540334175545780959056213535427589208189158964922004871395410385366370459832150435823682343191904124635935889362898088027971753251119348364465053657813373882097744772201156716370395570149195993395487555131513174103000030506261773750124191636804899087474755962177305623030970453809681392638329910220118937217634830346582414342864569724171168921504076847927325468513569739484367156086847312609764881833184933139796129152737986260995816516375859772879781994493603340758618909881955404380156272047430663145677449180251536653826165619937765036449201908076688487037750455591775336997201829446713620477732867527977911913818863090375603967013097096613806379954820161377658212216659547732480712546077265562170893061428123123349650627258666997491312973139007573655423360217404030054181291113957373648189455465757594678436250863851000556944310731112184595811672057438703307614392328337786463837140552296455822281776530069627965696761078913028385242137452436896957842019088128241744987565292136895943672655765184868790796735644398919942254033678222221779115357928350220096696114024684988352479355079207464673023724469903622673971048347781465181629630002451449947988206429692418482690472989429248778618735497629162544259400887510636361718139326563100986801722494042470381287392820331583056709587086215854484461743183940090921751333506961619282931763608714102784332970185978399943563175201972152115326492552481461096305458267829665984459681122410341780371444543238730558741745658233981256858537333483703866544363039547457563643947945423989278230105667671343752911053356179403096643972502962526970256992634021429720944537396816928245785321787789981530489527819048485498221547158825584792682069983871600854689214391796052125485926145301885451609450592658376115535522586960819862062434692703571408280634940282394600258389750290641372630304951940698128489625128278723856000505827285452619826370568126919643920364210948137346056518424476323244996125061810500519577439291761446526197174969830175768378324771718030140448322993392266277910072924276610625428033649354174576694226507372133603519455891960024110239563100000630443244379612988556258650084510804227866899965435534368443105243337885080984111988486701518778555909164703268925902349846909346085195205364422662259662425745740686945586881120460458113944211587383974928756638480831814407653671290818154543118485871242210417677834249168791200418734492572327564585031847668038471848745512386271903729974591358552793241852861454789462673666620181661904472864607720645591970320468245512099924035729906712256084049298534266237590899275498295494156299230704905724204651884625325655098007736796429509728655296940605668189750783466103154411517817899843261094544706334634543826519100320995445260184215881077222573899820871766345845287721374184833357336282369256332816945138039821611059224319043413825643863203434459891919816684764373711242076609623818314274215817759021983968794576270416687173940229795001064589539545955164080218332859852095129006749937140742574914205187418619417458575584049965875279579620201074028504905239497694639925433695325635143208527693037810558079914432837241229338208669034356146849104070587209361230567639564648136765982994187876367823589147499205385688538271901288718272198111194438055761321835637055418374197842640505913704255555713184973440436594492025125174341199915951471197911746812805071530297515008111542893640959497599753221832770983863476780070915273792721269013056173660206187082562401257639405448612221190926250278183295038176698796248167098722048082208953335090220601301465827449482611455456324335688768314260697453851662649431207393579802363694183753981187495366161975079858179659670337031228694793025872060058489294904965508916429349134036996286554154557006191995468917495883944392903278812513595510868762983166652911978865038439156925157778351531610671435215489099530595800291668773883888438010782965645036886284044757849041754456858353353207997452440694709623745039663753241972367225931809254927810460983420585978052196123846828596431433211219162520756451032163614977237424429803717510721484765388487105922757185454886293395623430343886494699607931639974373638586434455625827179709762275194671859415651753612199070508876859854642184754086429282947431575791439455445615284632685834161132847397404744053639261743017150838122066762287148208207682404008424496511078354417534585370348616644951821282734397519651953412215853979957834657358151385963730412991278305551078971735472373541980879189556172357794102961005724852106340352374964303766909549679709036889424234338682033351132594946928745860274220311421298684212796290882754384418675434947585228448921225430455818725949575610977566499074619491834836015997412148409102431611841874452718566539556497160992820876806963930805871556599342118348904038483411598362601185588069969768217162289234558168254905361201952856288553031631846214319133952558964152132823980373590421748105217318218296760164814429451633550990967870238452139955107102974994122724800676366918429640927104379485266224522029780776822281011178300625523058079987455296526028893169656624015683751387985138999284632253331364792170687468086677254460595237546034084386385917299991052470114412656229142202544991916448462500039595966803114726080987142927927821728597975169149629185782374642855465422975092487422097294220426245219880972689731606459576171229912810917971463834) =
      MT.ibaIter2 311 (MT.ibaIter2 312 (2,
      67374552967549415892460334142267631372451832454830760922942741075775470304827740127112198765273774688423436250402599555888940095703845921525168494604942644533116699301926408765713046044485824754166924625117846334956806343391067547543434994297352191628636581604477870986504188883755657970471402961505613700519814303430946319927691471352972802880106344049145912743528375498105273576599707497147597633007761905573183731122822999013622977862727946420948651607681440952037031112910911515990316076541589690317199063585419464579137400246150609280041530307008627286583819335408764493010651025138256700887942410563974939592709553847313560405804295576847756998076021583682613652540334175545780959056213535427589208189158964922004871395410385366370459832150435823682343191904124635935889362898088027971753251119348364465053657813373882097744772201156716370395570149195993395487555131513174103000030506261773750124191636804899087474755962177305623030970453809681392638329910220118937217634830346582414342864569724171168921504076847927325468513569739484367156086847312609764881833184933139796129152737986260995816516375859772879781994493603340758618909881955404380156272047430663145677449180251536653826165619937765036449201908076688487037750455591775336997201829446713620477732867527977911913818863090375603967013097096613806379954820161377658212216659547732480712546077265562170893061428123123349650627258666997491312973139007573655423360217404030054181291113957373648189455465757594678436250863851000556944310731112184595811672057438703307614392328337786463837140552296455822281776530069627965696761078913028385242137452436896957842019088128241744987565292136895943672655765184868790796735644398919942254033678222221779115357928350220096696114024684988352479355079207464673023724469903622673971048347781465181629630002451449947988206429692418482690472989429248778618735497629162544259400887510636361718139326563100986801722494042470381287392820331583056709587086215854484461743183940090921751333506961619282931763608714102784332970185978399943563175201972152115326492552481461096305458267829665984459681122410341780371444543238730558741745658233981256858537333483703866544363039547457563643947945423989278230105667671343752911053356179403096643972502962526970256992634021429720944537396816928245785321787789981530489527819048485498221547158825584792682069983871600854689214391796052125485926145301885451609450592658376115535522586960819862062434692703571408280634940282394600258389750290641372630304951940698128489625128278723856000505827285452619826370568126919643920364210948137346056518424476323244996125061810500519577439291761446526197174969830175768378324771718030140448322993392266277910072924276610625428033649354174576694226507372133603519455891960024110239563100000630443244379612988556258650084510804227866899965435534368443105243337885080984111988486701518778555909164703268925902349846909346085195205364422662259662425745740686945586881120460458113944211587383974928756638480831814407653671290818154543118485871242210417677834249168791200418734492572327564585031847668038471848745512386271903729974591358552793241852861454789462673666620181661904472864607720645591970320468245512099924035729906712256084049298534266237590899275498295494156299230704905724204651884625325655098007736796429509728655296940605668189750783466103154411517817899843261094544706334634543826519100320995445260184215881077222573899820871766345845287721374184833357336282369256332816945138039821611059224319043413825643863203434459891919816684764373711242076609623818314274215817759021983968794576270416687173940229795001064589539545955164080218332859852095129006749937140742574914205187418619417458575584049965875279579620201074028504905239497694639925433695325635143208527693037810558079914432837241229338208669034356146849104070587209361230567639564648136765982994187876367823589147499205385688538271901288718272198111194438055761321835637055418374197842640505913704255555713184973440436594492025125174341199915951471197911746812805071530297515008111542893640959497599753221832770983863476780070915273792721269013056173660206187082562401257639405448612221190926250278183295038176698796248167098722048082208953335090220601301465827449482611455456324335688768314260697453851662649431207393579802363694183753981187495366161975079858179659670337031228694793025872060058489294904965508916429349134036996286554154557006191995468917495883944392903278812513595510868762983166652911978865038439156925157778351531610671435215489099530595800291668773883888438010782965645036886284044757849041754456858353353207997452440694709623745039663753241972367225931809254927810460983420585978052196123846828596431433211219162520756451032163614977237424429803717510721484765388487105922757185454886293395623430343886494699607931639974373638586434455625827179709762275194671859415651753612199070508876859854642184754086429282947431575791439455445615284632685834161132847397404744053639261743017150838122066762287148208207682404008424496511078354417534585370348616644951821282734397519651953412215853979957834657358151385963730412991278305551078971735472373541980879189556172357794102961005724852106340352374964303766909549679709036889424234338682033351132594946928745860274220311421298684212796290882754384418675434947585228448921225430455818725949575610977566499074619491834836015997412148409102431611841874452718566539556497160992820876806963930805871556599342118348904038483411598362601185588069969768217162289234558168254905361201952856288553031631846214319133952558964152132823980373590421748105217318218296760164814429451633550990967870238452139955107102974994122724800676366918429640927104379485266224522029780776822281011178300625523058079987455296526028893169656624015683751387985138999284632253331364792170687468086677254460595237546034084386385917299991052470114412656229142202544991916448462500039595966803114726080987142927927821728597975169149629185782374642855465422975092487422097294220426245219880972689731606459576171229912810917971463834)) :=
    MT.ibaIter2_add 311 312 _
  rw [h, iba2_mid_300, iba2_fin_300]

set_option maxRecDepth 1000000 in
/-- Index component of the full first mixing loop on key `[300]`. -/
theorem iba1_res_fst_300 : (MT.ibaIter1 [300] 1 624 (1, 0,
    62685089405509111925910797243914719854890513935494713084094713797279779630627496305943786046941309007281293105221577504421353501605599255248785149356818580886163074212016138319710181437623915839386196989339984175865611290932895638485827512283879634622589907034847096838980553398268338905605705315464924834076955485269257682765843392777664062904318116756644819538761883164862381873685805923051342196114892111881287659915424456096361326051748180740843339721465950121631833352165428366344241754810081140762710579390137795215443629123183303201044796731629341661542390258966032612552126580439913324626563213547393121217728067632048719897064596438939163041106934301355643192260261867872030533878188557727018817797219012064641958276099544136480610826250078810896212505254064619595899307426216931651016613164877613570296351724055264357110051005104450572173606849938075379012356137114572525910752676385589168436483206759652170097284388598518122222819376116616668668677988651997615236221431416155794821321118852088948452164682783715959922435191327367306488124638818446090532334864386359317233873012285172875896330714873881780586230596002778688422250420590175698633544778262136505069053046737202152515000629854634631225453245996997340762744567896897683212149150732909707719966588817675821630380251456266588599804209831660991462715440400663143017564651072677052296295930367391822676512661642282350234567553218318066651318510488484545671729568971887621684270732981974442582657502555066960418690332945218280990034155505553171409775830458482159957769211244505225186771766058316021949327301666418107251589707938065072144733816368743637495699897181007119363672460040974223449086641663004605507793014252452324150238463715514559124307431648478948480649031081489229583165223570218974125422263886587593014744330199975749832650568652404661542746543584685860761547297457070273167102314576665676644281998277713093924236551494770138725647883566971887853912300960949802636372591951717316415323846182747445131420005722224687602711525724505110953736568981699982016588947035894059736087136235396798804019434387781559696138411966704777989194870090051835909943079457649936020314680876367897457337488804889342331824364904005266943816631681518612047693872607083945336048154993001716858914072302230374294986610531277637599664647525761147514008899238689946802093944865612982597431648203028809043429562401771290925843222821220221381984318518256971016750121270624021542153515130386081256853244444367484914891752438843250797295149886721543902585582757118492217204960123203770309672216674331373413106027454841661967870247822106376003696537006476355273043676224973894002060133928765135363584693312631060562155459381152426642778209514491263275588735458188352331628933634618912177576995916817414488324819680108333628484452298807271017999262374749573133359090629722111402666396222385680310709557844049479865847370371052888681758484468279513921172987571336140289500145715018352119752770038578015899178947425013401300127437407370742417936980607757405410607208376626705322894782663757703548808362869195819947150150865798288136994832911439410269353230208345410503242199606186650417333579047848825834242257112060317620885151293421378661990197161958015730358249113963865616811805417654957899792836277351433146683316643158745577273742588847277405020330699298979666450169324546781433015633218213248018986767013905101885085728066131985273947793365444250280947765884488609302913437528001802423347517836456663978922564542901160075954132077499502061844004777463229898312792357201472450520034421742281215395838957029567457078867297742321364249618062920323524100796395855490398720473188748064226082130624085325443879193454095100721902723688608983702297802922465778395428510531587340343771240068168890882622394112252370643121994567113348850616779414952571984309063927162547038575769391208822294299053225776973195785292510157058775147687493667385905281728614066936870793483631104130486096422866739022254251631022238998824784309871214211336594149372534724828516536519652291847191320934127662041939033266344757810255450761243406685982638804631309022215852991706323223872506356963395668107287976200691035733250165615782065576159415303394415966535152327550107294310945533761757937224536792146711105700674959937207778503501562879445241463662142281185819506210181780721218897488871995890898495582077564387715740371190275817001449471008660140255770382875594805433223352833476546594040372715841292252983175468170554585838014797017976570586587751089146553833551413146641975370517778330202052282190648141351908509904289169596729111939424597802445523234111653813513351586367960175769546506050051493655326103823629699245586418016468660736051425039803522537493270385743437525903109563398688573456345292160567787373069854610200635728800730405759403691875432721043746233636765094325962472698626875833148826372580999341547042531665331710768365982359935219565301595187067772247975847412037958098451506998773182171027695752045356894447709388159633645629545493246019135820915900506906032640701290570506299065346661219735445730896769091171352761432210047450382980030625592142825700677633624952217795344145832513082782540989616413040988227257601039794195623143595351637462190706636535912449334420058581521218743569834717812580171279915160794789675762903718339466089866492140118823551337811927493524761760551434001520245324751568861558716803095718510972066599595072196209156923318071322517301806566620458899402166430591631348363311478802800521980525250372511467674969151489645720009661369785217086930227581405674315978920044798755483144811069077253851302610194739624245401270682864202663540116818822475326676741780611737275972111438408802370422377608919256570335384654037352344114105999356653180812503717835632673409647782213628400383443178293619326757139369589058612122088577237252104060778375287897543799460272211546791798613974575310224299012205778134871255296492395729078221387894808011355820153110205338707003138385845672884757408327786763143168159295742358655797897448897721796416755370)).1 = 2 := by
  rw [iba1_full_300]

/-- State component of the full first mixing loop on key `[300]`. -/
theorem iba1_res_snd_300 : (MT.ibaIter1 [300] 1 624 (1, 0,
    62685089405509111925910797243914719854890513935494713084094713797279779630627496305943786046941309007281293105221577504421353501605599255248785149356818580886163074212016138319710181437623915839386196989339984175865611290932895638485827512283879634622589907034847096838980553398268338905605705315464924834076955485269257682765843392777664062904318116756644819538761883164862381873685805923051342196114892111881287659915424456096361326051748180740843339721465950121631833352165428366344241754810081140762710579390137795215443629123183303201044796731629341661542390258966032612552126580439913324626563213547393121217728067632048719897064596438939163041106934301355643192260261867872030533878188557727018817797219012064641958276099544136480610826250078810896212505254064619595899307426216931651016613164877613570296351724055264357110051005104450572173606849938075379012356137114572525910752676385589168436483206759652170097284388598518122222819376116616668668677988651997615236221431416155794821321118852088948452164682783715959922435191327367306488124638818446090532334864386359317233873012285172875896330714873881780586230596002778688422250420590175698633544778262136505069053046737202152515000629854634631225453245996997340762744567896897683212149150732909707719966588817675821630380251456266588599804209831660991462715440400663143017564651072677052296295930367391822676512661642282350234567553218318066651318510488484545671729568971887621684270732981974442582657502555066960418690332945218280990034155505553171409775830458482159957769211244505225186771766058316021949327301666418107251589707938065072144733816368743637495699897181007119363672460040974223449086641663004605507793014252452324150238463715514559124307431648478948480649031081489229583165223570218974125422263886587593014744330199975749832650568652404661542746543584685860761547297457070273167102314576665676644281998277713093924236551494770138725647883566971887853912300960949802636372591951717316415323846182747445131420005722224687602711525724505110953736568981699982016588947035894059736087136235396798804019434387781559696138411966704777989194870090051835909943079457649936020314680876367897457337488804889342331824364904005266943816631681518612047693872607083945336048154993001716858914072302230374294986610531277637599664647525761147514008899238689946802093944865612982597431648203028809043429562401771290925843222821220221381984318518256971016750121270624021542153515130386081256853244444367484914891752438843250797295149886721543902585582757118492217204960123203770309672216674331373413106027454841661967870247822106376003696537006476355273043676224973894002060133928765135363584693312631060562155459381152426642778209514491263275588735458188352331628933634618912177576995916817414488324819680108333628484452298807271017999262374749573133359090629722111402666396222385680310709557844049479865847370371052888681758484468279513921172987571336140289500145715018352119752770038578015899178947425013401300127437407370742417936980607757405410607208376626705322894782663757703548808362869195819947150150865798288136994832911439410269353230208345410503242199606186650417333579047848825834242257112060317620885151293421378661990197161958015730358249113963865616811805417654957899792836277351433146683316643158745577273742588847277405020330699298979666450169324546781433015633218213248018986767013905101885085728066131985273947793365444250280947765884488609302913437528001802423347517836456663978922564542901160075954132077499502061844004777463229898312792357201472450520034421742281215395838957029567457078867297742321364249618062920323524100796395855490398720473188748064226082130624085325443879193454095100721902723688608983702297802922465778395428510531587340343771240068168890882622394112252370643121994567113348850616779414952571984309063927162547038575769391208822294299053225776973195785292510157058775147687493667385905281728614066936870793483631104130486096422866739022254251631022238998824784309871214211336594149372534724828516536519652291847191320934127662041939033266344757810255450761243406685982638804631309022215852991706323223872506356963395668107287976200691035733250165615782065576159415303394415966535152327550107294310945533761757937224536792146711105700674959937207778503501562879445241463662142281185819506210181780721218897488871995890898495582077564387715740371190275817001449471008660140255770382875594805433223352833476546594040372715841292252983175468170554585838014797017976570586587751089146553833551413146641975370517778330202052282190648141351908509904289169596729111939424597802445523234111653813513351586367960175769546506050051493655326103823629699245586418016468660736051425039803522537493270385743437525903109563398688573456345292160567787373069854610200635728800730405759403691875432721043746233636765094325962472698626875833148826372580999341547042531665331710768365982359935219565301595187067772247975847412037958098451506998773182171027695752045356894447709388159633645629545493246019135820915900506906032640701290570506299065346661219735445730896769091171352761432210047450382980030625592142825700677633624952217795344145832513082782540989616413040988227257601039794195623143595351637462190706636535912449334420058581521218743569834717812580171279915160794789675762903718339466089866492140118823551337811927493524761760551434001520245324751568861558716803095718510972066599595072196209156923318071322517301806566620458899402166430591631348363311478802800521980525250372511467674969151489645720009661369785217086930227581405674315978920044798755483144811069077253851302610194739624245401270682864202663540116818822475326676741780611737275972111438408802370422377608919256570335384654037352344114105999356653180812503717835632673409647782213628400383443178293619326757139369589058612122088577237252104060778375287897543799460272211546791798613974575310224299012205778134871255296492395729078221387894808011355820153110205338707003138385845672884757408327786763143168159295742358655797897448897721796416755370)).2.2 =
    67374552967549415892460334142267631372451832454830760922942741075775470304827740127112198765273774688423436250402599555888940095703845921525168494604942644533116699301926408765713046044485824754166924625117846334956806343391067547543434994297352191628636581604477870986504188883755657970471402961505613700519814303430946319927691471352972802880106344049145912743528375498105273576599707497147597633007761905573183731122822999013622977862727946420948651607681440952037031112910911515990316076541589690317199063585419464579137400246150609280041530307008627286583819335408764493010651025138256700887942410563974939592709553847313560405804295576847756998076021583682613652540334175545780959056213535427589208189158964922004871395410385366370459832150435823682343191904124635935889362898088027971753251119348364465053657813373882097744772201156716370395570149195993395487555131513174103000030506261773750124191636804899087474755962177305623030970453809681392638329910220118937217634830346582414342864569724171168921504076847927325468513569739484367156086847312609764881833184933139796129152737986260995816516375859772879781994493603340758618909881955404380156272047430663145677449180251536653826165619937765036449201908076688487037750455591775336997201829446713620477732867527977911913818863090375603967013097096613806379954820161377658212216659547732480712546077265562170893061428123123349650627258666997491312973139007573655423360217404030054181291113957373648189455465757594678436250863851000556944310731112184595811672057438703307614392328337786463837140552296455822281776530069627965696761078913028385242137452436896957842019088128241744987565292136895943672655765184868790796735644398919942254033678222221779115357928350220096696114024684988352479355079207464673023724469903622673971048347781465181629630002451449947988206429692418482690472989429248778618735497629162544259400887510636361718139326563100986801722494042470381287392820331583056709587086215854484461743183940090921751333506961619282931763608714102784332970185978399943563175201972152115326492552481461096305458267829665984459681122410341780371444543238730558741745658233981256858537333483703866544363039547457563643947945423989278230105667671343752911053356179403096643972502962526970256992634021429720944537396816928245785321787789981530489527819048485498221547158825584792682069983871600854689214391796052125485926145301885451609450592658376115535522586960819862062434692703571408280634940282394600258389750290641372630304951940698128489625128278723856000505827285452619826370568126919643920364210948137346056518424476323244996125061810500519577439291761446526197174969830175768378324771718030140448322993392266277910072924276610625428033649354174576694226507372133603519455891960024110239563100000630443244379612988556258650084510804227866899965435534368443105243337885080984111988486701518778555909164703268925902349846909346085195205364422662259662425745740686945586881120460458113944211587383974928756638480831814407653671290818154543118485871242210417677834249168791200418734492572327564585031847668038471848745512386271903729974591358552793241852861454789462673666620181661904472864607720645591970320468245512099924035729906712256084049298534266237590899275498295494156299230704905724204651884625325655098007736796429509728655296940605668189750783466103154411517817899843261094544706334634543826519100320995445260184215881077222573899820871766345845287721374184833357336282369256332816945138039821611059224319043413825643863203434459891919816684764373711242076609623818314274215817759021983968794576270416687173940229795001064589539545955164080218332859852095129006749937140742574914205187418619417458575584049965875279579620201074028504905239497694639925433695325635143208527693037810558079914432837241229338208669034356146849104070587209361230567639564648136765982994187876367823589147499205385688538271901288718272198111194438055761321835637055418374197842640505913704255555713184973440436594492025125174341199915951471197911746812805071530297515008111542893640959497599753221832770983863476780070915273792721269013056173660206187082562401257639405448612221190926250278183295038176698796248167098722048082208953335090220601301465827449482611455456324335688768314260697453851662649431207393579802363694183753981187495366161975079858179659670337031228694793025872060058489294904965508916429349134036996286554154557006191995468917495883944392903278812513595510868762983166652911978865038439156925157778351531610671435215489099530595800291668773883888438010782965645036886284044757849041754456858353353207997452440694709623745039663753241972367225931809254927810460983420585978052196123846828596431433211219162520756451032163614977237424429803717510721484765388487105922757185454886293395623430343886494699607931639974373638586434455625827179709762275194671859415651753612199070508876859854642184754086429282947431575791439455445615284632685834161132847397404744053639261743017150838122066762287148208207682404008424496511078354417534585370348616644951821282734397519651953412215853979957834657358151385963730412991278305551078971735472373541980879189556172357794102961005724852106340352374964303766909549679709036889424234338682033351132594946928745860274220311421298684212796290882754384418675434947585228448921225430455818725949575610977566499074619491834836015997412148409102431611841874452718566539556497160992820876806963930805871556599342118348904038483411598362601185588069969768217162289234558168254905361201952856288553031631846214319133952558964152132823980373590421748105217318218296760164814429451633550990967870238452139955107102974994122724800676366918429640927104379485266224522029780776822281011178300625523058079987455296526028893169656624015683751387985138999284632253331364792170687468086677254460595237546034084386385917299991052470114412656229142202544991916448462500039595966803114726080987142927927821728597975169149629185782374642855465422975092487422097294220426245219880972689731606459576171229912810917971463834 := by
  rw [iba1_full_300]

set_option maxRecDepth 1000000 in
set_option exponentiation.threshold 100000 in
/-- Literal MT19937 state after `random.seed(3 * 100)`, assembled from the
staged loop evaluations. -/
theorem seed300_lit : MT.seedInt (3 * 100) =
    ⟨16216364299968609369416033412629244311876192494762898389510132024450526846447268981052332399024947218645223985855129367423126490830948931015633364404124359212471788614298867819850427716063110347617103577304187747644414787015433378809221656335689805495208304820936011233051174107163028349599151542135889107932569864670513527665442325783805720828356715390357317490069780768004470186342103587770404297892806470562066464475516857300526502139285214004128756545616307342072364698916677284787281257095726310026547589929917585243222481319848476240395792520753547016263032151498792158861967514173537324132392116713318125185931437024486298827829179760695280290633700650345557037600839643755185160516728394003078595509757871327595498529068592482428225812923413458347001156422156980874730626438173659578272771188553624450498078908841951178253366138732531891627431656153485440235701614269228249252048310282391243282269668463380590525571461187984078172375820800433955826433106714832381404926851337914747775595565959076746881047967611347458635659249342488620337145615355052193377219271254697941712577322650230637057981382868103908798960746052857017132810310243552094390476453914179712173093594673160568593074753656304937209904935613179871757001505402531721942781448804861593046582860343279196171328555171160897620366068442786813746983790407676735301883136617155953949391088019874139133253326358995882067082145756328940056281925393817296038717164303742004223339471483948091663570196969633158755567229780016104379321877128074017294433873318072600616711959313372795689463278943715276510706954405112696524527824152592618486865413743059538418117611077326768175728417599090875133057820338689114097192400092920349623334647279853965231665382079520794718032117014935403406445916160928650666981353952872514202827809934456014007311471697258579224229167228928039781340394221909364703205043258334136119282979031643640493878613620111208981337263337526280098344113907999310973075386042200487882357244412662043568838097099757153672889269704595016141872922011919785137284927383841076439515183041609313551628662425570871552387319198352352862675072821732481502204168604255460584691879878259680877203450242562456400218998708105706576180459583764385144290679456571013517248235789717461331186185861395400894753718458569295856179574988454286101834128638306585302126237277825989982864660546768141797819049794751444560250599506448811228130533861430517730161101037555355061584189561653109814791758785818975730321447893919275429562473543914443947326618921492492249874000785449787079929510292103775847486271601903167254846871338075215580995853583716406561383493774707062425457394311010910809232907559382182492685335874218296243798595309108862940290898587254352111208511699918099477631300484375336761787541814823848307218311153794852699504254987051108694054834734686268014238762893530334489248126480687650010760550590688741203812776869741609498147131186269653215308717308543515657991688673801336245511992406439593106485284097976928924382234164013307533552279087811999708338890473016299386938800099925762699637436001325065641106152138584656378934203709590110599134439474904294358297935858152465085736041576041902597303551526314176117793669097103082455740996989041579282719034310110535825313440605101938914446545036402261305107058908235545058975038179852901771566753295196059919018853821939164336381028835476032676562190683230792074874988380263477431121949203253572062112767994763263643152828404535756014343385109201443925507644299449997212523070437508941923970383783625074410602832583610980876827012530853272749298202657111471450795035517936630625347188680853540444058155721000998310275101407707351969775495988443108045626125307590073528203188847277769676031694843128159360605856265291095420329862713866652581895424889658529966909909590200933870488984267953771339843571663509213548577320749924344417596278555341439257181840187566197091361860212246303012755086854570142462451171619781735457124434599816239155639580136328462553348325215686396819417702428848626585876352132754306666326972059538451057689626024867239195555765750871654134952688291295805675885827186536997432933648470399901008380737785857204810171950249522841428211666267183886038598839487238545463726784675446607784879415106594522575430109771730732953487219146016747177361589655750341178855360276958766151060588177714761681135522263559907439024637073643264377930076070937820722407183978683962311322817326818618194390716485330195866092646773323939318353733671777048105256547381566392031039719541563684603983528231473890537969106227306066542231953755190046222587600377997905467151554118841677359136467758291514410120741162961150841181223848104042963006755366928797070686687834338431280990053582463223216056269518795535004058640944157678083106983392762443621071357282832095741458004184250430804735172965873042100791461513806621139018565135319302226712971116690189873099506013183153489677649256104238885923259471650763588303240682225270458948925819370555122667270108867227011199698551418288091200352012056063962331787464753603636456210730226983915970416666248380125737586309644332223276447056138230450613210090290127374405879629477460165827968372002190137572223233388375313800425235820138396917173446835264491707981144678146208505606983179378574828575507662001441718903616205310715729841268785072635423257055702411820358912132986957054283787122409542670047618563664110842400653279149227563439302039596186948540849198923901823145713761454509854336860403858393997674727627582044237009048378461962619395324993055881333256889313364178646583369836210264834282568192317510891268275178165768521043966137152505752911219988993134644595084600353243390433839722716889336751621339426676156905865785292262211286960522258264623216900335365530725952878817949895354399954119891862678984198412524812754803915801287361258792177786070048623931496579065400678457356831619186539567514658030353621452882185561890088718446436449224450568606444354256878282781817372541984721027940448011080990685117214738576911826864308224, 624⟩ := by
  have hk : MT.key32 (Int.natAbs (3 * 100)) = [300] := by decide
  show (⟨MT.init_by_array (MT.key32 (Int.natAbs (3 * 100))), 624⟩ : MT.RState) = _
  rw [hk, init_by_array_eq [300], key_one_length, ibaLoop1_fst, ibaLoop1_snd,
    ibaLoop2_eq, init_genrand_ref_lit, iba1_res_fst_300, iba1_res_snd_300,
    iba2_full_300]
  decide

set_option maxRecDepth 1000000 in
set_option exponentiation.threshold 100000 in
/-- The shimmer streams of ditch-water frames 1 and 2 start with different
highlights (seeds 100 vs 200). -/
theorem shimmer_head_ne_12 :
    ((ditch_shimmer 2048 640 4 20 (MT.seedInt (1 * 100))).1.head? ≠
     (ditch_shimmer 2048 640 4 20 (MT.seedInt (2 * 100))).1.head?) := by
  rw [seed100_lit, seed200_lit]
  decide

set_option maxRecDepth 1000000 in
set_option exponentiation.threshold 100000 in
/-- The shimmer streams of ditch-water frames 1 and 3 start with different
highlights (seeds 100 vs 300). -/
theorem shimmer_head_ne_13 :
    ((ditch_shimmer 2048 640 4 20 (MT.seedInt (1 * 100))).1.head? ≠
     (ditch_shimmer 2048 640 4 20 (MT.seedInt (3 * 100))).1.head?) := by
  rw [seed100_lit, seed300_lit]
  decide

set_option maxRecDepth 1000000 in
set_option exponentiation.threshold 100000 in
/-- The shimmer streams of ditch-water frames 2 and 3 start with different
highlights (seeds 200 vs 300). -/
theorem shimmer_head_ne_23 :
    ((ditch_shimmer 2048 640 4 20 (MT.seedInt (2 * 100))).1.head? ≠
     (ditch_shimmer 2048 640 4 20 (MT.seedInt (3 * 100))).1.head?) := by
  rw [seed200_lit, seed300_lit]
  decide

/-- One wave row's command count does not depend on the phase. -/
theorem ditch_wave_row_length_congr (env : PyEnv) (w s : Int) (p p' : ℚ)
    (wy_base : Int) :
    (ditch_wave_row env w s p wy_base).length =
      (ditch_wave_row env w s p' wy_base).length := by
  unfold ditch_wave_row
  simp only [List.length_map]
  by_cases hc : (rangeStep 0 w (4 * s)).length > 1
  · rw [if_pos hc, if_pos hc]
    rfl
  · rw [if_neg hc, if_neg hc]

/-- The number of wave-row commands of a ditch-water frame does not depend
on the phase. -/
theorem ditch_waves_length_congr (env : PyEnv) (w h s : Int) (p p' : ℚ) :
    (ditch_waves env w h s p).length = (ditch_waves env w h s p').length := by
  unfold ditch_waves
  induction rangeStep 0 h (12 * s) with
  | nil => rfl
  | cons a l ih =>
    simp only [List.flatMap_cons, List.length_append, ih]
    rw [ditch_wave_row_length_congr env w s p p' a]

set_option maxRecDepth 1000000 in
/-- C5 counterexample: the frames do not vary only by a phase offset into
the wave field — under an oracle (`env0`) whose wave field ignores the
phase entirely, frames 1 and 2 still produce different traces, because the
shimmer pass is independently reseeded per frame at `frame * 100`. -/
theorem C5_counterexample :
    (draw_ditch_water env0 1 2048 640 4 (MT.seed 0)).1 ≠
    (draw_ditch_water env0 2 2048 640 4 (MT.seed 0)).1 := by
  intro heq
  have heq2 : gradient_lines env0 2048 640 30 20 60 40 140 40 ++
      ditch_waves env0 2048 640 4 (((1 : Int) : ℚ) * (21 / 10 : ℚ)) ++
      (ditch_shimmer 2048 640 4 20 (MT.seedInt (1 * 100))).1 =
      gradient_lines env0 2048 640 30 20 60 40 140 40 ++
      ditch_waves env0 2048 640 4 (((2 : Int) : ℚ) * (21 / 10 : ℚ)) ++
      (ditch_shimmer 2048 640 4 20 (MT.seedInt (2 * 100))).1 := heq
  have h4 := (List.append_inj heq2 (by
    rw [List.length_append, List.length_append,
      ditch_waves_length_congr env0 2048 640 4
        (((1 : Int) : ℚ) * (21 / 10 : ℚ)) (((2 : Int) : ℚ) * (21 / 10 : ℚ))])).2
  exact shimmer_head_ne_12 (congrArg List.head? h4)



/-- Dimension bookkeeping of one supersampled export: the two files inherit
the canvas dimensions (4x base) and measure base and floor(2/3 base). -/
theorem supersample_save_dims (w3x h3x : Nat)
    (dw : Int → Int → Int → MT.RState → List Cmd × MT.RState)
    (g : MT.RState) (name : String) :
    (save_asset (supersample_draw w3x h3x dw g).1 name).files.map
        (fun f => (f.2.rootDims, f.2.width, f.2.height)) =
      [((w3x * 4, h3x * 4), w3x, h3x),
       ((w3x * 4, h3x * 4), w3x * 2 / 3, h3x * 2 / 3)] := rfl

set_option maxRecDepth 1000000 in
/-- C5 amended: the three ditch-water frames are drawn on dimensionally
identical canvases (2048 x 640 supersampled, 512 x 160 base, 341 x 106
small variant) and vary in exactly two frame-derived inputs: the wave
field's phase `frame * 2.1` and the shimmer reseed `frame * 100`; the
three frame traces are pairwise distinct. -/
theorem C5_amended (env : PyEnv) (g : MT.RState) :
    ((generate_ditch_water env g).1.map (fun b =>
        b.files.map (fun f => (f.2.rootDims, f.2.width, f.2.height))) =
      [[((2048, 640), 512, 160), ((2048, 640), 341, 106)],
       [((2048, 640), 512, 160), ((2048, 640), 341, 106)],
       [((2048, 640), 512, 160), ((2048, 640), 341, 106)]])
    ∧ (∀ (frame w h s : Int) (g2 : MT.RState),
        draw_ditch_water env frame w h s g2 =
          (gradient_lines env w h 30 20 60 40 140 40 ++
           ditch_waves env w h s ((frame : ℚ) * (21 / 10 : ℚ)) ++
           (ditch_shimmer w h s 20 (MT.seedInt (frame * 100))).1,
           (ditch_shimmer w h s 20 (MT.seedInt (frame * 100))).2))
    ∧ ((draw_ditch_water env 1 2048 640 4 g).1 ≠ (draw_ditch_water env 2 2048 640 4 g).1
       ∧ (draw_ditch_water env 1 2048 640 4 g).1 ≠ (draw_ditch_water env 3 2048 640 4 g).1
       ∧ (draw_ditch_water env 2 2048 640 4 g).1 ≠ (draw_ditch_water env 3 2048 640 4 g).1) := by
  refine ⟨?_, ?_, ?_, ?_, ?_⟩
  · have hb : (generate_ditch_water env g).1 =
        [save_asset (supersample_draw 512 160 (draw_ditch_water env 1) g).1
           "ditch_water_1",
         save_asset (supersample_draw 512 160 (draw_ditch_water env 2)
           (supersample_draw 512 160 (draw_ditch_water env 1) g).2).1
           "ditch_water_2",
         save_asset (supersample_draw 512 160 (draw_ditch_water env 3)
           (supersample_draw 512 160 (draw_ditch_water env 2)
             (supersample_draw 512 160 (draw_ditch_water env 1) g).2).2).1
           "ditch_water_3"] := rfl
    rw [hb, List.map_cons, List.map_cons, List.map_cons, List.map_nil,
      supersample_save_dims, supersample_save_dims, supersample_save_dims]
  · intro frame w h s g2
    rfl
  · intro heq
    have heq2 : gradient_lines env 2048 640 30 20 60 40 140 40 ++
        ditch_waves env 2048 640 4 (((1 : Int) : ℚ) * (21 / 10 : ℚ)) ++
        (ditch_shimmer 2048 640 4 20 (MT.seedInt (1 * 100))).1 =
        gradient_lines env 2048 640 30 20 60 40 140 40 ++
        ditch_waves env 2048 640 4 (((2 : Int) : ℚ) * (21 / 10 : ℚ)) ++
        (ditch_shimmer 2048 640 4 20 (MT.seedInt (2 * 100))).1 := heq
    have h4 := (List.append_inj heq2 (by
      rw [List.length_append, List.length_append,
        ditch_waves_length_congr env 2048 640 4
          (((1 : Int) : ℚ) * (21 / 10 : ℚ)) (((2 : Int) : ℚ) * (21 / 10 : ℚ))])).2
    exact shimmer_head_ne_12 (congrArg List.head? h4)
  · intro heq
    have heq2 : gradient_lines env 2048 640 30 20 60 40 140 40 ++
        ditch_waves env 2048 640 4 (((1 : Int) : ℚ) * (21 / 10 : ℚ)) ++
        (ditch_shimmer 2048 640 4 20 (MT.seedInt (1 * 100))).1 =
        gradient_lines env 2048 640 30 20 60 40 140 40 ++
        ditch_waves env 2048 640 4 (((3 : Int) : ℚ) * (21 / 10 : ℚ)) ++
        (ditch_shimmer 2048 640 4 20 (MT.seedInt (3 * 100))).1 := heq
    have h4 := (List.append_inj heq2 (by
      rw [List.length_append, List.length_append,
        ditch_waves_length_congr env 2048 640 4
          (((1 : Int) : ℚ) * (21 / 10 : ℚ)) (((3 : Int) : ℚ) * (21 / 10 : ℚ))])).2
    exact shimmer_head_ne_13 (congrArg List.head? h4)
  · intro heq
    have heq2 : gradient_lines env 2048 640 30 20 60 40 140 40 ++
        ditch_waves env 2048 640 4 (((2 : Int) : ℚ) * (21 / 10 : ℚ)) ++
        (ditch_shimmer 2048 640 4 20 (MT.seedInt (2 * 100))).1 =
        gradient_lines env 2048 640 30 20 60 40 140 40 ++
        ditch_waves env 2048 640 4 (((3 : Int) : ℚ) * (21 / 10 : ℚ)) ++
        (ditch_shimmer 2048 640 4 20 (MT.seedInt (3 * 100))).1 := heq
    have h4 := (List.append_inj heq2 (by
      rw [List.length_append, List.length_append,
        ditch_waves_length_congr env 2048 640 4
          (((2 : Int) : ℚ) * (21 / 10 : ℚ)) (((3 : Int) : ℚ) * (21 / 10 : ℚ))])).2
    exact shimmer_head_ne_23 (congrArg List.head? h4)
